import Mathlib

/-!
NetworkDataTaskSoup: the data-task state machine.

A shallow embedding of `Source/WebKit2/NetworkProcess/soup/NetworkDataTaskSoup.cpp`.

Every member function of the task is a function on `World`, the record of the
task's members together with the parts of its environment it acts on (the
credential store, the file system, the native operations in flight and the
log of calls made to the client, the transport and the download manager).
Completion handlers that the C++ code passes to its client are separate
functions, named after the call they complete.

`ASSERT`s compile to nothing in release builds and are not modelled. The load timing
kept under `ENABLE(WEB_TIMING)` reads the clock and is left out.
-/

namespace WebKit

/-! ## Data model -/

/-- A run of body bytes. -/
abbrev Bytes := List Nat

/-- The task state of `NetworkDataTask::State`. -/
inductive State where
  | Running
  | Suspended
  | Canceling
  | Completed
deriving DecidableEq, Repr

/-- The scheduled failure of `NetworkDataTask::FailureType`. -/
inductive FailureType where
  | NoFailure
  | BlockedFailure
  | InvalidURLFailure
deriving DecidableEq, Repr

/-- Whether the task may use the credential store. -/
inductive StoredCredentials where
  | AllowStoredCredentials
  | DoNotAllowStoredCredentials
deriving DecidableEq, Repr

/-- Whether the transport may sniff the content type. -/
inductive ContentSniffingPolicy where
  | SniffContent
  | DoNotSniffContent
deriving DecidableEq, Repr

/-- The client's answer to `didReceiveResponse`. -/
inductive PolicyAction where
  | PolicyUse
  | PolicyDownload
  | PolicyIgnore
deriving DecidableEq, Repr

/-- The client's answer to `didReceiveChallenge`. -/
inductive AuthenticationChallengeDisposition where
  | UseCredential
  | PerformDefaultHandling
  | Cancel
  | RejectProtectionSpace
deriving DecidableEq, Repr

/-- Modelled from the spec: the persistence tier of a Credential (none/session/permanent);
the declaration lives in WebCore's `CredentialBase.h`, which is not part of the sources. -/
inductive CredentialPersistence where
  | CredentialPersistenceNone
  | CredentialPersistenceForSession
  | CredentialPersistencePermanent
deriving DecidableEq, Repr

/-- Modelled from the spec: a Credential is (user, password, persistence tier). -/
structure Credential where
  user : String
  password : String
  persistence : CredentialPersistence
deriving DecidableEq, Repr

/-- The default-constructed credential `Credential()`. -/
def Credential.null : Credential :=
  { user := "", password := "", persistence := CredentialPersistence.CredentialPersistenceNone }

/-- Modelled from the spec: a credential is empty when it has neither user nor password
(`CredentialBase::isEmpty`). -/
def Credential.isEmpty (c : Credential) : Bool :=
  c.user.isEmpty && c.password.isEmpty

/-- Modelled from the spec: the protection space is the (host, port, scheme, realm, auth-scheme)
tuple identifying where a credential applies. -/
structure ProtectionSpace where
  host : String
  port : Nat
  serverType : String
  realm : String
  authenticationScheme : String
deriving DecidableEq, Repr

/-- The default-constructed protection space `ProtectionSpace()`. -/
def ProtectionSpace.null : ProtectionSpace :=
  { host := "", port := 0, serverType := "", realm := "", authenticationScheme := "" }

/-- Modelled from the spec: a parsed URL, reduced to the components the task inspects
(scheme, embedded credentials, host, port) and the rest of the string. The scheme is
kept in canonical lower case, as WebCore's parser leaves it. -/
structure URL where
  isNull : Bool
  isValid : Bool
  protocol : String
  user : String
  pass : String
  host : String
  port : Option Nat
  path : String
deriving DecidableEq, Repr

/-- The null URL `URL()`. -/
def URL.null : URL :=
  { isNull := true, isValid := false, protocol := "", user := "", pass := "", host := "",
    port := none, path := "" }

/-- Modelled from the spec: `URL::protocolIs`, a test of the URL's scheme. -/
def URL.protocolIs (u : URL) (protocol : String) : Bool :=
  u.protocol == protocol

/-- Modelled from the spec: `URL::protocolIsInHTTPFamily`, the scheme is http or https. -/
def URL.protocolIsInHTTPFamily (u : URL) : Bool :=
  u.protocolIs "http" || u.protocolIs "https"

/-- Modelled from the spec: two URLs have the same origin when scheme, host and port agree
(`protocolHostAndPortAreEqual` of WebCore's `URL.cpp`). -/
def protocolHostAndPortAreEqual (a b : URL) : Bool :=
  a.protocol == b.protocol && a.host == b.host && a.port == b.port

/-- The function `URL::setUser`. -/
def URL.setUser (u : URL) (user : String) : URL := { u with user := user }

/-- The function `URL::setPass`. -/
def URL.setPass (u : URL) (pass : String) : URL := { u with pass := pass }

/-- The WTF function `isASCIIAlphaCaselessEqual`: `(c | 0x20) == lowercaseLetter`. -/
def isASCIIAlphaCaselessEqual (c lowercaseLetter : Char) : Bool :=
  (c.toNat ||| 0x20) == lowercaseLetter.toNat

/-- Letter-by-letter comparison against lower-case letters, on character lists. -/
def equalLettersIgnoringASCIICaseAux : List Char → List Char → Bool
  | [], [] => true
  | c :: cs, l :: ls => isASCIIAlphaCaselessEqual c l && equalLettersIgnoringASCIICaseAux cs ls
  | _, _ => false

/-- The WTF function `equalLettersIgnoringASCIICase(string, "lowercase letters")`. -/
def equalLettersIgnoringASCIICase (s lowercaseLetters : String) : Bool :=
  equalLettersIgnoringASCIICaseAux s.data lowercaseLetters.data

/-- The scan of `protocolIs(const String&, const char*)`: leading characters at or below
the space are trimmed, tabs and newlines are skipped anywhere, the scheme letters are
matched ignoring ASCII case and must be followed by a colon. -/
def protocolIsAux : List Char → List Char → Bool → Bool
  | [], _, _ => false
  | c :: cs, protocol, isLeading =>
    if isLeading && decide (c.toNat ≤ 0x20) then protocolIsAux cs protocol true
    else if c == '\t' || c == '\n' || c == '\r' then protocolIsAux cs protocol false
    else
      match protocol with
      | [] => c == ':'
      | l :: ls => if isASCIIAlphaCaselessEqual c l then protocolIsAux cs ls false else false

/-- Modelled from the spec: the scheme test on a URL held as a string, used on the Referer
value (`protocolIs` of WebCore's `URL.cpp`). -/
def protocolIs (url protocol : String) : Bool :=
  protocolIsAux url.data protocol.data true

/-- The header names the task names explicitly; any other header is `other`. -/
inductive HTTPHeaderName where
  | Accept
  | Authorization
  | ContentLength
  | ContentType
  | Location
  | Origin
  | Referer
  | other (name : String)
deriving DecidableEq, Repr

/-- A header map: header names with their values, in insertion order. -/
abbrev HTTPHeaderMap := List (HTTPHeaderName × String)

/-- The value of a header, the empty string when the header is absent. -/
def HTTPHeaderMap.get : HTTPHeaderMap → HTTPHeaderName → String
  | [], _ => ""
  | (n, v) :: rest, name => if n = name then v else HTTPHeaderMap.get rest name

/-- Whether a header is present. -/
def HTTPHeaderMap.contains : HTTPHeaderMap → HTTPHeaderName → Bool
  | [], _ => false
  | (n, _) :: rest, name => if n = name then true else HTTPHeaderMap.contains rest name

/-- Remove every entry of a header. -/
def HTTPHeaderMap.remove : HTTPHeaderMap → HTTPHeaderName → HTTPHeaderMap
  | [], _ => []
  | (n, v) :: rest, name =>
    if n = name then HTTPHeaderMap.remove rest name else (n, v) :: HTTPHeaderMap.remove rest name

/-- Set a header, replacing any earlier value. -/
def HTTPHeaderMap.set (m : HTTPHeaderMap) (name : HTTPHeaderName) (value : String) : HTTPHeaderMap :=
  HTTPHeaderMap.remove m name ++ [(name, value)]

/-- Modelled from the spec: the Request Model, a mutable record of method, URL, headers, body
and timeout (WebCore's `ResourceRequest`). -/
structure ResourceRequest where
  url : URL
  firstPartyForCookies : URL
  httpMethod : String
  httpHeaderFields : HTTPHeaderMap
  httpBody : Option Bytes
  timeoutInterval : Nat
  priority : Nat
deriving DecidableEq, Repr

/-- The function `ResourceRequest::isNull`: the request has a null URL. -/
def ResourceRequest.isNull (r : ResourceRequest) : Bool := r.url.isNull

/-- The function `ResourceRequest::setURL`. -/
def ResourceRequest.setURL (r : ResourceRequest) (u : URL) : ResourceRequest := { r with url := u }

/-- The function `ResourceRequest::setFirstPartyForCookies`. -/
def ResourceRequest.setFirstPartyForCookies (r : ResourceRequest) (u : URL) : ResourceRequest :=
  { r with firstPartyForCookies := u }

/-- The function `ResourceRequest::setHTTPMethod`. -/
def ResourceRequest.setHTTPMethod (r : ResourceRequest) (m : String) : ResourceRequest :=
  { r with httpMethod := m }

/-- The function `ResourceRequest::setHTTPBody`. -/
def ResourceRequest.setHTTPBody (r : ResourceRequest) (b : Option Bytes) : ResourceRequest :=
  { r with httpBody := b }

/-- The function `ResourceRequest::httpReferrer`. -/
def ResourceRequest.httpReferrer (r : ResourceRequest) : String :=
  r.httpHeaderFields.get HTTPHeaderName.Referer

/-- The function `ResourceRequest::clearHTTPReferrer`. -/
def ResourceRequest.clearHTTPReferrer (r : ResourceRequest) : ResourceRequest :=
  { r with httpHeaderFields := r.httpHeaderFields.remove HTTPHeaderName.Referer }

/-- The function `ResourceRequest::clearHTTPContentType`. -/
def ResourceRequest.clearHTTPContentType (r : ResourceRequest) : ResourceRequest :=
  { r with httpHeaderFields := r.httpHeaderFields.remove HTTPHeaderName.ContentType }

/-- The function `ResourceRequest::clearHTTPAuthorization`. -/
def ResourceRequest.clearHTTPAuthorization (r : ResourceRequest) : ResourceRequest :=
  { r with httpHeaderFields := r.httpHeaderFields.remove HTTPHeaderName.Authorization }

/-- The function `ResourceRequest::clearHTTPOrigin`. -/
def ResourceRequest.clearHTTPOrigin (r : ResourceRequest) : ResourceRequest :=
  { r with httpHeaderFields := r.httpHeaderFields.remove HTTPHeaderName.Origin }

/-- The function `ResourceRequest::removeCredentials`: drop the user and password embedded in the URL. -/
def ResourceRequest.removeCredentials (r : ResourceRequest) : ResourceRequest :=
  { r with url := (r.url.setUser "").setPass "" }

/-- Modelled from the spec: the Response Model, a record of status, headers, URL and MIME type
(WebCore's `ResourceResponse`). -/
structure ResourceResponse where
  isNull : Bool
  url : URL
  httpStatusCode : Nat
  httpStatusText : String
  httpHeaderFields : HTTPHeaderMap
  mimeType : String
  textEncodingName : String
  expectedContentLength : Int
  sniffedContentType : String
deriving DecidableEq, Repr

/-- The default-constructed response `ResourceResponse()`. -/
def ResourceResponse.null : ResourceResponse :=
  { isNull := true, url := URL.null, httpStatusCode := 0, httpStatusText := "",
    httpHeaderFields := [], mimeType := "", textEncodingName := "", expectedContentLength := 0,
    sniffedContentType := "" }

/-- The function `ResourceResponse::httpHeaderField`. -/
def ResourceResponse.httpHeaderField (r : ResourceResponse) (name : HTTPHeaderName) : String :=
  r.httpHeaderFields.get name

/-- The function `ResourceResponse::setURL`. -/
def ResourceResponse.setURL (r : ResourceResponse) (u : URL) : ResourceResponse :=
  { r with url := u, isNull := false }

/-- Modelled from the spec: a response is multipart when its body is a sequence of
independently-headed parts; WebCore's `ResourceResponseBase::isMultipart` tests the MIME type
against `multipart/x-mixed-replace`. -/
def ResourceResponse.isMultipart (r : ResourceResponse) : Bool :=
  r.mimeType == "multipart/x-mixed-replace"

/-- A native error of GLib. -/
structure GError where
  code : Int
  message : String
deriving DecidableEq, Repr

/-- The kinds of error the task reports. -/
inductive ErrorKind where
  | null
  | timeout
  | transport
  | http
  | generic
  | cancelled
  | downloadNetwork
  | downloadDestination
  | tls
deriving DecidableEq, Repr

/-- Modelled from the spec: an error value (the error taxonomy of the spec), carrying the
code, failing URL and description that `didFail` reads back. -/
structure ResourceError where
  kind : ErrorKind
  errorCode : Int
  failingURL : URL
  localizedDescription : String
deriving DecidableEq, Repr

/-- The null error, written `{ }` in the source: no error. -/
def ResourceError.null : ResourceError :=
  { kind := ErrorKind.null, errorCode := 0, failingURL := URL.null, localizedDescription := "" }

/-- The function `ResourceError::isNull`. -/
def ResourceError.isNull (e : ResourceError) : Bool := decide (e.kind = ErrorKind.null)

/-- A stream of body bytes handed out by the transport: the chunks it has yet to deliver,
and, for a multipart body, the parts it will be split into. -/
structure GInputStream where
  chunks : List Bytes
  parts : List (HTTPHeaderMap × List Bytes)
deriving DecidableEq, Repr

/-- The multipart iterator of libsoup: the parts yet to come and the headers of the current
part. -/
structure SoupMultipartInputStream where
  parts : List (HTTPHeaderMap × List Bytes)
  headers : HTTPHeaderMap
deriving DecidableEq, Repr

/-- An output stream on a file. -/
structure GOutputStream where
  path : String
deriving DecidableEq, Repr

/-- The cancellation token. -/
structure GCancellable where
  cancelled : Bool
deriving DecidableEq, Repr

/-- The transport-level request object of libsoup. -/
structure SoupRequest where
  uri : URL
  contentType : String
  contentLength : Int
deriving DecidableEq, Repr

/-- The HTTP message of libsoup, reduced to the fields the task reads and writes. -/
structure SoupMessage where
  method : String
  uri : URL
  firstParty : URL
  request_headers : HTTPHeaderMap
  request_body_length : Nat
  status_code : Nat
  reason_phrase : String
  response_headers : HTTPHeaderMap
  noRedirect : Bool
  contentSnifferDisabled : Bool
  authManagerDisabled : Bool
  priority : Nat
deriving DecidableEq, Repr

/-- The authentication object libsoup passes with its authenticate signal. -/
structure SoupAuth where
  protectionSpace : ProtectionSpace
deriving DecidableEq, Repr

/-- Modelled from the spec: a challenge carries the protection space, the previous-failure
count, the failing response and a proposed credential (WebCore's `AuthenticationChallenge`). -/
structure AuthenticationChallenge where
  protectionSpace : ProtectionSpace
  proposedCredential : Credential
  previousFailureCount : Nat
  failureResponse : ResourceResponse
  soupAuth : SoupAuth
deriving DecidableEq, Repr

/-- The completion value of a native asynchronous operation, read back by the matching
`_finish` call: an error, or the stream a send or next-part request produced, the bytes a
read placed in the buffer, the count a skip passed over, or the count a write wrote. -/
structure GAsyncResult where
  error : Option GError
  inputStream : Option GInputStream
  bytes : Bytes
  skipped : Nat
  written : Nat
deriving DecidableEq, Repr

/-- The native asynchronous operations a task starts. -/
inductive AsyncOp where
  | send
  | read
  | skip
  | nextPart
  | write (data : Bytes)
deriving DecidableEq, Repr

/-- The calls the task makes on its collaborators, in the order it makes them. -/
inductive Effect where
  | soup_request_send_async
  | g_input_stream_read_async
  | g_input_stream_skip_async
  | soup_multipart_input_stream_next_part_async
  | g_output_stream_write_all_async (data : Bytes)
  | g_input_stream_close
  | g_output_stream_close
  | soup_session_cancel_message
  | g_cancellable_cancel
  | g_signal_connect (signal : String)
  | disconnectMessageSignals
  | disconnectSessionSignals
  | soup_session_pause_message
  | soup_session_unpause_message
  | soup_auth_authenticate (user password : String)
  | getCredentialFromPersistentStorage (protectionSpace : ProtectionSpace)
  | saveCredentialToPersistentStorage (protectionSpace : ProtectionSpace) (credential : Credential)
  | clientDidReceiveResponse (response : ResourceResponse)
  | clientDidReceiveData (data : Bytes)
  | clientDidSendData (sent total : Nat)
  | clientDidReceiveChallenge (challenge : AuthenticationChallenge)
  | clientWillPerformHTTPRedirection (response : ResourceResponse) (request : ResourceRequest)
  | clientDidCompleteWithError (error : ResourceError)
  | nullClientDereference
  | dataTaskBecameDownloadTask (downloadID : Nat)
  | downloadDidCreateDestination (path : String)
  | downloadDidReceiveData (length : Nat)
  | downloadDidFinish
  | downloadDidFail (error : ResourceError)
  | setFileAttributes (path : String) (uri : URL)
deriving DecidableEq, Repr

/-- The files on disk: path and content, and the paths that cannot be written. -/
structure FileSystem where
  entries : List (String × Bytes)
  denied : List String
deriving DecidableEq, Repr

/-- The content of a file, `none` when there is no file at the path. -/
def FileSystem.lookupAux : List (String × Bytes) → String → Option Bytes
  | [], _ => none
  | (p, c) :: rest, path => if p = path then some c else FileSystem.lookupAux rest path

/-- The content of a file, `none` when there is no file at the path. -/
def FileSystem.lookup (fs : FileSystem) (path : String) : Option Bytes :=
  FileSystem.lookupAux fs.entries path

/-- Remove the entries of a path. -/
def FileSystem.eraseAux : List (String × Bytes) → String → List (String × Bytes)
  | [], _ => []
  | (p, c) :: rest, path =>
    if p = path then FileSystem.eraseAux rest path else (p, c) :: FileSystem.eraseAux rest path

/-- Put a file with the given content at a path, replacing what was there. -/
def FileSystem.store (fs : FileSystem) (path : String) (content : Bytes) : FileSystem :=
  { fs with entries := (path, content) :: FileSystem.eraseAux fs.entries path }

/-- The function `g_file_delete`: remove the file at a path, if any. -/
def FileSystem.g_file_delete (fs : FileSystem) (path : String) : FileSystem :=
  { fs with entries := FileSystem.eraseAux fs.entries path }

/-- The function `g_file_create`: create a new empty file; fails when the path exists or cannot be
written. -/
def FileSystem.g_file_create (fs : FileSystem) (path : String) : Except GError FileSystem :=
  if path ∈ fs.denied then Except.error { code := 14, message := "Permission denied" }
  else
    match fs.lookup path with
    | some _ => Except.error { code := 2, message := "File exists" }
    | none => Except.ok (fs.store path [])

/-- The function `g_file_replace`: open the path for overwriting, creating it when missing; the file is
left empty once the returned stream is released without a write. With `make_backup` a file
already there is first copied to the path followed by a tilde. Fails when the path cannot be
written. -/
def FileSystem.g_file_replace (fs : FileSystem) (path : String) (make_backup : Bool) :
    Except GError FileSystem :=
  if path ∈ fs.denied then Except.error { code := 14, message := "Permission denied" }
  else
    match fs.lookup path with
    | some old =>
      if make_backup then Except.ok ((fs.store (path ++ "~") old).store path [])
      else Except.ok (fs.store path [])
    | none => Except.ok (fs.store path [])

/-- The function `g_file_move` with `G_FILE_COPY_OVERWRITE`: the source replaces the destination; fails
when the source is missing or the destination cannot be written. -/
def FileSystem.g_file_move (fs : FileSystem) (source destination : String) :
    Except GError FileSystem :=
  match fs.lookup source with
  | none => Except.error { code := 1, message := "No such file" }
  | some content =>
    if destination ∈ fs.denied then Except.error { code := 14, message := "Permission denied" }
    else Except.ok ((fs.g_file_delete source).store destination content)

/-- The bytes an output stream appends to its file when a write completes. -/
def FileSystem.append (fs : FileSystem) (path : String) (data : Bytes) : FileSystem :=
  match fs.lookup path with
  | some old => fs.store path (old ++ data)
  | none => fs.store path data

/-- The collaborators of the task whose code is not part of the sources, taken as
parameters: URL resolution, the constructors of libsoup objects, the port allow-list, the
media-type parsers, and
the Credential Store with its keyed lookup, insert and remove over a store state `σ`. -/
structure Platform (σ : Type) where
  completeURL : URL → String → URL
  portAllowed : URL → Bool
  createSoupURI : ResourceRequest → Option URL
  soup_session_request_uri : URL → Option SoupRequest
  soup_request_http_get_message : SoupRequest → Option SoupMessage
  extractMIMETypeFromMediaType : String → String
  extractCharsetFromMediaType : String → String
  soup_message_headers_get_content_length : HTTPHeaderMap → Int
  credentialGet : σ → ProtectionSpace → Credential
  credentialGetForURL : σ → URL → Credential
  credentialSet : σ → Credential → ProtectionSpace → URL → σ
  credentialSetForURL : σ → Credential → URL → σ
  credentialRemove : σ → ProtectionSpace → σ

/-- The task and the part of the world it acts on. The `m_` fields are the members of
`NetworkDataTask` and `NetworkDataTaskSoup`; `m_client` records whether the client pointer
is set, `m_timeoutSource` and `m_failureTimerActive` whether the timer is armed. The last
four fields are the environment: the credential store, the files, the native operations
started and not yet completed, and the log of calls made. -/
structure World (σ : Type) where
  m_state : State
  m_client : Bool
  m_firstRequest : ResourceRequest
  m_storedCredentials : StoredCredentials
  m_shouldClearReferrerOnHTTPSToHTTPRedirect : Bool
  m_scheduledFailureType : FailureType
  m_failureTimerActive : Bool
  m_user : String
  m_password : String
  m_initialCredential : Credential
  m_lastHTTPMethod : String
  m_pendingDownloadID : Nat
  m_pendingDownloadLocation : String
  m_suggestedFilename : String
  m_shouldContentSniff : ContentSniffingPolicy
  m_soupRequest : Option SoupRequest
  m_soupMessage : Option SoupMessage
  m_inputStream : Option GInputStream
  m_multipartInputStream : Option SoupMultipartInputStream
  m_cancellable : Option GCancellable
  m_pendingResult : Option GAsyncResult
  m_response : ResourceResponse
  m_readBuffer : Bytes
  m_redirectCount : Nat
  m_bodyDataTotalBytesSent : Nat
  m_downloadDestinationFile : Option String
  m_downloadIntermediateFile : Option String
  m_downloadOutputStream : Option GOutputStream
  m_allowOverwriteDownload : Bool
  m_protectionSpaceForPersistentStorage : ProtectionSpace
  m_credentialForPersistentStorage : Credential
  m_timeoutSource : Bool
  credentialStorage : σ
  files : FileSystem
  outstanding : List AsyncOp
  effects : List Effect

/-! ## Helpers of the embedding -/

variable {σ : Type}

/-- Record a call in the log. -/
def World.emit (w : World σ) (e : Effect) : World σ :=
  { w with effects := w.effects ++ [e] }

/-- A call through the client pointer `m_client->...`: the call is logged when the pointer
is set; through a null pointer the call cannot be made. -/
def World.callClient (w : World σ) (e : Effect) : World σ :=
  if w.m_client then w.emit e else w.emit Effect.nullClientDereference

/-- Start a native asynchronous operation: the call is logged and the operation is in
flight until the transport completes it. -/
def World.start (w : World σ) (op : AsyncOp) (e : Effect) : World σ :=
  { w with outstanding := w.outstanding ++ [op], effects := w.effects ++ [e] }

/-- The member `NetworkDataTask::isDownload`: a download identifier has been assigned. -/
def World.isDownload (w : World σ) : Bool :=
  w.m_pendingDownloadID != 0

/-- The size of the read buffer, `gDefaultReadBufferSize`. -/
def gDefaultReadBufferSize : Nat := 8192

/-- The redirect limit, `maxRedirects` of `continueHTTPRedirection`. -/
def maxRedirects : Nat := 20

/-- The libsoup status `SOUP_STATUS_TOO_MANY_REDIRECTS`. -/
def SOUP_STATUS_TOO_MANY_REDIRECTS : Nat := 10

/-- The libsoup macro `SOUP_STATUS_IS_REDIRECTION`: the status is in 300..399. -/
def SOUP_STATUS_IS_REDIRECTION (status : Nat) : Bool :=
  decide (300 ≤ status) && decide (status < 400)

/-- The vector operation `Vector::grow`: the buffer is extended to the given size. -/
def vectorGrow (buffer : Bytes) (size : Nat) : Bytes :=
  buffer ++ List.replicate (size - buffer.length) 0

/-- The vector operation `Vector::shrink`: the buffer is cut to the given size. -/
def vectorShrink (buffer : Bytes) (size : Nat) : Bytes :=
  buffer.take size

/-- The bytes a completed read has placed at the start of the buffer it was given. -/
def bufferFill (buffer : Bytes) (data : Bytes) : Bytes :=
  data ++ buffer.drop data.length

/-- The URL an error names: that of the transport request, when there is one. -/
def failingURLOf (r : Option SoupRequest) : URL :=
  match r with
  | some r => r.uri
  | none => URL.null

/-- The error `ResourceError::timeoutError`. -/
def ResourceError.timeoutError (url : URL) : ResourceError :=
  { kind := ErrorKind.timeout, errorCode := 0, failingURL := url,
    localizedDescription := "Request timed out" }

/-- The error `ResourceError::transportError`. -/
def ResourceError.transportError (r : Option SoupRequest) (statusCode : Nat) (reason : String) :
    ResourceError :=
  { kind := ErrorKind.transport, errorCode := statusCode, failingURL := failingURLOf r,
    localizedDescription := reason }

/-- The error `ResourceError::genericGError`. -/
def ResourceError.genericGError (e : GError) (r : Option SoupRequest) : ResourceError :=
  { kind := ErrorKind.generic, errorCode := e.code, failingURL := failingURLOf r,
    localizedDescription := e.message }

/-- The error `ResourceError::httpError`: a native send failure, carrying the native error. -/
def ResourceError.httpError (_m : Option SoupMessage) (e : GError) (r : Option SoupRequest) :
    ResourceError :=
  { kind := ErrorKind.http, errorCode := e.code, failingURL := failingURLOf r,
    localizedDescription := e.message }

/-- The error `cancelledError`. -/
def cancelledError (r : Option SoupRequest) : ResourceError :=
  { kind := ErrorKind.cancelled, errorCode := 302, failingURL := failingURLOf r,
    localizedDescription := "Load request cancelled" }

/-- The error `platformDownloadNetworkError`. -/
def platformDownloadNetworkError (errorCode : Int) (failingURL : URL) (description : String) :
    ResourceError :=
  { kind := ErrorKind.downloadNetwork, errorCode := errorCode, failingURL := failingURL,
    localizedDescription := description }

/-- The error `platformDownloadDestinationError`. -/
def platformDownloadDestinationError (response : ResourceResponse) (message : String) :
    ResourceError :=
  { kind := ErrorKind.downloadDestination, errorCode := 401, failingURL := response.url,
    localizedDescription := message }

/-- The header update of `ResourceResponse::updateFromSoupMessageHeaders`: the old headers
are dropped and each transport header is set in turn. -/
def headersFromSoup (headers : HTTPHeaderMap) : HTTPHeaderMap :=
  headers.foldl (fun m e => HTTPHeaderMap.set m e.1 e.2) []

/-- Modelled from the spec: the Response is built from the transport headers: the header map
is replaced, and MIME type, charset and content length are derived from the sniffed or the
official content type (`ResourceResponse::updateFromSoupMessageHeaders`). -/
def ResourceResponse.updateFromSoupMessageHeaders (p : Platform σ) (r : ResourceResponse)
    (headers : HTTPHeaderMap) : ResourceResponse :=
  let officialType := HTTPHeaderMap.get headers HTTPHeaderName.ContentType
  let contentType :=
    if !r.sniffedContentType.isEmpty && r.sniffedContentType != officialType
    then r.sniffedContentType else officialType
  { r with
    isNull := false
    httpHeaderFields := headersFromSoup headers
    mimeType := p.extractMIMETypeFromMediaType contentType
    textEncodingName := p.extractCharsetFromMediaType contentType
    expectedContentLength := p.soup_message_headers_get_content_length headers }

/-- Modelled from the spec: the Response is built from the transport status and headers
(`ResourceResponse::updateFromSoupMessage`). -/
def ResourceResponse.updateFromSoupMessage (p : Platform σ) (r : ResourceResponse)
    (m : SoupMessage) : ResourceResponse :=
  ResourceResponse.updateFromSoupMessageHeaders p
    { r with isNull := false, url := m.uri, httpStatusCode := m.status_code,
             httpStatusText := m.reason_phrase }
    m.response_headers

/-- Modelled from the spec: the transport message takes method, URL, headers and body from
the request (`ResourceRequest::updateSoupMessage`). -/
def ResourceRequest.updateSoupMessage (r : ResourceRequest) (m : SoupMessage) : SoupMessage :=
  { m with
    method := r.httpMethod
    uri := r.url
    firstParty := r.firstPartyForCookies
    request_headers := r.httpHeaderFields
    request_body_length := match r.httpBody with
      | some b => b.length
      | none => 0 }

/-- Modelled from the spec: a challenge built from the transport's authenticate event
(the constructor `AuthenticationChallenge(soupMessage, soupAuth, retrying)`). -/
def AuthenticationChallenge.fromSoup (p : Platform σ) (m : SoupMessage) (auth : SoupAuth)
    (retrying : Bool) : AuthenticationChallenge :=
  { protectionSpace := auth.protectionSpace
    proposedCredential := Credential.null
    previousFailureCount := if retrying then 1 else 0
    failureResponse := ResourceResponse.updateFromSoupMessage p ResourceResponse.null m
    soupAuth := auth }

/-! ## The task -/

/-- Modelled from the spec: `NetworkDataTask::scheduleFailure` records the failure and arms
the failure timer; no transport call is made. -/
def scheduleFailure (w : World σ) (type : FailureType) : World σ :=
  { w with m_scheduledFailureType := type, m_failureTimerActive := true }

/-- The function `NetworkDataTaskSoup::startTimeout`. -/
def startTimeout (w : World σ) : World σ :=
  if w.m_firstRequest.timeoutInterval > 0 then { w with m_timeoutSource := true } else w

/-- The function `NetworkDataTaskSoup::stopTimeout`. -/
def stopTimeout (w : World σ) : World σ :=
  { w with m_timeoutSource := false }

/-- The function `NetworkDataTaskSoup::applyAuthenticationToRequest`: the request after the
call, paired with the task. -/
def applyAuthenticationToRequest (w : World σ) (request : ResourceRequest) :
    World σ × ResourceRequest :=
  if w.m_user.isEmpty && w.m_password.isEmpty then (w, request)
  else
    let url := request.url
    let url := url.setUser w.m_user
    let url := url.setPass w.m_password
    let request := request.setURL url
    ({ w with m_user := "", m_password := "" }, request)

/-- The function `NetworkDataTaskSoup::createRequest`. The call of `updateSoupRequest`
stores the request's body and flags on the transport request, which the task never reads
back, and has no counterpart here. -/
def createRequest (p : Platform σ) (w : World σ) (request : ResourceRequest) : World σ :=
  match p.createSoupURI request with
  | none => scheduleFailure w FailureType.InvalidURLFailure
  | some soupURI =>
    match p.soup_session_request_uri soupURI with
    | none => scheduleFailure w FailureType.InvalidURLFailure
    | some soupRequest =>
      if !request.url.protocolIsInHTTPFamily then
        { w with m_soupRequest := some soupRequest }
      else
        match p.soup_request_http_get_message soupRequest with
        | none => scheduleFailure w FailureType.InvalidURLFailure
        | some soupMessage =>
          let soupMessage := request.updateSoupMessage soupMessage
          let soupMessage :=
            if w.m_shouldContentSniff = ContentSniffingPolicy.DoNotSniffContent
            then { soupMessage with contentSnifferDisabled := true } else soupMessage
          let soupMessage :=
            if w.m_user.isEmpty && w.m_password.isEmpty
                && decide (w.m_storedCredentials = StoredCredentials.DoNotAllowStoredCredentials)
            then { soupMessage with authManagerDisabled := true } else soupMessage
          let soupMessage :=
            if !HTTPHeaderMap.contains soupMessage.request_headers HTTPHeaderName.Accept
            then { soupMessage with
                   request_headers := soupMessage.request_headers ++ [(HTTPHeaderName.Accept, "*/*")] }
            else soupMessage
          let soupMessage :=
            if (soupMessage.method == "POST" || soupMessage.method == "PUT")
                && soupMessage.request_body_length == 0
            then { soupMessage with
                   request_headers :=
                     HTTPHeaderMap.set soupMessage.request_headers HTTPHeaderName.ContentLength "0" }
            else soupMessage
          let soupMessage := { soupMessage with noRedirect := true }
          let soupMessage := { soupMessage with priority := request.priority }
          let w := { w with m_soupRequest := some soupRequest, m_soupMessage := some soupMessage }
          let w := w.emit (Effect.g_signal_connect "notify::tls-errors")
          let w := w.emit (Effect.g_signal_connect "got-headers")
          let w := w.emit (Effect.g_signal_connect "wrote-body-data")
          w.emit (Effect.g_signal_connect "authenticate")

/-- Modelled from the spec: the base-class constructor `NetworkDataTask::NetworkDataTask`:
the task starts suspended with its client set and the request kept as first request; a
malformed URL or a blocked port schedules the failure. -/
def NetworkDataTask.create (p : Platform σ) (store : σ) (files : FileSystem)
    (requestWithCredentials : ResourceRequest) (storedCredentials : StoredCredentials)
    (shouldContentSniff : ContentSniffingPolicy)
    (shouldClearReferrerOnHTTPSToHTTPRedirect : Bool) : World σ :=
  let w : World σ :=
    { m_state := State.Suspended
      m_client := true
      m_firstRequest := requestWithCredentials
      m_storedCredentials := storedCredentials
      m_shouldClearReferrerOnHTTPSToHTTPRedirect := shouldClearReferrerOnHTTPSToHTTPRedirect
      m_scheduledFailureType := FailureType.NoFailure
      m_failureTimerActive := false
      m_user := ""
      m_password := ""
      m_initialCredential := Credential.null
      m_lastHTTPMethod := requestWithCredentials.httpMethod
      m_pendingDownloadID := 0
      m_pendingDownloadLocation := ""
      m_suggestedFilename := ""
      m_shouldContentSniff := shouldContentSniff
      m_soupRequest := none
      m_soupMessage := none
      m_inputStream := none
      m_multipartInputStream := none
      m_cancellable := none
      m_pendingResult := none
      m_response := ResourceResponse.null
      m_readBuffer := []
      m_redirectCount := 0
      m_bodyDataTotalBytesSent := 0
      m_downloadDestinationFile := none
      m_downloadIntermediateFile := none
      m_downloadOutputStream := none
      m_allowOverwriteDownload := false
      m_protectionSpaceForPersistentStorage := ProtectionSpace.null
      m_credentialForPersistentStorage := Credential.null
      m_timeoutSource := false
      credentialStorage := store
      files := files
      outstanding := []
      effects := [] }
  if !requestWithCredentials.url.isValid then scheduleFailure w FailureType.InvalidURLFailure
  else if !p.portAllowed requestWithCredentials.url then scheduleFailure w FailureType.BlockedFailure
  else w

/-- The constructor `NetworkDataTaskSoup::NetworkDataTaskSoup`. -/
def NetworkDataTaskSoup.create (p : Platform σ) (store : σ) (files : FileSystem)
    (requestWithCredentials : ResourceRequest) (storedCredentials : StoredCredentials)
    (shouldContentSniff : ContentSniffingPolicy)
    (shouldClearReferrerOnHTTPSToHTTPRedirect : Bool) : World σ :=
  let w := NetworkDataTask.create p store files requestWithCredentials storedCredentials
    shouldContentSniff shouldClearReferrerOnHTTPSToHTTPRedirect
  if w.m_scheduledFailureType ≠ FailureType.NoFailure then w
  else
    let request := requestWithCredentials
    if request.url.protocolIsInHTTPFamily then
      let url := request.url
      if w.m_storedCredentials = StoredCredentials.AllowStoredCredentials then
        let w := { w with m_user := url.user, m_password := url.pass }
        let request := request.removeCredentials
        let w :=
          if w.m_user.isEmpty && w.m_password.isEmpty then
            { w with m_initialCredential := p.credentialGetForURL w.credentialStorage request.url }
          else
            let credential : Credential :=
              Credential.mk w.m_user w.m_password CredentialPersistence.CredentialPersistenceNone
            { w with credentialStorage :=
                p.credentialSetForURL w.credentialStorage credential request.url }
        let (w, request) := applyAuthenticationToRequest w request
        createRequest p w request
      else
        let (w, request) := applyAuthenticationToRequest w request
        createRequest p w request
    else
      createRequest p w request

/-- The function `NetworkDataTaskSoup::setPendingDownloadLocation`. -/
def setPendingDownloadLocation (w : World σ) (filename : String) (allowOverwrite : Bool) :
    World σ :=
  { w with m_pendingDownloadLocation := filename, m_allowOverwriteDownload := allowOverwrite }

/-- The function `NetworkDataTaskSoup::clearRequest`. -/
def clearRequest (w : World σ) : World σ :=
  if w.m_state = State.Completed then w
  else
    let w := { w with m_state := State.Completed }
    let w := stopTimeout w
    let w := { w with m_pendingResult := none }
    let w := { w with m_soupRequest := none }
    let w := { w with m_inputStream := none }
    let w := { w with m_multipartInputStream := none }
    let w := { w with m_downloadOutputStream := none }
    let w := match w.m_cancellable with
      | some _ => w.emit Effect.g_cancellable_cancel
      | none => w
    let w := { w with m_cancellable := none }
    let w := match w.m_soupMessage with
      | some _ =>
        let w := w.emit Effect.disconnectMessageSignals
        let w := w.emit Effect.soup_session_cancel_message
        { w with m_soupMessage := none }
      | none => w
    w.emit Effect.disconnectSessionSignals

/-- The function `NetworkDataTaskSoup::cleanDownloadFiles`. -/
def cleanDownloadFiles (w : World σ) : World σ :=
  let w := match w.m_downloadDestinationFile with
    | some path =>
      { w with files := w.files.g_file_delete path, m_downloadDestinationFile := none }
    | none => w
  match w.m_downloadIntermediateFile with
  | some path =>
    { w with files := w.files.g_file_delete path, m_downloadIntermediateFile := none }
  | none => w

/-- The function `NetworkDataTaskSoup::cancel`. -/
def cancel (w : World σ) : World σ :=
  if w.m_state = State.Canceling ∨ w.m_state = State.Completed then w
  else
    let w := { w with m_state := State.Canceling }
    let w := match w.m_soupMessage with
      | some _ => w.emit Effect.soup_session_cancel_message
      | none => w
    let w := match w.m_cancellable with
      | some _ =>
        let w := w.emit Effect.g_cancellable_cancel
        { w with m_cancellable := some (GCancellable.mk true) }
      | none => w
    if w.isDownload then cleanDownloadFiles w else w

/-- The function `NetworkDataTaskSoup::invalidateAndCancel`. -/
def invalidateAndCancel (w : World σ) : World σ :=
  clearRequest (cancel w)

/-- The function `NetworkDataTaskSoup::timeoutFired`. -/
def timeoutFired (w : World σ) : World σ :=
  if w.m_state = State.Canceling ∨ w.m_state = State.Completed ∨ w.m_client = false then
    clearRequest w
  else
    let w := invalidateAndCancel w
    w.callClient (Effect.clientDidCompleteWithError
      (ResourceError.timeoutError w.m_firstRequest.url))

/-- The function `NetworkDataTaskSoup::didFailDownload`. -/
def didFailDownload (w : World σ) (error : ResourceError) : World σ :=
  let w := clearRequest w
  let w := cleanDownloadFiles w
  if w.m_client then w.emit (Effect.clientDidCompleteWithError error)
  else w.emit (Effect.downloadDidFail error)

/-- The function `NetworkDataTaskSoup::didFail`. -/
def didFail (w : World σ) (error : ResourceError) : World σ :=
  if w.isDownload then
    didFailDownload w
      (platformDownloadNetworkError error.errorCode error.failingURL error.localizedDescription)
  else
    let w := clearRequest w
    w.callClient (Effect.clientDidCompleteWithError error)

/-- The function `NetworkDataTaskSoup::didReceiveResponse`: the response is handed to the
client; the client's answer arrives through `didReceiveResponseCompletion`. -/
def didReceiveResponse (w : World σ) : World σ :=
  w.callClient (Effect.clientDidReceiveResponse w.m_response)

/-- The function `NetworkDataTaskSoup::read`. -/
def read (w : World σ) : World σ :=
  let w := { w with m_readBuffer := vectorGrow w.m_readBuffer gDefaultReadBufferSize }
  w.start AsyncOp.read Effect.g_input_stream_read_async

/-- The function `NetworkDataTaskSoup::requestNextPart`. -/
def requestNextPart (w : World σ) : World σ :=
  w.start AsyncOp.nextPart Effect.soup_multipart_input_stream_next_part_async

/-- The function `NetworkDataTaskSoup::skipInputStreamForRedirection`. -/
def skipInputStreamForRedirection (w : World σ) : World σ :=
  w.start AsyncOp.skip Effect.g_input_stream_skip_async

/-- The function `NetworkDataTaskSoup::writeDownload`. -/
def writeDownload (w : World σ) : World σ :=
  w.start (AsyncOp.write w.m_readBuffer) (Effect.g_output_stream_write_all_async w.m_readBuffer)


/-! ## Download writer -/

/-- The suffix of the intermediate download file. -/
def wkdownloadSuffix : String := ".wkdownload"

/-- The function `NetworkDataTaskSoup::download`. -/
def download (w : World σ) : World σ :=
  if w.m_response.httpStatusCode ≥ 400 then
    didFailDownload w
      (platformDownloadNetworkError w.m_response.httpStatusCode w.m_response.url
        w.m_response.httpStatusText)
  else
    let w := { w with m_downloadDestinationFile := some w.m_pendingDownloadLocation }
    let created :=
      if w.m_allowOverwriteDownload then w.files.g_file_replace w.m_pendingDownloadLocation false
      else w.files.g_file_create w.m_pendingDownloadLocation
    match created with
    | Except.error error =>
      didFailDownload w (platformDownloadDestinationError w.m_response error.message)
    | Except.ok files =>
      let w := { w with files := files }
      let intermediateURI := w.m_pendingDownloadLocation ++ wkdownloadSuffix
      let w := { w with m_downloadIntermediateFile := some intermediateURI }
      match w.files.g_file_replace intermediateURI true with
      | Except.error error =>
        didFailDownload w (platformDownloadDestinationError w.m_response error.message)
      | Except.ok files =>
        let w := { w with files := files, m_downloadOutputStream := some (GOutputStream.mk intermediateURI) }
        let w := w.emit (Effect.dataTaskBecameDownloadTask w.m_pendingDownloadID)
        let w := w.emit (Effect.downloadDidCreateDestination w.m_pendingDownloadLocation)
        read w

/-- The function `NetworkDataTaskSoup::didWriteDownload`. -/
def didWriteDownload (w : World σ) (bytesWritten : Nat) : World σ :=
  let w := w.emit (Effect.downloadDidReceiveData bytesWritten)
  read w

/-- The function `NetworkDataTaskSoup::writeDownloadCallback`. -/
def writeDownloadCallback (w : World σ) (result : GAsyncResult) : World σ :=
  if w.m_state = State.Canceling ∨ w.m_state = State.Completed ∨ w.isDownload = false then
    clearRequest w
  else
    match result.error with
    | some error =>
      didFailDownload w (platformDownloadDestinationError w.m_response error.message)
    | none => didWriteDownload w result.written

/-- The function `NetworkDataTaskSoup::didFinishDownload`. A move between file handles that
were never created cannot succeed and takes the failure branch. -/
def didFinishDownload (w : World σ) : World σ :=
  let w := w.emit Effect.g_output_stream_close
  let w := { w with m_downloadOutputStream := none }
  match w.m_downloadIntermediateFile, w.m_downloadDestinationFile with
  | some intermediate, some destination =>
    match w.files.g_file_move intermediate destination with
    | Except.error error =>
      didFailDownload w (platformDownloadDestinationError w.m_response error.message)
    | Except.ok files =>
      let w := { w with files := files }
      let w := w.emit (Effect.setFileAttributes destination w.m_response.url)
      let w := clearRequest w
      w.emit Effect.downloadDidFinish
  | _, _ => didFailDownload w (platformDownloadDestinationError w.m_response "")

/-! ## Response arrival and the read loop -/

/-- The completion handler that `didReceiveResponse` passes to the client, run with the
client's policy decision. -/
def didReceiveResponseCompletion (w : World σ) (policyAction : PolicyAction) : World σ :=
  if w.m_state = State.Canceling ∨ w.m_state = State.Completed then clearRequest w
  else
    match policyAction with
    | PolicyAction.PolicyUse =>
      match w.m_inputStream with
      | some _ => read w
      | none =>
        match w.m_multipartInputStream with
        | some _ => requestNextPart w
        | none => w
    | PolicyAction.PolicyIgnore => clearRequest w
    | PolicyAction.PolicyDownload => download w

/-- The function `NetworkDataTaskSoup::shouldStartHTTPRedirection`. -/
def shouldStartHTTPRedirection (w : World σ) : Bool :=
  let status := w.m_response.httpStatusCode
  if !SOUP_STATUS_IS_REDIRECTION status then false
  else if status == 300 || status == 304 || status == 305 || status == 306 then false
  else if (w.m_response.httpHeaderField HTTPHeaderName.Location).isEmpty then false
  else true

/-- The multipart iterator `soup_multipart_input_stream_new` builds over a body stream. -/
def soup_multipart_input_stream_new (inputStream : Option GInputStream) :
    SoupMultipartInputStream :=
  match inputStream with
  | some s => { parts := s.parts, headers := [] }
  | none => { parts := [], headers := [] }

/-- The content type `soup_request_get_content_type` reports for the transport request. -/
def soup_request_get_content_type (r : Option SoupRequest) : String :=
  match r with
  | some r => r.contentType
  | none => ""

/-- The content length `soup_request_get_content_length` reports for the transport request. -/
def soup_request_get_content_length (r : Option SoupRequest) : Int :=
  match r with
  | some r => r.contentLength
  | none => 0

/-- The response `didSendRequest` builds from the message of an HTTP exchange: the sniffed
content type is recorded unless the status is 304, then status and headers are taken from
the message. -/
def receivedResponse (p : Platform σ) (w : World σ) (soupMessage : SoupMessage) :
    ResourceResponse :=
  let response :=
    if w.m_shouldContentSniff = ContentSniffingPolicy.SniffContent ∧ soupMessage.status_code ≠ 304
    then { w.m_response with sniffedContentType := soup_request_get_content_type w.m_soupRequest }
    else w.m_response
  ResourceResponse.updateFromSoupMessage p response soupMessage

/-- The function `NetworkDataTaskSoup::didSendRequest`. -/
def didSendRequest (p : Platform σ) (w : World σ) (inputStream : Option GInputStream) :
    World σ :=
  match w.m_soupMessage with
  | some soupMessage =>
    let w := { w with m_response := receivedResponse p w soupMessage }
    if shouldStartHTTPRedirection w then
      let w := { w with m_inputStream := inputStream }
      skipInputStreamForRedirection w
    else
      let w :=
        if w.m_response.isMultipart then
          { w with m_multipartInputStream := some (soup_multipart_input_stream_new inputStream) }
        else { w with m_inputStream := inputStream }
      didReceiveResponse w
  | none =>
    let contentType := soup_request_get_content_type w.m_soupRequest
    let response := w.m_response.setURL w.m_firstRequest.url
    let response := { response with mimeType := p.extractMIMETypeFromMediaType contentType }
    let response := { response with textEncodingName := p.extractCharsetFromMediaType contentType }
    let response :=
      { response with expectedContentLength := soup_request_get_content_length w.m_soupRequest }
    let w := { w with m_response := response, m_inputStream := inputStream }
    didReceiveResponse w

/-- The function `NetworkDataTaskSoup::sendRequestCallback`. -/
def sendRequestCallback (p : Platform σ) (w : World σ) (result : GAsyncResult) : World σ :=
  if w.m_state = State.Canceling ∨ w.m_state = State.Completed ∨ w.m_client = false then
    clearRequest w
  else if w.m_state = State.Suspended then
    { w with m_pendingResult := some result }
  else
    match result.error with
    | some error => didFail w (ResourceError.httpError w.m_soupMessage error w.m_soupRequest)
    | none => didSendRequest p w result.inputStream

/-- The function `NetworkDataTaskSoup::didRead`. -/
def didRead (w : World σ) (bytesRead : Nat) : World σ :=
  let w := { w with m_readBuffer := vectorShrink w.m_readBuffer bytesRead }
  match w.m_downloadOutputStream with
  | some _ => writeDownload w
  | none =>
    let data := w.m_readBuffer
    let w := { w with m_readBuffer := [] }
    let w := w.callClient (Effect.clientDidReceiveData data)
    read w

/-- The function `NetworkDataTaskSoup::didFinishRead`. -/
def didFinishRead (w : World σ) : World σ :=
  let w := w.emit Effect.g_input_stream_close
  let w := { w with m_inputStream := none }
  match w.m_multipartInputStream with
  | some _ => requestNextPart w
  | none =>
    match w.m_downloadOutputStream with
    | some _ => didFinishDownload w
    | none =>
      let w := clearRequest w
      w.callClient (Effect.clientDidCompleteWithError ResourceError.null)

/-- The function `NetworkDataTaskSoup::readCallback`. -/
def readCallback (w : World σ) (result : GAsyncResult) : World σ :=
  if w.m_state = State.Canceling ∨ w.m_state = State.Completed
      ∨ (w.m_client = false ∧ w.isDownload = false) then
    clearRequest w
  else if w.m_state = State.Suspended then
    { w with m_pendingResult := some result }
  else
    match result.error with
    | some error => didFail w (ResourceError.genericGError error w.m_soupRequest)
    | none =>
      let w := { w with m_readBuffer := bufferFill w.m_readBuffer result.bytes }
      if result.bytes.length > 0 then didRead w result.bytes.length
      else didFinishRead w

/-- The function `NetworkDataTaskSoup::didRequestNextPart`. -/
def didRequestNextPart (p : Platform σ) (w : World σ) (inputStream : GInputStream) : World σ :=
  let w := { w with m_inputStream := some inputStream }
  let response := ResourceResponse.null
  let response := response.setURL w.m_firstRequest.url
  let headers := match w.m_multipartInputStream with
    | some m => m.headers
    | none => []
  let response := ResourceResponse.updateFromSoupMessageHeaders p response headers
  let w := { w with m_response := response }
  didReceiveResponse w

/-- The function `NetworkDataTaskSoup::didFinishRequestNextPart`. -/
def didFinishRequestNextPart (w : World σ) : World σ :=
  let w := w.emit Effect.g_input_stream_close
  let w := clearRequest w
  w.callClient (Effect.clientDidCompleteWithError ResourceError.null)

/-- The function `NetworkDataTaskSoup::requestNextPartCallback`. -/
def requestNextPartCallback (p : Platform σ) (w : World σ) (result : GAsyncResult) : World σ :=
  if w.m_state = State.Canceling ∨ w.m_state = State.Completed ∨ w.m_client = false then
    clearRequest w
  else if w.m_state = State.Suspended then
    { w with m_pendingResult := some result }
  else
    match result.error with
    | some error => didFail w (ResourceError.httpError w.m_soupMessage error w.m_soupRequest)
    | none =>
      match result.inputStream with
      | some inputStream => didRequestNextPart p w inputStream
      | none => didFinishRequestNextPart w

/-! ## Lifecycle: resume and suspend -/

/-- The function `NetworkDataTaskSoup::resume`. -/
def resume (p : Platform σ) (w : World σ) : World σ :=
  if w.m_state = State.Canceling ∨ w.m_state = State.Completed then w
  else
    let w := { w with m_state := State.Running }
    if w.m_scheduledFailureType ≠ FailureType.NoFailure then w
    else
      let w := startTimeout w
      if w.m_soupRequest.isSome ∧ w.m_cancellable.isNone then
        let w := { w with m_cancellable := some (GCancellable.mk false) }
        w.start AsyncOp.send Effect.soup_request_send_async
      else
        match w.m_pendingResult with
        | some pendingResult =>
          let w := { w with m_pendingResult := none }
          if w.m_inputStream.isSome then readCallback w pendingResult
          else if w.m_multipartInputStream.isSome then requestNextPartCallback p w pendingResult
          else if w.m_soupRequest.isSome then sendRequestCallback p w pendingResult
          else w
        | none => w

/-- The function `NetworkDataTaskSoup::suspend`. -/
def suspend (w : World σ) : World σ :=
  if w.m_state = State.Canceling ∨ w.m_state = State.Completed then w
  else
    let w := { w with m_state := State.Suspended }
    stopTimeout w

/-! ## Redirect continuation -/

/-- The function `shouldRedirectAsGET`. -/
def shouldRedirectAsGET (message : SoupMessage) (crossOrigin : Bool) : Bool :=
  if message.method == "GET" || message.method == "HEAD" then false
  else if message.status_code == 303 then true
  else if (message.status_code == 302 || message.status_code == 301) && message.method == "POST"
  then true
  else if crossOrigin && message.method == "DELETE" then true
  else false

/-- The target of a redirect: the Location header resolved against the response URL. -/
def redirectTarget (p : Platform σ) (w : World σ) : URL :=
  p.completeURL w.m_response.url (w.m_response.httpHeaderField HTTPHeaderName.Location)

/-- The request `continueHTTPRedirection` derives from the first request, up to the point
where the source reads the embedded credentials out of it: the URL and first party are
those of the target, the Referer is cleared on a hop from a secure referrer to a non-secure
target when the task was asked to, and the method is rewritten to GET where the rule says. -/
def redirectRequestWithCredentials (p : Platform σ) (w : World σ) : ResourceRequest :=
  let request := w.m_firstRequest
  let request := request.setURL (redirectTarget p w)
  let request := request.setFirstPartyForCookies request.url
  let request :=
    if w.m_shouldClearReferrerOnHTTPSToHTTPRedirect && !request.url.protocolIs "https"
        && protocolIs request.httpReferrer "https"
    then request.clearHTTPReferrer else request
  let isCrossOrigin := !protocolHostAndPortAreEqual w.m_firstRequest.url request.url
  if !equalLettersIgnoringASCIICase request.httpMethod "get" then
    let messageIsGET := match w.m_soupMessage with
      | some m => m.method == "GET"
      | none => false
    let redirectAsGET := match w.m_soupMessage with
      | some m => shouldRedirectAsGET m isCrossOrigin
      | none => false
    if messageIsGET || !request.url.protocolIsInHTTPFamily || redirectAsGET then
      let request := request.setHTTPMethod "GET"
      let request := request.setHTTPBody none
      request.clearHTTPContentType
    else request
  else request

/-- The continuation request `continueHTTPRedirection` hands to the client: the request
above with the embedded credentials removed and, on a cross-origin hop, the Authorization
and Origin headers cleared. -/
def redirectRequest (p : Platform σ) (w : World σ) : ResourceRequest :=
  let request := redirectRequestWithCredentials p w
  let isCrossOrigin := !protocolHostAndPortAreEqual w.m_firstRequest.url request.url
  let request := request.removeCredentials
  if isCrossOrigin then request.clearHTTPAuthorization.clearHTTPOrigin else request

/-- The function `NetworkDataTaskSoup::continueHTTPRedirection`, up to the call of the
client; the client's answer arrives through `willPerformHTTPRedirectionCompletion`. The
local `request` of the source is `redirectRequestWithCredentials` up to the line that
removes its credentials and `redirectRequest` from there on. -/
def continueHTTPRedirection (p : Platform σ) (w : World σ) : World σ :=
  let redirectCount := w.m_redirectCount
  let w := { w with m_redirectCount := (redirectCount + 1) % 2 ^ 32 }
  if redirectCount > maxRedirects then
    didFail w
      (ResourceError.transportError w.m_soupRequest SOUP_STATUS_TOO_MANY_REDIRECTS
        "Too many redirects")
  else
    let request := redirectRequestWithCredentials p w
    let isCrossOrigin := !protocolHostAndPortAreEqual w.m_firstRequest.url request.url
    let url := request.url
    let w := { w with m_user := url.user, m_password := url.pass,
                      m_lastHTTPMethod := request.httpMethod }
    let request := redirectRequest p w
    let w :=
      if isCrossOrigin then w
      else if url.protocolIsInHTTPFamily
          && decide (w.m_storedCredentials = StoredCredentials.AllowStoredCredentials) then
        if w.m_user.isEmpty && w.m_password.isEmpty then
          let credential := p.credentialGetForURL w.credentialStorage request.url
          if !credential.isEmpty then { w with m_initialCredential := credential } else w
        else w
      else w
    let w := clearRequest w
    w.callClient (Effect.clientWillPerformHTTPRedirection w.m_response request)

/-- The completion handler that `continueHTTPRedirection` passes to the client, run with the
request the client answers: the proposed one, a substitute, or a null request as veto. -/
def willPerformHTTPRedirectionCompletion (p : Platform σ) (w : World σ)
    (newRequest : ResourceRequest) : World σ :=
  if newRequest.isNull ∨ w.m_state = State.Canceling then w
  else
    let request := newRequest
    let (w, request) :=
      if request.url.protocolIsInHTTPFamily then applyAuthenticationToRequest w request
      else (w, request)
    let w := createRequest p w request
    if w.m_soupRequest.isSome ∧ w.m_state ≠ State.Suspended then
      let w := { w with m_state := State.Suspended }
      resume p w
    else w

/-- The function `NetworkDataTaskSoup::didFinishSkipInputStreamForRedirection`. -/
def didFinishSkipInputStreamForRedirection (p : Platform σ) (w : World σ) : World σ :=
  let w := w.emit Effect.g_input_stream_close
  continueHTTPRedirection p w

/-- The function `NetworkDataTaskSoup::skipInputStreamForRedirectionCallback`. -/
def skipInputStreamForRedirectionCallback (p : Platform σ) (w : World σ)
    (result : GAsyncResult) : World σ :=
  if w.m_state = State.Canceling ∨ w.m_state = State.Completed ∨ w.m_client = false then
    clearRequest w
  else
    match result.error with
    | some error => didFail w (ResourceError.genericGError error w.m_soupRequest)
    | none =>
      if result.skipped > 0 then skipInputStreamForRedirection w
      else didFinishSkipInputStreamForRedirection p w

/-! ## Authentication -/

/-- The function `isAuthenticationFailureStatusCode`. -/
def isAuthenticationFailureStatusCode (httpStatusCode : Nat) : Bool :=
  httpStatusCode == 407 || httpStatusCode == 401

/-- The function `NetworkDataTaskSoup::continueAuthenticate`: the challenge is handed to the
client; the client's answer arrives through `didReceiveChallengeCompletion`. -/
def continueAuthenticate (w : World σ) (challenge : AuthenticationChallenge) : World σ :=
  w.callClient (Effect.clientDidReceiveChallenge challenge)

/-- The completion handler that `continueAuthenticate` passes to the client, run with the
client's disposition and credential. -/
def didReceiveChallengeCompletion (p : Platform σ) (w : World σ)
    (challenge : AuthenticationChallenge) (disposition : AuthenticationChallengeDisposition)
    (credential : Credential) : World σ :=
  if w.m_state = State.Canceling ∨ w.m_state = State.Completed then clearRequest w
  else if disposition = AuthenticationChallengeDisposition.Cancel then
    let w := cancel w
    didFail w (cancelledError w.m_soupRequest)
  else
    let w :=
      if disposition = AuthenticationChallengeDisposition.UseCredential ∧ credential.isEmpty = false
      then
        let w :=
          if w.m_storedCredentials = StoredCredentials.AllowStoredCredentials then
            let w :=
              if credential.persistence = CredentialPersistence.CredentialPersistenceForSession
                  ∨ credential.persistence = CredentialPersistence.CredentialPersistencePermanent
              then { w with credentialStorage :=
                       (p.credentialSet w.credentialStorage credential challenge.protectionSpace
                         challenge.failureResponse.url) }
              else w
            if credential.persistence = CredentialPersistence.CredentialPersistencePermanent then
              { w with m_protectionSpaceForPersistentStorage := challenge.protectionSpace,
                       m_credentialForPersistentStorage := credential }
            else w
          else w
        w.emit (Effect.soup_auth_authenticate credential.user credential.password)
      else w
    w.emit Effect.soup_session_unpause_message

/-- The completion handler that `authenticate` passes to the persistent credential lookup,
run with the credential found. -/
def getCredentialFromPersistentStorageCompletion (w : World σ)
    (challenge : AuthenticationChallenge) (credential : Credential) : World σ :=
  if w.m_state = State.Canceling ∨ w.m_state = State.Completed ∨ w.m_client = false then
    clearRequest w
  else
    continueAuthenticate w { challenge with proposedCredential := credential }

/-- The tail of `NetworkDataTaskSoup::authenticate`, reached when no stored credential is
supplied: the message is paused and the challenge goes to the client, by way of the
persistent credential lookup when stored credentials are allowed. -/
def authenticateThroughClient (w : World σ) (challenge : AuthenticationChallenge) : World σ :=
  let w := w.emit Effect.soup_session_pause_message
  if w.m_storedCredentials = StoredCredentials.AllowStoredCredentials then
    w.emit (Effect.getCredentialFromPersistentStorage challenge.protectionSpace)
  else continueAuthenticate w challenge

/-- The function `NetworkDataTaskSoup::authenticate`. -/
def authenticate (p : Platform σ) (w : World σ) (challenge : AuthenticationChallenge) :
    World σ :=
  if w.m_storedCredentials = StoredCredentials.AllowStoredCredentials then
    let w :=
      if w.m_initialCredential.isEmpty = false ∨ challenge.previousFailureCount ≠ 0 then
        { w with credentialStorage :=
            p.credentialRemove w.credentialStorage challenge.protectionSpace }
      else w
    if challenge.previousFailureCount = 0 then
      let credential := p.credentialGet w.credentialStorage challenge.protectionSpace
      if credential.isEmpty = false ∧ credential ≠ w.m_initialCredential then
        let w :=
          if isAuthenticationFailureStatusCode challenge.failureResponse.httpStatusCode then
            { w with credentialStorage :=
                (p.credentialSet w.credentialStorage credential challenge.protectionSpace
                  challenge.failureResponse.url) }
          else w
        w.emit (Effect.soup_auth_authenticate credential.user credential.password)
      else authenticateThroughClient w challenge
    else authenticateThroughClient w challenge
  else authenticateThroughClient w challenge

/-- The function `NetworkDataTaskSoup::authenticateCallback`; `forThisMessage` tells whether
the signal is for the task's own message. -/
def authenticateCallback (p : Platform σ) (w : World σ) (forThisMessage : Bool)
    (soupAuth : SoupAuth) (retrying : Bool) : World σ :=
  if !forThisMessage then w
  else if w.m_state = State.Canceling ∨ w.m_state = State.Completed ∨ w.m_client = false then
    clearRequest w
  else
    match w.m_soupMessage with
    | some soupMessage =>
      authenticate p w (AuthenticationChallenge.fromSoup p soupMessage soupAuth retrying)
    | none => w

/-! ## Transport signals -/

/-- The function `NetworkDataTaskSoup::tlsErrorsChanged`, with the error the TLS check
reports (null when the certificate is accepted). -/
def tlsErrorsChanged (w : World σ) (error : ResourceError) : World σ :=
  if error.isNull then w
  else
    let w := invalidateAndCancel w
    w.callClient (Effect.clientDidCompleteWithError error)

/-- The function `NetworkDataTaskSoup::tlsErrorsChangedCallback`. -/
def tlsErrorsChangedCallback (w : World σ) (error : ResourceError) : World σ :=
  if w.m_state = State.Canceling ∨ w.m_state = State.Completed ∨ w.m_client = false then
    clearRequest w
  else tlsErrorsChanged w error

/-- The function `NetworkDataTaskSoup::didGetHeaders`. -/
def didGetHeaders (w : World σ) : World σ :=
  match w.m_soupMessage with
  | some soupMessage =>
    if !isAuthenticationFailureStatusCode soupMessage.status_code && soupMessage.status_code < 500
    then
      let w := w.emit (Effect.saveCredentialToPersistentStorage
        w.m_protectionSpaceForPersistentStorage w.m_credentialForPersistentStorage)
      { w with m_protectionSpaceForPersistentStorage := ProtectionSpace.null,
               m_credentialForPersistentStorage := Credential.null }
    else w
  | none => w

/-- The function `NetworkDataTaskSoup::gotHeadersCallback`. -/
def gotHeadersCallback (w : World σ) : World σ :=
  if w.m_state = State.Canceling ∨ w.m_state = State.Completed ∨ w.m_client = false then
    clearRequest w
  else didGetHeaders w

/-- The function `NetworkDataTaskSoup::didWriteBodyData`. -/
def didWriteBodyData (w : World σ) (bytesSent : Nat) : World σ :=
  let w := { w with m_bodyDataTotalBytesSent := (w.m_bodyDataTotalBytesSent + bytesSent) % 2 ^ 64 }
  let total := match w.m_soupMessage with
    | some m => m.request_body_length
    | none => 0
  w.callClient (Effect.clientDidSendData w.m_bodyDataTotalBytesSent total)

/-- The function `NetworkDataTaskSoup::wroteBodyDataCallback`. -/
def wroteBodyDataCallback (w : World σ) (bufferLength : Nat) : World σ :=
  if w.m_state = State.Canceling ∨ w.m_state = State.Completed ∨ w.m_client = false then
    clearRequest w
  else didWriteBodyData w bufferLength

/-! ## The environment: transport and client

The task is driven by its environment: the transport completes the native operation in
flight and calls the matching callback, the client answers the questions it was asked. -/

/-- What the transport obtains for a request: an error, or status, headers and body. -/
structure Exchange where
  error : Option GError
  status_code : Nat
  reason_phrase : String
  response_headers : HTTPHeaderMap
  body : GInputStream

/-- The environment of a task: the server behind the transport and the client's answers
to a response and to a proposed redirect. -/
structure Environment where
  server : SoupRequest → Option SoupMessage → Exchange
  policy : ResourceResponse → PolicyAction
  redirect : ResourceResponse → ResourceRequest → ResourceRequest

/-- The result of a native operation that completed with nothing to report. -/
def GAsyncResult.empty : GAsyncResult :=
  { error := none, inputStream := none, bytes := [], skipped := 0, written := 0 }

/-- The result of a native operation cut short by cancellation. -/
def GAsyncResult.cancelled : GAsyncResult :=
  { GAsyncResult.empty with error := some (GError.mk 19 "Operation was cancelled") }

/-- The message of an exchange once the transport has received its status and headers. -/
def receivedMessage (m : SoupMessage) (exchange : Exchange) : SoupMessage :=
  { m with status_code := exchange.status_code,
           reason_phrase := exchange.reason_phrase,
           response_headers := exchange.response_headers }

/-- The transport completes a send: the message takes the status and headers received, the
got-headers signal fires, and the send callback runs with the body stream. -/
def completeSend (p : Platform σ) (env : Environment) (w : World σ) : World σ :=
  match w.m_soupRequest with
  | none => sendRequestCallback p w GAsyncResult.cancelled
  | some soupRequest =>
    let exchange := env.server soupRequest w.m_soupMessage
    match exchange.error with
    | some error => sendRequestCallback p w { GAsyncResult.empty with error := some error }
    | none =>
      let w := match w.m_soupMessage with
        | some m =>
          gotHeadersCallback { w with m_soupMessage := some (receivedMessage m exchange) }
        | none => w
      sendRequestCallback p w { GAsyncResult.empty with inputStream := some exchange.body }

/-- The transport completes a read: the next chunk of the stream, or nothing at its end. -/
def completeRead (w : World σ) : World σ :=
  match w.m_inputStream with
  | none => readCallback w GAsyncResult.cancelled
  | some stream =>
    match stream.chunks with
    | [] => readCallback w GAsyncResult.empty
    | chunk :: rest =>
      readCallback { w with m_inputStream := some { stream with chunks := rest } }
        { GAsyncResult.empty with bytes := chunk }

/-- The transport completes a skip: the next chunk is passed over, or nothing at the end. -/
def completeSkip (p : Platform σ) (w : World σ) : World σ :=
  match w.m_inputStream with
  | none => skipInputStreamForRedirectionCallback p w GAsyncResult.cancelled
  | some stream =>
    match stream.chunks with
    | [] => skipInputStreamForRedirectionCallback p w GAsyncResult.empty
    | chunk :: rest =>
      skipInputStreamForRedirectionCallback p
        { w with m_inputStream := some { stream with chunks := rest } }
        { GAsyncResult.empty with skipped := chunk.length }

/-- The transport completes a next-part request: the stream of the next part, whose headers
become the iterator's current headers, or no stream after the last part. -/
def completeNextPart (p : Platform σ) (w : World σ) : World σ :=
  match w.m_multipartInputStream with
  | none => requestNextPartCallback p w GAsyncResult.cancelled
  | some multipart =>
    match multipart.parts with
    | [] => requestNextPartCallback p w GAsyncResult.empty
    | (headers, chunks) :: rest =>
      requestNextPartCallback p
        { w with m_multipartInputStream := some { parts := rest, headers := headers } }
        { GAsyncResult.empty with inputStream := some { chunks := chunks, parts := [] } }

/-- The transport completes a write: the bytes are appended to the stream's file. -/
def completeWrite (w : World σ) (data : Bytes) : World σ :=
  match w.m_downloadOutputStream with
  | none => writeDownloadCallback w GAsyncResult.cancelled
  | some stream =>
    writeDownloadCallback { w with files := w.files.append stream.path data }
      { GAsyncResult.empty with written := data.length }

/-- The transport completes a native operation. -/
def complete (p : Platform σ) (env : Environment) (w : World σ) : AsyncOp → World σ
  | AsyncOp.send => completeSend p env w
  | AsyncOp.read => completeRead w
  | AsyncOp.skip => completeSkip p w
  | AsyncOp.nextPart => completeNextPart p w
  | AsyncOp.write data => completeWrite w data

/-- The questions among the calls made to the client: those that wait for an answer. -/
def questions : List Effect → List Effect
  | [] => []
  | Effect.clientDidReceiveResponse r :: rest => Effect.clientDidReceiveResponse r :: questions rest
  | Effect.clientWillPerformHTTPRedirection r q :: rest =>
    Effect.clientWillPerformHTTPRedirection r q :: questions rest
  | _ :: rest => questions rest

/-- The client answers a question. -/
def answer (p : Platform σ) (env : Environment) (w : World σ) : Effect → World σ
  | Effect.clientDidReceiveResponse r => didReceiveResponseCompletion w (env.policy r)
  | Effect.clientWillPerformHTTPRedirection r q =>
    willPerformHTTPRedirectionCompletion p w (env.redirect r q)
  | _ => w

/-- A task in its environment: the task, and the questions the client has yet to answer. -/
structure Sim (σ : Type) where
  world : World σ
  inbox : List Effect

/-- After a transition the questions it asked join the inbox. -/
def Sim.advance (inbox : List Effect) (before after : World σ) : Sim σ :=
  { world := after, inbox := inbox ++ questions (after.effects.drop before.effects.length) }

/-- One step of the environment: the client answers its oldest question; when it has none,
the transport completes the oldest operation in flight; when there is none either, the
task is at rest. -/
def Sim.step (p : Platform σ) (env : Environment) (s : Sim σ) : Option (Sim σ) :=
  match s.inbox with
  | q :: rest => some (Sim.advance rest s.world (answer p env s.world q))
  | [] =>
    match s.world.outstanding with
    | op :: ops =>
      some (Sim.advance [] s.world (complete p env { s.world with outstanding := ops } op))
    | [] => none

/-- Run the environment for at most the given number of steps. -/
def Sim.run (p : Platform σ) (env : Environment) : Nat → Sim σ → Sim σ
  | 0, s => s
  | n + 1, s =>
    match Sim.step p env s with
    | some s' => Sim.run p env n s'
    | none => s

/-- The number of requests sent. -/
def sendCount (effects : List Effect) : Nat :=
  effects.count Effect.soup_request_send_async

/-- The errors reported to the client, in order. -/
def reportedErrors : List Effect → List ResourceError
  | [] => []
  | Effect.clientDidCompleteWithError e :: rest => e :: reportedErrors rest
  | _ :: rest => reportedErrors rest

/-- The notifications the client receives, in order. -/
def clientTrace : List Effect → List Effect
  | [] => []
  | Effect.clientDidReceiveResponse r :: rest => Effect.clientDidReceiveResponse r :: clientTrace rest
  | Effect.clientDidReceiveData d :: rest => Effect.clientDidReceiveData d :: clientTrace rest
  | Effect.clientDidSendData s t :: rest => Effect.clientDidSendData s t :: clientTrace rest
  | Effect.clientDidReceiveChallenge c :: rest =>
    Effect.clientDidReceiveChallenge c :: clientTrace rest
  | Effect.clientWillPerformHTTPRedirection r q :: rest =>
    Effect.clientWillPerformHTTPRedirection r q :: clientTrace rest
  | Effect.clientDidCompleteWithError e :: rest =>
    Effect.clientDidCompleteWithError e :: clientTrace rest
  | _ :: rest => clientTrace rest

/-! ## A concrete platform and store -/

/-- Modelled from the spec: the Credential Store as a list keyed by protection space, with
lookup, insert and remove; the default protection space of a URL is found by its host. -/
structure ListStore where
  credentials : List (ProtectionSpace × Credential)
deriving DecidableEq, Repr

/-- Lookup by protection space; the empty credential when there is none. -/
def ListStore.get : List (ProtectionSpace × Credential) → ProtectionSpace → Credential
  | [], _ => Credential.null
  | (s, c) :: rest, space => if s = space then c else ListStore.get rest space

/-- Lookup by URL: the first credential stored for the URL's host. -/
def ListStore.getForURL : List (ProtectionSpace × Credential) → URL → Credential
  | [], _ => Credential.null
  | (s, c) :: rest, url => if s.host = url.host then c else ListStore.getForURL rest url

/-- Remove the credential of a protection space. -/
def ListStore.remove :
    List (ProtectionSpace × Credential) → ProtectionSpace → List (ProtectionSpace × Credential)
  | [], _ => []
  | (s, c) :: rest, space =>
    if s = space then ListStore.remove rest space else (s, c) :: ListStore.remove rest space

/-- A platform for worked examples: relative URLs replace the path of the base, every
URL yields a transport request and message, and the store is a `ListStore`. -/
def examplePlatform : Platform ListStore :=
  { completeURL := fun base relative =>
      if relative = "http://example/" then
        { isNull := false, isValid := true, protocol := "http", user := "", pass := "",
          host := "example", port := none, path := "/" }
      else if relative = "https://other/" then
        { isNull := false, isValid := true, protocol := "https", user := "", pass := "",
          host := "other", port := none, path := "/" }
      else { base with path := relative }
    portAllowed := fun _ => true
    createSoupURI := fun r => if r.url.isValid then some r.url else none
    soup_session_request_uri := fun u => some { uri := u, contentType := "", contentLength := 0 }
    soup_request_http_get_message := fun r =>
      some { method := "GET", uri := r.uri, firstParty := URL.null, request_headers := [],
             request_body_length := 0, status_code := 0, reason_phrase := "",
             response_headers := [], noRedirect := false, contentSnifferDisabled := false,
             authManagerDisabled := false, priority := 0 }
    extractMIMETypeFromMediaType := fun s => s
    extractCharsetFromMediaType := fun _ => ""
    soup_message_headers_get_content_length := fun _ => 0
    credentialGet := fun s space => ListStore.get s.credentials space
    credentialGetForURL := fun s url => ListStore.getForURL s.credentials url
    credentialSet := fun s c space _ =>
      { credentials := (space, c) :: ListStore.remove s.credentials space }
    credentialSetForURL := fun s c url =>
      { credentials :=
          ({ host := url.host, port := 0, serverType := url.protocol, realm := "",
             authenticationScheme := "" }, c) :: s.credentials }
    credentialRemove := fun s space => { credentials := ListStore.remove s.credentials space } }

/-- The URL `https://example/`. -/
def exampleURL : URL :=
  { isNull := false, isValid := true, protocol := "https", user := "", pass := "",
    host := "example", port := none, path := "/" }

/-- A GET request for `https://example/`. -/
def exampleRequest : ResourceRequest :=
  { url := exampleURL, firstPartyForCookies := exampleURL, httpMethod := "GET",
    httpHeaderFields := [], httpBody := none, timeoutInterval := 0, priority := 0 }

/-- An empty file system. -/
def emptyFiles : FileSystem := { entries := [], denied := [] }

/-- A server that answers every request with a 302 to `/next`, with an empty body. -/
def redirectingServer : SoupRequest → Option SoupMessage → Exchange :=
  fun _ _ =>
    { error := none, status_code := 302, reason_phrase := "Found",
      response_headers := [(HTTPHeaderName.Location, "/next")],
      body := { chunks := [], parts := [] } }

/-- A client that uses every response and approves every proposed redirect unchanged. -/
def approvingEnvironment (server : SoupRequest → Option SoupMessage → Exchange) : Environment :=
  { server := server, policy := fun _ => PolicyAction.PolicyUse, redirect := fun _ q => q }

/-- A task for `https://example/`, created with redirect count 0 and resumed: its first
request is in flight. -/
def redirectScenario : Sim ListStore :=
  { world := resume examplePlatform
      (NetworkDataTaskSoup.create examplePlatform { credentials := [] } emptyFiles exampleRequest
        StoredCredentials.DoNotAllowStoredCredentials ContentSniffingPolicy.DoNotSniffContent true)
    inbox := [] }

/-- The redirect responses whose continuation has been proposed to the client so far. -/
def redirectsProposed : List Effect → Nat
  | [] => 0
  | Effect.clientWillPerformHTTPRedirection _ _ :: rest => redirectsProposed rest + 1
  | _ :: rest => redirectsProposed rest

/-- The number of times the resources of the task were released: `clearRequest` ends its
release by disconnecting the session signals, and nothing else does. -/
def releaseCount (effects : List Effect) : Nat :=
  effects.count Effect.disconnectSessionSignals

/-- The calls `clearRequest` makes when it releases the resources of a task. -/
def clearRequestEffects (w : World σ) : List Effect :=
  (if w.m_cancellable.isSome then [Effect.g_cancellable_cancel] else [])
    ++ (if w.m_soupMessage.isSome
        then [Effect.disconnectMessageSignals, Effect.soup_session_cancel_message] else [])
    ++ [Effect.disconnectSessionSignals]

/-- The response `didRequestNextPart` builds for a part of a multipart body: a fresh
response with the URL of the first request and the headers of the part. -/
def partResponse (p : Platform σ) (firstRequest : ResourceRequest) (headers : HTTPHeaderMap) :
    ResourceResponse :=
  ResourceResponse.updateFromSoupMessageHeaders p
    (ResourceResponse.null.setURL firstRequest.url) headers

/-- The facts a task keeps while it streams a body to its client: it is running, has its
client, writes to no download, and its first request is that of the task it started as. -/
def Streaming (w0 w : World σ) : Prop :=
  w.m_state = State.Running ∧ w.m_client = true ∧ w.m_downloadOutputStream = none
    ∧ w.m_firstRequest = w0.m_firstRequest

/-- The number of response notifications among the calls made to the client. -/
def responsesDelivered : List Effect → Nat
  | [] => 0
  | Effect.clientDidReceiveResponse _ :: rest => responsesDelivered rest + 1
  | _ :: rest => responsesDelivered rest

/-! ## Worked scenarios -/

/-- A server that answers every request with the given status and Location, and an empty
body. -/
def locationServer (status : Nat) (location : String) : SoupRequest → Option SoupMessage → Exchange :=
  fun _ _ =>
    { error := none, status_code := status, reason_phrase := "",
      response_headers := [(HTTPHeaderName.Location, location)],
      body := { chunks := [], parts := [] } }

/-- The task for a request, created and resumed, at the moment its first response has
arrived with the given status and Location and the body is being skipped. -/
def redirectedWorld (request : ResourceRequest) (storedCredentials : StoredCredentials)
    (shouldClearReferrer : Bool) (status : Nat) (location : String) : World ListStore :=
  (Sim.run examplePlatform (approvingEnvironment (locationServer status location)) 1
    { world := resume examplePlatform
        (NetworkDataTaskSoup.create examplePlatform { credentials := [] } emptyFiles request
          storedCredentials ContentSniffingPolicy.DoNotSniffContent shouldClearReferrer)
      inbox := [] }).world

/-- A POST request for `https://example/` with a body and the headers a page would send. -/
def examplePost : ResourceRequest :=
  { url := exampleURL, firstPartyForCookies := exampleURL, httpMethod := "POST",
    httpHeaderFields :=
      [(HTTPHeaderName.ContentType, "text/plain"), (HTTPHeaderName.Referer, "https://example/"),
       (HTTPHeaderName.Authorization, "Basic dXNlcjpwYXNz"),
       (HTTPHeaderName.Origin, "https://example")],
    httpBody := some [1, 2, 3], timeoutInterval := 0, priority := 0 }

/-- A GET request for `https://example/` carrying `Referer: https://example/`. -/
def exampleGetWithReferrer : ResourceRequest :=
  { exampleRequest with httpHeaderFields := [(HTTPHeaderName.Referer, "https://example/")] }

/-- The message of the POST to `https://example/` once the response with the given status
and Location has arrived. -/
def examplePostMessage (status : Nat) (location : String) : SoupMessage :=
  { method := "POST", uri := exampleURL, firstParty := exampleURL,
    request_headers :=
      [(HTTPHeaderName.ContentType, "text/plain"), (HTTPHeaderName.Referer, "https://example/"),
       (HTTPHeaderName.Authorization, "Basic dXNlcjpwYXNz"),
       (HTTPHeaderName.Origin, "https://example"), (HTTPHeaderName.Accept, "*/*")],
    request_body_length := 3, status_code := status, reason_phrase := "",
    response_headers := [(HTTPHeaderName.Location, location)], noRedirect := true,
    contentSnifferDisabled := true, authManagerDisabled := true, priority := 0 }

/-- The scenario of the secure-to-insecure hop: `https://example/`, requested with
`Referer: https://example/`, answers 301 with `Location: http://example/`; the task was
created without the request to clear the referrer on such a hop. -/
def referrerKeptWorld : World ListStore :=
  redirectedWorld exampleGetWithReferrer StoredCredentials.DoNotAllowStoredCredentials false 301
    "http://example/"

/-- The same hop for a task created with the request to clear the referrer. -/
def referrerClearedWorld : World ListStore :=
  redirectedWorld exampleGetWithReferrer StoredCredentials.DoNotAllowStoredCredentials true 301
    "http://example/"

/-- The POST to `https://example/` answered 302 with a same-origin Location. -/
def postRedirectWorld : World ListStore :=
  redirectedWorld examplePost StoredCredentials.DoNotAllowStoredCredentials true 302 "/next"

/-- The POST to `https://example/` answered 307 with a Location on another origin. -/
def crossOriginWorld : World ListStore :=
  redirectedWorld examplePost StoredCredentials.DoNotAllowStoredCredentials true 307
    "https://other/"

/-- The redirect scenario after the given number of steps of its environment; each
redirect response takes three steps: the send completes, the skip of the body completes,
the client approves the continuation. -/
def redirectRun (steps : Nat) : Sim ListStore :=
  Sim.run examplePlatform (approvingEnvironment redirectingServer) steps redirectScenario

/-- The task for the POST to `https://example/`, created and resumed, at the moment before
its send callback runs: the message carries a 302 with `Location: /next`. -/
def sentWorld : World ListStore :=
  { resume examplePlatform
      (NetworkDataTaskSoup.create examplePlatform { credentials := [] } emptyFiles examplePost
        StoredCredentials.DoNotAllowStoredCredentials ContentSniffingPolicy.DoNotSniffContent true)
    with m_soupMessage := some (examplePostMessage 302 "/next") }

/-- A task for `https://example/` as created: suspended, its first send not yet issued. -/
def createdWorld : World ListStore :=
  NetworkDataTaskSoup.create examplePlatform { credentials := [] } emptyFiles exampleRequest
    StoredCredentials.DoNotAllowStoredCredentials ContentSniffingPolicy.DoNotSniffContent true

/-- A completed send with an empty body stream. -/
def exampleSendResult : GAsyncResult :=
  { GAsyncResult.empty with inputStream := some { chunks := [], parts := [] } }

/-- The protection space of the server `example`. -/
def exampleSpace : ProtectionSpace :=
  { host := "example", port := 443, serverType := "https", realm := "realm",
    authenticationScheme := "Basic" }

/-- A session credential: held in the store for the session only. -/
def exampleCredential : Credential :=
  { user := "user", password := "secret",
    persistence := CredentialPersistence.CredentialPersistenceNone }

/-- A store that holds the session credential for the protection space of `example`. -/
def exampleStore : ListStore :=
  { credentials := [(exampleSpace, exampleCredential)] }

/-- A task for `https://example/` created with stored credentials allowed over that store:
the constructor finds the stored credential for the URL and keeps it as initial credential.
The task is resumed and the server has answered 401. -/
def challengedWorld : World ListStore :=
  let w := resume examplePlatform
    (NetworkDataTaskSoup.create examplePlatform exampleStore emptyFiles exampleRequest
      StoredCredentials.AllowStoredCredentials ContentSniffingPolicy.DoNotSniffContent true)
  { w with m_soupMessage := w.m_soupMessage.map (fun m => { m with status_code := 401 }) }

/-- The first challenge for the protection space of `example`, no failure before it. -/
def exampleChallenge : AuthenticationChallenge :=
  { protectionSpace := exampleSpace, proposedCredential := Credential.null,
    previousFailureCount := 0,
    failureResponse := { ResourceResponse.null with isNull := false, httpStatusCode := 401 },
    soupAuth := { protectionSpace := exampleSpace } }

/-- A task like `challengedWorld` that holds no initial credential. -/
def freshChallengedWorld : World ListStore :=
  { challengedWorld with m_initialCredential := Credential.null }

/-- The three parts of the multipart example: headers and body chunks of each. -/
def exampleParts : List (HTTPHeaderMap × List Bytes) :=
  [([(HTTPHeaderName.ContentType, "image/jpeg")], [[1, 2], [3]]),
   ([(HTTPHeaderName.ContentType, "image/png")], [[4]]),
   ([(HTTPHeaderName.ContentType, "text/plain")], [])]

/-- A server that answers with a multipart response of three parts. -/
def multipartServer : SoupRequest → Option SoupMessage → Exchange :=
  fun _ _ =>
    { error := none, status_code := 200, reason_phrase := "OK",
      response_headers := [(HTTPHeaderName.ContentType, "multipart/x-mixed-replace")],
      body := { chunks := [], parts := exampleParts } }

/-- The transport request of the GET for `https://example/`. -/
def exampleSoupRequest : SoupRequest :=
  { uri := exampleURL, contentType := "", contentLength := 0 }

/-- The message of the GET for `https://example/` as the task sends it. -/
def exampleGetMessage : SoupMessage :=
  { method := "GET", uri := exampleURL, firstParty := exampleURL,
    request_headers := [(HTTPHeaderName.Accept, "*/*")], request_body_length := 0,
    status_code := 0, reason_phrase := "", response_headers := [], noRedirect := true,
    contentSnifferDisabled := true, authManagerDisabled := true, priority := 0 }

/-- The multipart scenario after the given number of steps: the task of
`redirectScenario`, a client that answers Use to every response, and the multipart
server. -/
def multipartRun (steps : Nat) : Sim ListStore :=
  Sim.run examplePlatform (approvingEnvironment multipartServer) steps redirectScenario

/-- A server that answers 200 with a body of one chunk. -/
def bodyServer : SoupRequest → Option SoupMessage → Exchange :=
  fun _ _ =>
    { error := none, status_code := 200, reason_phrase := "OK",
      response_headers := [(HTTPHeaderName.ContentType, "application/octet-stream")],
      body := { chunks := [[1, 2, 3]], parts := [] } }

/-- The download destination of the examples. -/
def exampleDestination : String := "file:///tmp/example"

/-- A task whose response has arrived and which is about to be turned into a download to
`exampleDestination`, overwrite not allowed: the download identifier is assigned, the
client is detached, and there is no file at the destination. -/
def downloadReadyWorld : World ListStore :=
  { setPendingDownloadLocation
      (Sim.run examplePlatform (approvingEnvironment bodyServer) 1 redirectScenario).world
      exampleDestination false
    with m_pendingDownloadID := 7, m_client := false }

/-- The same task with overwrite allowed, when a file with content already exists at the
destination. -/
def overwriteReadyWorld : World ListStore :=
  { downloadReadyWorld with
    m_allowOverwriteDownload := true
    files := { entries := [(exampleDestination, [9, 9])], denied := [] } }

/-! ## The events of a task -/

/-- The events a task reacts to: the calls of its owner, the timeout, the completions of
its native operations, the signals of the transport, the answers of its client and of the
persistent credential lookup, and the appends its download stream makes to its file. -/
inductive TaskEvent where
  | resume
  | suspend
  | cancel
  | invalidateAndCancel
  | timeoutFired
  | sendRequestCallback (result : GAsyncResult)
  | readCallback (result : GAsyncResult)
  | skipInputStreamForRedirectionCallback (result : GAsyncResult)
  | requestNextPartCallback (result : GAsyncResult)
  | writeDownloadCallback (result : GAsyncResult)
  | didReceiveResponseCompletion (policyAction : PolicyAction)
  | willPerformHTTPRedirectionCompletion (newRequest : ResourceRequest)
  | didReceiveChallengeCompletion (challenge : AuthenticationChallenge)
      (disposition : AuthenticationChallengeDisposition) (credential : Credential)
  | getCredentialFromPersistentStorageCompletion (challenge : AuthenticationChallenge)
      (credential : Credential)
  | authenticateCallback (forThisMessage : Bool) (soupAuth : SoupAuth) (retrying : Bool)
  | tlsErrorsChangedCallback (error : ResourceError)
  | gotHeadersCallback
  | wroteBodyDataCallback (bufferLength : Nat)
  | messageReceived (exchange : Exchange)
  | streamWrote (data : Bytes)

/-- The download stream has written bytes: they are appended to the file the stream was
opened on, the stream `download()` has stored in `m_downloadOutputStream`. A task that
holds no stream sees no write. -/
def streamWritten (w : World σ) (data : Bytes) : World σ :=
  match w.m_downloadOutputStream with
  | some stream => { w with files := w.files.append stream.path data }
  | none => w

/-- The task after an event. A received exchange sets status and headers of the
message; bytes written by the download stream are appended to the file of the stream. -/
def TaskEvent.apply (p : Platform σ) (w : World σ) : TaskEvent → World σ
  | TaskEvent.resume => WebKit.resume p w
  | TaskEvent.suspend => WebKit.suspend w
  | TaskEvent.cancel => WebKit.cancel w
  | TaskEvent.invalidateAndCancel => WebKit.invalidateAndCancel w
  | TaskEvent.timeoutFired => WebKit.timeoutFired w
  | TaskEvent.sendRequestCallback result => WebKit.sendRequestCallback p w result
  | TaskEvent.readCallback result => WebKit.readCallback w result
  | TaskEvent.skipInputStreamForRedirectionCallback result =>
    WebKit.skipInputStreamForRedirectionCallback p w result
  | TaskEvent.requestNextPartCallback result => WebKit.requestNextPartCallback p w result
  | TaskEvent.writeDownloadCallback result => WebKit.writeDownloadCallback w result
  | TaskEvent.didReceiveResponseCompletion policyAction =>
    WebKit.didReceiveResponseCompletion w policyAction
  | TaskEvent.willPerformHTTPRedirectionCompletion newRequest =>
    WebKit.willPerformHTTPRedirectionCompletion p w newRequest
  | TaskEvent.didReceiveChallengeCompletion challenge disposition credential =>
    WebKit.didReceiveChallengeCompletion p w challenge disposition credential
  | TaskEvent.getCredentialFromPersistentStorageCompletion challenge credential =>
    WebKit.getCredentialFromPersistentStorageCompletion w challenge credential
  | TaskEvent.authenticateCallback forThisMessage soupAuth retrying =>
    WebKit.authenticateCallback p w forThisMessage soupAuth retrying
  | TaskEvent.tlsErrorsChangedCallback error => WebKit.tlsErrorsChangedCallback w error
  | TaskEvent.gotHeadersCallback => WebKit.gotHeadersCallback w
  | TaskEvent.wroteBodyDataCallback bufferLength => WebKit.wroteBodyDataCallback w bufferLength
  | TaskEvent.messageReceived exchange =>
    { w with m_soupMessage := w.m_soupMessage.map (fun m => receivedMessage m exchange) }
  | TaskEvent.streamWrote data => streamWritten w data

/-- The final destination holds no byte: there is no file at the path, or an empty one. -/
def DestinationClean (destination : String) (w : World σ) : Prop :=
  w.m_pendingDownloadLocation = destination
    ∧ (w.files.lookup destination = none ∨ w.files.lookup destination = some [])

/-- The task is in a download to the given destination whose final move has not succeeded:
`download()` has created the intermediate file and opened the stream on it, and since then
any events have occurred, none of which ended with `didFinishDownload` reporting the
finished download (the report that follows the successful move). -/
inductive Downloading (p : Platform σ) (destination : String) : World σ → Prop where
  | started (w : World σ) :
    w.m_pendingDownloadLocation = destination → w.m_downloadOutputStream = none →
    (download w).m_downloadOutputStream ≠ none → Downloading p destination (download w)
  | step (w : World σ) (e : TaskEvent) :
    Downloading p destination w →
    (e.apply p w).effects.getLast? ≠ some Effect.downloadDidFinish →
    Downloading p destination (e.apply p w)

/-! ## Sequences of events -/

/-- Whether an event is the client's approval of a proposed redirect: the completion
handler of `willPerformHTTPRedirection` run with a request that is not null. -/
def TaskEvent.isRedirectApproval : TaskEvent → Bool
  | TaskEvent.willPerformHTTPRedirectionCompletion newRequest => !newRequest.isNull
  | _ => false

/-- The task after a sequence of events, the first first. -/
def TaskEvent.applyAll (p : Platform σ) (w : World σ) (events : List TaskEvent) : World σ :=
  events.foldl (TaskEvent.apply p) w

/-- The native operations among the calls made: send, read, skip, next-part and write. -/
def operationsIssued : List Effect → List Effect
  | [] => []
  | Effect.soup_request_send_async :: rest =>
    Effect.soup_request_send_async :: operationsIssued rest
  | Effect.g_input_stream_read_async :: rest =>
    Effect.g_input_stream_read_async :: operationsIssued rest
  | Effect.g_input_stream_skip_async :: rest =>
    Effect.g_input_stream_skip_async :: operationsIssued rest
  | Effect.soup_multipart_input_stream_next_part_async :: rest =>
    Effect.soup_multipart_input_stream_next_part_async :: operationsIssued rest
  | Effect.g_output_stream_write_all_async data :: rest =>
    Effect.g_output_stream_write_all_async data :: operationsIssued rest
  | _ :: rest => operationsIssued rest

/-- The task of `redirectScenario` at the moment its client has been asked to approve the
first redirect and has not answered: the send and the skip of the body have completed. -/
def pendingRedirectWorld : World ListStore := (redirectRun 2).world

/-- The URL `https://example/next`. -/
def exampleNextURL : URL := { exampleURL with path := "/next" }

/-- The continuation proposed for the first redirect of `redirectScenario`. -/
def exampleNextRequest : ResourceRequest :=
  { exampleRequest with url := exampleNextURL, firstPartyForCookies := exampleNextURL }

/-- The task of `redirectScenario` suspended while the skip of the body of its first
redirect response is in flight. -/
def suspendedSkipWorld : World ListStore := suspend (redirectRun 1).world

/-- The download of `downloadReadyWorld` once `download()` has opened its files and issued
the first read. -/
def downloadingWorld : World ListStore := download downloadReadyWorld

/-- The same download once the first read has completed with the chunk of the body and the
write of that chunk to the intermediate file is in flight. -/
def writingWorld : World ListStore :=
  completeRead { downloadingWorld with outstanding := [] }

/-- The same download suspended while that write is in flight. -/
def suspendedWriteWorld : World ListStore := suspend writingWorld

/-! ## Streaming a body to the client -/

/-- The calls the read loop makes for a run of chunks: each chunk is handed to the client,
then the next read is issued. -/
def streamedEffects : List Bytes → List Effect
  | [] => []
  | chunk :: rest =>
    Effect.clientDidReceiveData chunk :: Effect.g_input_stream_read_async :: streamedEffects rest

/-- The facts a task keeps while it streams a body that is not multipart to its client: it
is running, has its client, writes to no download, iterates over no multipart body, and
holds the cancellation token and the message of the task it started as. -/
def Delivering (w0 w : World σ) : Prop :=
  w.m_state = State.Running ∧ w.m_client = true ∧ w.m_downloadOutputStream = none
    ∧ w.m_multipartInputStream = none ∧ w.m_cancellable = w0.m_cancellable
    ∧ w.m_soupMessage = w0.m_soupMessage

/-- The task of `redirectScenario` when the server of `bodyServer` has answered and the
client has been asked what to do with the response. -/
def respondedWorld : World ListStore :=
  (Sim.run examplePlatform (approvingEnvironment bodyServer) 1 redirectScenario).world

/-! ## Answers to a challenge -/

/-- The number of times the transport message was unpaused. -/
def unpauseCount (effects : List Effect) : Nat :=
  effects.count Effect.soup_session_unpause_message

/-- A credential the client asks to keep for the session. -/
def exampleSessionCredential : Credential :=
  { user := "user", password := "secret",
    persistence := CredentialPersistence.CredentialPersistenceForSession }

/-- A credential the client asks to keep permanently. -/
def examplePermanentCredential : Credential :=
  { user := "user", password := "secret",
    persistence := CredentialPersistence.CredentialPersistencePermanent }

/-- A task for `https://example/` created with stored credentials not allowed, over an
empty store; the task is resumed and the server has answered 401. -/
def challengedWithoutStoreWorld : World ListStore :=
  { redirectScenario.world with
    m_soupMessage :=
      redirectScenario.world.m_soupMessage.map (fun m => { m with status_code := 401 }) }

/-- The task of `challengedWorld` after the client has answered the challenge with a
credential to keep permanently: the credential is staged for the write-through. The
message still carries the 401 that raised the challenge. -/
def stagedWorld : World ListStore :=
  didReceiveChallengeCompletion examplePlatform challengedWorld exampleChallenge
    AuthenticationChallengeDisposition.UseCredential examplePermanentCredential

/-- The message of a task created with stored credentials allowed, answered with the given
status. -/
def answeredMessage (status : Nat) : SoupMessage :=
  { exampleGetMessage with status_code := status, authManagerDisabled := false }

/-- The same task once the retried request has been answered with the given status. -/
def stagedWorldWithStatus (status : Nat) : World ListStore :=
  { stagedWorld with
    m_soupMessage := stagedWorld.m_soupMessage.map (fun m => { m with status_code := status }) }

/-! ## Failed downloads -/

/-- The report that ends `didFailDownload`: to the client while the task has one, to the
Download otherwise. -/
def failureReport (w : World σ) (error : ResourceError) : Effect :=
  if w.m_client then Effect.clientDidCompleteWithError error else Effect.downloadDidFail error

/-- The calls `clearRequest` makes on a task: none when it is already Completed. -/
def releaseEffects (w : World σ) : List Effect :=
  if w.m_state = State.Completed then [] else clearRequestEffects w

/-- The download of `downloadReadyWorld` when the response to download carries a 404. -/
def notFoundDownloadWorld : World ListStore :=
  { downloadReadyWorld with
    m_response := { downloadReadyWorld.m_response with httpStatusCode := 404 } }

/-- The download of `downloadReadyWorld` when a file already exists at the destination and
overwrite is not allowed. -/
def destinationTakenWorld : World ListStore :=
  { downloadReadyWorld with files := { entries := [(exampleDestination, [9, 9])], denied := [] } }

/-- The download of `downloadReadyWorld` when the intermediate file cannot be written. -/
def intermediateDeniedWorld : World ListStore :=
  { downloadReadyWorld with
    files := { entries := [], denied := [exampleDestination ++ wkdownloadSuffix] } }

/-- The download of `downloadingWorld` when the destination can no longer be written. -/
def moveDeniedWorld : World ListStore :=
  { downloadingWorld with
    files := { downloadingWorld.files with denied := [exampleDestination] } }

/-- A failed native operation. -/
def failedResult : GAsyncResult :=
  { GAsyncResult.empty with error := some (GError.mk 12 "No space left on device") }

/-- The task of `downloadReadyWorld` while its client is still attached, when a file already
exists at the destination, overwrite is not allowed, and an intermediate file was left
behind by an earlier download. -/
def attachedDownloadWorld : World ListStore :=
  { downloadReadyWorld with
    m_client := true
    files := { entries := [(exampleDestination, [9, 9]),
                            (exampleDestination ++ wkdownloadSuffix, [5])],
               denied := [] } }

/-! ## The timeout of a download -/

/-- A GET request for `https://example/` with a timeout of 30 seconds. -/
def timedRequest : ResourceRequest := { exampleRequest with timeoutInterval := 30 }

/-- A task for the timed request, turned into a download to `exampleDestination` once its
response has arrived: `download()` has opened its files, the first chunk of the body has
been read and written to the intermediate file, and the next read is in flight. The
client is detached, and the timeout armed by `resume()` is still running. -/
def timedDownloadWorld : World ListStore :=
  let responded :=
    (Sim.run examplePlatform (approvingEnvironment bodyServer) 1
      { world := resume examplePlatform
          (NetworkDataTaskSoup.create examplePlatform { credentials := [] } emptyFiles
            timedRequest StoredCredentials.DoNotAllowStoredCredentials
            ContentSniffingPolicy.DoNotSniffContent true)
        inbox := [] }).world
  let ready :=
    { setPendingDownloadLocation responded exampleDestination false with
      m_pendingDownloadID := 7, m_client := false }
  let writing := completeRead { download ready with outstanding := [] }
  completeWrite { writing with outstanding := [] } [1, 2, 3]

/-! ## The redirect rewrite, step by step -/

/-- The request `continueHTTPRedirection` holds before it looks at the method: the first
request with the URL and first party of the target, its Referer cleared on a hop from a
secure referrer to a non-secure target when the task was asked to. -/
def redirectBase (p : Platform σ) (w : World σ) : ResourceRequest :=
  let request := w.m_firstRequest
  let request := request.setURL (redirectTarget p w)
  let request := request.setFirstPartyForCookies request.url
  if w.m_shouldClearReferrerOnHTTPSToHTTPRedirect && !request.url.protocolIs "https"
      && protocolIs request.httpReferrer "https"
  then request.clearHTTPReferrer else request

/-- Whether the redirect crosses origins: the target differs from the URL of the first
request in scheme, host or port. -/
def isCrossOriginRedirect (p : Platform σ) (w : World σ) : Bool :=
  !protocolHostAndPortAreEqual w.m_firstRequest.url (redirectTarget p w)

/-- A HEAD request for `https://example/`. -/
def exampleHead : ResourceRequest := { exampleRequest with httpMethod := "HEAD" }

/-- The HEAD request to `https://example/` answered 303 with a same-origin Location. -/
def headSeeOtherWorld : World ListStore :=
  redirectedWorld exampleHead StoredCredentials.DoNotAllowStoredCredentials true 303 "/next"

/-- The POST to `https://example/` answered 303 with a same-origin Location. -/
def postSeeOtherWorld : World ListStore :=
  redirectedWorld examplePost StoredCredentials.DoNotAllowStoredCredentials true 303 "/next"

/-- The POST to `https://example/` answered 307 with a same-origin Location. -/
def postTemporaryWorld : World ListStore :=
  redirectedWorld examplePost StoredCredentials.DoNotAllowStoredCredentials true 307 "/next"

/-! ## A redirect chain that returns to its origin -/

/-- The URL `https://example/back`. -/
def exampleBackURL : URL := { exampleURL with path := "/back" }

/-- The platform of the examples, which also resolves `https://example/back`. -/
def chainPlatform : Platform ListStore :=
  { examplePlatform with
    completeURL := fun base relative =>
      if relative = "https://example/back" then exampleBackURL
      else examplePlatform.completeURL base relative }

/-- A response that redirects with status 307 to the given location, with an empty body. -/
def temporaryRedirect (location : String) : Exchange :=
  { error := none, status_code := 307, reason_phrase := "Temporary Redirect",
    response_headers := [(HTTPHeaderName.Location, location)],
    body := { chunks := [], parts := [] } }

/-- The request a client substitutes for a proposed continuation: a GET for the proposed
URL with a header of its own and another priority. -/
def substitutedRequest (proposed : ResourceRequest) : ResourceRequest :=
  { proposed with httpMethod := "GET", httpBody := none,
                  httpHeaderFields := [(HTTPHeaderName.other "X-Substituted", "1")],
                  priority := 5 }

/-- The events of a chain of two redirects: the POST of `examplePost` is sent and answered
with a redirect to `https://other/`; the client substitutes a request of its own for the
continuation; that request is sent and answered with a redirect back to
`https://example/back`, and the body of this second response has been received. -/
def chainEvents : List TaskEvent :=
  [TaskEvent.resume,
   TaskEvent.messageReceived (temporaryRedirect "https://other/"),
   TaskEvent.sendRequestCallback exampleSendResult,
   TaskEvent.skipInputStreamForRedirectionCallback GAsyncResult.empty,
   TaskEvent.willPerformHTTPRedirectionCompletion
     (substitutedRequest
       { examplePost with
         url := { exampleURL with protocol := "https", host := "other" }
         firstPartyForCookies := { exampleURL with protocol := "https", host := "other" }
         httpHeaderFields :=
           [(HTTPHeaderName.ContentType, "text/plain"),
            (HTTPHeaderName.Referer, "https://example/")] }),
   TaskEvent.messageReceived (temporaryRedirect "https://example/back"),
   TaskEvent.sendRequestCallback exampleSendResult]

/-- The task created for `examplePost`, after the events of the chain. -/
def chainWorld : World ListStore :=
  TaskEvent.applyAll chainPlatform
    (NetworkDataTaskSoup.create chainPlatform { credentials := [] } emptyFiles examplePost
      StoredCredentials.DoNotAllowStoredCredentials ContentSniffingPolicy.DoNotSniffContent true)
    chainEvents

/-! ## Late callbacks -/

/-- The native completions and the signal callbacks of a task: send, read, skip, next-part
and write completions, and the got-headers, wrote-body-data, TLS-errors and authenticate
signals. -/
def TaskEvent.isCallback : TaskEvent → Bool
  | TaskEvent.sendRequestCallback _ => true
  | TaskEvent.readCallback _ => true
  | TaskEvent.skipInputStreamForRedirectionCallback _ => true
  | TaskEvent.requestNextPartCallback _ => true
  | TaskEvent.writeDownloadCallback _ => true
  | TaskEvent.gotHeadersCallback => true
  | TaskEvent.wroteBodyDataCallback _ => true
  | TaskEvent.tlsErrorsChangedCallback _ => true
  | TaskEvent.authenticateCallback _ _ _ => true
  | _ => false

/-- The task for `https://example/`, created, resumed and then cancelled while its send is
in flight: the state is Canceling and the request is still held. -/
def cancelingWorld : World ListStore := cancel (resume examplePlatform createdWorld)

/-- The download of `writingWorld` once its stream has written the chunk of the body to
the intermediate file. -/
def writtenWorld : World ListStore :=
  (TaskEvent.streamWrote [1, 2, 3]).apply examplePlatform writingWorld

/-! ## Released and settled tasks -/

/-- Everything `clearRequest` releases is released: the pending-result slot, the transport
request and message, the input stream, the multipart input stream, the download output
stream and the cancellation token are empty, and the timeout watchdog is stopped. -/
def Released (w : World σ) : Prop :=
  w.m_pendingResult = none ∧ w.m_soupRequest = none ∧ w.m_soupMessage = none
    ∧ w.m_inputStream = none ∧ w.m_multipartInputStream = none
    ∧ w.m_downloadOutputStream = none ∧ w.m_cancellable = none ∧ w.m_timeoutSource = false

/-- A task that is released when it is Completed. -/
def Settled (w : World σ) : Prop :=
  w.m_state = State.Completed → Released w

/-! ## The reachable states of a task in its environment -/

/-- The native operation an event completes: each of the five completion callbacks reports
the end of the operation of its kind. -/
def TaskEvent.completes : TaskEvent → AsyncOp → Bool
  | TaskEvent.sendRequestCallback _, AsyncOp.send => true
  | TaskEvent.readCallback _, AsyncOp.read => true
  | TaskEvent.skipInputStreamForRedirectionCallback _, AsyncOp.skip => true
  | TaskEvent.requestNextPartCallback _, AsyncOp.nextPart => true
  | TaskEvent.writeDownloadCallback _, AsyncOp.write _ => true
  | _, _ => false

/-- The completion callbacks of the native operations. -/
def TaskEvent.isCompletion : TaskEvent → Bool
  | TaskEvent.sendRequestCallback _ => true
  | TaskEvent.readCallback _ => true
  | TaskEvent.skipInputStreamForRedirectionCallback _ => true
  | TaskEvent.requestNextPartCallback _ => true
  | TaskEvent.writeDownloadCallback _ => true
  | _ => false

/-- The question an answer of the client responds to: a policy decision answers a delivered
response, a continuation request (or the null request) answers a proposed redirect. -/
def TaskEvent.answers : TaskEvent → Effect → Bool
  | TaskEvent.didReceiveResponseCompletion _, Effect.clientDidReceiveResponse _ => true
  | TaskEvent.willPerformHTTPRedirectionCompletion _,
      Effect.clientWillPerformHTTPRedirection _ _ => true
  | _, _ => false

/-- The answers of the client to the questions of `questions`. -/
def TaskEvent.isAnswer : TaskEvent → Bool
  | TaskEvent.didReceiveResponseCompletion _ => true
  | TaskEvent.willPerformHTTPRedirectionCompletion _ => true
  | _ => false

/-- The states of a task in its environment that are reachable from its creation. The owner
may turn the task into a download and detach the client at any time; the transport may
change the content of the message, of the streams and of the files; the calls of the owner
(resume, suspend, cancel, invalidateAndCancel), the timeout, the transport signals and the
answers to a challenge may occur at any time; a completion callback runs only for an
operation that is in flight, which is then no longer in flight; a policy decision or an
answer to a proposed redirect is given only to a question that waits in the inbox, once. -/
inductive Reachable (p : Platform σ) : Sim σ → Prop where
  | created (store : σ) (files : FileSystem) (request : ResourceRequest)
      (storedCredentials : StoredCredentials) (shouldContentSniff : ContentSniffingPolicy)
      (shouldClearReferrer : Bool) :
    Reachable p
      { world := NetworkDataTaskSoup.create p store files request storedCredentials
          shouldContentSniff shouldClearReferrer
        inbox := [] }
  | configured (s : Sim σ) (downloadID : Nat) (location : String)
      (allowOverwrite client : Bool) :
    Reachable p s →
    Reachable p
      { s with world :=
          { s.world with m_pendingDownloadID := downloadID
                         m_pendingDownloadLocation := location
                         m_allowOverwriteDownload := allowOverwrite
                         m_client := client } }
  | transported (s : Sim σ) (message : Option SoupMessage) (input : Option GInputStream)
      (multipart : Option SoupMultipartInputStream) (files : FileSystem) :
    Reachable p s →
    message.isSome = s.world.m_soupMessage.isSome →
    input.isSome = s.world.m_inputStream.isSome →
    multipart.isSome = s.world.m_multipartInputStream.isSome →
    Reachable p
      { s with world :=
          { s.world with m_soupMessage := message
                         m_inputStream := input
                         m_multipartInputStream := multipart
                         files := files } }
  | called (s : Sim σ) (e : TaskEvent) :
    Reachable p s → e.isCompletion = false → e.isAnswer = false →
    Reachable p (Sim.advance s.inbox s.world (e.apply p s.world))
  | completed (s : Sim σ) (e : TaskEvent) (op : AsyncOp) :
    Reachable p s → op ∈ s.world.outstanding → e.completes op = true →
    Reachable p
      (Sim.advance s.inbox s.world
        (e.apply p { s.world with outstanding := s.world.outstanding.erase op }))
  | answered (s : Sim σ) (e : TaskEvent) (q : Effect) :
    Reachable p s → q ∈ s.inbox → e.answers q = true →
    Reachable p (Sim.advance (s.inbox.erase q) s.world (e.apply p s.world))

/-- A completed result is stored for replay by `resume`: one when the slot is filled. -/
def pendingCount (w : World σ) : Nat :=
  if w.m_pendingResult.isSome then 1 else 0

/-- A request waits to be sent by `resume`: one when the transport request is there and
no cancellation token has been made for it. -/
def unsentCount (w : World σ) : Nat :=
  if w.m_soupRequest.isSome ∧ w.m_cancellable.isNone then 1 else 0

/-- What a task has set in motion: the operations in flight, the questions it has asked,
the result stored for replay and the request that waits to be sent. -/
def load (w : World σ) : Nat :=
  w.outstanding.length + (questions w.effects).length + pendingCount w + unsentCount w

/-- The same for a task in its environment, with the questions that await their answer. -/
def Sim.load (s : Sim σ) : Nat :=
  s.world.outstanding.length + s.inbox.length + pendingCount s.world + unsentCount s.world

/-- The task of `createdWorld` resumed: its send is in flight. -/
def sendingSim : Sim ListStore :=
  Sim.advance [] createdWorld (TaskEvent.resume.apply examplePlatform createdWorld)

/-! ## The download stream and the destination -/

/-- The download stream is aside of the destination: the download location of the task is
the destination, and the stream the task holds, if any, is opened on another path. -/
def StreamAside (destination : String) (w : World σ) : Prop :=
  w.m_pendingDownloadLocation = destination
    ∧ ∀ stream, w.m_downloadOutputStream = some stream → stream.path ≠ destination

/-! ## Steps of the owner -/

/-- A step in the life of a task: an event, or its owner configuring it. The owner may at
any time assign the download identifier, set the download location and the overwrite flag,
and detach or attach the client. -/
inductive TaskStep where
  | event (e : TaskEvent)
  | configure (downloadID : Nat) (location : String) (allowOverwrite client : Bool)

/-- The task after a step. -/
def TaskStep.apply (p : Platform σ) (w : World σ) : TaskStep → World σ
  | TaskStep.event e => e.apply p w
  | TaskStep.configure downloadID location allowOverwrite client =>
    { w with m_pendingDownloadID := downloadID
             m_pendingDownloadLocation := location
             m_allowOverwriteDownload := allowOverwrite
             m_client := client }

/-- The task after a sequence of steps. -/
def TaskStep.applyAll (p : Platform σ) (w : World σ) (steps : List TaskStep) : World σ :=
  steps.foldl (TaskStep.apply p) w

/-- The steps of a download up to its first read: the task is resumed, the send completes
with the body stream, the owner turns the task into a download to `exampleDestination` and
detaches the client, and the policy answer starts the download. -/
def downloadSteps : List TaskStep :=
  [TaskStep.event TaskEvent.resume,
    TaskStep.event (TaskEvent.sendRequestCallback exampleSendResult),
    TaskStep.configure 7 exampleDestination false false,
    TaskStep.event (TaskEvent.didReceiveResponseCompletion PolicyAction.PolicyDownload)]

/-- The same download invalidated while its first read is in flight. -/
def cancelledDownloadSteps : List TaskStep :=
  downloadSteps ++ [TaskStep.event TaskEvent.invalidateAndCancel]

/-! ## Basic facts about the model -/

theorem string_isEmpty_eq_true (s : String) : s.isEmpty = true ↔ s = "" :=
  String.isEmpty_iff s

theorem string_isEmpty_eq_false (s : String) : s.isEmpty = false ↔ s ≠ "" := by
  rw [← Bool.not_eq_true, string_isEmpty_eq_true]

theorem string_append_ne_self (s t : String) (h : t ≠ "") : s ++ t ≠ s := by
  intro h'
  apply h
  have := congrArg String.data h'
  simp at this
  exact String.ext this

theorem iterate_of_idempotent {α : Type} (f : α → α) (h : ∀ a, f (f a) = f a) (n : Nat)
    (hn : 1 ≤ n) (a : α) : f^[n] a = f a := by
  induction n with
  | zero => omega
  | succ k ih =>
    rcases Nat.eq_zero_or_pos k with hk | hk
    · subst hk; rfl
    · rw [Function.iterate_succ_apply', ih hk, h]

theorem headerMap_contains_remove (m : HTTPHeaderMap) (a b : HTTPHeaderName) :
    HTTPHeaderMap.contains (HTTPHeaderMap.remove m a) b
      = (if a = b then false else HTTPHeaderMap.contains m b) := by
  induction m with
  | nil => simp [HTTPHeaderMap.remove, HTTPHeaderMap.contains]
  | cons e rest ih =>
    obtain ⟨n, v⟩ := e
    by_cases hna : n = a
    · subst hna
      simp only [HTTPHeaderMap.remove, if_true, ih, HTTPHeaderMap.contains]
      by_cases hab : n = b
      · simp [hab]
      · simp [hab]
    · simp only [HTTPHeaderMap.remove, hna, if_false, HTTPHeaderMap.contains, ih]
      by_cases hnb : n = b
      · subst hnb
        simp [Ne.symm hna]
      · simp [hnb]

theorem headerMap_get_remove_self (m : HTTPHeaderMap) (a : HTTPHeaderName) :
    HTTPHeaderMap.get (HTTPHeaderMap.remove m a) a = "" := by
  induction m with
  | nil => simp [HTTPHeaderMap.remove, HTTPHeaderMap.get]
  | cons e rest ih =>
    obtain ⟨n, v⟩ := e
    by_cases hna : n = a
    · simp [HTTPHeaderMap.remove, hna, ih]
    · simp [HTTPHeaderMap.remove, hna, HTTPHeaderMap.get, ih]

theorem clearRequest_state (w : World σ) : (clearRequest w).m_state = State.Completed := by
  unfold clearRequest
  split
  · assumption
  · dsimp only [stopTimeout, World.emit]
    split <;> split <;> rfl

theorem clearRequest_of_completed (w : World σ) (h : w.m_state = State.Completed) :
    clearRequest w = w := by
  simp [clearRequest, h]

theorem clearRequest_idempotent (w : World σ) : clearRequest (clearRequest w) = clearRequest w :=
  clearRequest_of_completed _ (clearRequest_state w)

theorem cleanDownloadFiles_state (w : World σ) : (cleanDownloadFiles w).m_state = w.m_state := by
  unfold cleanDownloadFiles
  dsimp only
  split <;> split <;> rfl

theorem cancel_state (w : World σ) :
    (cancel w).m_state = State.Canceling ∨ (cancel w).m_state = State.Completed := by
  unfold cancel
  split
  · assumption
  · left
    dsimp only [World.emit]
    split
    · rw [cleanDownloadFiles_state]
      split <;> split <;> rfl
    · split <;> split <;> rfl

/-! ## Cancellation and release -/

theorem cancel_of_canceling_or_completed (w : World σ)
    (h : w.m_state = State.Canceling ∨ w.m_state = State.Completed) : cancel w = w := by
  unfold cancel
  rw [if_pos h]

theorem cancel_state_completed_iff (w : World σ) :
    (cancel w).m_state = State.Completed ↔ w.m_state = State.Completed := by
  unfold cancel
  split
  · rfl
  · rename_i h
    have h2 : w.m_state ≠ State.Completed := fun hc => h (Or.inr hc)
    dsimp only [World.emit]
    constructor
    · intro hc
      exfalso
      revert hc
      split
      · rw [cleanDownloadFiles_state]
        split <;> split <;> simp
      · split <;> split <;> simp
    · intro hc
      exact absurd hc h2

theorem cleanDownloadFiles_effects (w : World σ) :
    (cleanDownloadFiles w).effects = w.effects := by
  unfold cleanDownloadFiles
  dsimp only
  split <;> split <;> rfl

theorem releaseCount_append (a b : List Effect) :
    releaseCount (a ++ b) = releaseCount a + releaseCount b := by
  simp [releaseCount, List.count_append]

theorem cancel_releaseCount (w : World σ) :
    releaseCount (cancel w).effects = releaseCount w.effects := by
  unfold cancel
  split
  · rfl
  · dsimp only [World.emit]
    split
    · rw [cleanDownloadFiles_effects]
      split <;> split <;> simp [releaseCount_append] <;> simp [releaseCount]
    · split <;> split <;> simp [releaseCount_append] <;> simp [releaseCount]

theorem clearRequest_releaseCount (w : World σ) :
    releaseCount (clearRequest w).effects
      = releaseCount w.effects + (if w.m_state = State.Completed then 0 else 1) := by
  unfold clearRequest
  split
  · simp
  · dsimp only [stopTimeout, World.emit]
    split <;> split <;> simp [releaseCount_append] <;> simp [releaseCount]

theorem readCallback_of_canceling_or_completed (w : World σ) (result : GAsyncResult)
    (h : w.m_state = State.Canceling ∨ w.m_state = State.Completed) :
    readCallback w result = clearRequest w := by
  unfold readCallback
  rw [if_pos]
  rcases h with h | h
  · exact Or.inl h
  · exact Or.inr (Or.inl h)

theorem sendRequestCallback_of_canceling_or_completed (p : Platform σ) (w : World σ)
    (result : GAsyncResult) (h : w.m_state = State.Canceling ∨ w.m_state = State.Completed) :
    sendRequestCallback p w result = clearRequest w := by
  unfold sendRequestCallback
  rw [if_pos]
  rcases h with h | h
  · exact Or.inl h
  · exact Or.inr (Or.inl h)

theorem timeoutFired_of_canceling_or_completed (w : World σ)
    (h : w.m_state = State.Canceling ∨ w.m_state = State.Completed) :
    timeoutFired w = clearRequest w := by
  unfold timeoutFired
  rw [if_pos]
  rcases h with h | h
  · exact Or.inl h
  · exact Or.inr (Or.inl h)

/-- C6: `cancel()` is idempotent. For every task state, a second `cancel()` leaves the task
and the log of calls exactly as the first left them. After it, `invalidateAndCancel`, the
timeout and late read or send completions all reduce to `clearRequest`, and any number
(one or more) of `clearRequest` calls equals a single one: the release is performed once,
when the task was not yet Completed, and never again once it is. -/
theorem cancel_twice_releases_once (p : Platform σ) (w : World σ) (n : Nat)
    (result : GAsyncResult) :
    cancel (cancel w) = cancel w
    ∧ invalidateAndCancel (cancel w) = clearRequest (cancel w)
    ∧ timeoutFired (cancel w) = clearRequest (cancel w)
    ∧ readCallback (cancel w) result = clearRequest (cancel w)
    ∧ sendRequestCallback p (cancel w) result = clearRequest (cancel w)
    ∧ clearRequest^[n + 1] (cancel (cancel w)) = clearRequest (cancel w)
    ∧ (clearRequest^[n + 1] (cancel (cancel w))).m_state = State.Completed
    ∧ releaseCount (clearRequest^[n + 1] (cancel (cancel w))).effects
        = releaseCount w.effects + (if w.m_state = State.Completed then 0 else 1) := by
  have h2 : cancel (cancel w) = cancel w := cancel_of_canceling_or_completed _ (cancel_state w)
  have hit : clearRequest^[n + 1] (cancel (cancel w)) = clearRequest (cancel w) := by
    rw [h2]
    exact iterate_of_idempotent clearRequest clearRequest_idempotent (n + 1) (by omega) _
  refine ⟨h2, ?_, timeoutFired_of_canceling_or_completed _ (cancel_state w),
    readCallback_of_canceling_or_completed _ _ (cancel_state w),
    sendRequestCallback_of_canceling_or_completed p _ _ (cancel_state w), hit, ?_, ?_⟩
  · unfold invalidateAndCancel
    rw [h2]
  · rw [hit]
    exact clearRequest_state _
  · rw [hit, clearRequest_releaseCount, cancel_releaseCount]
    by_cases hc : w.m_state = State.Completed
    · simp [hc, (cancel_state_completed_iff w).mpr hc]
    · have : (cancel w).m_state ≠ State.Completed :=
        fun h => hc ((cancel_state_completed_iff w).mp h)
      simp [hc, this]

/-! ## Suspend and resume -/

theorem clearRequest_pendingResult (w : World σ) (h : w.m_pendingResult = none) :
    (clearRequest w).m_pendingResult = none := by
  unfold clearRequest
  split
  · exact h
  · dsimp only [stopTimeout, World.emit]
    split <;> split <;> rfl

theorem cleanDownloadFiles_pendingResult (w : World σ) :
    (cleanDownloadFiles w).m_pendingResult = w.m_pendingResult := by
  unfold cleanDownloadFiles
  dsimp only
  split <;> split <;> rfl

theorem callClient_pendingResult (w : World σ) (e : Effect) :
    (w.callClient e).m_pendingResult = w.m_pendingResult := by
  unfold World.callClient World.emit
  split <;> rfl

theorem didFailDownload_pendingResult (w : World σ) (error : ResourceError)
    (h : w.m_pendingResult = none) : (didFailDownload w error).m_pendingResult = none := by
  unfold didFailDownload
  dsimp only [World.emit]
  split <;>
    exact (cleanDownloadFiles_pendingResult _).trans (clearRequest_pendingResult w h)

theorem didFail_pendingResult (w : World σ) (error : ResourceError)
    (h : w.m_pendingResult = none) : (didFail w error).m_pendingResult = none := by
  unfold didFail
  split
  · exact didFailDownload_pendingResult w _ h
  · dsimp only
    rw [callClient_pendingResult]
    exact clearRequest_pendingResult w h

theorem didSendRequest_pendingResult (p : Platform σ) (w : World σ)
    (inputStream : Option GInputStream) (h : w.m_pendingResult = none) :
    (didSendRequest p w inputStream).m_pendingResult = none := by
  unfold didSendRequest
  dsimp only [skipInputStreamForRedirection, didReceiveResponse, World.start]
  repeat' split
  all_goals first
    | exact h
    | (rw [callClient_pendingResult]; exact h)

theorem sendRequestCallback_pendingResult (p : Platform σ) (w : World σ) (result : GAsyncResult)
    (hstate : w.m_state = State.Running) (h : w.m_pendingResult = none) :
    (sendRequestCallback p w result).m_pendingResult = none := by
  unfold sendRequestCallback
  split
  · exact clearRequest_pendingResult w h
  · split
    · rename_i hs
      rw [hstate] at hs
      exact absurd hs (by decide)
    · split
      · exact didFail_pendingResult w _ h
      · exact didSendRequest_pendingResult p w _ h

/-- C5: suspend/resume does not lose a completion. For every task that has its client and
is ready for its initial send (not cancelled or completed, no scheduled failure, a
transport request and no cancellation token or stream yet): `resume()` issues the send; if
`suspend()` follows before the send completes, the completion is stored in the
pending-result slot and nothing else changes (no call is made, no operation started); the
next `resume()` empties the slot and runs the send callback exactly once on that
completion, on the running task, and the slot is empty afterwards. -/
theorem suspended_send_completion_is_replayed (p : Platform σ) (w : World σ)
    (result : GAsyncResult)
    (hcanceling : w.m_state ≠ State.Canceling) (hcompleted : w.m_state ≠ State.Completed)
    (hfailure : w.m_scheduledFailureType = FailureType.NoFailure)
    (hrequest : w.m_soupRequest.isSome = true) (hcancellable : w.m_cancellable = none)
    (hinput : w.m_inputStream = none) (hmultipart : w.m_multipartInputStream = none)
    (hclient : w.m_client = true) :
    (resume p w).effects = w.effects ++ [Effect.soup_request_send_async]
    ∧ (resume p w).outstanding = w.outstanding ++ [AsyncOp.send]
    ∧ sendRequestCallback p (suspend (resume p w)) result
        = { suspend (resume p w) with m_pendingResult := some result }
    ∧ resume p (sendRequestCallback p (suspend (resume p w)) result)
        = sendRequestCallback p
            (startTimeout { suspend (resume p w) with
                            m_state := State.Running, m_pendingResult := none })
            result
    ∧ (resume p (sendRequestCallback p (suspend (resume p w)) result)).m_pendingResult = none := by
  have hnot : ¬ (w.m_state = State.Canceling ∨ w.m_state = State.Completed) := by
    rintro (h | h)
    · exact hcanceling h
    · exact hcompleted h
  have hresume : resume p w
      = { startTimeout { w with m_state := State.Running } with
          m_cancellable := some (GCancellable.mk false)
          outstanding := w.outstanding ++ [AsyncOp.send]
          effects := w.effects ++ [Effect.soup_request_send_async] } := by
    unfold resume
    rw [if_neg hnot]
    dsimp only
    rw [if_neg (by simp [hfailure])]
    unfold startTimeout
    split <;> simp [hrequest, hcancellable, World.start]
  have hsuspend : suspend (resume p w)
      = { w with m_state := State.Suspended
                 m_timeoutSource := false
                 m_cancellable := some (GCancellable.mk false)
                 outstanding := w.outstanding ++ [AsyncOp.send]
                 effects := w.effects ++ [Effect.soup_request_send_async] } := by
    rw [hresume]
    unfold suspend startTimeout stopTimeout
    split <;> simp
  have hcallback : sendRequestCallback p (suspend (resume p w)) result
      = { suspend (resume p w) with m_pendingResult := some result } := by
    rw [hsuspend]
    unfold sendRequestCallback
    simp [hclient]
  have hreplay : resume p (sendRequestCallback p (suspend (resume p w)) result)
      = sendRequestCallback p
          (startTimeout { suspend (resume p w) with
                          m_state := State.Running, m_pendingResult := none })
          result := by
    rw [hcallback, hsuspend]
    unfold resume
    simp [hfailure, hinput, hmultipart, hrequest]
    unfold startTimeout
    split <;> simp [hinput, hmultipart, hrequest]
  refine ⟨?_, ?_, hcallback, hreplay, ?_⟩
  · rw [hresume]
  · rw [hresume]
  · rw [hreplay]
    apply sendRequestCallback_pendingResult
    · unfold startTimeout
      split <;> rfl
    · unfold startTimeout
      split <;> rfl

/-! ## Redirect continuation -/

theorem clearRequest_client (w : World σ) : (clearRequest w).m_client = w.m_client := by
  unfold clearRequest
  split
  · rfl
  · dsimp only [stopTimeout, World.emit]
    split <;> split <;> rfl

theorem clearRequest_response (w : World σ) : (clearRequest w).m_response = w.m_response := by
  unfold clearRequest
  split
  · rfl
  · dsimp only [stopTimeout, World.emit]
    split <;> split <;> rfl

theorem clearRequest_eq (w : World σ) (h : w.m_state ≠ State.Completed) :
    clearRequest w
      = { w with m_state := State.Completed
                 m_timeoutSource := false
                 m_pendingResult := none
                 m_soupRequest := none
                 m_inputStream := none
                 m_multipartInputStream := none
                 m_downloadOutputStream := none
                 m_cancellable := none
                 m_soupMessage := none
                 effects := w.effects ++ clearRequestEffects w } := by
  unfold clearRequest
  rw [if_neg h]
  dsimp only [stopTimeout, World.emit]
  cases hc : w.m_cancellable <;> dsimp only <;> cases hm : w.m_soupMessage <;>
    simp [clearRequestEffects, hc, hm]

theorem clearRequest_effects (w : World σ) :
    ∃ l, (clearRequest w).effects = w.effects ++ l
      ∧ ∀ e ∈ l, e = Effect.g_cancellable_cancel ∨ e = Effect.disconnectMessageSignals
          ∨ e = Effect.soup_session_cancel_message ∨ e = Effect.disconnectSessionSignals := by
  by_cases h : w.m_state = State.Completed
  · exact ⟨[], by simp [clearRequest_of_completed w h], by simp⟩
  · refine ⟨clearRequestEffects w, by rw [clearRequest_eq w h], ?_⟩
    intro e he
    unfold clearRequestEffects at he
    simp only [List.mem_append, List.mem_singleton] at he
    rcases he with (he | he) | he
    · split at he
      · simp at he; exact Or.inl he
      · simp at he
    · split at he
      · simp at he
        rcases he with he | he
        · exact Or.inr (Or.inl he)
        · exact Or.inr (Or.inr (Or.inl he))
      · simp at he
    · exact Or.inr (Or.inr (Or.inr he))

theorem clearRequest_then_ask (w : World σ) (e : Effect) (h : w.m_client = true) :
    ∃ l, ((clearRequest w).callClient e).effects = w.effects ++ l ++ [e]
      ∧ ∀ r q, Effect.clientWillPerformHTTPRedirection r q ∉ l := by
  obtain ⟨l, hl, hmem⟩ := clearRequest_effects w
  refine ⟨l, ?_, ?_⟩
  · unfold World.callClient
    rw [clearRequest_client, if_pos h]
    unfold World.emit
    dsimp only
    rw [hl]
  · intro r q hin
    rcases hmem _ hin with h1 | h1 | h1 | h1 <;> cases h1

theorem continueHTTPRedirection_proposes (p : Platform σ) (w : World σ)
    (hclient : w.m_client = true) (hcount : w.m_redirectCount ≤ maxRedirects) :
    ∃ l, (continueHTTPRedirection p w).effects
        = w.effects ++ l
          ++ [Effect.clientWillPerformHTTPRedirection w.m_response (redirectRequest p w)]
      ∧ ∀ r q, Effect.clientWillPerformHTTPRedirection r q ∉ l := by
  unfold continueHTTPRedirection
  dsimp only
  rw [if_neg (by omega)]
  simp only [clearRequest_response]
  repeat' split
  all_goals exact clearRequest_then_ask _ _ hclient

theorem redirectRequest_httpMethod (p : Platform σ) (w : World σ) :
    (redirectRequest p w).httpMethod = (redirectRequestWithCredentials p w).httpMethod := by
  unfold redirectRequest
  dsimp only
  split <;> rfl

theorem redirectRequest_httpBody (p : Platform σ) (w : World σ) :
    (redirectRequest p w).httpBody = (redirectRequestWithCredentials p w).httpBody := by
  unfold redirectRequest
  dsimp only
  split <;> rfl

theorem redirectRequestWithCredentials_url (p : Platform σ) (w : World σ) :
    (redirectRequestWithCredentials p w).url = redirectTarget p w := by
  unfold redirectRequestWithCredentials
  dsimp only
  repeat' split
  all_goals rfl

theorem protocolIsInHTTPFamily_of_same_origin (a b : URL)
    (h : protocolHostAndPortAreEqual a b = true) (ha : a.protocolIsInHTTPFamily = true) :
    b.protocolIsInHTTPFamily = true := by
  unfold protocolHostAndPortAreEqual at h
  simp only [Bool.and_eq_true, beq_iff_eq] at h
  unfold URL.protocolIsInHTTPFamily URL.protocolIs at *
  rw [← h.1.1]
  exact ha

theorem protocolHostAndPortAreEqual_iff (a b : URL) :
    protocolHostAndPortAreEqual a b = true
      ↔ a.protocol = b.protocol ∧ a.host = b.host ∧ a.port = b.port := by
  unfold protocolHostAndPortAreEqual
  simp only [Bool.and_eq_true, beq_iff_eq, and_assoc]

theorem protocolHostAndPortAreEqual_false_iff (a b : URL) :
    protocolHostAndPortAreEqual a b = false
      ↔ a.protocol ≠ b.protocol ∨ a.host ≠ b.host ∨ a.port ≠ b.port := by
  rw [← Bool.not_eq_true, protocolHostAndPortAreEqual_iff]
  constructor
  · intro h
    by_cases h1 : a.protocol = b.protocol
    · by_cases h2 : a.host = b.host
      · exact Or.inr (Or.inr (fun h3 => h ⟨h1, h2, h3⟩))
      · exact Or.inr (Or.inl h2)
    · exact Or.inl h1
  · rintro (h | h | h) ⟨h1, h2, h3⟩
    · exact h h1
    · exact h h2
    · exact h h3

theorem post_not_get : equalLettersIgnoringASCIICase "POST" "get" = false := by decide

/-- C2: redirect rewrite law. For every same-origin redirect of a POST request (the task's
first request is a POST to an HTTP-family URL and the message being redirected still
carries method POST), answered while the redirect count is within the limit,
`continueHTTPRedirection` proposes a continuation request to the client; with status 302
its method is GET and its body is cleared, with status 307 it keeps method POST and the
body of the original request. -/
theorem post_redirect_rewrite_law (p : Platform σ) (w : World σ) (m : SoupMessage)
    (hclient : w.m_client = true) (hcount : w.m_redirectCount ≤ maxRedirects)
    (hmessage : w.m_soupMessage = some m) (hmethod : m.method = "POST")
    (hfirst : w.m_firstRequest.httpMethod = "POST")
    (hfamily : w.m_firstRequest.url.protocolIsInHTTPFamily = true)
    (horigin : w.m_firstRequest.url.protocol = (redirectTarget p w).protocol
      ∧ w.m_firstRequest.url.host = (redirectTarget p w).host
      ∧ w.m_firstRequest.url.port = (redirectTarget p w).port) :
    (∃ l, (continueHTTPRedirection p w).effects
        = w.effects ++ l
          ++ [Effect.clientWillPerformHTTPRedirection w.m_response (redirectRequest p w)]
      ∧ ∀ r q, Effect.clientWillPerformHTTPRedirection r q ∉ l)
    ∧ (m.status_code = 302 →
        (redirectRequest p w).httpMethod = "GET" ∧ (redirectRequest p w).httpBody = none)
    ∧ (m.status_code = 307 →
        (redirectRequest p w).httpMethod = "POST"
          ∧ (redirectRequest p w).httpBody = w.m_firstRequest.httpBody) := by
  have hsame : protocolHostAndPortAreEqual w.m_firstRequest.url (redirectTarget p w) = true :=
    (protocolHostAndPortAreEqual_iff _ _).mpr horigin
  have htarget := protocolIsInHTTPFamily_of_same_origin _ _ hsame hfamily
  refine ⟨continueHTTPRedirection_proposes p w hclient hcount, ?_, ?_⟩
  · intro hstatus
    rw [redirectRequest_httpMethod, redirectRequest_httpBody]
    unfold redirectRequestWithCredentials
    simp [hmessage, hmethod, hfirst, hstatus, shouldRedirectAsGET, ResourceRequest.setURL,
      ResourceRequest.setFirstPartyForCookies, ResourceRequest.clearHTTPReferrer,
      ResourceRequest.setHTTPMethod, ResourceRequest.setHTTPBody,
      ResourceRequest.clearHTTPContentType, apply_ite ResourceRequest.httpMethod, post_not_get]
  · intro hstatus
    have hfalse : shouldRedirectAsGET m
        (!protocolHostAndPortAreEqual w.m_firstRequest.url (redirectTarget p w)) = false := by
      simp [shouldRedirectAsGET, hmethod, hstatus]
    rw [redirectRequest_httpMethod, redirectRequest_httpBody]
    unfold redirectRequestWithCredentials
    dsimp only [ResourceRequest.setURL, ResourceRequest.setFirstPartyForCookies]
    split <;>
      simp [hmessage, hmethod, hfirst, hfalse, ResourceRequest.clearHTTPReferrer, post_not_get,
        htarget]

theorem post_redirect_rewrite_law_witness :
    postRedirectWorld.m_client = true
    ∧ postRedirectWorld.m_redirectCount ≤ maxRedirects
    ∧ postRedirectWorld.m_soupMessage = some (examplePostMessage 302 "/next")
    ∧ postRedirectWorld.m_firstRequest.httpMethod = "POST"
    ∧ postRedirectWorld.m_firstRequest.url.host
        = (redirectTarget examplePlatform postRedirectWorld).host
    ∧ (examplePostMessage 302 "/next").status_code = 302
    ∧ (redirectRequest examplePlatform postRedirectWorld).httpMethod = "GET"
    ∧ (redirectRequest examplePlatform postRedirectWorld).httpBody = none :=
  ⟨by decide, by decide, by decide, by decide, by decide, rfl,
    (post_redirect_rewrite_law examplePlatform postRedirectWorld (examplePostMessage 302 "/next")
      (by decide) (by decide) (by decide) (by decide) (by decide) (by decide)
      ⟨by decide, by decide, by decide⟩).2.1 rfl⟩

theorem redirectRequest_headers_cross_origin (p : Platform σ) (w : World σ)
    (hcross : protocolHostAndPortAreEqual w.m_firstRequest.url (redirectTarget p w) = false) :
    (redirectRequest p w).httpHeaderFields
      = HTTPHeaderMap.remove
          (HTTPHeaderMap.remove (redirectRequestWithCredentials p w).httpHeaderFields
            HTTPHeaderName.Authorization)
          HTTPHeaderName.Origin := by
  unfold redirectRequest
  dsimp only
  rw [redirectRequestWithCredentials_url, hcross]
  rfl

/-- C3: cross-origin redirect law. For every redirect whose target differs from the URL of
the original request in scheme, host or port, answered while the redirect count is within
the limit, the continuation request that `continueHTTPRedirection` hands to the client
carries neither an Authorization header nor an Origin header. -/
theorem cross_origin_redirect_strips_authorization_and_origin (p : Platform σ) (w : World σ)
    (hclient : w.m_client = true) (hcount : w.m_redirectCount ≤ maxRedirects)
    (horigin : w.m_firstRequest.url.protocol ≠ (redirectTarget p w).protocol
      ∨ w.m_firstRequest.url.host ≠ (redirectTarget p w).host
      ∨ w.m_firstRequest.url.port ≠ (redirectTarget p w).port) :
    (∃ l, (continueHTTPRedirection p w).effects
        = w.effects ++ l
          ++ [Effect.clientWillPerformHTTPRedirection w.m_response (redirectRequest p w)]
      ∧ ∀ r q, Effect.clientWillPerformHTTPRedirection r q ∉ l)
    ∧ HTTPHeaderMap.contains (redirectRequest p w).httpHeaderFields HTTPHeaderName.Authorization
        = false
    ∧ HTTPHeaderMap.contains (redirectRequest p w).httpHeaderFields HTTPHeaderName.Origin
        = false := by
  have hcross : protocolHostAndPortAreEqual w.m_firstRequest.url (redirectTarget p w) = false :=
    (protocolHostAndPortAreEqual_false_iff _ _).mpr horigin
  refine ⟨continueHTTPRedirection_proposes p w hclient hcount, ?_, ?_⟩
  · rw [redirectRequest_headers_cross_origin p w hcross]
    simp [headerMap_contains_remove]
  · rw [redirectRequest_headers_cross_origin p w hcross]
    simp [headerMap_contains_remove]

theorem cross_origin_redirect_strips_authorization_and_origin_witness :
    crossOriginWorld.m_client = true
    ∧ crossOriginWorld.m_redirectCount ≤ maxRedirects
    ∧ crossOriginWorld.m_firstRequest.url.host
        ≠ (redirectTarget examplePlatform crossOriginWorld).host
    ∧ HTTPHeaderMap.contains crossOriginWorld.m_firstRequest.httpHeaderFields
        HTTPHeaderName.Authorization = true
    ∧ HTTPHeaderMap.contains (redirectRequest examplePlatform crossOriginWorld).httpHeaderFields
        HTTPHeaderName.Authorization = false
    ∧ HTTPHeaderMap.contains (redirectRequest examplePlatform crossOriginWorld).httpHeaderFields
        HTTPHeaderName.Origin = false :=
  ⟨by decide, by decide, by decide, by decide,
    (cross_origin_redirect_strips_authorization_and_origin examplePlatform crossOriginWorld
      (by decide) (by decide) (Or.inr (Or.inl (by decide)))).2⟩

theorem redirectRequestWithCredentials_referrer (p : Platform σ) (w : World σ)
    (hflag : w.m_shouldClearReferrerOnHTTPSToHTTPRedirect = true)
    (htarget : (redirectTarget p w).protocolIs "https" = false)
    (hreferrer : protocolIs w.m_firstRequest.httpReferrer "https" = true) :
    HTTPHeaderMap.contains (redirectRequestWithCredentials p w).httpHeaderFields
      HTTPHeaderName.Referer = false := by
  unfold redirectRequestWithCredentials
  have hr : protocolIs
      ((w.m_firstRequest.setURL (redirectTarget p w)).setFirstPartyForCookies
        (w.m_firstRequest.setURL (redirectTarget p w)).url).httpReferrer "https" = true := hreferrer
  simp only [hflag, ResourceRequest.setURL, ResourceRequest.setFirstPartyForCookies] at hr ⊢
  simp only [htarget, hr, Bool.not_false, Bool.and_self, if_true]
  repeat' split
  all_goals
    simp [ResourceRequest.clearHTTPReferrer, ResourceRequest.clearHTTPContentType,
      ResourceRequest.setHTTPMethod, ResourceRequest.setHTTPBody, headerMap_contains_remove]

theorem redirectRequest_contains_referrer (p : Platform σ) (w : World σ)
    (h : HTTPHeaderMap.contains (redirectRequestWithCredentials p w).httpHeaderFields
      HTTPHeaderName.Referer = false) :
    HTTPHeaderMap.contains (redirectRequest p w).httpHeaderFields HTTPHeaderName.Referer
      = false := by
  unfold redirectRequest
  dsimp only
  split
  · simp [ResourceRequest.clearHTTPAuthorization, ResourceRequest.clearHTTPOrigin,
      ResourceRequest.removeCredentials, headerMap_contains_remove, h]
  · simpa [ResourceRequest.removeCredentials] using h

/-- C4, as amended: secure-to-insecure referrer stripping. For every redirect handled by a
task that was created with `shouldClearReferrerOnHTTPSToHTTPRedirect` set, to a non-https
target, where the original request carries an https Referer, the continuation request
proposed by `continueHTTPRedirection` has no Referer header. -/
theorem secure_to_insecure_redirect_strips_referrer (p : Platform σ) (w : World σ)
    (hclient : w.m_client = true) (hcount : w.m_redirectCount ≤ maxRedirects)
    (hflag : w.m_shouldClearReferrerOnHTTPSToHTTPRedirect = true)
    (htarget : (redirectTarget p w).protocolIs "https" = false)
    (hreferrer : protocolIs w.m_firstRequest.httpReferrer "https" = true) :
    (∃ l, (continueHTTPRedirection p w).effects
        = w.effects ++ l
          ++ [Effect.clientWillPerformHTTPRedirection w.m_response (redirectRequest p w)]
      ∧ ∀ r q, Effect.clientWillPerformHTTPRedirection r q ∉ l)
    ∧ HTTPHeaderMap.contains (redirectRequest p w).httpHeaderFields HTTPHeaderName.Referer
        = false :=
  ⟨continueHTTPRedirection_proposes p w hclient hcount,
    redirectRequest_contains_referrer p w
      (redirectRequestWithCredentials_referrer p w hflag htarget hreferrer)⟩

theorem secure_to_insecure_redirect_strips_referrer_witness :
    referrerClearedWorld.m_client = true
    ∧ referrerClearedWorld.m_redirectCount ≤ maxRedirects
    ∧ referrerClearedWorld.m_shouldClearReferrerOnHTTPSToHTTPRedirect = true
    ∧ referrerClearedWorld.m_firstRequest.url.protocolIs "https" = true
    ∧ (redirectTarget examplePlatform referrerClearedWorld).protocolIs "https" = false
    ∧ protocolIs referrerClearedWorld.m_firstRequest.httpReferrer "https" = true
    ∧ HTTPHeaderMap.contains
        (redirectRequest examplePlatform referrerClearedWorld).httpHeaderFields
        HTTPHeaderName.Referer = false :=
  ⟨by decide, by decide, by decide, by decide, by decide, by decide,
    (secure_to_insecure_redirect_strips_referrer examplePlatform referrerClearedWorld
      (by decide) (by decide) (by decide) (by decide) (by decide)).2⟩

/-- C4, counterexample: `https://example/`, requested with `Referer: https://example/` by a
task created without `shouldClearReferrerOnHTTPSToHTTPRedirect`, answers 301 with
`Location: http://example/`; the continuation request proposed to the client still carries
`Referer: https://example/`. -/
theorem referrer_kept_on_secure_to_insecure_redirect :
    referrerKeptWorld.m_firstRequest.url.protocolIs "https" = true
    ∧ referrerKeptWorld.m_response.httpStatusCode = 301
    ∧ (redirectTarget examplePlatform referrerKeptWorld).protocolIs "https" = false
    ∧ protocolIs referrerKeptWorld.m_firstRequest.httpReferrer "https" = true
    ∧ (continueHTTPRedirection examplePlatform referrerKeptWorld).effects.getLast?
        = some (Effect.clientWillPerformHTTPRedirection referrerKeptWorld.m_response
            (redirectRequest examplePlatform referrerKeptWorld))
    ∧ HTTPHeaderMap.get (redirectRequest examplePlatform referrerKeptWorld).httpHeaderFields
        HTTPHeaderName.Referer = "https://example/" := by
  refine ⟨by decide, by decide, by decide, by decide, by decide, by decide⟩

/-! ## Redirect eligibility -/

theorem shouldStartHTTPRedirection_iff (v : World σ) :
    shouldStartHTTPRedirection v = true ↔
      300 ≤ v.m_response.httpStatusCode ∧ v.m_response.httpStatusCode ≤ 399
      ∧ v.m_response.httpStatusCode ≠ 300 ∧ v.m_response.httpStatusCode ≠ 304
      ∧ v.m_response.httpStatusCode ≠ 305 ∧ v.m_response.httpStatusCode ≠ 306
      ∧ v.m_response.httpHeaderField HTTPHeaderName.Location ≠ "" := by
  unfold shouldStartHTTPRedirection SOUP_STATUS_IS_REDIRECTION
  simp only [string_isEmpty_eq_true, Bool.not_eq_true', Bool.and_eq_false_iff,
    decide_eq_false_iff_not, Bool.or_eq_true, beq_iff_eq]
  constructor
  · intro h
    split at h
    · cases h
    · split at h
      · cases h
      · split at h
        · cases h
        · rename_i h1 h2 h3
          refine ⟨by omega, by omega, by omega, by omega, by omega, by omega, h3⟩
  · rintro ⟨h1, h2, h3, h4, h5, h6, h7⟩
    rw [if_neg (by omega), if_neg (by omega), if_neg h7]

theorem shouldStartHTTPRedirection_congr (v w : World σ) (h : v.m_response = w.m_response) :
    shouldStartHTTPRedirection v = shouldStartHTTPRedirection w := by
  unfold shouldStartHTTPRedirection
  rw [h]

theorem didSendRequest_redirect (p : Platform σ) (w : World σ) (m : SoupMessage)
    (inputStream : Option GInputStream) (hmessage : w.m_soupMessage = some m)
    (h : shouldStartHTTPRedirection { w with m_response := receivedResponse p w m } = true) :
    didSendRequest p w inputStream
      = { w with m_response := receivedResponse p w m
                 m_inputStream := inputStream
                 outstanding := w.outstanding ++ [AsyncOp.skip]
                 effects := w.effects ++ [Effect.g_input_stream_skip_async] } := by
  unfold didSendRequest
  split
  · rename_i soupMessage hsome
    rw [hmessage] at hsome
    cases hsome
    dsimp only
    rw [if_pos h]
    rfl
  · rename_i hnone
    rw [hmessage] at hnone
    cases hnone

theorem didSendRequest_deliver (p : Platform σ) (w : World σ) (m : SoupMessage)
    (inputStream : Option GInputStream) (hmessage : w.m_soupMessage = some m)
    (hclient : w.m_client = true)
    (h : shouldStartHTTPRedirection { w with m_response := receivedResponse p w m } = false) :
    didSendRequest p w inputStream
      = { w with m_response := receivedResponse p w m
                 m_inputStream :=
                   if (receivedResponse p w m).isMultipart then w.m_inputStream else inputStream
                 m_multipartInputStream :=
                   if (receivedResponse p w m).isMultipart
                   then some (soup_multipart_input_stream_new inputStream)
                   else w.m_multipartInputStream
                 effects := w.effects
                   ++ [Effect.clientDidReceiveResponse (receivedResponse p w m)] } := by
  unfold didSendRequest
  split
  · rename_i soupMessage hsome
    rw [hmessage] at hsome
    cases hsome
    dsimp only
    rw [if_neg (by rw [h]; decide)]
    unfold didReceiveResponse World.callClient World.emit
    split <;> simp [hclient]
  · rename_i hnone
    rw [hmessage] at hnone
    cases hnone

/-- C10: redirect eligibility. For every response, `shouldStartHTTPRedirection` returns true
if and only if the status is in 300..399, is none of 300, 304, 305, 306, and the response
carries a non-empty Location header. For every HTTP exchange of a task that has its client,
the response `didSendRequest` builds from the message is judged that way: when it is
eligible, `didSendRequest` starts the redirect continuation (the body is skipped, and at the
end of the body the skip callback of the running task runs `continueHTTPRedirection`) and
the response is not delivered to the client; when it is not eligible, the response is
delivered to the client for a policy decision and no skip is started. -/
theorem redirect_eligibility (p : Platform σ) (v w : World σ) (m : SoupMessage)
    (inputStream : Option GInputStream)
    (hmessage : w.m_soupMessage = some m) (hclient : w.m_client = true) :
    (shouldStartHTTPRedirection v = true ↔
      300 ≤ v.m_response.httpStatusCode ∧ v.m_response.httpStatusCode ≤ 399
      ∧ v.m_response.httpStatusCode ≠ 300 ∧ v.m_response.httpStatusCode ≠ 304
      ∧ v.m_response.httpStatusCode ≠ 305 ∧ v.m_response.httpStatusCode ≠ 306
      ∧ v.m_response.httpHeaderField HTTPHeaderName.Location ≠ "")
    ∧ (didSendRequest p w inputStream).m_response = receivedResponse p w m
    ∧ (shouldStartHTTPRedirection (didSendRequest p w inputStream) = true →
        (didSendRequest p w inputStream).effects
            = w.effects ++ [Effect.g_input_stream_skip_async]
        ∧ (didSendRequest p w inputStream).outstanding = w.outstanding ++ [AsyncOp.skip]
        ∧ (w.m_state = State.Running →
            skipInputStreamForRedirectionCallback p (didSendRequest p w inputStream)
                GAsyncResult.empty
              = continueHTTPRedirection p
                  ((didSendRequest p w inputStream).emit Effect.g_input_stream_close)))
    ∧ (shouldStartHTTPRedirection (didSendRequest p w inputStream) = false →
        (didSendRequest p w inputStream).effects
            = w.effects ++ [Effect.clientDidReceiveResponse (receivedResponse p w m)]
        ∧ (didSendRequest p w inputStream).outstanding = w.outstanding) := by
  refine ⟨shouldStartHTTPRedirection_iff v, ?_, ?_, ?_⟩
  · cases h : shouldStartHTTPRedirection { w with m_response := receivedResponse p w m }
    · rw [didSendRequest_deliver p w m inputStream hmessage hclient h]
    · rw [didSendRequest_redirect p w m inputStream hmessage h]
  · intro hs
    cases h : shouldStartHTTPRedirection { w with m_response := receivedResponse p w m }
    · rw [didSendRequest_deliver p w m inputStream hmessage hclient h] at hs
      have h2 : shouldStartHTTPRedirection { w with m_response := receivedResponse p w m }
          = true := (shouldStartHTTPRedirection_congr _ _ rfl).trans hs
      rw [h] at h2
      cases h2
    · rw [didSendRequest_redirect p w m inputStream hmessage h]
      refine ⟨rfl, rfl, ?_⟩
      intro hrunning
      unfold skipInputStreamForRedirectionCallback
      simp [hrunning, hclient, GAsyncResult.empty, didFinishSkipInputStreamForRedirection]
  · intro hs
    cases h : shouldStartHTTPRedirection { w with m_response := receivedResponse p w m }
    · rw [didSendRequest_deliver p w m inputStream hmessage hclient h]
      exact ⟨rfl, rfl⟩
    · rw [didSendRequest_redirect p w m inputStream hmessage h] at hs
      have h2 : shouldStartHTTPRedirection { w with m_response := receivedResponse p w m }
          = false := (shouldStartHTTPRedirection_congr _ _ rfl).trans hs
      rw [h] at h2
      cases h2

theorem suspended_send_completion_is_replayed_witness :
    createdWorld.m_state ≠ State.Canceling ∧ createdWorld.m_state ≠ State.Completed
    ∧ createdWorld.m_scheduledFailureType = FailureType.NoFailure
    ∧ createdWorld.m_soupRequest.isSome = true ∧ createdWorld.m_cancellable = none
    ∧ createdWorld.m_inputStream = none ∧ createdWorld.m_multipartInputStream = none
    ∧ createdWorld.m_client = true
    ∧ sendRequestCallback examplePlatform (suspend (resume examplePlatform createdWorld))
          exampleSendResult
        = { suspend (resume examplePlatform createdWorld) with
            m_pendingResult := some exampleSendResult }
    ∧ (resume examplePlatform
        (sendRequestCallback examplePlatform (suspend (resume examplePlatform createdWorld))
          exampleSendResult)).m_pendingResult = none :=
  ⟨by decide, by decide, by decide, by decide, by decide, by decide, by decide, by decide,
    (suspended_send_completion_is_replayed examplePlatform createdWorld exampleSendResult
      (by decide) (by decide) (by decide) (by decide) (by decide) (by decide) (by decide)
      (by decide)).2.2.1,
    (suspended_send_completion_is_replayed examplePlatform createdWorld exampleSendResult
      (by decide) (by decide) (by decide) (by decide) (by decide) (by decide) (by decide)
      (by decide)).2.2.2.2⟩

theorem redirect_eligibility_witness :
    sentWorld.m_soupMessage = some (examplePostMessage 302 "/next")
    ∧ sentWorld.m_client = true
    ∧ shouldStartHTTPRedirection (didSendRequest examplePlatform sentWorld none) = true
    ∧ (didSendRequest examplePlatform sentWorld none).effects
        = sentWorld.effects ++ [Effect.g_input_stream_skip_async] :=
  ⟨by decide, by decide, by decide,
    ((redirect_eligibility examplePlatform sentWorld sentWorld (examplePostMessage 302 "/next")
      none (by decide) (by decide)).2.2.1 (by decide)).1⟩

/-! ## The redirect cap -/

set_option maxRecDepth 1000000 in
/-- C1, evaluated on the code: a task for `https://example/` whose redirect count starts at
0, whose client approves every continuation, and whose server answers every request with a
302. After 21 consecutive redirect responses (three steps each) the 21st continuation has
been proposed and approved, the redirect count is 21, no error has been reported, and the
22nd request has been sent. Only the 22nd redirect response fails the task with the
too-many-redirects error. -/
theorem twenty_first_redirect_is_followed :
    redirectScenario.world.m_redirectCount = 0
    ∧ sendCount redirectScenario.world.effects = 1
    ∧ redirectsProposed (redirectRun 63).world.effects = 21
    ∧ (redirectRun 63).world.m_redirectCount = 21
    ∧ reportedErrors (redirectRun 63).world.effects = []
    ∧ sendCount (redirectRun 63).world.effects = 22
    ∧ (redirectRun 63).world.outstanding = [AsyncOp.send]
    ∧ (reportedErrors (redirectRun 65).world.effects).map
          (fun e => (e.kind, e.errorCode, e.localizedDescription))
        = [(ErrorKind.transport, (SOUP_STATUS_TOO_MANY_REDIRECTS : Int), "Too many redirects")]
    ∧ sendCount (redirectRun 65).world.effects = 22 :=
  ⟨by rfl, by rfl, by rfl, by rfl, by rfl, by rfl, by rfl, by rfl, by rfl⟩

/-! ## Authentication -/

theorem credential_ne_of_isEmpty (a b : Credential) (ha : a.isEmpty = false)
    (hb : b.isEmpty = true) : a ≠ b := by
  intro h
  rw [h, hb] at ha
  cases ha

/-- C8, as amended: the stored-credential shortcut. For every authentication challenge with
previous failure count 0, when stored credentials are allowed, the task holds no initial
credential, and the Credential Store holds a non-empty credential for the protection space
of the challenge, `authenticate()` supplies that credential to the transport and does
nothing else: the message is not paused, no persistent lookup is started, and the client's
`didReceiveChallenge` is not invoked. -/
theorem stored_credential_shortcut (p : Platform σ) (w : World σ)
    (challenge : AuthenticationChallenge)
    (hallow : w.m_storedCredentials = StoredCredentials.AllowStoredCredentials)
    (hcount : challenge.previousFailureCount = 0)
    (hinitial : w.m_initialCredential.isEmpty = true)
    (hstored : (p.credentialGet w.credentialStorage challenge.protectionSpace).isEmpty = false) :
    (authenticate p w challenge).effects
      = w.effects ++
        [Effect.soup_auth_authenticate
          (p.credentialGet w.credentialStorage challenge.protectionSpace).user
          (p.credentialGet w.credentialStorage challenge.protectionSpace).password] := by
  have hne := credential_ne_of_isEmpty _ _ hstored hinitial
  unfold authenticate
  rw [if_pos hallow]
  dsimp only
  have hkeep : ¬ (w.m_initialCredential.isEmpty = false ∨ challenge.previousFailureCount ≠ 0) := by
    simp [hinitial, hcount]
  rw [if_neg hkeep, if_pos hcount, if_pos ⟨hstored, hne⟩]
  unfold World.emit
  split <;> rfl

theorem stored_credential_shortcut_witness :
    freshChallengedWorld.m_storedCredentials = StoredCredentials.AllowStoredCredentials
    ∧ exampleChallenge.previousFailureCount = 0
    ∧ freshChallengedWorld.m_initialCredential.isEmpty = true
    ∧ (examplePlatform.credentialGet freshChallengedWorld.credentialStorage
        exampleChallenge.protectionSpace).isEmpty = false
    ∧ (authenticate examplePlatform freshChallengedWorld exampleChallenge).effects
        = freshChallengedWorld.effects ++ [Effect.soup_auth_authenticate "user" "secret"] :=
  ⟨by decide, by decide, by decide, by decide,
    stored_credential_shortcut examplePlatform freshChallengedWorld exampleChallenge
      (by decide) (by decide) (by decide) (by decide)⟩

/-- C8, counterexample: a task created for `https://example/` with stored credentials
allowed, over a store that holds a session credential for the server. The constructor
keeps the stored credential as initial credential; on the first challenge (no previous
failure) for the protection space that holds that credential, `authenticate()` removes it
from the store, pauses the message and starts the persistent lookup, supplies nothing to
the transport, and when the lookup completes the client's `didReceiveChallenge` is
invoked. -/
theorem stored_credential_not_supplied_after_initial_credential :
    challengedWorld.m_storedCredentials = StoredCredentials.AllowStoredCredentials
    ∧ exampleChallenge.previousFailureCount = 0
    ∧ examplePlatform.credentialGet challengedWorld.credentialStorage
        exampleChallenge.protectionSpace = exampleCredential
    ∧ exampleCredential.isEmpty = false
    ∧ (authenticate examplePlatform challengedWorld exampleChallenge).effects
        = challengedWorld.effects
          ++ [Effect.soup_session_pause_message,
              Effect.getCredentialFromPersistentStorage exampleSpace]
    ∧ (getCredentialFromPersistentStorageCompletion
          (authenticate examplePlatform challengedWorld exampleChallenge) exampleChallenge
          Credential.null).effects
        = challengedWorld.effects
          ++ [Effect.soup_session_pause_message,
              Effect.getCredentialFromPersistentStorage exampleSpace,
              Effect.clientDidReceiveChallenge exampleChallenge] := by
  refine ⟨by decide, by decide, by decide, by decide, by decide, by decide⟩

/-! ## The read loop -/

theorem vectorShrink_bufferFill (buffer data : Bytes) :
    vectorShrink (bufferFill buffer data) data.length = data := by
  simp [vectorShrink, bufferFill]

theorem bufferFill_nil (buffer : Bytes) : bufferFill buffer [] = buffer := by
  simp [bufferFill]

theorem readCallback_data (w : World σ) (result : GAsyncResult)
    (hstate : w.m_state = State.Running) (hclient : w.m_client = true)
    (hstream : w.m_downloadOutputStream = none)
    (herror : result.error = none) (hbytes : result.bytes ≠ []) :
    readCallback w result
      = { w with m_readBuffer := vectorGrow [] gDefaultReadBufferSize
                 outstanding := w.outstanding ++ [AsyncOp.read]
                 effects := w.effects
                   ++ [Effect.clientDidReceiveData result.bytes,
                       Effect.g_input_stream_read_async] } := by
  have hlen : result.bytes.length > 0 := List.length_pos.mpr hbytes
  unfold readCallback
  rw [if_neg (by simp [hstate, hclient]), if_neg (by simp [hstate]), herror]
  dsimp only
  rw [if_pos hlen]
  unfold didRead
  dsimp only
  rw [hstream]
  dsimp only
  rw [vectorShrink_bufferFill]
  unfold World.callClient
  rw [if_pos hclient]
  simp [read, World.start, World.emit]

theorem readCallback_end_of_part (w : World σ) (result : GAsyncResult)
    (multipart : SoupMultipartInputStream)
    (hstate : w.m_state = State.Running) (hclient : w.m_client = true)
    (hmultipart : w.m_multipartInputStream = some multipart)
    (herror : result.error = none) (hbytes : result.bytes = []) :
    readCallback w result
      = { w with m_inputStream := none
                 outstanding := w.outstanding ++ [AsyncOp.nextPart]
                 effects := w.effects
                   ++ [Effect.g_input_stream_close,
                       Effect.soup_multipart_input_stream_next_part_async] } := by
  unfold readCallback
  rw [if_neg (by simp [hstate, hclient]), if_neg (by simp [hstate]), herror, hbytes]
  dsimp only
  rw [if_neg (by simp), bufferFill_nil]
  unfold didFinishRead
  simp [hmultipart, requestNextPart, World.start, World.emit]

theorem requestNextPartCallback_part (p : Platform σ) (w : World σ) (result : GAsyncResult)
    (multipart : SoupMultipartInputStream) (inputStream : GInputStream)
    (hstate : w.m_state = State.Running) (hclient : w.m_client = true)
    (hmultipart : w.m_multipartInputStream = some multipart)
    (herror : result.error = none) (hstream : result.inputStream = some inputStream) :
    requestNextPartCallback p w result
      = { w with m_inputStream := some inputStream
                 m_response := partResponse p w.m_firstRequest multipart.headers
                 effects := w.effects
                   ++ [Effect.clientDidReceiveResponse
                        (partResponse p w.m_firstRequest multipart.headers)] } := by
  unfold requestNextPartCallback
  rw [if_neg (by simp [hstate, hclient]), if_neg (by simp [hstate]), herror, hstream]
  dsimp only
  unfold didRequestNextPart didReceiveResponse World.callClient
  simp [hmultipart, hclient, World.emit, partResponse]

theorem requestNextPartCallback_last (p : Platform σ) (w : World σ) (result : GAsyncResult)
    (hstate : w.m_state = State.Running) (hclient : w.m_client = true)
    (herror : result.error = none) (hstream : result.inputStream = none) :
    requestNextPartCallback p w result
      = (clearRequest (w.emit Effect.g_input_stream_close)).callClient
          (Effect.clientDidCompleteWithError ResourceError.null) := by
  unfold requestNextPartCallback
  rw [if_neg (by simp [hstate, hclient]), if_neg (by simp [hstate]), herror, hstream]
  rfl

theorem didReceiveResponseCompletion_use_read (w : World σ) (inputStream : GInputStream)
    (hstate : w.m_state = State.Running) (hinput : w.m_inputStream = some inputStream) :
    didReceiveResponseCompletion w PolicyAction.PolicyUse
      = { w with m_readBuffer := vectorGrow w.m_readBuffer gDefaultReadBufferSize
                 outstanding := w.outstanding ++ [AsyncOp.read]
                 effects := w.effects ++ [Effect.g_input_stream_read_async] } := by
  unfold didReceiveResponseCompletion
  rw [if_neg (by simp [hstate])]
  simp [hinput, read, World.start]

theorem didReceiveResponseCompletion_use_nextPart (w : World σ)
    (multipart : SoupMultipartInputStream)
    (hstate : w.m_state = State.Running) (hinput : w.m_inputStream = none)
    (hmultipart : w.m_multipartInputStream = some multipart) :
    didReceiveResponseCompletion w PolicyAction.PolicyUse
      = { w with outstanding := w.outstanding ++ [AsyncOp.nextPart]
                 effects := w.effects ++ [Effect.soup_multipart_input_stream_next_part_async] } := by
  unfold didReceiveResponseCompletion
  rw [if_neg (by simp [hstate])]
  simp [hinput, hmultipart, requestNextPart, World.start]

/-! ## Steps of the environment -/

theorem Sim.step_complete (p : Platform σ) (env : Environment) (w : World σ) (op : AsyncOp)
    (ops : List AsyncOp) (h : w.outstanding = op :: ops) :
    Sim.step p env { world := w, inbox := [] }
      = some (Sim.advance [] w (complete p env { w with outstanding := ops } op)) := by
  unfold Sim.step
  simp only [h]

theorem Sim.step_answer (p : Platform σ) (env : Environment) (w : World σ) (q : Effect)
    (rest : List Effect) :
    Sim.step p env { world := w, inbox := q :: rest }
      = some (Sim.advance rest w (answer p env w q)) := by
  unfold Sim.step
  rfl

theorem Sim.advance_eq (inbox : List Effect) (before after : World σ) (new : List Effect)
    (h : after.effects = before.effects ++ new) :
    Sim.advance inbox before after = { world := after, inbox := inbox ++ questions new } := by
  unfold Sim.advance
  rw [h, List.drop_left]

theorem Sim.run_succ (p : Platform σ) (env : Environment) (n : Nat) (s s' : Sim σ)
    (h : Sim.step p env s = some s') : Sim.run p env (n + 1) s = Sim.run p env n s' := by
  simp only [Sim.run, h]

theorem Sim.run_rest (p : Platform σ) (env : Environment) (n : Nat) (s : Sim σ)
    (h : Sim.step p env s = none) : Sim.run p env n s = s := by
  cases n with
  | zero => rfl
  | succ k => simp only [Sim.run, h]

theorem clientTrace_append (a b : List Effect) :
    clientTrace (a ++ b) = clientTrace a ++ clientTrace b := by
  induction a with
  | nil => rfl
  | cons e rest ih => cases e <;> simp [clientTrace, ih]

theorem Sim.step_read_chunk (p : Platform σ) (env : Environment) (w0 w : World σ)
    (chunk : Bytes) (chunks : List Bytes) (parts : List (HTTPHeaderMap × List Bytes))
    (hw : Streaming w0 w) (hinput : w.m_inputStream = some { chunks := chunk :: chunks, parts := parts })
    (hout : w.outstanding = [AsyncOp.read]) (hchunk : chunk ≠ []) :
    ∃ w', Sim.step p env { world := w, inbox := [] } = some { world := w', inbox := [] }
      ∧ Streaming w0 w'
      ∧ w'.m_inputStream = some { chunks := chunks, parts := parts }
      ∧ w'.m_multipartInputStream = w.m_multipartInputStream
      ∧ w'.outstanding = [AsyncOp.read]
      ∧ clientTrace w'.effects = clientTrace w.effects ++ [Effect.clientDidReceiveData chunk] := by
  obtain ⟨hstate, hclient, hstream, hfirst⟩ := hw
  have hcomplete : complete p env { w with outstanding := [] } AsyncOp.read
      = { w with m_inputStream := some { chunks := chunks, parts := parts }
                 m_readBuffer := vectorGrow [] gDefaultReadBufferSize
                 outstanding := [AsyncOp.read]
                 effects := w.effects
                   ++ [Effect.clientDidReceiveData chunk, Effect.g_input_stream_read_async] } := by
    unfold complete completeRead
    simp only [hinput]
    rw [readCallback_data
      { w with outstanding := [], m_inputStream := some { chunks := chunks, parts := parts } }
      { GAsyncResult.empty with bytes := chunk } hstate hclient hstream rfl hchunk]
    simp
  refine ⟨complete p env { w with outstanding := [] } AsyncOp.read, ?_, ?_⟩
  · rw [Sim.step_complete p env w _ _ hout,
      Sim.advance_eq _ _ _
        [Effect.clientDidReceiveData chunk, Effect.g_input_stream_read_async]
        (by rw [hcomplete])]
    rfl
  · rw [hcomplete]
    exact ⟨⟨hstate, hclient, hstream, hfirst⟩, rfl, rfl, rfl,
      by simp [clientTrace_append, clientTrace]⟩

theorem Sim.run_read_chunks (p : Platform σ) (env : Environment) (w0 : World σ)
    (parts : List (HTTPHeaderMap × List Bytes)) (chunks : List Bytes) :
    ∀ (w : World σ) (k : Nat), Streaming w0 w →
      w.m_inputStream = some { chunks := chunks, parts := parts } →
      w.outstanding = [AsyncOp.read] → (∀ c ∈ chunks, c ≠ []) →
      ∃ w', Sim.run p env (chunks.length + k) { world := w, inbox := [] }
          = Sim.run p env k { world := w', inbox := [] }
        ∧ Streaming w0 w'
        ∧ w'.m_inputStream = some { chunks := [], parts := parts }
        ∧ w'.m_multipartInputStream = w.m_multipartInputStream
        ∧ w'.outstanding = [AsyncOp.read]
        ∧ clientTrace w'.effects
            = clientTrace w.effects ++ chunks.map Effect.clientDidReceiveData := by
  induction chunks with
  | nil =>
    intro w k hw hinput hout _
    exact ⟨w, by simp, hw, hinput, rfl, hout, by simp⟩
  | cons chunk rest ih =>
    intro w k hw hinput hout hne
    obtain ⟨w1, hstep, hw1, hinput1, hmulti1, hout1, htrace1⟩ :=
      Sim.step_read_chunk p env w0 w chunk rest parts hw hinput hout
        (hne chunk (List.mem_cons_self _ _))
    obtain ⟨w2, hrun, hw2, hinput2, hmulti2, hout2, htrace2⟩ :=
      ih w1 k hw1 hinput1 hout1 (fun c hc => hne c (List.mem_cons_of_mem _ hc))
    refine ⟨w2, ?_, hw2, hinput2, hmulti2.trans hmulti1, hout2, ?_⟩
    · rw [List.length_cons, Nat.add_right_comm, Sim.run_succ p env _ _ _ hstep, hrun]
    · rw [htrace2, htrace1]
      simp

theorem questions_append (a b : List Effect) :
    questions (a ++ b) = questions a ++ questions b := by
  induction a with
  | nil => rfl
  | cons e rest ih => cases e <;> simp [questions, ih]

theorem clearRequest_outstanding (w : World σ) :
    (clearRequest w).outstanding = w.outstanding := by
  unfold clearRequest
  split
  · rfl
  · dsimp only [stopTimeout, World.emit]
    split <;> split <;> rfl

theorem clearRequest_silent (w : World σ) :
    ∃ l, (clearRequest w).effects = w.effects ++ l ∧ clientTrace l = [] ∧ questions l = [] := by
  obtain ⟨l, hl, hmem⟩ := clearRequest_effects w
  refine ⟨l, hl, ?_, ?_⟩
  · clear hl
    induction l with
    | nil => rfl
    | cons e rest ih =>
      have hrest := ih (fun x hx => hmem x (List.mem_cons_of_mem _ hx))
      rcases hmem e (List.mem_cons_self _ _) with h | h | h | h <;> subst h <;>
        simpa [clientTrace] using hrest
  · clear hl
    induction l with
    | nil => rfl
    | cons e rest ih =>
      have hrest := ih (fun x hx => hmem x (List.mem_cons_of_mem _ hx))
      rcases hmem e (List.mem_cons_self _ _) with h | h | h | h <;> subst h <;>
        simpa [questions] using hrest

theorem Sim.step_end_of_part (p : Platform σ) (env : Environment) (w0 w : World σ)
    (parts : List (HTTPHeaderMap × List Bytes)) (multipart : SoupMultipartInputStream)
    (hw : Streaming w0 w) (hinput : w.m_inputStream = some { chunks := [], parts := parts })
    (hmultipart : w.m_multipartInputStream = some multipart)
    (hout : w.outstanding = [AsyncOp.read]) :
    ∃ w', Sim.step p env { world := w, inbox := [] } = some { world := w', inbox := [] }
      ∧ Streaming w0 w'
      ∧ w'.m_inputStream = none
      ∧ w'.m_multipartInputStream = some multipart
      ∧ w'.outstanding = [AsyncOp.nextPart]
      ∧ clientTrace w'.effects = clientTrace w.effects := by
  obtain ⟨hstate, hclient, hstream, hfirst⟩ := hw
  have hcomplete : complete p env { w with outstanding := [] } AsyncOp.read
      = { w with m_inputStream := none
                 outstanding := [AsyncOp.nextPart]
                 effects := w.effects
                   ++ [Effect.g_input_stream_close,
                       Effect.soup_multipart_input_stream_next_part_async] } := by
    unfold complete completeRead
    simp only [hinput]
    rw [readCallback_end_of_part
      { w with outstanding := [], m_inputStream := some { chunks := [], parts := parts } }
      GAsyncResult.empty multipart hstate hclient hmultipart rfl rfl]
    simp
  refine ⟨complete p env { w with outstanding := [] } AsyncOp.read, ?_, ?_⟩
  · rw [Sim.step_complete p env w _ _ hout,
      Sim.advance_eq _ _ _
        [Effect.g_input_stream_close, Effect.soup_multipart_input_stream_next_part_async]
        (by rw [hcomplete])]
    rfl
  · rw [hcomplete]
    exact ⟨⟨hstate, hclient, hstream, hfirst⟩, rfl, hmultipart, rfl,
      by simp [clientTrace_append, clientTrace]⟩

theorem Sim.step_next_part (p : Platform σ) (env : Environment) (w0 w : World σ)
    (headers previous : HTTPHeaderMap) (chunks : List Bytes)
    (rest : List (HTTPHeaderMap × List Bytes))
    (hw : Streaming w0 w)
    (hmultipart : w.m_multipartInputStream
      = some { parts := (headers, chunks) :: rest, headers := previous })
    (hout : w.outstanding = [AsyncOp.nextPart]) :
    ∃ w', Sim.step p env { world := w, inbox := [] }
        = some { world := w'
                 inbox := [Effect.clientDidReceiveResponse
                   (partResponse p w0.m_firstRequest headers)] }
      ∧ Streaming w0 w'
      ∧ w'.m_inputStream = some { chunks := chunks, parts := [] }
      ∧ w'.m_multipartInputStream = some { parts := rest, headers := headers }
      ∧ w'.outstanding = []
      ∧ clientTrace w'.effects
          = clientTrace w.effects
            ++ [Effect.clientDidReceiveResponse (partResponse p w0.m_firstRequest headers)] := by
  obtain ⟨hstate, hclient, hstream, hfirst⟩ := hw
  have hcomplete : complete p env { w with outstanding := [] } AsyncOp.nextPart
      = { w with m_multipartInputStream := some { parts := rest, headers := headers }
                 m_inputStream := some { chunks := chunks, parts := [] }
                 m_response := partResponse p w0.m_firstRequest headers
                 outstanding := []
                 effects := w.effects
                   ++ [Effect.clientDidReceiveResponse
                        (partResponse p w0.m_firstRequest headers)] } := by
    unfold complete completeNextPart
    simp only [hmultipart]
    rw [requestNextPartCallback_part p
      { w with outstanding := []
               m_multipartInputStream := some { parts := rest, headers := headers } }
      { GAsyncResult.empty with inputStream := some { chunks := chunks, parts := [] } }
      { parts := rest, headers := headers } { chunks := chunks, parts := [] }
      hstate hclient rfl rfl rfl]
    simp [hfirst]
  refine ⟨complete p env { w with outstanding := [] } AsyncOp.nextPart, ?_, ?_⟩
  · rw [Sim.step_complete p env w _ _ hout,
      Sim.advance_eq _ _ _
        [Effect.clientDidReceiveResponse (partResponse p w0.m_firstRequest headers)]
        (by rw [hcomplete])]
    rfl
  · rw [hcomplete]
    exact ⟨⟨hstate, hclient, hstream, hfirst⟩, rfl, rfl, rfl,
      by simp [clientTrace_append, clientTrace]⟩

theorem Sim.step_use_part (p : Platform σ) (env : Environment) (w0 w : World σ)
    (response : ResourceResponse) (inputStream : GInputStream)
    (hpolicy : env.policy response = PolicyAction.PolicyUse)
    (hw : Streaming w0 w) (hinput : w.m_inputStream = some inputStream)
    (hout : w.outstanding = []) :
    ∃ w', Sim.step p env { world := w, inbox := [Effect.clientDidReceiveResponse response] }
        = some { world := w', inbox := [] }
      ∧ Streaming w0 w'
      ∧ w'.m_inputStream = some inputStream
      ∧ w'.m_multipartInputStream = w.m_multipartInputStream
      ∧ w'.outstanding = [AsyncOp.read]
      ∧ clientTrace w'.effects = clientTrace w.effects := by
  obtain ⟨hstate, hclient, hstream, hfirst⟩ := hw
  have hanswer : answer p env w (Effect.clientDidReceiveResponse response)
      = { w with m_readBuffer := vectorGrow w.m_readBuffer gDefaultReadBufferSize
                 outstanding := [AsyncOp.read]
                 effects := w.effects ++ [Effect.g_input_stream_read_async] } := by
    show didReceiveResponseCompletion w (env.policy response) = _
    rw [hpolicy, didReceiveResponseCompletion_use_read w inputStream hstate hinput]
    simp [hout]
  refine ⟨answer p env w (Effect.clientDidReceiveResponse response), ?_, ?_⟩
  · rw [Sim.step_answer,
      Sim.advance_eq _ _ _ [Effect.g_input_stream_read_async] (by rw [hanswer])]
    rfl
  · rw [hanswer]
    exact ⟨⟨hstate, hclient, hstream, hfirst⟩, hinput, rfl, rfl,
      by simp [clientTrace_append, clientTrace]⟩

theorem Sim.step_use_multipart (p : Platform σ) (env : Environment) (w0 w : World σ)
    (response : ResourceResponse) (multipart : SoupMultipartInputStream)
    (hpolicy : env.policy response = PolicyAction.PolicyUse)
    (hw : Streaming w0 w) (hinput : w.m_inputStream = none)
    (hmultipart : w.m_multipartInputStream = some multipart)
    (hout : w.outstanding = []) :
    ∃ w', Sim.step p env { world := w, inbox := [Effect.clientDidReceiveResponse response] }
        = some { world := w', inbox := [] }
      ∧ Streaming w0 w'
      ∧ w'.m_inputStream = none
      ∧ w'.m_multipartInputStream = some multipart
      ∧ w'.outstanding = [AsyncOp.nextPart]
      ∧ clientTrace w'.effects = clientTrace w.effects := by
  obtain ⟨hstate, hclient, hstream, hfirst⟩ := hw
  have hanswer : answer p env w (Effect.clientDidReceiveResponse response)
      = { w with outstanding := [AsyncOp.nextPart]
                 effects := w.effects
                   ++ [Effect.soup_multipart_input_stream_next_part_async] } := by
    show didReceiveResponseCompletion w (env.policy response) = _
    rw [hpolicy, didReceiveResponseCompletion_use_nextPart w multipart hstate hinput hmultipart]
    simp [hout]
  refine ⟨answer p env w (Effect.clientDidReceiveResponse response), ?_, ?_⟩
  · rw [Sim.step_answer,
      Sim.advance_eq _ _ _ [Effect.soup_multipart_input_stream_next_part_async]
        (by rw [hanswer])]
    rfl
  · rw [hanswer]
    exact ⟨⟨hstate, hclient, hstream, hfirst⟩, hinput, hmultipart, rfl,
      by simp [clientTrace_append, clientTrace]⟩

theorem gotHeadersCallback_cases (w : World σ) (hstate : w.m_state = State.Running)
    (hclient : w.m_client = true) :
    gotHeadersCallback w = w
    ∨ gotHeadersCallback w
      = { w with m_protectionSpaceForPersistentStorage := ProtectionSpace.null
                 m_credentialForPersistentStorage := Credential.null
                 effects := w.effects
                   ++ [Effect.saveCredentialToPersistentStorage
                        w.m_protectionSpaceForPersistentStorage
                        w.m_credentialForPersistentStorage] } := by
  unfold gotHeadersCallback
  rw [if_neg (by simp [hstate, hclient])]
  unfold didGetHeaders
  split
  · split
    · right
      rfl
    · left
      rfl
  · left
    rfl

theorem sendRequestCallback_multipart (p : Platform σ) (w : World σ) (m : SoupMessage)
    (body : GInputStream)
    (hstate : w.m_state = State.Running) (hclient : w.m_client = true)
    (hmessage : w.m_soupMessage = some m)
    (hmultipart : (receivedResponse p w m).isMultipart = true)
    (hfinal : shouldStartHTTPRedirection { w with m_response := receivedResponse p w m } = false) :
    sendRequestCallback p w { GAsyncResult.empty with inputStream := some body }
      = { w with m_response := receivedResponse p w m
                 m_multipartInputStream := some { parts := body.parts, headers := [] }
                 effects := w.effects
                   ++ [Effect.clientDidReceiveResponse (receivedResponse p w m)] } := by
  unfold sendRequestCallback
  rw [if_neg (by simp [hstate, hclient]), if_neg (by simp [hstate])]
  dsimp only [GAsyncResult.empty]
  rw [didSendRequest_deliver p w m _ hmessage hclient hfinal]
  simp only [hmultipart, if_true]
  rfl

theorem Sim.step_send_multipart (p : Platform σ) (env : Environment) (w0 w : World σ)
    (r : SoupRequest) (m : SoupMessage)
    (hw : Streaming w0 w) (hrequest : w.m_soupRequest = some r)
    (hmessage : w.m_soupMessage = some m) (hinput : w.m_inputStream = none)
    (hout : w.outstanding = [AsyncOp.send])
    (herror : (env.server r (some m)).error = none)
    (hmultipart :
      (receivedResponse p w (receivedMessage m (env.server r (some m)))).isMultipart = true)
    (hfinal : shouldStartHTTPRedirection
      { w with m_response := receivedResponse p w (receivedMessage m (env.server r (some m))) }
        = false) :
    ∃ w', Sim.step p env { world := w, inbox := [] }
        = some { world := w'
                 inbox := [Effect.clientDidReceiveResponse
                   (receivedResponse p w (receivedMessage m (env.server r (some m))))] }
      ∧ Streaming w0 w'
      ∧ w'.m_inputStream = none
      ∧ w'.m_multipartInputStream
          = some { parts := (env.server r (some m)).body.parts, headers := [] }
      ∧ w'.outstanding = []
      ∧ clientTrace w'.effects
          = clientTrace w.effects
            ++ [Effect.clientDidReceiveResponse
                (receivedResponse p w (receivedMessage m (env.server r (some m))))] := by
  obtain ⟨hstate, hclient, hstream, hfirst⟩ := hw
  have hstep := Sim.step_complete p env w _ _ hout
  have hcomplete : complete p env { w with outstanding := [] } AsyncOp.send
      = sendRequestCallback p
          (gotHeadersCallback
            { w with outstanding := []
                     m_soupMessage := some (receivedMessage m (env.server r (some m))) })
          { GAsyncResult.empty with inputStream := some (env.server r (some m)).body } := by
    unfold complete completeSend
    simp only [hrequest, hmessage, herror]
  rcases gotHeadersCallback_cases
      { w with outstanding := []
               m_soupMessage := some (receivedMessage m (env.server r (some m))) }
      hstate hclient with hgot | hgot
  · have hsend : complete p env { w with outstanding := [] } AsyncOp.send
        = { w with
            outstanding := []
            m_soupMessage := some (receivedMessage m (env.server r (some m)))
            m_response := receivedResponse p w (receivedMessage m (env.server r (some m)))
            m_multipartInputStream :=
              some { parts := (env.server r (some m)).body.parts, headers := [] }
            effects := w.effects
              ++ [Effect.clientDidReceiveResponse
                  (receivedResponse p w (receivedMessage m (env.server r (some m))))] } := by
      rw [hcomplete, hgot,
        sendRequestCallback_multipart p _ (receivedMessage m (env.server r (some m)))]
      · rfl
      · exact hstate
      · exact hclient
      · rfl
      · exact hmultipart
      · exact hfinal
    refine ⟨complete p env { w with outstanding := [] } AsyncOp.send, ?_, ?_⟩
    · rw [hstep, Sim.advance_eq _ _ _
        [Effect.clientDidReceiveResponse
          (receivedResponse p w (receivedMessage m (env.server r (some m))))]
        (by rw [hsend])]
      rfl
    · rw [hsend]
      exact ⟨⟨hstate, hclient, hstream, hfirst⟩, hinput, rfl, rfl,
        by simp [clientTrace_append, clientTrace]⟩
  · have hsend : complete p env { w with outstanding := [] } AsyncOp.send
        = { w with
            outstanding := []
            m_soupMessage := some (receivedMessage m (env.server r (some m)))
            m_protectionSpaceForPersistentStorage := ProtectionSpace.null
            m_credentialForPersistentStorage := Credential.null
            m_response := receivedResponse p w (receivedMessage m (env.server r (some m)))
            m_multipartInputStream :=
              some { parts := (env.server r (some m)).body.parts, headers := [] }
            effects := w.effects
              ++ [Effect.saveCredentialToPersistentStorage
                    w.m_protectionSpaceForPersistentStorage w.m_credentialForPersistentStorage,
                  Effect.clientDidReceiveResponse
                    (receivedResponse p w (receivedMessage m (env.server r (some m))))] } := by
      rw [hcomplete, hgot,
        sendRequestCallback_multipart p _ (receivedMessage m (env.server r (some m)))]
      · simp [receivedResponse]
      · exact hstate
      · exact hclient
      · rfl
      · exact hmultipart
      · exact hfinal
    refine ⟨complete p env { w with outstanding := [] } AsyncOp.send, ?_, ?_⟩
    · rw [hstep, Sim.advance_eq _ _ _
        [Effect.saveCredentialToPersistentStorage
            w.m_protectionSpaceForPersistentStorage w.m_credentialForPersistentStorage,
          Effect.clientDidReceiveResponse
            (receivedResponse p w (receivedMessage m (env.server r (some m))))]
        (by rw [hsend])]
      rfl
    · rw [hsend]
      exact ⟨⟨hstate, hclient, hstream, hfirst⟩, hinput, rfl, rfl,
        by simp [clientTrace_append, clientTrace]⟩

theorem callClient_state (w : World σ) (e : Effect) : (w.callClient e).m_state = w.m_state := by
  unfold World.callClient World.emit
  split <;> rfl

theorem callClient_outstanding (w : World σ) (e : Effect) :
    (w.callClient e).outstanding = w.outstanding := by
  unfold World.callClient World.emit
  split <;> rfl

theorem Sim.step_last_part (p : Platform σ) (env : Environment) (w0 w : World σ)
    (headers : HTTPHeaderMap)
    (hw : Streaming w0 w)
    (hmultipart : w.m_multipartInputStream = some { parts := [], headers := headers })
    (hout : w.outstanding = [AsyncOp.nextPart]) :
    ∃ w', Sim.step p env { world := w, inbox := [] } = some { world := w', inbox := [] }
      ∧ w'.m_state = State.Completed
      ∧ w'.outstanding = []
      ∧ clientTrace w'.effects
          = clientTrace w.effects ++ [Effect.clientDidCompleteWithError ResourceError.null]
      ∧ Sim.step p env { world := w', inbox := [] } = none := by
  obtain ⟨hstate, hclient, hstream, hfirst⟩ := hw
  have hcomplete : complete p env { w with outstanding := [] } AsyncOp.nextPart
      = (clearRequest ({ w with outstanding := [] }.emit Effect.g_input_stream_close)).callClient
          (Effect.clientDidCompleteWithError ResourceError.null) := by
    show completeNextPart p { w with outstanding := [] } = _
    unfold completeNextPart
    split
    · rename_i hnone
      rw [show w.m_multipartInputStream = some { parts := [], headers := headers }
        from hmultipart] at hnone
      cases hnone
    · rename_i multipart hsome
      rw [show w.m_multipartInputStream = some { parts := [], headers := headers }
        from hmultipart] at hsome
      cases hsome
      exact requestNextPartCallback_last p { w with outstanding := [] } GAsyncResult.empty
        hstate hclient rfl rfl
  obtain ⟨l, hl, htrace, hquestions⟩ :=
    clearRequest_silent ({ w with outstanding := [] }.emit Effect.g_input_stream_close)
  have heffects : (complete p env { w with outstanding := [] } AsyncOp.nextPart).effects
      = w.effects ++ ([Effect.g_input_stream_close] ++ l
          ++ [Effect.clientDidCompleteWithError ResourceError.null]) := by
    rw [hcomplete]
    unfold World.callClient
    rw [clearRequest_client, if_pos (by exact hclient)]
    unfold World.emit at hl ⊢
    dsimp only at hl ⊢
    rw [hl]
    simp
  have houtstanding : (complete p env { w with outstanding := [] } AsyncOp.nextPart).outstanding
      = [] := by
    rw [hcomplete, callClient_outstanding, clearRequest_outstanding]
    rfl
  refine ⟨complete p env { w with outstanding := [] } AsyncOp.nextPart, ?_, ?_, houtstanding, ?_, ?_⟩
  · rw [Sim.step_complete p env w _ _ hout, Sim.advance_eq _ _ _ _ heffects]
    simp [questions_append, hquestions, questions]
  · rw [hcomplete, callClient_state, clearRequest_state]
  · rw [heffects]
    simp [clientTrace_append, htrace, clientTrace]
  · unfold Sim.step
    simp only [houtstanding]

theorem Sim.run_part (p : Platform σ) (env : Environment) (w0 w : World σ)
    (headers previous : HTTPHeaderMap) (chunks : List Bytes)
    (rest : List (HTTPHeaderMap × List Bytes)) (k : Nat)
    (hpolicy : ∀ response, env.policy response = PolicyAction.PolicyUse)
    (hw : Streaming w0 w)
    (hmultipart : w.m_multipartInputStream
      = some { parts := (headers, chunks) :: rest, headers := previous })
    (hout : w.outstanding = [AsyncOp.nextPart]) (hchunks : ∀ c ∈ chunks, c ≠ []) :
    ∃ w', Sim.run p env (chunks.length + 3 + k) { world := w, inbox := [] }
          = Sim.run p env k { world := w', inbox := [] }
      ∧ Streaming w0 w'
      ∧ w'.m_multipartInputStream = some { parts := rest, headers := headers }
      ∧ w'.outstanding = [AsyncOp.nextPart]
      ∧ clientTrace w'.effects
          = clientTrace w.effects
            ++ [Effect.clientDidReceiveResponse (partResponse p w0.m_firstRequest headers)]
            ++ chunks.map Effect.clientDidReceiveData := by
  obtain ⟨w1, hstep1, hw1, hinput1, hmulti1, hout1, htrace1⟩ :=
    Sim.step_next_part p env w0 w headers previous chunks rest hw hmultipart hout
  obtain ⟨w2, hstep2, hw2, hinput2, hmulti2, hout2, htrace2⟩ :=
    Sim.step_use_part p env w0 w1 _ _ (hpolicy _) hw1 hinput1 hout1
  obtain ⟨w3, hrun3, hw3, hinput3, hmulti3, hout3, htrace3⟩ :=
    Sim.run_read_chunks p env w0 [] chunks w2 (1 + k) hw2 hinput2 hout2 hchunks
  obtain ⟨w4, hstep4, hw4, _, hmulti4, hout4, htrace4⟩ :=
    Sim.step_end_of_part p env w0 w3 [] { parts := rest, headers := headers } hw3 hinput3
      (hmulti3.trans (hmulti2.trans hmulti1)) hout3
  refine ⟨w4, ?_, hw4, hmulti4, hout4, ?_⟩
  · have h1 : chunks.length + 3 + k = (chunks.length + (1 + k) + 1) + 1 := by omega
    rw [h1, Sim.run_succ p env _ _ _ hstep1, Sim.run_succ p env _ _ _ hstep2, hrun3,
      Nat.add_comm 1 k, Sim.run_succ p env _ _ _ hstep4]
  · rw [htrace4, htrace3, htrace2, htrace1]

/-! ## Multipart delivery -/

/-- C7, as amended: multipart delivery. A running task with its client, no download and its
request in flight receives a multipart response (not a redirect) whose body has the three
parts `(h1, c1)`, `(h2, c2)`, `(h3, c3)`, each a list of non-empty chunks, and the client
answers Use to every policy request. Then, given enough steps of the environment, the
client receives exactly four `didReceiveResponse` notifications: first the multipart
response itself, followed by no data, then one per part, each followed by the data of that
part in order; then exactly one `didCompleteWithError` carrying no error. The task ends
Completed with no operation in flight and no question pending. -/
theorem multipart_delivery (p : Platform σ) (env : Environment) (w : World σ)
    (r : SoupRequest) (m : SoupMessage) (h1 h2 h3 : HTTPHeaderMap) (c1 c2 c3 : List Bytes)
    (hstate : w.m_state = State.Running) (hclient : w.m_client = true)
    (hdownload : w.m_downloadOutputStream = none)
    (hrequest : w.m_soupRequest = some r) (hmessage : w.m_soupMessage = some m)
    (hinput : w.m_inputStream = none) (hout : w.outstanding = [AsyncOp.send])
    (hpolicy : ∀ response, env.policy response = PolicyAction.PolicyUse)
    (herror : (env.server r (some m)).error = none)
    (hparts : (env.server r (some m)).body.parts = [(h1, c1), (h2, c2), (h3, c3)])
    (hmultipart :
      (receivedResponse p w (receivedMessage m (env.server r (some m)))).isMultipart = true)
    (hfinal : shouldStartHTTPRedirection
      { w with m_response := receivedResponse p w (receivedMessage m (env.server r (some m))) }
        = false)
    (hc1 : ∀ c ∈ c1, c ≠ []) (hc2 : ∀ c ∈ c2, c ≠ []) (hc3 : ∀ c ∈ c3, c ≠ []) :
    ∃ n, ∀ k, n ≤ k →
      clientTrace (Sim.run p env k { world := w, inbox := [] }).world.effects
          = clientTrace w.effects
            ++ [Effect.clientDidReceiveResponse
                (receivedResponse p w (receivedMessage m (env.server r (some m))))]
            ++ [Effect.clientDidReceiveResponse (partResponse p w.m_firstRequest h1)]
            ++ c1.map Effect.clientDidReceiveData
            ++ [Effect.clientDidReceiveResponse (partResponse p w.m_firstRequest h2)]
            ++ c2.map Effect.clientDidReceiveData
            ++ [Effect.clientDidReceiveResponse (partResponse p w.m_firstRequest h3)]
            ++ c3.map Effect.clientDidReceiveData
            ++ [Effect.clientDidCompleteWithError ResourceError.null]
      ∧ (Sim.run p env k { world := w, inbox := [] }).world.m_state = State.Completed
      ∧ (Sim.run p env k { world := w, inbox := [] }).world.outstanding = []
      ∧ (Sim.run p env k { world := w, inbox := [] }).inbox = [] := by
  have hw : Streaming w w := ⟨hstate, hclient, hdownload, rfl⟩
  obtain ⟨w1, hstep1, hw1, hinput1, hmulti1, hout1, htrace1⟩ :=
    Sim.step_send_multipart p env w w r m hw hrequest hmessage hinput hout herror hmultipart
      hfinal
  rw [hparts] at hmulti1
  obtain ⟨w2, hstep2, hw2, _, hmulti2, hout2, htrace2⟩ :=
    Sim.step_use_multipart p env w w1 _ _ (hpolicy _) hw1 hinput1 hmulti1 hout1
  refine ⟨c1.length + 3 + (c2.length + 3 + (c3.length + 3 + 1)) + 1 + 1, ?_⟩
  intro k hk
  obtain ⟨j, rfl⟩ : ∃ j, k = c1.length + 3 + (c2.length + 3 + (c3.length + 3 + (1 + j))) + 1 + 1 :=
    ⟨k - (c1.length + 3 + (c2.length + 3 + (c3.length + 3 + 1)) + 1 + 1), by omega⟩
  obtain ⟨w3, hrun3, hw3, hmulti3, hout3, htrace3⟩ :=
    Sim.run_part p env w w2 h1 [] c1 [(h2, c2), (h3, c3)]
      (c2.length + 3 + (c3.length + 3 + (1 + j))) hpolicy hw2 hmulti2 hout2 hc1
  obtain ⟨w4, hrun4, hw4, hmulti4, hout4, htrace4⟩ :=
    Sim.run_part p env w w3 h2 h1 c2 [(h3, c3)] (c3.length + 3 + (1 + j)) hpolicy hw3 hmulti3
      hout3 hc2
  obtain ⟨w5, hrun5, hw5, hmulti5, hout5, htrace5⟩ :=
    Sim.run_part p env w w4 h3 h2 c3 [] (1 + j) hpolicy hw4 hmulti4 hout4 hc3
  obtain ⟨w6, hstep6, hstate6, hout6, htrace6, hrest6⟩ :=
    Sim.step_last_part p env w w5 h3 hw5 hmulti5 hout5
  have hrun : Sim.run p env
      (c1.length + 3 + (c2.length + 3 + (c3.length + 3 + (1 + j))) + 1 + 1)
      { world := w, inbox := [] } = { world := w6, inbox := [] } := by
    rw [Sim.run_succ p env _ _ _ hstep1, Sim.run_succ p env _ _ _ hstep2, hrun3, hrun4, hrun5,
      Nat.add_comm 1 j, Sim.run_succ p env _ _ _ hstep6, Sim.run_rest p env _ _ hrest6]
  rw [hrun]
  refine ⟨?_, hstate6, hout6, rfl⟩
  rw [htrace6, htrace5, htrace4, htrace3, htrace2, htrace1]

theorem multipart_delivery_witness :
    redirectScenario.world.m_state = State.Running
    ∧ redirectScenario.world.m_client = true
    ∧ redirectScenario.world.outstanding = [AsyncOp.send]
    ∧ (multipartServer exampleSoupRequest (some exampleGetMessage)).body.parts = exampleParts
    ∧ ∃ n, ∀ k, n ≤ k →
        clientTrace (multipartRun k).world.effects
          = clientTrace redirectScenario.world.effects
            ++ [Effect.clientDidReceiveResponse
                (receivedResponse examplePlatform redirectScenario.world
                  (receivedMessage exampleGetMessage
                    (multipartServer exampleSoupRequest (some exampleGetMessage))))]
            ++ [Effect.clientDidReceiveResponse
                (partResponse examplePlatform exampleRequest
                  [(HTTPHeaderName.ContentType, "image/jpeg")])]
            ++ [[1, 2], [3]].map Effect.clientDidReceiveData
            ++ [Effect.clientDidReceiveResponse
                (partResponse examplePlatform exampleRequest
                  [(HTTPHeaderName.ContentType, "image/png")])]
            ++ [[4]].map Effect.clientDidReceiveData
            ++ [Effect.clientDidReceiveResponse
                (partResponse examplePlatform exampleRequest
                  [(HTTPHeaderName.ContentType, "text/plain")])]
            ++ ([] : List Bytes).map Effect.clientDidReceiveData
            ++ [Effect.clientDidCompleteWithError ResourceError.null]
        ∧ (multipartRun k).world.m_state = State.Completed
        ∧ (multipartRun k).world.outstanding = []
        ∧ (multipartRun k).inbox = [] :=
  ⟨by decide, by decide, by decide, by decide,
    multipart_delivery examplePlatform (approvingEnvironment multipartServer)
      redirectScenario.world exampleSoupRequest exampleGetMessage
      [(HTTPHeaderName.ContentType, "image/jpeg")] [(HTTPHeaderName.ContentType, "image/png")]
      [(HTTPHeaderName.ContentType, "text/plain")] [[1, 2], [3]] [[4]] []
      (by decide) (by decide) (by decide) (by decide) (by decide) (by decide) (by decide)
      (fun _ => rfl) (by decide) (by decide) (by decide) (by decide) (by decide) (by decide)
      (by decide)⟩

set_option maxRecDepth 1000000 in
/-- C7, counterexample: a multipart response with the three parts of `exampleParts`, a
client that answers Use to every policy request. Once the task is at rest the client has
received four `didReceiveResponse` notifications, not three: the first is for the
multipart response itself, before any part. -/
theorem multipart_response_is_delivered_before_its_parts :
    (multipartServer exampleSoupRequest (some exampleGetMessage)).body.parts.length = 3
    ∧ responsesDelivered (multipartRun 15).world.effects = 4
    ∧ (clientTrace (multipartRun 15).world.effects).head?
        = some (Effect.clientDidReceiveResponse
            (receivedResponse examplePlatform redirectScenario.world
              (receivedMessage exampleGetMessage
                (multipartServer exampleSoupRequest (some exampleGetMessage)))))
    ∧ reportedErrors (multipartRun 15).world.effects = [ResourceError.null]
    ∧ (multipartRun 15).world.m_state = State.Completed
    ∧ Sim.step examplePlatform (approvingEnvironment multipartServer) (multipartRun 15) = none :=
  ⟨by rfl, by rfl, by rfl, by rfl, by rfl, by rfl⟩

/-! ## Download atomicity -/

theorem lookupAux_eraseAux (l : List (String × Bytes)) (path q : String) :
    FileSystem.lookupAux (FileSystem.eraseAux l path) q
      = if path = q then none else FileSystem.lookupAux l q := by
  induction l with
  | nil => simp [FileSystem.eraseAux, FileSystem.lookupAux]
  | cons e rest ih =>
    obtain ⟨n, c⟩ := e
    by_cases hn : n = path
    · subst hn
      simp only [FileSystem.eraseAux, if_true, ih, FileSystem.lookupAux]
      by_cases hq : n = q
      · simp [hq]
      · simp [hq]
    · simp only [FileSystem.eraseAux, hn, if_false, FileSystem.lookupAux, ih]
      by_cases hq : n = q
      · subst hq
        simp [Ne.symm hn]
      · simp [hq]

theorem lookup_store (fs : FileSystem) (path q : String) (content : Bytes) :
    (fs.store path content).lookup q = if path = q then some content else fs.lookup q := by
  unfold FileSystem.store FileSystem.lookup
  simp only [FileSystem.lookupAux, lookupAux_eraseAux]
  by_cases h : path = q <;> simp [h]

theorem lookup_delete (fs : FileSystem) (path q : String) :
    (fs.g_file_delete path).lookup q = if path = q then none else fs.lookup q := by
  unfold FileSystem.g_file_delete FileSystem.lookup
  exact lookupAux_eraseAux _ _ _

theorem lookup_append_ne (fs : FileSystem) (path q : String) (data : Bytes) (h : path ≠ q) :
    (fs.append path data).lookup q = fs.lookup q := by
  unfold FileSystem.append
  split <;> simp [lookup_store, h]

theorem intermediate_ne_destination (d : String) : d ++ wkdownloadSuffix ≠ d :=
  string_append_ne_self d wkdownloadSuffix (by decide)

theorem backup_ne_destination (d : String) : d ++ wkdownloadSuffix ++ "~" ≠ d := by
  rw [String.append_assoc]
  apply string_append_ne_self
  decide

theorem clean_delete (fs : FileSystem) (path d : String)
    (h : fs.lookup d = none ∨ fs.lookup d = some []) :
    (fs.g_file_delete path).lookup d = none ∨ (fs.g_file_delete path).lookup d = some [] := by
  rw [lookup_delete]
  split
  · exact Or.inl rfl
  · exact h

theorem clean_store_empty (fs : FileSystem) (path d : String)
    (h : fs.lookup d = none ∨ fs.lookup d = some []) :
    (fs.store path []).lookup d = none ∨ (fs.store path []).lookup d = some [] := by
  rw [lookup_store]
  split
  · exact Or.inr rfl
  · exact h

theorem clean_create (fs fs' : FileSystem) (path d : String)
    (hok : fs.g_file_create path = Except.ok fs')
    (h : fs.lookup d = none ∨ fs.lookup d = some []) :
    fs'.lookup d = none ∨ fs'.lookup d = some [] := by
  unfold FileSystem.g_file_create at hok
  split at hok
  · cases hok
  · split at hok
    · cases hok
    · cases hok
      exact clean_store_empty fs path d h

theorem clean_replace (fs fs' : FileSystem) (path d : String) (make_backup : Bool)
    (hok : fs.g_file_replace path make_backup = Except.ok fs')
    (hbackup : make_backup = false ∨ path ++ "~" ≠ d)
    (h : fs.lookup d = none ∨ fs.lookup d = some []) :
    fs'.lookup d = none ∨ fs'.lookup d = some [] := by
  unfold FileSystem.g_file_replace at hok
  split at hok
  · cases hok
  · split at hok
    · split at hok
      · rename_i hb
        cases hok
        apply clean_store_empty
        rw [lookup_store]
        rcases hbackup with hf | hne
        · rw [hf] at hb
          cases hb
        · rw [if_neg hne]
          exact h
      · cases hok
        exact clean_store_empty fs path d h
    · cases hok
      exact clean_store_empty fs path d h

theorem create_lookup (fs fs' : FileSystem) (path : String)
    (hok : fs.g_file_create path = Except.ok fs') : fs'.lookup path = some [] := by
  unfold FileSystem.g_file_create at hok
  split at hok
  · cases hok
  · split at hok
    · cases hok
    · cases hok
      simp [lookup_store]

theorem replace_lookup (fs fs' : FileSystem) (path : String) (make_backup : Bool)
    (hok : fs.g_file_replace path make_backup = Except.ok fs') : fs'.lookup path = some [] := by
  unfold FileSystem.g_file_replace at hok
  split at hok
  · cases hok
  · split at hok
    · split at hok <;> cases hok <;> simp [lookup_store]
    · cases hok
      simp [lookup_store]

theorem callClient_clean (d : String) (w : World σ) (e : Effect) (h : DestinationClean d w) :
    DestinationClean d (w.callClient e) := by
  unfold World.callClient
  split <;> exact h

theorem clearRequest_clean (d : String) (w : World σ) (h : DestinationClean d w) :
    DestinationClean d (clearRequest w) := by
  unfold clearRequest
  dsimp only [World.emit, stopTimeout]
  repeat' split
  all_goals exact h

theorem cleanDownloadFiles_clean (d : String) (w : World σ) (h : DestinationClean d w) :
    DestinationClean d (cleanDownloadFiles w) := by
  unfold cleanDownloadFiles
  dsimp only
  repeat' split
  all_goals first
    | exact h
    | exact ⟨h.1, clean_delete _ _ _ h.2⟩
    | exact ⟨h.1, clean_delete _ _ _ (clean_delete _ _ _ h.2)⟩

theorem cancel_clean (d : String) (w : World σ) (h : DestinationClean d w) :
    DestinationClean d (cancel w) := by
  unfold cancel
  dsimp only [World.emit]
  repeat' split
  all_goals first
    | exact h
    | exact cleanDownloadFiles_clean d _ h

theorem invalidateAndCancel_clean (d : String) (w : World σ) (h : DestinationClean d w) :
    DestinationClean d (invalidateAndCancel w) :=
  clearRequest_clean d _ (cancel_clean d w h)

theorem timeoutFired_clean (d : String) (w : World σ) (h : DestinationClean d w) :
    DestinationClean d (timeoutFired w) := by
  unfold timeoutFired
  split
  · exact clearRequest_clean d w h
  · exact callClient_clean d _ _ (invalidateAndCancel_clean d w h)

theorem didFailDownload_clean (d : String) (w : World σ) (error : ResourceError)
    (h : DestinationClean d w) : DestinationClean d (didFailDownload w error) := by
  unfold didFailDownload
  dsimp only [World.emit]
  split <;> exact cleanDownloadFiles_clean d _ (clearRequest_clean d w h)

theorem didFail_clean (d : String) (w : World σ) (error : ResourceError)
    (h : DestinationClean d w) : DestinationClean d (didFail w error) := by
  unfold didFail
  split
  · exact didFailDownload_clean d w _ h
  · exact callClient_clean d _ _ (clearRequest_clean d w h)

theorem download_clean (d : String) (w : World σ) (h : DestinationClean d w) :
    DestinationClean d (download w) := by
  unfold download
  dsimp only
  split
  · exact didFailDownload_clean d w _ h
  · split
    · exact didFailDownload_clean d _ _ h
    · rename_i files hcreated
      have hfiles : files.lookup d = none ∨ files.lookup d = some [] := by
        split at hcreated
        · exact clean_replace _ _ _ d false hcreated (Or.inl rfl) h.2
        · exact clean_create _ _ _ d hcreated h.2
      split
      · exact didFailDownload_clean d _ _ ⟨h.1, hfiles⟩
      · rename_i files2 hreplaced
        refine ⟨h.1, ?_⟩
        refine clean_replace _ _ _ d true hreplaced (Or.inr ?_) hfiles
        have hd : w.m_pendingDownloadLocation = d := h.1
        rw [hd]
        exact backup_ne_destination d

theorem writeDownloadCallback_clean (d : String) (w : World σ) (result : GAsyncResult)
    (h : DestinationClean d w) : DestinationClean d (writeDownloadCallback w result) := by
  unfold writeDownloadCallback
  split
  · exact clearRequest_clean d w h
  · split
    · exact didFailDownload_clean d w _ h
    · exact h

theorem didReceiveResponseCompletion_clean (d : String) (w : World σ)
    (policyAction : PolicyAction) (h : DestinationClean d w) :
    DestinationClean d (didReceiveResponseCompletion w policyAction) := by
  unfold didReceiveResponseCompletion
  repeat' split
  all_goals first
    | exact h
    | exact clearRequest_clean d w h
    | exact download_clean d w h

theorem didSendRequest_clean (d : String) (p : Platform σ) (w : World σ)
    (inputStream : Option GInputStream) (h : DestinationClean d w) :
    DestinationClean d (didSendRequest p w inputStream) := by
  unfold didSendRequest
  dsimp only [skipInputStreamForRedirection, didReceiveResponse, World.start]
  repeat' split
  all_goals first
    | exact h
    | exact callClient_clean d _ _ h

theorem sendRequestCallback_clean (d : String) (p : Platform σ) (w : World σ)
    (result : GAsyncResult) (h : DestinationClean d w) :
    DestinationClean d (sendRequestCallback p w result) := by
  unfold sendRequestCallback
  repeat' split
  all_goals first
    | exact h
    | exact clearRequest_clean d w h
    | exact didFail_clean d w _ h
    | exact didSendRequest_clean d p w _ h

theorem didRead_clean (d : String) (w : World σ) (bytesRead : Nat)
    (h : DestinationClean d w) : DestinationClean d (didRead w bytesRead) := by
  unfold didRead
  dsimp only [writeDownload, read, World.start]
  split
  · exact h
  · exact callClient_clean d { w with m_readBuffer := [] } _ h

theorem didFinishDownload_clean_or_moved (d : String) (w : World σ)
    (h : DestinationClean d w) :
    DestinationClean d (didFinishDownload w)
      ∨ (didFinishDownload w).effects.getLast? = some Effect.downloadDidFinish := by
  unfold didFinishDownload
  dsimp only [World.emit]
  split
  · split
    · exact Or.inl (didFailDownload_clean d _ _ h)
    · right
      simp
  · exact Or.inl (didFailDownload_clean d _ _ h)

theorem didFinishRead_clean_or_moved (d : String) (w : World σ) (h : DestinationClean d w) :
    DestinationClean d (didFinishRead w)
      ∨ (didFinishRead w).effects.getLast? = some Effect.downloadDidFinish := by
  unfold didFinishRead
  dsimp only [World.emit, requestNextPart, World.start]
  split
  · exact Or.inl h
  · split
    · exact didFinishDownload_clean_or_moved d _ h
    · exact Or.inl (callClient_clean d _ _ (clearRequest_clean d _ h))

theorem readCallback_clean_or_moved (d : String) (w : World σ) (result : GAsyncResult)
    (h : DestinationClean d w) :
    DestinationClean d (readCallback w result)
      ∨ (readCallback w result).effects.getLast? = some Effect.downloadDidFinish := by
  unfold readCallback
  split
  · exact Or.inl (clearRequest_clean d w h)
  · split
    · exact Or.inl h
    · split
      · exact Or.inl (didFail_clean d w _ h)
      · dsimp only
        split
        · exact Or.inl (didRead_clean d _ _ h)
        · exact didFinishRead_clean_or_moved d _ h

theorem didRequestNextPart_clean (d : String) (p : Platform σ) (w : World σ)
    (inputStream : GInputStream) (h : DestinationClean d w) :
    DestinationClean d (didRequestNextPart p w inputStream) := by
  unfold didRequestNextPart didReceiveResponse
  exact callClient_clean d _ _ h

theorem didFinishRequestNextPart_clean (d : String) (w : World σ) (h : DestinationClean d w) :
    DestinationClean d (didFinishRequestNextPart w) := by
  unfold didFinishRequestNextPart
  exact callClient_clean d _ _ (clearRequest_clean d (w.emit Effect.g_input_stream_close) h)

theorem requestNextPartCallback_clean (d : String) (p : Platform σ) (w : World σ)
    (result : GAsyncResult) (h : DestinationClean d w) :
    DestinationClean d (requestNextPartCallback p w result) := by
  unfold requestNextPartCallback
  repeat' split
  all_goals first
    | exact h
    | exact clearRequest_clean d w h
    | exact didFail_clean d w _ h
    | exact didRequestNextPart_clean d p w _ h
    | exact didFinishRequestNextPart_clean d w h

theorem startTimeout_clean (d : String) (w : World σ) (h : DestinationClean d w) :
    DestinationClean d (startTimeout w) := by
  unfold startTimeout
  split <;> exact h

theorem resume_clean_or_moved (d : String) (p : Platform σ) (w : World σ)
    (h : DestinationClean d w) :
    DestinationClean d (resume p w)
      ∨ (resume p w).effects.getLast? = some Effect.downloadDidFinish := by
  unfold resume
  split
  · exact Or.inl h
  · dsimp only
    split
    · exact Or.inl h
    · have hstart : DestinationClean d (startTimeout { w with m_state := State.Running }) :=
        startTimeout_clean d _ h
      split
      · exact Or.inl hstart
      · split
        · split
          · exact readCallback_clean_or_moved d _ _ hstart
          · split
            · exact Or.inl (requestNextPartCallback_clean d p _ _ hstart)
            · split
              · exact Or.inl (sendRequestCallback_clean d p _ _ hstart)
              · exact Or.inl hstart
        · exact Or.inl hstart

theorem suspend_clean (d : String) (w : World σ) (h : DestinationClean d w) :
    DestinationClean d (suspend w) := by
  unfold suspend
  split <;> exact h

theorem continueHTTPRedirection_clean (d : String) (p : Platform σ) (w : World σ)
    (h : DestinationClean d w) : DestinationClean d (continueHTTPRedirection p w) := by
  unfold continueHTTPRedirection
  dsimp only
  split
  · exact didFail_clean d _ _ h
  · repeat' split
    all_goals exact callClient_clean d _ _ (clearRequest_clean d _ h)

theorem createRequest_clean (d : String) (p : Platform σ) (w : World σ)
    (request : ResourceRequest) (h : DestinationClean d w) :
    DestinationClean d (createRequest p w request) := by
  unfold createRequest
  dsimp only [World.emit, scheduleFailure]
  split
  · exact h
  · split
    · exact h
    · split
      · exact h
      · split
        · exact h
        · exact h

theorem applyAuthenticationToRequest_clean (d : String) (w : World σ)
    (request : ResourceRequest) (h : DestinationClean d w) :
    DestinationClean d (applyAuthenticationToRequest w request).1 := by
  unfold applyAuthenticationToRequest
  split <;> exact h

theorem willPerformHTTPRedirectionCompletion_clean_or_moved (d : String) (p : Platform σ)
    (w : World σ) (newRequest : ResourceRequest) (h : DestinationClean d w) :
    DestinationClean d (willPerformHTTPRedirectionCompletion p w newRequest)
      ∨ (willPerformHTTPRedirectionCompletion p w newRequest).effects.getLast?
          = some Effect.downloadDidFinish := by
  unfold willPerformHTTPRedirectionCompletion
  split
  · exact Or.inl h
  · have key : ∀ q : World σ × ResourceRequest, DestinationClean d q.1 →
        (DestinationClean d
          (if (createRequest p q.1 q.2).m_soupRequest.isSome = true
              ∧ (createRequest p q.1 q.2).m_state ≠ State.Suspended
           then resume p { createRequest p q.1 q.2 with m_state := State.Suspended }
           else createRequest p q.1 q.2)
        ∨ (if (createRequest p q.1 q.2).m_soupRequest.isSome = true
              ∧ (createRequest p q.1 q.2).m_state ≠ State.Suspended
           then resume p { createRequest p q.1 q.2 with m_state := State.Suspended }
           else createRequest p q.1 q.2).effects.getLast? = some Effect.downloadDidFinish) := by
      intro q hq
      split
      · exact resume_clean_or_moved d p _ (createRequest_clean d p q.1 q.2 hq)
      · exact Or.inl (createRequest_clean d p q.1 q.2 hq)
    dsimp only
    split
    · exact key (applyAuthenticationToRequest w newRequest)
        (applyAuthenticationToRequest_clean d w newRequest h)
    · exact key (w, newRequest) h

theorem skipInputStreamForRedirectionCallback_clean (d : String) (p : Platform σ)
    (w : World σ) (result : GAsyncResult) (h : DestinationClean d w) :
    DestinationClean d (skipInputStreamForRedirectionCallback p w result) := by
  unfold skipInputStreamForRedirectionCallback
  split
  · exact clearRequest_clean d w h
  · split
    · exact didFail_clean d w _ h
    · split
      · exact h
      · exact continueHTTPRedirection_clean d p _ h

theorem didReceiveChallengeCompletion_clean (d : String) (p : Platform σ) (w : World σ)
    (challenge : AuthenticationChallenge) (disposition : AuthenticationChallengeDisposition)
    (credential : Credential) (h : DestinationClean d w) :
    DestinationClean d (didReceiveChallengeCompletion p w challenge disposition credential) := by
  unfold didReceiveChallengeCompletion
  split
  · exact clearRequest_clean d w h
  · split
    · exact didFail_clean d _ _ (cancel_clean d w h)
    · dsimp only [World.emit]
      repeat' split
      all_goals exact h

theorem getCredentialFromPersistentStorageCompletion_clean (d : String) (w : World σ)
    (challenge : AuthenticationChallenge) (credential : Credential)
    (h : DestinationClean d w) :
    DestinationClean d (getCredentialFromPersistentStorageCompletion w challenge credential) := by
  unfold getCredentialFromPersistentStorageCompletion continueAuthenticate
  split
  · exact clearRequest_clean d w h
  · exact callClient_clean d w _ h

theorem authenticateThroughClient_clean (d : String) (w : World σ)
    (challenge : AuthenticationChallenge) (h : DestinationClean d w) :
    DestinationClean d (authenticateThroughClient w challenge) := by
  unfold authenticateThroughClient continueAuthenticate
  dsimp only [World.emit]
  split
  · exact h
  · exact callClient_clean d _ _ h

theorem authenticate_clean (d : String) (p : Platform σ) (w : World σ)
    (challenge : AuthenticationChallenge) (h : DestinationClean d w) :
    DestinationClean d (authenticate p w challenge) := by
  unfold authenticate
  dsimp only [World.emit]
  repeat' split
  all_goals first
    | exact h
    | exact authenticateThroughClient_clean d _ _ h

theorem authenticateCallback_clean (d : String) (p : Platform σ) (w : World σ)
    (forThisMessage : Bool) (soupAuth : SoupAuth) (retrying : Bool)
    (h : DestinationClean d w) :
    DestinationClean d (authenticateCallback p w forThisMessage soupAuth retrying) := by
  unfold authenticateCallback
  repeat' split
  all_goals first
    | exact h
    | exact clearRequest_clean d w h
    | exact authenticate_clean d p w _ h

theorem tlsErrorsChangedCallback_clean (d : String) (w : World σ) (error : ResourceError)
    (h : DestinationClean d w) : DestinationClean d (tlsErrorsChangedCallback w error) := by
  unfold tlsErrorsChangedCallback tlsErrorsChanged
  repeat' split
  all_goals first
    | exact h
    | exact clearRequest_clean d w h
    | exact callClient_clean d _ _ (invalidateAndCancel_clean d w h)

theorem gotHeadersCallback_clean (d : String) (w : World σ) (h : DestinationClean d w) :
    DestinationClean d (gotHeadersCallback w) := by
  unfold gotHeadersCallback didGetHeaders
  dsimp only [World.emit]
  repeat' split
  all_goals first
    | exact h
    | exact clearRequest_clean d w h

theorem wroteBodyDataCallback_clean (d : String) (w : World σ) (bufferLength : Nat)
    (h : DestinationClean d w) : DestinationClean d (wroteBodyDataCallback w bufferLength) := by
  unfold wroteBodyDataCallback didWriteBodyData
  split
  · exact clearRequest_clean d w h
  · exact callClient_clean d _ _ h

theorem didFailDownload_stream (w : World σ) (error : ResourceError)
    (h : w.m_downloadOutputStream = none) :
    (didFailDownload w error).m_downloadOutputStream = none := by
  unfold didFailDownload clearRequest cleanDownloadFiles
  dsimp only [World.emit, stopTimeout]
  repeat' split
  all_goals first
    | exact h
    | rfl

theorem download_started_clean (d : String) (w : World σ)
    (hlocation : w.m_pendingDownloadLocation = d) (hnone : w.m_downloadOutputStream = none)
    (hstarted : (download w).m_downloadOutputStream ≠ none) :
    DestinationClean d (download w) ∧ (download w).files.lookup d = some [] := by
  unfold download at hstarted ⊢
  dsimp only at hstarted ⊢
  split
  · rename_i hstatus
    rw [if_pos hstatus] at hstarted
    exact (hstarted (didFailDownload_stream _ _ hnone)).elim
  · rename_i hstatus
    rw [if_neg hstatus] at hstarted
    split
    · rename_i error hcreated
      rw [hcreated] at hstarted
      dsimp only at hstarted
      exact (hstarted (didFailDownload_stream _ _ hnone)).elim
    · rename_i files hcreated
      rw [hcreated] at hstarted
      dsimp only at hstarted
      have hfiles : files.lookup d = some [] := by
        rw [hlocation] at hcreated
        split at hcreated
        · exact replace_lookup _ _ _ _ hcreated
        · exact create_lookup _ _ _ hcreated
      split
      · rename_i error hreplaced
        rw [hreplaced] at hstarted
        dsimp only at hstarted
        exact (hstarted (didFailDownload_stream _ _ hnone)).elim
      · rename_i files2 hreplaced
        have hfiles2 : files2.lookup d = some [] := by
          rw [hlocation] at hreplaced
          unfold FileSystem.g_file_replace at hreplaced
          split at hreplaced
          · cases hreplaced
          · split at hreplaced
            · simp only [if_true] at hreplaced
              cases hreplaced
              rw [lookup_store, if_neg (intermediate_ne_destination d), lookup_store,
                if_neg (backup_ne_destination d)]
              exact hfiles
            · cases hreplaced
              rw [lookup_store, if_neg (intermediate_ne_destination d)]
              exact hfiles
        exact ⟨⟨hlocation, Or.inr hfiles2⟩, hfiles2⟩

theorem streamWritten_eq (w : World σ) (data : Bytes) :
    ∃ files, streamWritten w data = { w with files := files } := by
  unfold streamWritten
  split
  · exact ⟨_, rfl⟩
  · exact ⟨w.files, rfl⟩

theorem streamWritten_of_none (w : World σ) (data : Bytes)
    (h : w.m_downloadOutputStream = none) : streamWritten w data = w := by
  unfold streamWritten
  rw [h]

theorem TaskEvent.apply_streamWrote (p : Platform σ) (w : World σ) (data : Bytes) :
    (TaskEvent.streamWrote data).apply p w = streamWritten w data := rfl

/-! ## Completed as a terminal state -/

theorem TaskEvent.apply_of_completed (p : Platform σ) (w : World σ) (e : TaskEvent)
    (hw : w.m_state = State.Completed) (he : e.isRedirectApproval = false) :
    (e.apply p w).m_state = State.Completed ∧ (e.apply p w).effects = w.effects
      ∧ (e.apply p w).outstanding = w.outstanding := by
  have hc : clearRequest w = w := clearRequest_of_completed w hw
  have hor : w.m_state = State.Canceling ∨ w.m_state = State.Completed := Or.inr hw
  have hor3 : ∀ q : Prop, w.m_state = State.Canceling ∨ w.m_state = State.Completed ∨ q :=
    fun _ => Or.inr (Or.inl hw)
  cases e with
  | resume => simp only [TaskEvent.apply, WebKit.resume, if_pos hor]; first | exact ⟨hw, rfl, rfl⟩ | exact ⟨hw, trivial, trivial⟩
  | suspend => simp only [TaskEvent.apply, WebKit.suspend, if_pos hor]; first | exact ⟨hw, rfl, rfl⟩ | exact ⟨hw, trivial, trivial⟩
  | cancel => simp only [TaskEvent.apply, WebKit.cancel, if_pos hor]; first | exact ⟨hw, rfl, rfl⟩ | exact ⟨hw, trivial, trivial⟩
  | invalidateAndCancel =>
    simp only [TaskEvent.apply, WebKit.invalidateAndCancel, WebKit.cancel, if_pos hor, hc]
    first | exact ⟨hw, rfl, rfl⟩ | exact ⟨hw, trivial, trivial⟩
  | timeoutFired =>
    simp only [TaskEvent.apply, WebKit.timeoutFired, if_pos (hor3 _), hc]; first | exact ⟨hw, rfl, rfl⟩ | exact ⟨hw, trivial, trivial⟩
  | sendRequestCallback result =>
    simp only [TaskEvent.apply, WebKit.sendRequestCallback, if_pos (hor3 _), hc]
    first | exact ⟨hw, rfl, rfl⟩ | exact ⟨hw, trivial, trivial⟩
  | readCallback result =>
    simp only [TaskEvent.apply, WebKit.readCallback, if_pos (hor3 _), hc]; first | exact ⟨hw, rfl, rfl⟩ | exact ⟨hw, trivial, trivial⟩
  | skipInputStreamForRedirectionCallback result =>
    simp only [TaskEvent.apply, WebKit.skipInputStreamForRedirectionCallback, if_pos (hor3 _), hc]
    first | exact ⟨hw, rfl, rfl⟩ | exact ⟨hw, trivial, trivial⟩
  | requestNextPartCallback result =>
    simp only [TaskEvent.apply, WebKit.requestNextPartCallback, if_pos (hor3 _), hc]
    first | exact ⟨hw, rfl, rfl⟩ | exact ⟨hw, trivial, trivial⟩
  | writeDownloadCallback result =>
    simp only [TaskEvent.apply, WebKit.writeDownloadCallback, if_pos (hor3 _), hc]
    first | exact ⟨hw, rfl, rfl⟩ | exact ⟨hw, trivial, trivial⟩
  | didReceiveResponseCompletion policyAction =>
    simp only [TaskEvent.apply, WebKit.didReceiveResponseCompletion, if_pos hor, hc]
    first | exact ⟨hw, rfl, rfl⟩ | exact ⟨hw, trivial, trivial⟩
  | willPerformHTTPRedirectionCompletion newRequest =>
    have hnull : newRequest.isNull = true := by
      simpa [TaskEvent.isRedirectApproval] using he
    simp only [TaskEvent.apply, WebKit.willPerformHTTPRedirectionCompletion,
      if_pos (Or.inl hnull : newRequest.isNull = true ∨ w.m_state = State.Canceling)]
    first | exact ⟨hw, rfl, rfl⟩ | exact ⟨hw, trivial, trivial⟩
  | didReceiveChallengeCompletion challenge disposition credential =>
    simp only [TaskEvent.apply, WebKit.didReceiveChallengeCompletion, if_pos hor, hc]
    first | exact ⟨hw, rfl, rfl⟩ | exact ⟨hw, trivial, trivial⟩
  | getCredentialFromPersistentStorageCompletion challenge credential =>
    simp only [TaskEvent.apply, WebKit.getCredentialFromPersistentStorageCompletion,
      if_pos (hor3 _), hc]
    first | exact ⟨hw, rfl, rfl⟩ | exact ⟨hw, trivial, trivial⟩
  | authenticateCallback forThisMessage soupAuth retrying =>
    simp only [TaskEvent.apply, WebKit.authenticateCallback, if_pos (hor3 _), hc]
    split
    · exact ⟨hw, rfl, rfl⟩
    · exact ⟨hw, rfl, rfl⟩
  | tlsErrorsChangedCallback error =>
    simp only [TaskEvent.apply, WebKit.tlsErrorsChangedCallback, if_pos (hor3 _), hc]
    first | exact ⟨hw, rfl, rfl⟩ | exact ⟨hw, trivial, trivial⟩
  | gotHeadersCallback =>
    simp only [TaskEvent.apply, WebKit.gotHeadersCallback, if_pos (hor3 _), hc]
    first | exact ⟨hw, rfl, rfl⟩ | exact ⟨hw, trivial, trivial⟩
  | wroteBodyDataCallback bufferLength =>
    simp only [TaskEvent.apply, WebKit.wroteBodyDataCallback, if_pos (hor3 _), hc]
    first | exact ⟨hw, rfl, rfl⟩ | exact ⟨hw, trivial, trivial⟩
  | messageReceived exchange => exact ⟨hw, rfl, rfl⟩
  | streamWrote data =>
    obtain ⟨files, hfiles⟩ := streamWritten_eq w data
    rw [TaskEvent.apply_streamWrote, hfiles]
    exact ⟨hw, rfl, rfl⟩

theorem TaskEvent.applyAll_of_completed (p : Platform σ) (events : List TaskEvent) :
    ∀ w : World σ, w.m_state = State.Completed →
      (∀ e ∈ events, TaskEvent.isRedirectApproval e = false) →
      (TaskEvent.applyAll p w events).m_state = State.Completed
        ∧ (TaskEvent.applyAll p w events).effects = w.effects
        ∧ (TaskEvent.applyAll p w events).outstanding = w.outstanding := by
  induction events with
  | nil => intro w hw _; exact ⟨hw, rfl, rfl⟩
  | cons e rest ih =>
    intro w hw h
    obtain ⟨h1, h2, h3⟩ :=
      TaskEvent.apply_of_completed p w e hw (h e (List.mem_cons_self _ _))
    obtain ⟨g1, g2, g3⟩ := ih (e.apply p w) h1 (fun e' he' => h e' (List.mem_cons_of_mem _ he'))
    exact ⟨g1, g2.trans h2, g3.trans h3⟩

/-- C11, as amended: Completed is terminal except for an approved redirect. Under every
sequence of operations and callbacks (resume, suspend, cancel, timeout, native completions,
transport signals, client answers to policy and challenge requests, and vetoes of a
redirect) in which the client approves no redirect, that is, no answer to
`willPerformHTTPRedirection` carries a request that is not null: once the state of the task
is Completed it is Completed after the sequence, no call at all has been made in between
(so no send, read, write, skip or next-part operation is issued), and no operation has been
put in flight. -/
theorem completed_is_terminal_without_redirect_approval (p : Platform σ) (w : World σ)
    (events : List TaskEvent) (hw : w.m_state = State.Completed)
    (hevents : ∀ e ∈ events, TaskEvent.isRedirectApproval e = false) :
    (TaskEvent.applyAll p w events).m_state = State.Completed
    ∧ (TaskEvent.applyAll p w events).effects = w.effects
    ∧ operationsIssued (TaskEvent.applyAll p w events).effects = operationsIssued w.effects
    ∧ (TaskEvent.applyAll p w events).outstanding = w.outstanding := by
  obtain ⟨h1, h2, h3⟩ := TaskEvent.applyAll_of_completed p events w hw hevents
  exact ⟨h1, h2, by rw [h2], h3⟩

theorem completed_is_terminal_without_redirect_approval_witness :
    pendingRedirectWorld.m_state = State.Completed
    ∧ (∀ e ∈ [TaskEvent.resume, TaskEvent.suspend, TaskEvent.cancel, TaskEvent.timeoutFired,
          TaskEvent.readCallback GAsyncResult.empty,
          TaskEvent.didReceiveResponseCompletion PolicyAction.PolicyUse,
          TaskEvent.willPerformHTTPRedirectionCompletion
            { exampleNextRequest with url := URL.null },
          TaskEvent.invalidateAndCancel],
        TaskEvent.isRedirectApproval e = false)
    ∧ (TaskEvent.applyAll examplePlatform pendingRedirectWorld
        [TaskEvent.resume, TaskEvent.suspend, TaskEvent.cancel, TaskEvent.timeoutFired,
          TaskEvent.readCallback GAsyncResult.empty,
          TaskEvent.didReceiveResponseCompletion PolicyAction.PolicyUse,
          TaskEvent.willPerformHTTPRedirectionCompletion
            { exampleNextRequest with url := URL.null },
          TaskEvent.invalidateAndCancel]).m_state = State.Completed
    ∧ (TaskEvent.applyAll examplePlatform pendingRedirectWorld
        [TaskEvent.resume, TaskEvent.suspend, TaskEvent.cancel, TaskEvent.timeoutFired,
          TaskEvent.readCallback GAsyncResult.empty,
          TaskEvent.didReceiveResponseCompletion PolicyAction.PolicyUse,
          TaskEvent.willPerformHTTPRedirectionCompletion
            { exampleNextRequest with url := URL.null },
          TaskEvent.invalidateAndCancel]).effects = pendingRedirectWorld.effects :=
  ⟨by decide, by decide,
    (completed_is_terminal_without_redirect_approval examplePlatform pendingRedirectWorld _
      (by decide) (by decide)).1,
    (completed_is_terminal_without_redirect_approval examplePlatform pendingRedirectWorld _
      (by decide) (by decide)).2.1⟩

/-- C11, counterexample: the task of `redirectScenario` receives a 302 with
`Location: /next`; `continueHTTPRedirection` releases the request, which leaves the task
Completed, and asks the client to approve the continuation. When the client approves it,
the task leaves Completed: the transport request is rebuilt, the state is Running again and
a second send is issued. -/
theorem approved_redirect_leaves_completed :
    (redirectRun 2).inbox
      = [Effect.clientWillPerformHTTPRedirection pendingRedirectWorld.m_response
          exampleNextRequest]
    ∧ pendingRedirectWorld.m_state = State.Completed
    ∧ operationsIssued pendingRedirectWorld.effects
        = [Effect.soup_request_send_async, Effect.g_input_stream_skip_async]
    ∧ pendingRedirectWorld.outstanding = []
    ∧ (TaskEvent.apply examplePlatform pendingRedirectWorld
        (TaskEvent.willPerformHTTPRedirectionCompletion exampleNextRequest)).m_state
        = State.Running
    ∧ operationsIssued (TaskEvent.apply examplePlatform pendingRedirectWorld
        (TaskEvent.willPerformHTTPRedirectionCompletion exampleNextRequest)).effects
        = [Effect.soup_request_send_async, Effect.g_input_stream_skip_async,
            Effect.soup_request_send_async]
    ∧ (TaskEvent.apply examplePlatform pendingRedirectWorld
        (TaskEvent.willPerformHTTPRedirectionCompletion exampleNextRequest)).outstanding
        = [AsyncOp.send] :=
  ⟨by decide, by decide, by decide, by decide, by decide, by decide, by decide⟩

/-! ## Cancellation while a redirect awaits approval -/

theorem didFailDownload_state (w : World σ) (error : ResourceError) :
    (didFailDownload w error).m_state = State.Completed := by
  unfold didFailDownload
  dsimp only
  split <;> simp only [World.emit, cleanDownloadFiles_state, clearRequest_state]

theorem didFail_state (w : World σ) (error : ResourceError) :
    (didFail w error).m_state = State.Completed := by
  unfold didFail
  split
  · exact didFailDownload_state _ _
  · simp only [callClient_state, clearRequest_state]

theorem continueHTTPRedirection_state (p : Platform σ) (w : World σ) :
    (continueHTTPRedirection p w).m_state = State.Completed := by
  unfold continueHTTPRedirection
  dsimp only
  split
  · exact didFail_state _ _
  · simp only [callClient_state, clearRequest_state]

theorem cancel_after_continueHTTPRedirection (p : Platform σ) (w : World σ) :
    cancel (continueHTTPRedirection p w) = continueHTTPRedirection p w :=
  cancel_of_canceling_or_completed _ (Or.inr (continueHTTPRedirection_state p w))

/-- C12, evaluated on the code: the task of `redirectScenario` receives a 302 with
`Location: /next` and `continueHTTPRedirection` asks the client to approve the
continuation. Releasing the request has left the task Completed, so the `cancel()` that
follows changes nothing: the state does not become Canceling. When the client then approves
with the proposed request, which is not null, the guard of the completion handler does not
hold, the transport request is rebuilt for `https://example/next` and a second send is
issued. -/
theorem cancel_does_not_stop_a_pending_redirect :
    (redirectRun 2).inbox
      = [Effect.clientWillPerformHTTPRedirection pendingRedirectWorld.m_response
          exampleNextRequest]
    ∧ pendingRedirectWorld.m_state = State.Completed
    ∧ pendingRedirectWorld.m_soupRequest = none
    ∧ sendCount pendingRedirectWorld.effects = 1
    ∧ cancel pendingRedirectWorld = pendingRedirectWorld
    ∧ (cancel pendingRedirectWorld).m_state ≠ State.Canceling
    ∧ exampleNextRequest.isNull = false
    ∧ (willPerformHTTPRedirectionCompletion examplePlatform (cancel pendingRedirectWorld)
        exampleNextRequest).m_soupRequest
        = some { uri := exampleNextURL, contentType := "", contentLength := 0 }
    ∧ (willPerformHTTPRedirectionCompletion examplePlatform (cancel pendingRedirectWorld)
        exampleNextRequest).m_state = State.Running
    ∧ sendCount (willPerformHTTPRedirectionCompletion examplePlatform
        (cancel pendingRedirectWorld) exampleNextRequest).effects = 2
    ∧ (willPerformHTTPRedirectionCompletion examplePlatform (cancel pendingRedirectWorld)
        exampleNextRequest).outstanding = [AsyncOp.send] :=
  ⟨by decide, by decide, by decide, by decide,
    cancel_of_canceling_or_completed _ (Or.inr (by decide)), by decide, by decide, by decide,
    by decide, by decide, by decide⟩

/-! ## Completions that arrive while the task is suspended -/

theorem sendRequestCallback_of_suspended (p : Platform σ) (w : World σ) (result : GAsyncResult)
    (hstate : w.m_state = State.Suspended) (hclient : w.m_client = true) :
    sendRequestCallback p w result = { w with m_pendingResult := some result } := by
  unfold sendRequestCallback
  rw [if_neg (by simp [hstate, hclient]), if_pos hstate]

theorem readCallback_of_suspended (w : World σ) (result : GAsyncResult)
    (hstate : w.m_state = State.Suspended)
    (hclient : w.m_client = true ∨ w.isDownload = true) :
    readCallback w result = { w with m_pendingResult := some result } := by
  unfold readCallback
  have hkeep : ¬ (w.m_state = State.Canceling ∨ w.m_state = State.Completed
      ∨ (w.m_client = false ∧ w.isDownload = false)) := by
    rcases hclient with h | h <;> simp [hstate, h]
  rw [if_neg hkeep, if_pos hstate]

theorem requestNextPartCallback_of_suspended (p : Platform σ) (w : World σ)
    (result : GAsyncResult) (hstate : w.m_state = State.Suspended)
    (hclient : w.m_client = true) :
    requestNextPartCallback p w result = { w with m_pendingResult := some result } := by
  unfold requestNextPartCallback
  rw [if_neg (by simp [hstate, hclient]), if_pos hstate]

/-- The completions of a send, a read and a next-part request are buffered while the task
is suspended: these three callbacks test for Suspended and `resume()` replays them. For
every Suspended task and every completion value: when the
task has its client, the completion of a send and that of a next-part request are stored
in the pending-result slot and nothing else changes; when the task has its client or is a
download, the same holds for the completion of a read. In each case no call is made (no
client or download notification, no new native operation), no operation is put in flight
and the task stays Suspended. -/
theorem suspended_completions_are_buffered (p : Platform σ) (w : World σ)
    (result : GAsyncResult) (hstate : w.m_state = State.Suspended) :
    (w.m_client = true →
      sendRequestCallback p w result = { w with m_pendingResult := some result }
      ∧ (sendRequestCallback p w result).effects = w.effects
      ∧ (sendRequestCallback p w result).outstanding = w.outstanding
      ∧ (sendRequestCallback p w result).m_state = State.Suspended)
    ∧ (w.m_client = true ∨ w.isDownload = true →
      readCallback w result = { w with m_pendingResult := some result }
      ∧ (readCallback w result).effects = w.effects
      ∧ (readCallback w result).outstanding = w.outstanding
      ∧ (readCallback w result).m_state = State.Suspended)
    ∧ (w.m_client = true →
      requestNextPartCallback p w result = { w with m_pendingResult := some result }
      ∧ (requestNextPartCallback p w result).effects = w.effects
      ∧ (requestNextPartCallback p w result).outstanding = w.outstanding
      ∧ (requestNextPartCallback p w result).m_state = State.Suspended) := by
  refine ⟨fun h => ?_, fun h => ?_, fun h => ?_⟩
  · rw [sendRequestCallback_of_suspended p w result hstate h]
    exact ⟨rfl, rfl, rfl, hstate⟩
  · rw [readCallback_of_suspended w result hstate h]
    exact ⟨rfl, rfl, rfl, hstate⟩
  · rw [requestNextPartCallback_of_suspended p w result hstate h]
    exact ⟨rfl, rfl, rfl, hstate⟩

theorem suspended_completions_are_buffered_witness :
    suspendedWriteWorld.m_state = State.Suspended
    ∧ suspendedWriteWorld.m_client = false ∧ suspendedWriteWorld.isDownload = true
    ∧ (readCallback suspendedWriteWorld exampleSendResult).m_pendingResult
        = some exampleSendResult
    ∧ (readCallback suspendedWriteWorld exampleSendResult).effects
        = suspendedWriteWorld.effects
    ∧ suspendedSkipWorld.m_state = State.Suspended ∧ suspendedSkipWorld.m_client = true
    ∧ (sendRequestCallback examplePlatform suspendedSkipWorld exampleSendResult).effects
        = suspendedSkipWorld.effects
    ∧ (requestNextPartCallback examplePlatform suspendedSkipWorld exampleSendResult).effects
        = suspendedSkipWorld.effects :=
  ⟨by decide, by decide, by decide,
    congrArg World.m_pendingResult
      ((suspended_completions_are_buffered examplePlatform suspendedWriteWorld
        exampleSendResult (by decide)).2.1 (Or.inr (by decide))).1,
    ((suspended_completions_are_buffered examplePlatform suspendedWriteWorld
      exampleSendResult (by decide)).2.1 (Or.inr (by decide))).2.1,
    by decide, by decide,
    ((suspended_completions_are_buffered examplePlatform suspendedSkipWorld
      exampleSendResult (by decide)).1 (by decide)).2.1,
    ((suspended_completions_are_buffered examplePlatform suspendedSkipWorld
      exampleSendResult (by decide)).2.2 (by decide)).2.1⟩

/-- C13, evaluated on the code: the completions of a skip and of a download write are acted
on while the task is Suspended; their callbacks lack the test for Suspended that the
callbacks of send, read and next-part make. The task of `redirectScenario` is suspended
while the skip of the body of a redirect response is in flight; when the skip completes,
the completion is not stored: the stream is closed, the request is released, which leaves
the task Completed, and the client is asked to approve the redirect. When the client
approves, the handler finds the state different from Suspended, so it resumes the task
itself: the task is Running and a send is in flight although its owner suspended it and
never resumed it. The download of `downloadReadyWorld` is suspended while the write of its
first chunk is in flight; when the write completes, the completion is not stored: the
Download is told of the bytes received and the next read is issued. -/
theorem skip_and_write_completions_act_while_suspended :
    suspendedSkipWorld.m_state = State.Suspended
    ∧ suspendedSkipWorld.outstanding = [AsyncOp.skip]
    ∧ (complete examplePlatform (approvingEnvironment redirectingServer)
        { suspendedSkipWorld with outstanding := [] } AsyncOp.skip).m_pendingResult = none
    ∧ (complete examplePlatform (approvingEnvironment redirectingServer)
        { suspendedSkipWorld with outstanding := [] } AsyncOp.skip).effects.drop
          suspendedSkipWorld.effects.length
        = [Effect.g_input_stream_close, Effect.g_cancellable_cancel,
            Effect.disconnectMessageSignals, Effect.soup_session_cancel_message,
            Effect.disconnectSessionSignals,
            Effect.clientWillPerformHTTPRedirection suspendedSkipWorld.m_response
              exampleNextRequest]
    ∧ (complete examplePlatform (approvingEnvironment redirectingServer)
        { suspendedSkipWorld with outstanding := [] } AsyncOp.skip).m_state = State.Completed
    ∧ (willPerformHTTPRedirectionCompletion examplePlatform
        (complete examplePlatform (approvingEnvironment redirectingServer)
          { suspendedSkipWorld with outstanding := [] } AsyncOp.skip)
        exampleNextRequest).m_state = State.Running
    ∧ (willPerformHTTPRedirectionCompletion examplePlatform
        (complete examplePlatform (approvingEnvironment redirectingServer)
          { suspendedSkipWorld with outstanding := [] } AsyncOp.skip)
        exampleNextRequest).outstanding = [AsyncOp.send]
    ∧ (willPerformHTTPRedirectionCompletion examplePlatform
        (complete examplePlatform (approvingEnvironment redirectingServer)
          { suspendedSkipWorld with outstanding := [] } AsyncOp.skip)
        exampleNextRequest).effects.getLast? = some Effect.soup_request_send_async
    ∧ suspendedWriteWorld.m_state = State.Suspended
    ∧ suspendedWriteWorld.outstanding = [AsyncOp.write [1, 2, 3]]
    ∧ (complete examplePlatform (approvingEnvironment bodyServer)
        { suspendedWriteWorld with outstanding := [] }
        (AsyncOp.write [1, 2, 3])).m_pendingResult = none
    ∧ (complete examplePlatform (approvingEnvironment bodyServer)
        { suspendedWriteWorld with outstanding := [] }
        (AsyncOp.write [1, 2, 3])).effects.drop suspendedWriteWorld.effects.length
        = [Effect.downloadDidReceiveData 3, Effect.g_input_stream_read_async]
    ∧ (complete examplePlatform (approvingEnvironment bodyServer)
        { suspendedWriteWorld with outstanding := [] }
        (AsyncOp.write [1, 2, 3])).outstanding = [AsyncOp.read]
    ∧ (complete examplePlatform (approvingEnvironment bodyServer)
        { suspendedWriteWorld with outstanding := [] }
        (AsyncOp.write [1, 2, 3])).m_state = State.Suspended :=
  ⟨by decide, by decide, by decide, by decide, by decide, by decide, by decide, by decide,
    by decide, by decide, by decide, by decide, by decide, by decide⟩

/-! ## Ordered streaming -/

theorem clientTrace_streamedEffects (chunks : List Bytes) :
    clientTrace (streamedEffects chunks) = chunks.map Effect.clientDidReceiveData := by
  induction chunks with
  | nil => rfl
  | cons c rest ih => simp [streamedEffects, clientTrace, ih]

theorem clientTrace_clearRequestEffects (w : World σ) :
    clientTrace (clearRequestEffects w) = [] := by
  unfold clearRequestEffects
  split <;> split <;> rfl

theorem questions_clearRequestEffects (w : World σ) :
    questions (clearRequestEffects w) = [] := by
  unfold clearRequestEffects
  split <;> split <;> rfl

theorem clearRequestEffects_congr (v w : World σ) (hc : v.m_cancellable = w.m_cancellable)
    (hm : v.m_soupMessage = w.m_soupMessage) : clearRequestEffects v = clearRequestEffects w := by
  unfold clearRequestEffects
  rw [hc, hm]

theorem Sim.step_deliver_chunk (p : Platform σ) (env : Environment) (w0 w : World σ)
    (chunk : Bytes) (chunks : List Bytes) (parts : List (HTTPHeaderMap × List Bytes))
    (hw : Delivering w0 w)
    (hinput : w.m_inputStream = some { chunks := chunk :: chunks, parts := parts })
    (hout : w.outstanding = [AsyncOp.read]) (hchunk : chunk ≠ []) :
    ∃ w', Sim.step p env { world := w, inbox := [] } = some { world := w', inbox := [] }
      ∧ Delivering w0 w'
      ∧ w'.m_inputStream = some { chunks := chunks, parts := parts }
      ∧ w'.outstanding = [AsyncOp.read]
      ∧ w'.effects
          = w.effects ++ [Effect.clientDidReceiveData chunk, Effect.g_input_stream_read_async] := by
  obtain ⟨hstate, hclient, hstream, hmulti, hcancel, hmessage⟩ := hw
  have hcomplete : complete p env { w with outstanding := [] } AsyncOp.read
      = { w with m_inputStream := some { chunks := chunks, parts := parts }
                 m_readBuffer := vectorGrow [] gDefaultReadBufferSize
                 outstanding := [AsyncOp.read]
                 effects := w.effects
                   ++ [Effect.clientDidReceiveData chunk, Effect.g_input_stream_read_async] } := by
    unfold complete completeRead
    simp only [hinput]
    rw [readCallback_data
      { w with outstanding := [], m_inputStream := some { chunks := chunks, parts := parts } }
      { GAsyncResult.empty with bytes := chunk } hstate hclient hstream rfl hchunk]
    simp
  refine ⟨complete p env { w with outstanding := [] } AsyncOp.read, ?_, ?_⟩
  · rw [Sim.step_complete p env w _ _ hout,
      Sim.advance_eq _ _ _
        [Effect.clientDidReceiveData chunk, Effect.g_input_stream_read_async]
        (by rw [hcomplete])]
    rfl
  · rw [hcomplete]
    exact ⟨⟨hstate, hclient, hstream, hmulti, hcancel, hmessage⟩, rfl, rfl, rfl⟩

theorem Sim.run_deliver_chunks (p : Platform σ) (env : Environment) (w0 : World σ)
    (parts : List (HTTPHeaderMap × List Bytes)) (chunks : List Bytes) :
    ∀ (w : World σ) (k : Nat), Delivering w0 w →
      w.m_inputStream = some { chunks := chunks, parts := parts } →
      w.outstanding = [AsyncOp.read] → (∀ c ∈ chunks, c ≠ []) →
      ∃ w', Sim.run p env (chunks.length + k) { world := w, inbox := [] }
          = Sim.run p env k { world := w', inbox := [] }
        ∧ Delivering w0 w'
        ∧ w'.m_inputStream = some { chunks := [], parts := parts }
        ∧ w'.outstanding = [AsyncOp.read]
        ∧ w'.effects = w.effects ++ streamedEffects chunks := by
  induction chunks with
  | nil =>
    intro w k hw hinput hout _
    exact ⟨w, by simp, hw, hinput, hout, by simp [streamedEffects]⟩
  | cons chunk rest ih =>
    intro w k hw hinput hout hne
    obtain ⟨w1, hstep, hw1, hinput1, hout1, heffects1⟩ :=
      Sim.step_deliver_chunk p env w0 w chunk rest parts hw hinput hout
        (hne chunk (List.mem_cons_self _ _))
    obtain ⟨w2, hrun, hw2, hinput2, hout2, heffects2⟩ :=
      ih w1 k hw1 hinput1 hout1 (fun c hc => hne c (List.mem_cons_of_mem _ hc))
    refine ⟨w2, ?_, hw2, hinput2, hout2, ?_⟩
    · rw [List.length_cons, Nat.add_right_comm, Sim.run_succ p env _ _ _ hstep, hrun]
    · rw [heffects2, heffects1]
      simp [streamedEffects]

theorem readCallback_end_of_stream (w : World σ) (result : GAsyncResult)
    (hstate : w.m_state = State.Running) (hclient : w.m_client = true)
    (hmultipart : w.m_multipartInputStream = none)
    (hstream : w.m_downloadOutputStream = none)
    (herror : result.error = none) (hbytes : result.bytes = []) :
    readCallback w result
      = { w with m_state := State.Completed
                 m_timeoutSource := false
                 m_pendingResult := none
                 m_soupRequest := none
                 m_inputStream := none
                 m_multipartInputStream := none
                 m_downloadOutputStream := none
                 m_cancellable := none
                 m_soupMessage := none
                 effects := w.effects ++ [Effect.g_input_stream_close] ++ clearRequestEffects w
                   ++ [Effect.clientDidCompleteWithError ResourceError.null] } := by
  unfold readCallback
  rw [if_neg (by simp [hstate, hclient]), if_neg (by simp [hstate]), herror]
  dsimp only
  rw [hbytes, bufferFill_nil, if_neg (by simp)]
  unfold didFinishRead
  dsimp only [World.emit]
  rw [hmultipart]
  dsimp only
  rw [hstream]
  dsimp only
  rw [clearRequest_eq _ (by simp [hstate])]
  unfold World.callClient
  dsimp only
  rw [if_pos hclient]
  simp [World.emit, clearRequestEffects]

theorem Sim.step_end_of_stream (p : Platform σ) (env : Environment) (w0 w : World σ)
    (parts : List (HTTPHeaderMap × List Bytes))
    (hw : Delivering w0 w) (hinput : w.m_inputStream = some { chunks := [], parts := parts })
    (hout : w.outstanding = [AsyncOp.read]) :
    ∃ w', Sim.step p env { world := w, inbox := [] } = some { world := w', inbox := [] }
      ∧ w'.m_state = State.Completed
      ∧ w'.outstanding = []
      ∧ w'.effects
          = w.effects ++ [Effect.g_input_stream_close] ++ clearRequestEffects w0
            ++ [Effect.clientDidCompleteWithError ResourceError.null]
      ∧ Sim.step p env { world := w', inbox := [] } = none := by
  obtain ⟨hstate, hclient, hstream, hmulti, hcancel, hmessage⟩ := hw
  have hcomplete : complete p env { w with outstanding := [] } AsyncOp.read
      = { w with m_state := State.Completed
                 m_timeoutSource := false
                 m_pendingResult := none
                 m_soupRequest := none
                 m_inputStream := none
                 m_multipartInputStream := none
                 m_downloadOutputStream := none
                 m_cancellable := none
                 m_soupMessage := none
                 outstanding := []
                 effects := w.effects ++ [Effect.g_input_stream_close] ++ clearRequestEffects w0
                   ++ [Effect.clientDidCompleteWithError ResourceError.null] } := by
    unfold complete completeRead
    simp only [hinput]
    rw [readCallback_end_of_stream
      { w with outstanding := [], m_inputStream := some { chunks := [], parts := parts } }
      GAsyncResult.empty hstate hclient hmulti hstream rfl rfl]
    rw [clearRequestEffects_congr
      { w with outstanding := [], m_inputStream := some { chunks := [], parts := parts } }
      w0 hcancel hmessage]
  refine ⟨complete p env { w with outstanding := [] } AsyncOp.read, ?_, ?_, ?_, ?_, ?_⟩
  · rw [Sim.step_complete p env w _ _ hout,
      Sim.advance_eq _ _ _
        ([Effect.g_input_stream_close] ++ clearRequestEffects w0
          ++ [Effect.clientDidCompleteWithError ResourceError.null])
        (by rw [hcomplete]; simp)]
    simp [questions_append, questions_clearRequestEffects, questions]
  · rw [hcomplete]
  · rw [hcomplete]
  · rw [hcomplete]
  · rw [hcomplete]
    rfl

/-- C14: ordered streaming. A running task with its client, no download and no multipart
body holds the body stream of its response and has asked the client what to do with the
response; the client answers Use; the transport yields the non-empty chunks `c1 .. cn` and
then the end of the stream. After `n + 2` steps of the environment, and after any larger
number, the calls made are, in this order: the first read; for each chunk in turn
`didReceiveData` of that chunk followed by the next read; the close of the stream, the
release of the request, and one `didCompleteWithError` carrying no error. The client has
therefore received the chunks in order and then the single completion; the task is
Completed, with no operation in flight and no question pending. -/
theorem ordered_streaming (p : Platform σ) (env : Environment) (w : World σ)
    (response : ResourceResponse) (chunks : List Bytes)
    (parts : List (HTTPHeaderMap × List Bytes))
    (hstate : w.m_state = State.Running) (hclient : w.m_client = true)
    (hdownload : w.m_downloadOutputStream = none)
    (hmultipart : w.m_multipartInputStream = none)
    (hinput : w.m_inputStream = some { chunks := chunks, parts := parts })
    (hout : w.outstanding = [])
    (hpolicy : env.policy response = PolicyAction.PolicyUse)
    (hchunks : ∀ c ∈ chunks, c ≠ []) (k : Nat) (hk : chunks.length + 2 ≤ k) :
    (Sim.run p env k
        { world := w, inbox := [Effect.clientDidReceiveResponse response] }).world.effects
      = w.effects ++ [Effect.g_input_stream_read_async] ++ streamedEffects chunks
        ++ [Effect.g_input_stream_close] ++ clearRequestEffects w
        ++ [Effect.clientDidCompleteWithError ResourceError.null]
    ∧ clientTrace (Sim.run p env k
        { world := w, inbox := [Effect.clientDidReceiveResponse response] }).world.effects
      = clientTrace w.effects ++ chunks.map Effect.clientDidReceiveData
        ++ [Effect.clientDidCompleteWithError ResourceError.null]
    ∧ (Sim.run p env k
        { world := w, inbox := [Effect.clientDidReceiveResponse response] }).world.m_state
      = State.Completed
    ∧ (Sim.run p env k
        { world := w, inbox := [Effect.clientDidReceiveResponse response] }).world.outstanding
      = []
    ∧ (Sim.run p env k
        { world := w, inbox := [Effect.clientDidReceiveResponse response] }).inbox = [] := by
  obtain ⟨j, rfl⟩ : ∃ j, k = chunks.length + (1 + j) + 1 := ⟨k - (chunks.length + 2), by omega⟩
  have hanswer : answer p env w (Effect.clientDidReceiveResponse response)
      = { w with m_readBuffer := vectorGrow w.m_readBuffer gDefaultReadBufferSize
                 outstanding := [AsyncOp.read]
                 effects := w.effects ++ [Effect.g_input_stream_read_async] } := by
    show didReceiveResponseCompletion w (env.policy response) = _
    rw [hpolicy, didReceiveResponseCompletion_use_read w _ hstate hinput, hout]
    rfl
  have hstep1 : Sim.step p env { world := w, inbox := [Effect.clientDidReceiveResponse response] }
      = some { world := answer p env w (Effect.clientDidReceiveResponse response), inbox := [] } := by
    rw [Sim.step_answer, Sim.advance_eq _ _ _ [Effect.g_input_stream_read_async]
      (by rw [hanswer])]
    rfl
  have hw1 : Delivering w (answer p env w (Effect.clientDidReceiveResponse response)) := by
    rw [hanswer]
    exact ⟨hstate, hclient, hdownload, hmultipart, rfl, rfl⟩
  obtain ⟨w2, hrun2, hw2, hinput2, hout2, heffects2⟩ :=
    Sim.run_deliver_chunks p env w parts chunks _ (1 + j) hw1
      (by rw [hanswer]; exact hinput) (by rw [hanswer]) hchunks
  obtain ⟨w3, hstep3, hstate3, hout3, heffects3, hrest3⟩ :=
    Sim.step_end_of_stream p env w w2 parts hw2 hinput2 hout2
  have hrun : Sim.run p env (chunks.length + (1 + j) + 1)
      { world := w, inbox := [Effect.clientDidReceiveResponse response] }
      = { world := w3, inbox := [] } := by
    rw [Sim.run_succ p env _ _ _ hstep1, hrun2, Nat.add_comm 1 j,
      Sim.run_succ p env _ _ _ hstep3, Sim.run_rest p env _ _ hrest3]
  rw [hrun]
  have heffects : w3.effects
      = w.effects ++ [Effect.g_input_stream_read_async] ++ streamedEffects chunks
        ++ [Effect.g_input_stream_close] ++ clearRequestEffects w
        ++ [Effect.clientDidCompleteWithError ResourceError.null] := by
    rw [heffects3, heffects2, hanswer]
  refine ⟨heffects, ?_, hstate3, hout3, rfl⟩
  rw [heffects]
  simp [clientTrace_append, clientTrace_streamedEffects, clientTrace_clearRequestEffects,
    clientTrace]

theorem ordered_streaming_witness :
    respondedWorld.m_state = State.Running ∧ respondedWorld.m_client = true
    ∧ respondedWorld.m_downloadOutputStream = none
    ∧ respondedWorld.m_multipartInputStream = none
    ∧ respondedWorld.outstanding = []
    ∧ clientTrace (Sim.run examplePlatform (approvingEnvironment bodyServer) 4
        { world := { respondedWorld with
                     m_inputStream := some { chunks := [[1, 2], [3]], parts := [] } }
          inbox := [Effect.clientDidReceiveResponse respondedWorld.m_response] }).world.effects
      = clientTrace respondedWorld.effects
        ++ [[1, 2], [3]].map Effect.clientDidReceiveData
        ++ [Effect.clientDidCompleteWithError ResourceError.null]
    ∧ (Sim.run examplePlatform (approvingEnvironment bodyServer) 4
        { world := { respondedWorld with
                     m_inputStream := some { chunks := [[1, 2], [3]], parts := [] } }
          inbox := [Effect.clientDidReceiveResponse respondedWorld.m_response] }).world.m_state
      = State.Completed :=
  ⟨by decide, by decide, by decide, by decide, by decide,
    (ordered_streaming examplePlatform (approvingEnvironment bodyServer)
      { respondedWorld with m_inputStream := some { chunks := [[1, 2], [3]], parts := [] } }
      respondedWorld.m_response [[1, 2], [3]] [] (by decide) (by decide) (by decide)
      (by decide) rfl (by decide) rfl (by decide) 4 (by decide)).2.1,
    (ordered_streaming examplePlatform (approvingEnvironment bodyServer)
      { respondedWorld with m_inputStream := some { chunks := [[1, 2], [3]], parts := [] } }
      respondedWorld.m_response [[1, 2], [3]] [] (by decide) (by decide) (by decide)
      (by decide) rfl (by decide) rfl (by decide) 4 (by decide)).2.2.1⟩

/-! ## The answer to a challenge -/

theorem unpauseCount_append (a b : List Effect) :
    unpauseCount (a ++ b) = unpauseCount a + unpauseCount b := by
  simp [unpauseCount, List.count_append]

theorem clearRequest_unpauseCount (w : World σ) :
    unpauseCount (clearRequest w).effects = unpauseCount w.effects := by
  unfold clearRequest
  split
  · rfl
  · dsimp only [stopTimeout, World.emit]
    split <;> split <;> simp [unpauseCount_append] <;> simp [unpauseCount]

theorem cancel_unpauseCount (w : World σ) :
    unpauseCount (cancel w).effects = unpauseCount w.effects := by
  unfold cancel
  split
  · rfl
  · dsimp only [World.emit]
    split
    · rw [cleanDownloadFiles_effects]
      split <;> split <;> simp [unpauseCount_append] <;> simp [unpauseCount]
    · split <;> split <;> simp [unpauseCount_append] <;> simp [unpauseCount]

theorem didFailDownload_unpauseCount (w : World σ) (error : ResourceError) :
    unpauseCount (didFailDownload w error).effects = unpauseCount w.effects := by
  unfold didFailDownload
  dsimp only
  split <;>
    simp [World.emit, unpauseCount_append, cleanDownloadFiles_effects, clearRequest_unpauseCount] <;>
    simp [unpauseCount]

theorem didFail_unpauseCount (w : World σ) (error : ResourceError) :
    unpauseCount (didFail w error).effects = unpauseCount w.effects := by
  unfold didFail
  split
  · exact didFailDownload_unpauseCount _ _
  · unfold World.callClient
    dsimp only
    split <;> simp [World.emit, unpauseCount_append, clearRequest_unpauseCount] <;>
      simp [unpauseCount]

theorem didReceiveChallengeCompletion_effects (p : Platform σ) (w : World σ)
    (challenge : AuthenticationChallenge) (disposition : AuthenticationChallengeDisposition)
    (credential : Credential)
    (hstate : ¬ (w.m_state = State.Canceling ∨ w.m_state = State.Completed))
    (hdisposition : disposition ≠ AuthenticationChallengeDisposition.Cancel) :
    (didReceiveChallengeCompletion p w challenge disposition credential).effects
      = w.effects
        ++ (if disposition = AuthenticationChallengeDisposition.UseCredential
              ∧ credential.isEmpty = false
            then [Effect.soup_auth_authenticate credential.user credential.password] else [])
        ++ [Effect.soup_session_unpause_message] := by
  unfold didReceiveChallengeCompletion
  rw [if_neg hstate, if_neg hdisposition]
  dsimp only [World.emit]
  repeat' split
  all_goals simp

/-- C15, as amended: the answer to a challenge unpauses the message unless it cancels. On a
task that is neither Canceling nor Completed, for every disposition other than Cancel
(UseCredential with or without a credential, default handling, rejection of the protection
space) the completion handler of `didReceiveChallenge` ends by unpausing the transport
message: the unpause is the last call it makes, after the credential has been supplied
when there is one to supply, and it is made once. For the disposition Cancel the task is
cancelled and failed, which leaves it Completed, and the message is not unpaused. -/
theorem challenge_answer_unpauses_unless_cancelled (p : Platform σ) (w : World σ)
    (challenge : AuthenticationChallenge) (disposition : AuthenticationChallengeDisposition)
    (credential : Credential)
    (hcanceling : w.m_state ≠ State.Canceling) (hcompleted : w.m_state ≠ State.Completed) :
    (disposition ≠ AuthenticationChallengeDisposition.Cancel →
      (didReceiveChallengeCompletion p w challenge disposition credential).effects
        = w.effects
          ++ (if disposition = AuthenticationChallengeDisposition.UseCredential
                ∧ credential.isEmpty = false
              then [Effect.soup_auth_authenticate credential.user credential.password] else [])
          ++ [Effect.soup_session_unpause_message]
      ∧ unpauseCount (didReceiveChallengeCompletion p w challenge disposition credential).effects
        = unpauseCount w.effects + 1)
    ∧ (disposition = AuthenticationChallengeDisposition.Cancel →
      unpauseCount (didReceiveChallengeCompletion p w challenge disposition credential).effects
        = unpauseCount w.effects
      ∧ (didReceiveChallengeCompletion p w challenge disposition credential).m_state
        = State.Completed) := by
  have hstate : ¬ (w.m_state = State.Canceling ∨ w.m_state = State.Completed) := by
    simp [hcanceling, hcompleted]
  refine ⟨fun hd => ?_, fun hd => ?_⟩
  · have h := didReceiveChallengeCompletion_effects p w challenge disposition credential hstate hd
    refine ⟨h, ?_⟩
    rw [h, unpauseCount_append, unpauseCount_append]
    split <;> simp [unpauseCount]
  · have hcancel : didReceiveChallengeCompletion p w challenge disposition credential
        = didFail (cancel w) (cancelledError (cancel w).m_soupRequest) := by
      unfold didReceiveChallengeCompletion
      rw [if_neg hstate, if_pos hd]
    rw [hcancel]
    exact ⟨by rw [didFail_unpauseCount, cancel_unpauseCount], didFail_state _ _⟩

theorem challenge_answer_unpauses_unless_cancelled_witness :
    challengedWorld.m_state = State.Running
    ∧ (didReceiveChallengeCompletion examplePlatform challengedWorld exampleChallenge
        AuthenticationChallengeDisposition.UseCredential exampleSessionCredential).effects
      = challengedWorld.effects
        ++ [Effect.soup_auth_authenticate "user" "secret", Effect.soup_session_unpause_message]
    ∧ (didReceiveChallengeCompletion examplePlatform challengedWorld exampleChallenge
        AuthenticationChallengeDisposition.PerformDefaultHandling Credential.null).effects
      = challengedWorld.effects ++ [] ++ [Effect.soup_session_unpause_message]
    ∧ (didReceiveChallengeCompletion examplePlatform challengedWorld exampleChallenge
        AuthenticationChallengeDisposition.Cancel Credential.null).m_state = State.Completed :=
  ⟨by decide,
    ((challenge_answer_unpauses_unless_cancelled examplePlatform challengedWorld
      exampleChallenge AuthenticationChallengeDisposition.UseCredential
      exampleSessionCredential (by decide) (by decide)).1 (by decide)).1,
    ((challenge_answer_unpauses_unless_cancelled examplePlatform challengedWorld
      exampleChallenge AuthenticationChallengeDisposition.PerformDefaultHandling
      Credential.null (by decide) (by decide)).1 (by decide)).1,
    ((challenge_answer_unpauses_unless_cancelled examplePlatform challengedWorld
      exampleChallenge AuthenticationChallengeDisposition.Cancel Credential.null (by decide)
      (by decide)).2 rfl).2⟩

/-- C15, counterexample: the task of `challengedWorld` is running with its message paused
for a challenge, and the client answers Cancel. The completion handler cancels the task and
reports the cancellation error; it does not unpause the message: the calls it makes are the
cancellations, the release of the request and the report to the client. -/
theorem cancelled_challenge_does_not_unpause :
    challengedWorld.m_state = State.Running
    ∧ (didReceiveChallengeCompletion examplePlatform challengedWorld exampleChallenge
        AuthenticationChallengeDisposition.Cancel Credential.null).effects.drop
          challengedWorld.effects.length
      = [Effect.soup_session_cancel_message, Effect.g_cancellable_cancel,
          Effect.g_cancellable_cancel, Effect.disconnectMessageSignals,
          Effect.soup_session_cancel_message, Effect.disconnectSessionSignals,
          Effect.clientDidCompleteWithError (cancelledError challengedWorld.m_soupRequest)]
    ∧ unpauseCount (didReceiveChallengeCompletion examplePlatform challengedWorld
        exampleChallenge AuthenticationChallengeDisposition.Cancel Credential.null).effects
      = 0 :=
  ⟨by decide, by decide, by decide⟩

/-! ## Credential tiers and the persistent write-through -/

/-- C16, as amended: credential tiers on UseCredential. On a task that is neither Canceling
nor Completed, when the client answers a challenge with UseCredential and a credential that
is not empty, the credential is supplied to the transport and the message is unpaused.
When the task allows stored credentials, the credential is stored in the Credential Store
under the protection space of the challenge exactly when its persistence is session or
permanent, and it is staged for the persistent write-through, with that protection space,
exactly when its persistence is permanent. When the task does not allow stored credentials
the store and the staging slot are left as they were. -/
theorem credential_tiers_on_use_credential (p : Platform σ) (w : World σ)
    (challenge : AuthenticationChallenge) (credential : Credential)
    (hcanceling : w.m_state ≠ State.Canceling) (hcompleted : w.m_state ≠ State.Completed)
    (hcredential : credential.isEmpty = false) :
    (didReceiveChallengeCompletion p w challenge
        AuthenticationChallengeDisposition.UseCredential credential).effects
      = w.effects ++ [Effect.soup_auth_authenticate credential.user credential.password,
          Effect.soup_session_unpause_message]
    ∧ (didReceiveChallengeCompletion p w challenge
        AuthenticationChallengeDisposition.UseCredential credential).credentialStorage
      = (if w.m_storedCredentials = StoredCredentials.AllowStoredCredentials
            ∧ (credential.persistence = CredentialPersistence.CredentialPersistenceForSession
              ∨ credential.persistence = CredentialPersistence.CredentialPersistencePermanent)
         then p.credentialSet w.credentialStorage credential challenge.protectionSpace
           challenge.failureResponse.url
         else w.credentialStorage)
    ∧ (didReceiveChallengeCompletion p w challenge
        AuthenticationChallengeDisposition.UseCredential
        credential).m_protectionSpaceForPersistentStorage
      = (if w.m_storedCredentials = StoredCredentials.AllowStoredCredentials
            ∧ credential.persistence = CredentialPersistence.CredentialPersistencePermanent
         then challenge.protectionSpace else w.m_protectionSpaceForPersistentStorage)
    ∧ (didReceiveChallengeCompletion p w challenge
        AuthenticationChallengeDisposition.UseCredential
        credential).m_credentialForPersistentStorage
      = (if w.m_storedCredentials = StoredCredentials.AllowStoredCredentials
            ∧ credential.persistence = CredentialPersistence.CredentialPersistencePermanent
         then credential else w.m_credentialForPersistentStorage) := by
  have hstate : ¬ (w.m_state = State.Canceling ∨ w.m_state = State.Completed) := by
    simp [hcanceling, hcompleted]
  unfold didReceiveChallengeCompletion
  rw [if_neg hstate, if_neg (by decide), if_pos ⟨rfl, hcredential⟩]
  dsimp only [World.emit]
  by_cases hallow : w.m_storedCredentials = StoredCredentials.AllowStoredCredentials
  · rw [if_pos hallow]
    cases hp : credential.persistence <;> simp [hallow]
  · rw [if_neg hallow]
    simp [hallow]

theorem credential_tiers_on_use_credential_witness :
    challengedWorld.m_state = State.Running
    ∧ challengedWorld.m_storedCredentials = StoredCredentials.AllowStoredCredentials
    ∧ examplePermanentCredential.isEmpty = false
    ∧ (didReceiveChallengeCompletion examplePlatform challengedWorld exampleChallenge
        AuthenticationChallengeDisposition.UseCredential
        examplePermanentCredential).credentialStorage
      = examplePlatform.credentialSet challengedWorld.credentialStorage
          examplePermanentCredential exampleSpace exampleChallenge.failureResponse.url
    ∧ (didReceiveChallengeCompletion examplePlatform challengedWorld exampleChallenge
        AuthenticationChallengeDisposition.UseCredential
        examplePermanentCredential).m_credentialForPersistentStorage
      = examplePermanentCredential
    ∧ (didReceiveChallengeCompletion examplePlatform challengedWorld exampleChallenge
        AuthenticationChallengeDisposition.UseCredential
        exampleSessionCredential).m_credentialForPersistentStorage
      = challengedWorld.m_credentialForPersistentStorage :=
  ⟨by decide, by decide, by decide,
    (credential_tiers_on_use_credential examplePlatform challengedWorld exampleChallenge
      examplePermanentCredential (by decide) (by decide) (by decide)).2.1,
    (credential_tiers_on_use_credential examplePlatform challengedWorld exampleChallenge
      examplePermanentCredential (by decide) (by decide) (by decide)).2.2.2,
    (credential_tiers_on_use_credential examplePlatform challengedWorld exampleChallenge
      exampleSessionCredential (by decide) (by decide) (by decide)).2.2.2⟩

/-- C16, counterexample: a task created with stored credentials not allowed, over an empty
store, is challenged, and the client answers UseCredential with a credential to keep
permanently. The credential is supplied to the transport, but it is not stored: the
Credential Store still holds nothing for the protection space of the challenge; and it is
not staged for the persistent write-through: the staging slot is still empty. The same
holds for a credential to keep for the session. -/
theorem credential_not_stored_without_stored_credentials :
    challengedWithoutStoreWorld.m_state = State.Running
    ∧ challengedWithoutStoreWorld.m_storedCredentials
        = StoredCredentials.DoNotAllowStoredCredentials
    ∧ examplePermanentCredential.isEmpty = false
    ∧ examplePermanentCredential.persistence
        = CredentialPersistence.CredentialPersistencePermanent
    ∧ (didReceiveChallengeCompletion examplePlatform challengedWithoutStoreWorld
        exampleChallenge AuthenticationChallengeDisposition.UseCredential
        examplePermanentCredential).effects
      = challengedWithoutStoreWorld.effects
        ++ [Effect.soup_auth_authenticate "user" "secret", Effect.soup_session_unpause_message]
    ∧ examplePlatform.credentialGet
        (didReceiveChallengeCompletion examplePlatform challengedWithoutStoreWorld
          exampleChallenge AuthenticationChallengeDisposition.UseCredential
          examplePermanentCredential).credentialStorage exampleChallenge.protectionSpace
      = Credential.null
    ∧ (didReceiveChallengeCompletion examplePlatform challengedWithoutStoreWorld
        exampleChallenge AuthenticationChallengeDisposition.UseCredential
        examplePermanentCredential).m_credentialForPersistentStorage = Credential.null
    ∧ exampleSessionCredential.persistence
        = CredentialPersistence.CredentialPersistenceForSession
    ∧ examplePlatform.credentialGet
        (didReceiveChallengeCompletion examplePlatform challengedWithoutStoreWorld
          exampleChallenge AuthenticationChallengeDisposition.UseCredential
          exampleSessionCredential).credentialStorage exampleChallenge.protectionSpace
      = Credential.null :=
  ⟨by decide, by decide, by decide, by decide, by decide, by decide, by decide, by decide,
    by decide⟩

/-- C17: the lazy persistent write-through. When the headers of a response arrive with a
status that is neither 401 nor 407 and is below 500, `didGetHeaders` saves the staged
credential to persistent storage under the staged protection space and clears the staging
slot, and changes nothing else. With status 401, 407 or 500 and above it does nothing:
nothing is saved and the staged protection space and credential are left as they were.
For a task that is neither Canceling nor Completed and has its client, the got-headers
signal runs `didGetHeaders`. -/
theorem lazy_persistent_write_through (w : World σ) (m : SoupMessage)
    (hmessage : w.m_soupMessage = some m) :
    (m.status_code ≠ 401 ∧ m.status_code ≠ 407 ∧ m.status_code < 500 →
      didGetHeaders w
        = { w with m_protectionSpaceForPersistentStorage := ProtectionSpace.null
                   m_credentialForPersistentStorage := Credential.null
                   effects := w.effects
                     ++ [Effect.saveCredentialToPersistentStorage
                          w.m_protectionSpaceForPersistentStorage
                          w.m_credentialForPersistentStorage] })
    ∧ (m.status_code = 401 ∨ m.status_code = 407 ∨ 500 ≤ m.status_code →
      didGetHeaders w = w)
    ∧ (w.m_state ≠ State.Canceling ∧ w.m_state ≠ State.Completed ∧ w.m_client = true →
      gotHeadersCallback w = didGetHeaders w) := by
  refine ⟨fun h => ?_, fun h => ?_, fun h => ?_⟩
  · obtain ⟨h1, h2, h3⟩ := h
    unfold didGetHeaders
    split
    · rename_i soupMessage heq
      rw [hmessage] at heq
      cases heq
      rw [if_pos (by simp [isAuthenticationFailureStatusCode, h1, h2, h3])]
      rfl
    · rename_i heq
      rw [hmessage] at heq
      cases heq
  · unfold didGetHeaders
    split
    swap
    · rfl
    rename_i soupMessage heq
    rw [hmessage] at heq
    cases heq
    rw [if_neg]
    simp only [isAuthenticationFailureStatusCode, Bool.and_eq_true, Bool.not_eq_true',
      Bool.or_eq_false_iff, beq_eq_false_iff_ne, decide_eq_true_eq, not_and, not_lt]
    rcases h with h | h | h
    · intro h'; exact absurd h h'.2
    · intro h'; exact absurd h h'.1
    · intro _; exact h
  · obtain ⟨h1, h2, h3⟩ := h
    unfold gotHeadersCallback
    rw [if_neg (by simp [h1, h2, h3])]

theorem lazy_persistent_write_through_witness :
    (stagedWorldWithStatus 200).m_soupMessage.map (fun m => m.status_code) = some 200
    ∧ (stagedWorldWithStatus 200).m_credentialForPersistentStorage = examplePermanentCredential
    ∧ (stagedWorldWithStatus 200).m_protectionSpaceForPersistentStorage = exampleSpace
    ∧ (didGetHeaders (stagedWorldWithStatus 200)).effects
      = (stagedWorldWithStatus 200).effects
        ++ [Effect.saveCredentialToPersistentStorage exampleSpace examplePermanentCredential]
    ∧ (didGetHeaders (stagedWorldWithStatus 200)).m_credentialForPersistentStorage
      = Credential.null
    ∧ (didGetHeaders (stagedWorldWithStatus 503)).m_credentialForPersistentStorage
      = examplePermanentCredential
    ∧ (didGetHeaders (stagedWorldWithStatus 401)).effects = (stagedWorldWithStatus 401).effects :=
  ⟨by decide, by decide, by decide,
    congrArg World.effects
      ((lazy_persistent_write_through (stagedWorldWithStatus 200)
        (answeredMessage 200) (by decide)).1
        ⟨by decide, by decide, by decide⟩),
    congrArg World.m_credentialForPersistentStorage
      ((lazy_persistent_write_through (stagedWorldWithStatus 200)
        (answeredMessage 200) (by decide)).1
        ⟨by decide, by decide, by decide⟩),
    congrArg World.m_credentialForPersistentStorage
      ((lazy_persistent_write_through (stagedWorldWithStatus 503)
        (answeredMessage 503) (by decide)).2.1
        (Or.inr (Or.inr (by decide)))),
    congrArg World.effects
      ((lazy_persistent_write_through (stagedWorldWithStatus 401)
        (answeredMessage 401) (by decide)).2.1 (Or.inl rfl))⟩

/-! ## Failed downloads -/

theorem clearRequest_effects_eq (w : World σ) :
    (clearRequest w).effects = w.effects ++ releaseEffects w := by
  unfold releaseEffects
  by_cases h : w.m_state = State.Completed
  · rw [clearRequest_of_completed w h, if_pos h]
    simp
  · rw [clearRequest_eq w h, if_neg h]

theorem clearRequest_files (w : World σ) : (clearRequest w).files = w.files := by
  unfold clearRequest
  dsimp only [World.emit, stopTimeout]
  repeat' split
  all_goals rfl

theorem clearRequest_destination (w : World σ) :
    (clearRequest w).m_downloadDestinationFile = w.m_downloadDestinationFile := by
  unfold clearRequest
  dsimp only [World.emit, stopTimeout]
  repeat' split
  all_goals rfl

theorem clearRequest_intermediate (w : World σ) :
    (clearRequest w).m_downloadIntermediateFile = w.m_downloadIntermediateFile := by
  unfold clearRequest
  dsimp only [World.emit, stopTimeout]
  repeat' split
  all_goals rfl

theorem cleanDownloadFiles_client (w : World σ) :
    (cleanDownloadFiles w).m_client = w.m_client := by
  unfold cleanDownloadFiles
  dsimp only
  split <;> split <;> rfl

theorem cleanDownloadFiles_outstanding (w : World σ) :
    (cleanDownloadFiles w).outstanding = w.outstanding := by
  unfold cleanDownloadFiles
  dsimp only
  split <;> split <;> rfl

theorem cleanDownloadFiles_lookup (w : World σ) (q : String) :
    (cleanDownloadFiles w).files.lookup q
      = if w.m_downloadDestinationFile = some q ∨ w.m_downloadIntermediateFile = some q
        then none else w.files.lookup q := by
  unfold cleanDownloadFiles
  dsimp only
  cases hd : w.m_downloadDestinationFile <;> cases hi : w.m_downloadIntermediateFile <;>
    simp only [hi, lookup_delete, Option.some.injEq, false_or, or_false, reduceCtorEq, if_false]
  · rename_i d i
    by_cases h1 : d = q <;> by_cases h2 : i = q <;> simp [h1, h2]

theorem didFailDownload_effects (w : World σ) (error : ResourceError) :
    (didFailDownload w error).effects
      = w.effects ++ releaseEffects w ++ [failureReport w error] := by
  unfold didFailDownload failureReport
  dsimp only
  rw [cleanDownloadFiles_client, clearRequest_client]
  split <;>
    simp only [World.emit, cleanDownloadFiles_effects, clearRequest_effects_eq]

theorem didFailDownload_outstanding (w : World σ) (error : ResourceError) :
    (didFailDownload w error).outstanding = w.outstanding := by
  unfold didFailDownload
  dsimp only
  split <;>
    simp only [World.emit, cleanDownloadFiles_outstanding, clearRequest_outstanding]

theorem didFailDownload_lookup (w : World σ) (error : ResourceError) (q : String) :
    (didFailDownload w error).files.lookup q
      = if w.m_downloadDestinationFile = some q ∨ w.m_downloadIntermediateFile = some q
        then none else w.files.lookup q := by
  have h := cleanDownloadFiles_lookup (clearRequest w) q
  rw [clearRequest_files, clearRequest_destination, clearRequest_intermediate] at h
  unfold didFailDownload
  dsimp only
  split <;> exact h

theorem mem_releaseEffects (w : World σ) (e : Effect) (he : e ∈ releaseEffects w) :
    e = Effect.g_cancellable_cancel ∨ e = Effect.disconnectMessageSignals
      ∨ e = Effect.soup_session_cancel_message ∨ e = Effect.disconnectSessionSignals := by
  obtain ⟨l, hl, hmem⟩ := clearRequest_effects w
  rw [clearRequest_effects_eq] at hl
  exact hmem e ((List.append_cancel_left hl) ▸ he)

theorem download_of_error_status (w : World σ) (hstatus : 400 ≤ w.m_response.httpStatusCode) :
    download w
      = didFailDownload w
          (platformDownloadNetworkError w.m_response.httpStatusCode w.m_response.url
            w.m_response.httpStatusText) := by
  unfold download
  rw [if_pos hstatus]

/-- C18: `download()` refuses error responses. For every task whose response has status 400
or above, `download()` fails at once: the calls it makes are the release of the request
followed by the report of the download network error whose code is that status; no
Download record is registered and no read is issued among them, no operation is put in
flight, no file is created (a path that held no file holds none afterwards, the destination
and the intermediate path among them), and the task is left Completed. -/
theorem download_refuses_error_responses (w : World σ)
    (hstatus : 400 ≤ w.m_response.httpStatusCode) :
    (download w).effects
      = w.effects ++ releaseEffects w
        ++ [failureReport w
            (platformDownloadNetworkError w.m_response.httpStatusCode w.m_response.url
              w.m_response.httpStatusText)]
    ∧ (platformDownloadNetworkError w.m_response.httpStatusCode w.m_response.url
        w.m_response.httpStatusText).errorCode = w.m_response.httpStatusCode
    ∧ (∀ path, w.files.lookup path = none → (download w).files.lookup path = none)
    ∧ (∀ downloadID,
        Effect.dataTaskBecameDownloadTask downloadID ∉ (download w).effects.drop w.effects.length)
    ∧ Effect.g_input_stream_read_async ∉ (download w).effects.drop w.effects.length
    ∧ (download w).outstanding = w.outstanding
    ∧ (download w).m_state = State.Completed := by
  have heffects := didFailDownload_effects w
    (platformDownloadNetworkError w.m_response.httpStatusCode w.m_response.url
      w.m_response.httpStatusText)
  have hnew : ∀ e, e ∈ (download w).effects.drop w.effects.length →
      e ∈ releaseEffects w
        ∨ e = failureReport w
            (platformDownloadNetworkError w.m_response.httpStatusCode w.m_response.url
              w.m_response.httpStatusText) := by
    intro e he
    rw [download_of_error_status w hstatus, heffects, List.append_assoc, List.drop_left] at he
    simpa using he
  rw [download_of_error_status w hstatus]
  refine ⟨heffects, rfl, ?_, ?_, ?_, didFailDownload_outstanding _ _, didFailDownload_state _ _⟩
  · intro path hpath
    rw [didFailDownload_lookup]
    split
    · rfl
    · exact hpath
  · intro downloadID he
    rw [← download_of_error_status w hstatus] at he
    rcases hnew _ he with h | h
    · rcases mem_releaseEffects w _ h with h | h | h | h <;> cases h
    · unfold failureReport at h
      split at h <;> cases h
  · intro he
    rw [← download_of_error_status w hstatus] at he
    rcases hnew _ he with h | h
    · rcases mem_releaseEffects w _ h with h | h | h | h <;> cases h
    · unfold failureReport at h
      split at h <;> cases h

theorem download_refuses_error_responses_witness :
    notFoundDownloadWorld.m_response.httpStatusCode = 404
    ∧ notFoundDownloadWorld.m_client = false
    ∧ notFoundDownloadWorld.files.lookup exampleDestination = none
    ∧ notFoundDownloadWorld.files.lookup (exampleDestination ++ wkdownloadSuffix) = none
    ∧ (download notFoundDownloadWorld).effects
      = notFoundDownloadWorld.effects ++ releaseEffects notFoundDownloadWorld
        ++ [Effect.downloadDidFail
            (platformDownloadNetworkError 404 notFoundDownloadWorld.m_response.url
              notFoundDownloadWorld.m_response.httpStatusText)]
    ∧ (download notFoundDownloadWorld).files.lookup exampleDestination = none
    ∧ (download notFoundDownloadWorld).files.lookup (exampleDestination ++ wkdownloadSuffix)
      = none
    ∧ (download notFoundDownloadWorld).m_state = State.Completed :=
  ⟨by decide, by decide, by decide, by decide,
    (download_refuses_error_responses notFoundDownloadWorld (by decide)).1,
    (download_refuses_error_responses notFoundDownloadWorld (by decide)).2.2.1 _ (by decide),
    (download_refuses_error_responses notFoundDownloadWorld (by decide)).2.2.1 _ (by decide),
    (download_refuses_error_responses notFoundDownloadWorld (by decide)).2.2.2.2.2.2⟩

/-! ## Cleanup after a failed download -/

theorem download_destination_error (w : World σ) (error : GError)
    (hstatus : w.m_response.httpStatusCode < 400)
    (hcreate : (if w.m_allowOverwriteDownload
        then w.files.g_file_replace w.m_pendingDownloadLocation false
        else w.files.g_file_create w.m_pendingDownloadLocation) = Except.error error) :
    download w
      = didFailDownload { w with m_downloadDestinationFile := some w.m_pendingDownloadLocation }
          (platformDownloadDestinationError w.m_response error.message) := by
  unfold download
  rw [if_neg (by omega)]
  dsimp only
  split
  · rename_i e heq
    rw [hcreate] at heq
    cases heq
    rfl
  · rename_i files heq
    rw [hcreate] at heq
    cases heq

theorem download_intermediate_error (w : World σ) (files : FileSystem) (error : GError)
    (hstatus : w.m_response.httpStatusCode < 400)
    (hcreate : (if w.m_allowOverwriteDownload
        then w.files.g_file_replace w.m_pendingDownloadLocation false
        else w.files.g_file_create w.m_pendingDownloadLocation) = Except.ok files)
    (hintermediate :
      files.g_file_replace (w.m_pendingDownloadLocation ++ wkdownloadSuffix) true
        = Except.error error) :
    download w
      = didFailDownload
          { w with m_downloadDestinationFile := some w.m_pendingDownloadLocation
                   files := files
                   m_downloadIntermediateFile :=
                     some (w.m_pendingDownloadLocation ++ wkdownloadSuffix) }
          (platformDownloadDestinationError w.m_response error.message) := by
  unfold download
  rw [if_neg (by omega)]
  dsimp only
  split
  · rename_i e heq
    rw [hcreate] at heq
    cases heq
  · rename_i files' heq
    rw [hcreate] at heq
    cases heq
    split
    · rename_i e heq2
      rw [hintermediate] at heq2
      cases heq2
      rfl
    · rename_i files2 heq2
      rw [hintermediate] at heq2
      cases heq2

theorem writeDownloadCallback_error (w : World σ) (result : GAsyncResult) (error : GError)
    (hcanceling : w.m_state ≠ State.Canceling) (hcompleted : w.m_state ≠ State.Completed)
    (hdownload : w.isDownload = true) (herror : result.error = some error) :
    writeDownloadCallback w result
      = didFailDownload w (platformDownloadDestinationError w.m_response error.message) := by
  unfold writeDownloadCallback
  rw [if_neg (by simp [hcanceling, hcompleted, hdownload]), herror]

theorem didFinishDownload_move_error (w : World σ) (intermediate destination : String)
    (error : GError)
    (hintermediate : w.m_downloadIntermediateFile = some intermediate)
    (hdestination : w.m_downloadDestinationFile = some destination)
    (hmove : w.files.g_file_move intermediate destination = Except.error error) :
    didFinishDownload w
      = didFailDownload
          { w with effects := w.effects ++ [Effect.g_output_stream_close]
                   m_downloadOutputStream := none }
          (platformDownloadDestinationError w.m_response error.message) := by
  unfold didFinishDownload
  dsimp only [World.emit]
  split
  · rename_i i d hi hd
    rw [hintermediate] at hi
    rw [hdestination] at hd
    cases hi
    cases hd
    split
    · rename_i e heq
      rw [hmove] at heq
      cases heq
      rfl
    · rename_i files heq
      rw [hmove] at heq
      cases heq
  · rename_i hnone
    exact (hnone _ _ hintermediate hdestination).elim

/-- C19, as amended: cleanup after a failed download. On an error while creating the
destination file, creating the intermediate file, writing a chunk (of a download that is
neither Canceling nor Completed), or moving the intermediate file onto the destination, the
task releases its request and then reports the download destination error once: to the
Download when the client of the task has been detached, to the client while it is still
attached. The files the task holds a handle to are deleted: the destination in all four
cases, and the intermediate file from the error while creating it onward. -/
theorem download_failure_cleanup (w : World σ) (error : GError) :
    (w.m_response.httpStatusCode < 400 →
      (if w.m_allowOverwriteDownload
        then w.files.g_file_replace w.m_pendingDownloadLocation false
        else w.files.g_file_create w.m_pendingDownloadLocation) = Except.error error →
      (download w).effects
        = w.effects ++ releaseEffects w
          ++ [failureReport w (platformDownloadDestinationError w.m_response error.message)]
      ∧ (download w).files.lookup w.m_pendingDownloadLocation = none)
    ∧ (∀ files, w.m_response.httpStatusCode < 400 →
      (if w.m_allowOverwriteDownload
        then w.files.g_file_replace w.m_pendingDownloadLocation false
        else w.files.g_file_create w.m_pendingDownloadLocation) = Except.ok files →
      files.g_file_replace (w.m_pendingDownloadLocation ++ wkdownloadSuffix) true
        = Except.error error →
      (download w).effects
        = w.effects ++ releaseEffects w
          ++ [failureReport w (platformDownloadDestinationError w.m_response error.message)]
      ∧ (download w).files.lookup w.m_pendingDownloadLocation = none
      ∧ (download w).files.lookup (w.m_pendingDownloadLocation ++ wkdownloadSuffix) = none)
    ∧ (∀ result, w.m_state ≠ State.Canceling → w.m_state ≠ State.Completed →
      w.isDownload = true → result.error = some error →
      (writeDownloadCallback w result).effects
        = w.effects ++ releaseEffects w
          ++ [failureReport w (platformDownloadDestinationError w.m_response error.message)]
      ∧ ∀ path, w.m_downloadDestinationFile = some path
          ∨ w.m_downloadIntermediateFile = some path →
        (writeDownloadCallback w result).files.lookup path = none)
    ∧ (∀ intermediate destination, w.m_downloadIntermediateFile = some intermediate →
      w.m_downloadDestinationFile = some destination →
      w.files.g_file_move intermediate destination = Except.error error →
      (didFinishDownload w).effects
        = w.effects ++ [Effect.g_output_stream_close] ++ releaseEffects w
          ++ [failureReport w (platformDownloadDestinationError w.m_response error.message)]
      ∧ (didFinishDownload w).files.lookup destination = none
      ∧ (didFinishDownload w).files.lookup intermediate = none)
    ∧ (w.m_client = false →
      failureReport w (platformDownloadDestinationError w.m_response error.message)
        = Effect.downloadDidFail
            (platformDownloadDestinationError w.m_response error.message))
    ∧ (w.m_client = true →
      failureReport w (platformDownloadDestinationError w.m_response error.message)
        = Effect.clientDidCompleteWithError
            (platformDownloadDestinationError w.m_response error.message)) := by
  refine ⟨?_, ?_, ?_, ?_, ?_, ?_⟩
  · intro hstatus hcreate
    rw [download_destination_error w error hstatus hcreate]
    refine ⟨didFailDownload_effects _ _, ?_⟩
    rw [didFailDownload_lookup]
    exact if_pos (Or.inl rfl)
  · intro files hstatus hcreate hintermediate
    rw [download_intermediate_error w files error hstatus hcreate hintermediate]
    refine ⟨didFailDownload_effects _ _, ?_, ?_⟩
    · rw [didFailDownload_lookup]
      exact if_pos (Or.inl rfl)
    · rw [didFailDownload_lookup]
      exact if_pos (Or.inr rfl)
  · intro result hcanceling hcompleted hdownload herror
    rw [writeDownloadCallback_error w result error hcanceling hcompleted hdownload herror]
    refine ⟨didFailDownload_effects _ _, ?_⟩
    intro path hpath
    rw [didFailDownload_lookup]
    exact if_pos hpath
  · intro intermediate destination hintermediate hdestination hmove
    rw [didFinishDownload_move_error w intermediate destination error hintermediate
      hdestination hmove]
    refine ⟨didFailDownload_effects _ _, ?_, ?_⟩
    · rw [didFailDownload_lookup]
      exact if_pos (Or.inl hdestination)
    · rw [didFailDownload_lookup]
      exact if_pos (Or.inr hintermediate)
  · intro hclient
    unfold failureReport
    rw [hclient]
    rfl
  · intro hclient
    unfold failureReport
    rw [hclient]
    rfl

theorem download_failure_cleanup_witness :
    destinationTakenWorld.m_client = false
    ∧ (download destinationTakenWorld).effects
      = destinationTakenWorld.effects ++ releaseEffects destinationTakenWorld
        ++ [Effect.downloadDidFail
            (platformDownloadDestinationError destinationTakenWorld.m_response "File exists")]
    ∧ (download intermediateDeniedWorld).files.lookup exampleDestination = none
    ∧ (download intermediateDeniedWorld).files.lookup (exampleDestination ++ wkdownloadSuffix)
      = none
    ∧ writingWorld.files.lookup exampleDestination = some []
    ∧ (writeDownloadCallback writingWorld failedResult).files.lookup exampleDestination = none
    ∧ (writeDownloadCallback writingWorld failedResult).files.lookup
        (exampleDestination ++ wkdownloadSuffix) = none
    ∧ (didFinishDownload moveDeniedWorld).effects
      = moveDeniedWorld.effects ++ [Effect.g_output_stream_close]
        ++ releaseEffects moveDeniedWorld
        ++ [Effect.downloadDidFail
            (platformDownloadDestinationError moveDeniedWorld.m_response "Permission denied")]
    ∧ (didFinishDownload moveDeniedWorld).files.lookup exampleDestination = none :=
  ⟨by decide,
    ((download_failure_cleanup destinationTakenWorld (GError.mk 2 "File exists")).1
      (by decide) (by rfl)).1,
    ((download_failure_cleanup intermediateDeniedWorld
      (GError.mk 14 "Permission denied")).2.1 _ (by decide) rfl (by rfl)).2.1,
    ((download_failure_cleanup intermediateDeniedWorld
      (GError.mk 14 "Permission denied")).2.1 _ (by decide) rfl (by rfl)).2.2,
    by decide,
    ((download_failure_cleanup writingWorld (GError.mk 12 "No space left on device")).2.2.1
      failedResult (by decide) (by decide) (by decide) rfl).2 _ (Or.inl (by decide)),
    ((download_failure_cleanup writingWorld (GError.mk 12 "No space left on device")).2.2.1
      failedResult (by decide) (by decide) (by decide) rfl).2 _ (Or.inr (by decide)),
    ((download_failure_cleanup moveDeniedWorld (GError.mk 14 "Permission denied")).2.2.2.1
      (exampleDestination ++ wkdownloadSuffix) exampleDestination (by decide) (by decide)
      (by rfl)).1,
    ((download_failure_cleanup moveDeniedWorld (GError.mk 14 "Permission denied")).2.2.2.1
      (exampleDestination ++ wkdownloadSuffix) exampleDestination (by decide) (by decide)
      (by rfl)).2.1⟩

/-- C19, counterexample: the client has answered Download for a response and is still
attached to the task; a file already exists at the destination, overwrite is not allowed,
and an intermediate file was left behind by an earlier download. `download()` fails to
create the destination. The failure is reported to the client, through
`didCompleteWithError`, and not to the Download, of which there is no record yet; the
destination is deleted, and the intermediate file, to which the task has no handle yet, is
not deleted. -/
theorem early_download_failure_goes_to_the_client :
    attachedDownloadWorld.m_client = true
    ∧ attachedDownloadWorld.isDownload = true
    ∧ attachedDownloadWorld.m_allowOverwriteDownload = false
    ∧ attachedDownloadWorld.files.lookup exampleDestination = some [9, 9]
    ∧ attachedDownloadWorld.files.g_file_create exampleDestination
      = Except.error (GError.mk 2 "File exists")
    ∧ (download attachedDownloadWorld).effects.drop attachedDownloadWorld.effects.length
      = [Effect.g_cancellable_cancel, Effect.disconnectMessageSignals,
          Effect.soup_session_cancel_message, Effect.disconnectSessionSignals,
          Effect.clientDidCompleteWithError
            (platformDownloadDestinationError attachedDownloadWorld.m_response "File exists")]
    ∧ (download attachedDownloadWorld).files.lookup exampleDestination = none
    ∧ (download attachedDownloadWorld).files.lookup (exampleDestination ++ wkdownloadSuffix)
      = some [5] :=
  ⟨by decide, by decide, by decide, by decide, by rfl, by decide, by decide, by decide⟩

/-! ## The timeout -/

theorem cancel_client (w : World σ) : (cancel w).m_client = w.m_client := by
  unfold cancel
  dsimp only [World.emit]
  repeat' split
  all_goals first | rfl | exact cleanDownloadFiles_client _

theorem cleanDownloadFiles_firstRequest (w : World σ) :
    (cleanDownloadFiles w).m_firstRequest = w.m_firstRequest := by
  unfold cleanDownloadFiles
  dsimp only
  split <;> split <;> rfl

theorem cancel_firstRequest (w : World σ) : (cancel w).m_firstRequest = w.m_firstRequest := by
  unfold cancel
  dsimp only [World.emit]
  repeat' split
  all_goals first | rfl | exact cleanDownloadFiles_firstRequest _

theorem clearRequest_firstRequest (w : World σ) :
    (clearRequest w).m_firstRequest = w.m_firstRequest := by
  unfold clearRequest
  dsimp only [World.emit, stopTimeout]
  repeat' split
  all_goals rfl

theorem timeoutFired_with_client (w : World σ)
    (hcanceling : w.m_state ≠ State.Canceling) (hcompleted : w.m_state ≠ State.Completed)
    (hclient : w.m_client = true) :
    (timeoutFired w).effects
      = (clearRequest (cancel w)).effects
        ++ [Effect.clientDidCompleteWithError (ResourceError.timeoutError w.m_firstRequest.url)]
    ∧ (timeoutFired w).m_state = State.Completed := by
  unfold timeoutFired
  rw [if_neg (by simp [hcanceling, hcompleted, hclient])]
  unfold invalidateAndCancel World.callClient
  dsimp only
  rw [clearRequest_client, cancel_client, if_pos hclient, clearRequest_firstRequest,
    cancel_firstRequest]
  exact ⟨rfl, clearRequest_state _⟩

theorem timeoutFired_without_client (w : World σ) (hclient : w.m_client = false) :
    timeoutFired w = clearRequest w := by
  unfold timeoutFired
  rw [if_pos (Or.inr (Or.inr hclient))]

/-- C20, evaluated on the code: a download in progress whose timeout fires. The task was
created for a request with a timeout of 30 seconds and turned into a download; the client
is detached, the first chunk of the body is in the intermediate file, the next read is in
flight and the timeout is armed. When the timeout fires, the task only releases its
request: it ends Completed, but no failure is reported, neither to the Download nor to the
client, and both the destination and the intermediate file with its partial content stay
on disk. The failure handler `didFail`, run on the same task with the timeout error,
reports the failure to the Download and deletes both files. -/
theorem download_timeout_is_silent :
    timedDownloadWorld.m_state = State.Running
    ∧ timedDownloadWorld.m_timeoutSource = true
    ∧ timedDownloadWorld.isDownload = true
    ∧ timedDownloadWorld.m_client = false
    ∧ timedDownloadWorld.outstanding = [AsyncOp.read]
    ∧ timedDownloadWorld.files.lookup exampleDestination = some []
    ∧ timedDownloadWorld.files.lookup (exampleDestination ++ wkdownloadSuffix) = some [1, 2, 3]
    ∧ (timeoutFired timedDownloadWorld).m_state = State.Completed
    ∧ (timeoutFired timedDownloadWorld).effects.drop timedDownloadWorld.effects.length
      = [Effect.g_cancellable_cancel, Effect.disconnectMessageSignals,
          Effect.soup_session_cancel_message, Effect.disconnectSessionSignals]
    ∧ (timeoutFired timedDownloadWorld).files.lookup exampleDestination = some []
    ∧ (timeoutFired timedDownloadWorld).files.lookup (exampleDestination ++ wkdownloadSuffix)
      = some [1, 2, 3]
    ∧ (didFail timedDownloadWorld
        (ResourceError.timeoutError timedDownloadWorld.m_firstRequest.url)).effects.drop
          timedDownloadWorld.effects.length
      = [Effect.g_cancellable_cancel, Effect.disconnectMessageSignals,
          Effect.soup_session_cancel_message, Effect.disconnectSessionSignals,
          Effect.downloadDidFail
            (platformDownloadNetworkError 0 exampleURL "Request timed out")]
    ∧ (didFail timedDownloadWorld
        (ResourceError.timeoutError timedDownloadWorld.m_firstRequest.url)).files.lookup
          (exampleDestination ++ wkdownloadSuffix) = none :=
  ⟨by decide, by decide, by decide, by decide, by decide, by decide, by decide, by decide,
    by decide, by decide, by decide, by decide, by decide⟩

/-! ## The method rewrite of a redirect -/

theorem headerMap_get_remove (m : HTTPHeaderMap) (a b : HTTPHeaderName) :
    HTTPHeaderMap.get (HTTPHeaderMap.remove m a) b
      = (if a = b then "" else HTTPHeaderMap.get m b) := by
  induction m with
  | nil => simp [HTTPHeaderMap.remove, HTTPHeaderMap.get]
  | cons e rest ih =>
    obtain ⟨n, v⟩ := e
    by_cases hna : n = a
    · subst hna
      simp only [HTTPHeaderMap.remove, if_true, ih, HTTPHeaderMap.get]
      by_cases hab : n = b
      · simp [hab]
      · simp [hab]
    · simp only [HTTPHeaderMap.remove, hna, if_false, HTTPHeaderMap.get, ih]
      by_cases hnb : n = b
      · subst hnb
        simp [Ne.symm hna]
      · simp [hnb]

theorem redirectBase_url (p : Platform σ) (w : World σ) :
    (redirectBase p w).url = redirectTarget p w := by
  unfold redirectBase
  dsimp only
  split <;> rfl

theorem redirectBase_httpMethod (p : Platform σ) (w : World σ) :
    (redirectBase p w).httpMethod = w.m_firstRequest.httpMethod := by
  unfold redirectBase
  dsimp only
  split <;> rfl

theorem redirectBase_httpBody (p : Platform σ) (w : World σ) :
    (redirectBase p w).httpBody = w.m_firstRequest.httpBody := by
  unfold redirectBase
  dsimp only
  split <;> rfl

theorem redirectBase_timeoutInterval (p : Platform σ) (w : World σ) :
    (redirectBase p w).timeoutInterval = w.m_firstRequest.timeoutInterval := by
  unfold redirectBase
  dsimp only
  split <;> rfl

theorem redirectBase_priority (p : Platform σ) (w : World σ) :
    (redirectBase p w).priority = w.m_firstRequest.priority := by
  unfold redirectBase
  dsimp only
  split <;> rfl

theorem redirectBase_firstParty (p : Platform σ) (w : World σ) :
    (redirectBase p w).firstPartyForCookies = redirectTarget p w := by
  unfold redirectBase
  dsimp only
  split <;> rfl

theorem redirectBase_headers (p : Platform σ) (w : World σ) :
    (redirectBase p w).httpHeaderFields = w.m_firstRequest.httpHeaderFields
    ∨ (redirectBase p w).httpHeaderFields
      = HTTPHeaderMap.remove w.m_firstRequest.httpHeaderFields HTTPHeaderName.Referer := by
  unfold redirectBase
  dsimp only
  split
  · exact Or.inr rfl
  · exact Or.inl rfl

theorem redirectRequestWithCredentials_eq (p : Platform σ) (w : World σ) (m : SoupMessage)
    (hmessage : w.m_soupMessage = some m) :
    redirectRequestWithCredentials p w
      = if equalLettersIgnoringASCIICase w.m_firstRequest.httpMethod "get" = false
          ∧ (m.method = "GET" ∨ (redirectTarget p w).protocolIsInHTTPFamily = false
            ∨ shouldRedirectAsGET m (isCrossOriginRedirect p w) = true)
        then (((redirectBase p w).setHTTPMethod "GET").setHTTPBody none).clearHTTPContentType
        else redirectBase p w := by
  have hunfold : redirectRequestWithCredentials p w
      = if !equalLettersIgnoringASCIICase (redirectBase p w).httpMethod "get" then
          if (match w.m_soupMessage with
                | some m => m.method == "GET"
                | none => false)
              || !(redirectBase p w).url.protocolIsInHTTPFamily
              || (match w.m_soupMessage with
                | some m =>
                  shouldRedirectAsGET m
                    (!protocolHostAndPortAreEqual w.m_firstRequest.url (redirectBase p w).url)
                | none => false)
          then (((redirectBase p w).setHTTPMethod "GET").setHTTPBody none).clearHTTPContentType
          else redirectBase p w
        else redirectBase p w := rfl
  rw [hunfold, redirectBase_httpMethod, redirectBase_url, hmessage]
  unfold isCrossOriginRedirect
  by_cases h1 : equalLettersIgnoringASCIICase w.m_firstRequest.httpMethod "get" = true
  · simp [h1]
  · have h1' : equalLettersIgnoringASCIICase w.m_firstRequest.httpMethod "get" = false := by
      simpa using h1
    simp only [h1', Bool.not_false, if_true, true_and, Bool.or_eq_true, beq_iff_eq,
      Bool.not_eq_true', or_assoc]

theorem shouldRedirectAsGET_iff (m : SoupMessage) (crossOrigin : Bool) :
    shouldRedirectAsGET m crossOrigin = true
      ↔ m.method ≠ "GET" ∧ m.method ≠ "HEAD"
        ∧ (m.status_code = 303
          ∨ ((m.status_code = 301 ∨ m.status_code = 302) ∧ m.method = "POST")
          ∨ (crossOrigin = true ∧ m.method = "DELETE")) := by
  unfold shouldRedirectAsGET
  by_cases hget : m.method = "GET"
  · simp [hget]
  by_cases hhead : m.method = "HEAD"
  · simp [hhead]
  by_cases h303 : m.status_code = 303
  · simp [hget, hhead, h303]
  by_cases hpost : m.method = "POST"
  · by_cases h302 : m.status_code = 302
    · simp [hpost, h302]
    · by_cases h301 : m.status_code = 301
      · simp [hpost, h301]
      · simp [hpost, h303, h302, h301]
  · by_cases hdelete : m.method = "DELETE"
    · cases crossOrigin <;> simp [hdelete, h303]
    · simp [hget, hhead, h303, hpost, hdelete]

theorem redirectRequest_contentType (p : Platform σ) (w : World σ) :
    HTTPHeaderMap.get (redirectRequest p w).httpHeaderFields HTTPHeaderName.ContentType
      = HTTPHeaderMap.get (redirectRequestWithCredentials p w).httpHeaderFields
          HTTPHeaderName.ContentType
    ∧ HTTPHeaderMap.contains (redirectRequest p w).httpHeaderFields HTTPHeaderName.ContentType
      = HTTPHeaderMap.contains (redirectRequestWithCredentials p w).httpHeaderFields
          HTTPHeaderName.ContentType := by
  unfold redirectRequest
  dsimp only
  split
  · simp [ResourceRequest.clearHTTPAuthorization, ResourceRequest.clearHTTPOrigin,
      ResourceRequest.removeCredentials, headerMap_contains_remove, headerMap_get_remove]
  · simp [ResourceRequest.removeCredentials]

theorem redirectBase_contentType (p : Platform σ) (w : World σ) :
    HTTPHeaderMap.get (redirectBase p w).httpHeaderFields HTTPHeaderName.ContentType
      = HTTPHeaderMap.get w.m_firstRequest.httpHeaderFields HTTPHeaderName.ContentType
    ∧ HTTPHeaderMap.contains (redirectBase p w).httpHeaderFields HTTPHeaderName.ContentType
      = HTTPHeaderMap.contains w.m_firstRequest.httpHeaderFields HTTPHeaderName.ContentType := by
  rcases redirectBase_headers p w with h | h <;> rw [h]
  · exact ⟨rfl, rfl⟩
  · simp [headerMap_contains_remove, headerMap_get_remove]

theorem redirectRequest_rewritten (p : Platform σ) (w : World σ) (m : SoupMessage)
    (hmessage : w.m_soupMessage = some m)
    (hfirst : equalLettersIgnoringASCIICase w.m_firstRequest.httpMethod "get" = false)
    (hrule : m.method = "GET" ∨ (redirectTarget p w).protocolIsInHTTPFamily = false
      ∨ shouldRedirectAsGET m (isCrossOriginRedirect p w) = true) :
    (redirectRequest p w).httpMethod = "GET" ∧ (redirectRequest p w).httpBody = none
    ∧ HTTPHeaderMap.contains (redirectRequest p w).httpHeaderFields HTTPHeaderName.ContentType
      = false := by
  rw [redirectRequest_httpMethod, redirectRequest_httpBody, (redirectRequest_contentType p w).2,
    redirectRequestWithCredentials_eq p w m hmessage, if_pos ⟨hfirst, hrule⟩]
  simp [ResourceRequest.setHTTPMethod, ResourceRequest.setHTTPBody,
    ResourceRequest.clearHTTPContentType, headerMap_contains_remove]

theorem redirectRequest_kept (p : Platform σ) (w : World σ) (m : SoupMessage)
    (hmessage : w.m_soupMessage = some m)
    (hrule : equalLettersIgnoringASCIICase w.m_firstRequest.httpMethod "get" = true
      ∨ ¬ (m.method = "GET" ∨ (redirectTarget p w).protocolIsInHTTPFamily = false
        ∨ shouldRedirectAsGET m (isCrossOriginRedirect p w) = true)) :
    (redirectRequest p w).httpMethod = w.m_firstRequest.httpMethod
    ∧ (redirectRequest p w).httpBody = w.m_firstRequest.httpBody
    ∧ HTTPHeaderMap.get (redirectRequest p w).httpHeaderFields HTTPHeaderName.ContentType
      = HTTPHeaderMap.get w.m_firstRequest.httpHeaderFields HTTPHeaderName.ContentType
    ∧ HTTPHeaderMap.contains (redirectRequest p w).httpHeaderFields HTTPHeaderName.ContentType
      = HTTPHeaderMap.contains w.m_firstRequest.httpHeaderFields HTTPHeaderName.ContentType := by
  have hkeep : ¬ (equalLettersIgnoringASCIICase w.m_firstRequest.httpMethod "get" = false
      ∧ (m.method = "GET" ∨ (redirectTarget p w).protocolIsInHTTPFamily = false
        ∨ shouldRedirectAsGET m (isCrossOriginRedirect p w) = true)) := by
    rintro ⟨h1, h2⟩
    rcases hrule with h | h
    · rw [h1] at h
      cases h
    · exact h h2
  rw [redirectRequest_httpMethod, redirectRequest_httpBody, (redirectRequest_contentType p w).1,
    (redirectRequest_contentType p w).2, redirectRequestWithCredentials_eq p w m hmessage,
    if_neg hkeep]
  exact ⟨redirectBase_httpMethod p w, redirectBase_httpBody p w, (redirectBase_contentType p w).1,
    (redirectBase_contentType p w).2⟩

/-- C23, as amended: a 303 rewrites every method but HEAD. For every redirect answered while
the redirect count is within the limit, whose message carries status 303, where the method
of the original request is not GET (compared ignoring case) and the method of the message
being redirected is not HEAD, `continueHTTPRedirection` proposes a continuation request
whose method is GET, whose body is removed and which has no Content-Type header. -/
theorem see_other_rewrites_all_but_head (p : Platform σ) (w : World σ) (m : SoupMessage)
    (hclient : w.m_client = true) (hcount : w.m_redirectCount ≤ maxRedirects)
    (hmessage : w.m_soupMessage = some m) (hstatus : m.status_code = 303)
    (hfirst : equalLettersIgnoringASCIICase w.m_firstRequest.httpMethod "get" = false)
    (hhead : m.method ≠ "HEAD") :
    (∃ l, (continueHTTPRedirection p w).effects
        = w.effects ++ l
          ++ [Effect.clientWillPerformHTTPRedirection w.m_response (redirectRequest p w)]
      ∧ ∀ r q, Effect.clientWillPerformHTTPRedirection r q ∉ l)
    ∧ (redirectRequest p w).httpMethod = "GET"
    ∧ (redirectRequest p w).httpBody = none
    ∧ HTTPHeaderMap.contains (redirectRequest p w).httpHeaderFields HTTPHeaderName.ContentType
      = false := by
  refine ⟨continueHTTPRedirection_proposes p w hclient hcount, ?_⟩
  apply redirectRequest_rewritten p w m hmessage hfirst
  by_cases hget : m.method = "GET"
  · exact Or.inl hget
  · exact Or.inr (Or.inr ((shouldRedirectAsGET_iff m _).mpr ⟨hget, hhead, Or.inl hstatus⟩))

theorem see_other_rewrites_all_but_head_witness :
    postSeeOtherWorld.m_client = true
    ∧ postSeeOtherWorld.m_soupMessage = some (examplePostMessage 303 "/next")
    ∧ postSeeOtherWorld.m_firstRequest.httpMethod = "POST"
    ∧ postSeeOtherWorld.m_firstRequest.httpBody = some [1, 2, 3]
    ∧ (redirectRequest examplePlatform postSeeOtherWorld).httpMethod = "GET"
    ∧ (redirectRequest examplePlatform postSeeOtherWorld).httpBody = none
    ∧ HTTPHeaderMap.contains
        (redirectRequest examplePlatform postSeeOtherWorld).httpHeaderFields
        HTTPHeaderName.ContentType = false :=
  ⟨by decide, by decide, by decide, by decide,
    (see_other_rewrites_all_but_head examplePlatform postSeeOtherWorld
      (examplePostMessage 303 "/next") (by decide) (by decide) (by decide) (by decide)
      (by decide) (by decide)).2⟩

/-- C23, counterexample: a HEAD request for `https://example/` is answered 303 with
`Location: /next`. The method of the request is not GET, yet the continuation request that
`continueHTTPRedirection` proposes to the client keeps the method HEAD. -/
theorem see_other_keeps_head :
    headSeeOtherWorld.m_firstRequest.httpMethod = "HEAD"
    ∧ headSeeOtherWorld.m_soupMessage.map (fun m => (m.method, m.status_code))
      = some ("HEAD", 303)
    ∧ headSeeOtherWorld.m_response.httpStatusCode = 303
    ∧ (continueHTTPRedirection examplePlatform headSeeOtherWorld).effects.getLast?
      = some (Effect.clientWillPerformHTTPRedirection headSeeOtherWorld.m_response
          (redirectRequest examplePlatform headSeeOtherWorld))
    ∧ (redirectRequest examplePlatform headSeeOtherWorld).httpMethod = "HEAD" :=
  ⟨by decide, by decide, by decide, by decide, by decide⟩

theorem get_equalLetters : equalLettersIgnoringASCIICase "GET" "get" = true := by decide

/-- C26: the exact method-rewrite rule. For every redirect answered while the redirect
count is within the limit, `continueHTTPRedirection` proposes a continuation request.
When the method of the original request is not GET (compared ignoring case), that request
has method GET, no body and no Content-Type exactly when the message being redirected
already has method GET, or the target is not in the HTTP family, or the method of the
message is neither GET nor HEAD and the status is 303, or the status is 301 or 302 and the
method is POST, or the redirect is cross-origin and the method is DELETE; in every other
case method, body and Content-Type are those of the original request. When the method of
the original request is GET, method, body and Content-Type are those of the original
request. -/
theorem exact_method_rewrite_rule (p : Platform σ) (w : World σ) (m : SoupMessage)
    (hclient : w.m_client = true) (hcount : w.m_redirectCount ≤ maxRedirects)
    (hmessage : w.m_soupMessage = some m) :
    (∃ l, (continueHTTPRedirection p w).effects
        = w.effects ++ l
          ++ [Effect.clientWillPerformHTTPRedirection w.m_response (redirectRequest p w)]
      ∧ ∀ r q, Effect.clientWillPerformHTTPRedirection r q ∉ l)
    ∧ (equalLettersIgnoringASCIICase w.m_firstRequest.httpMethod "get" = false →
      (((redirectRequest p w).httpMethod = "GET" ∧ (redirectRequest p w).httpBody = none
          ∧ HTTPHeaderMap.contains (redirectRequest p w).httpHeaderFields
              HTTPHeaderName.ContentType = false)
        ↔ (m.method = "GET" ∨ (redirectTarget p w).protocolIsInHTTPFamily = false
          ∨ (m.method ≠ "GET" ∧ m.method ≠ "HEAD"
            ∧ (m.status_code = 303
              ∨ ((m.status_code = 301 ∨ m.status_code = 302) ∧ m.method = "POST")
              ∨ (isCrossOriginRedirect p w = true ∧ m.method = "DELETE")))))
      ∧ (¬ (m.method = "GET" ∨ (redirectTarget p w).protocolIsInHTTPFamily = false
          ∨ (m.method ≠ "GET" ∧ m.method ≠ "HEAD"
            ∧ (m.status_code = 303
              ∨ ((m.status_code = 301 ∨ m.status_code = 302) ∧ m.method = "POST")
              ∨ (isCrossOriginRedirect p w = true ∧ m.method = "DELETE")))) →
        (redirectRequest p w).httpMethod = w.m_firstRequest.httpMethod
        ∧ (redirectRequest p w).httpBody = w.m_firstRequest.httpBody
        ∧ HTTPHeaderMap.get (redirectRequest p w).httpHeaderFields HTTPHeaderName.ContentType
          = HTTPHeaderMap.get w.m_firstRequest.httpHeaderFields HTTPHeaderName.ContentType
        ∧ HTTPHeaderMap.contains (redirectRequest p w).httpHeaderFields
            HTTPHeaderName.ContentType
          = HTTPHeaderMap.contains w.m_firstRequest.httpHeaderFields
              HTTPHeaderName.ContentType))
    ∧ (equalLettersIgnoringASCIICase w.m_firstRequest.httpMethod "get" = true →
      (redirectRequest p w).httpMethod = w.m_firstRequest.httpMethod
      ∧ (redirectRequest p w).httpBody = w.m_firstRequest.httpBody
      ∧ HTTPHeaderMap.get (redirectRequest p w).httpHeaderFields HTTPHeaderName.ContentType
        = HTTPHeaderMap.get w.m_firstRequest.httpHeaderFields HTTPHeaderName.ContentType
      ∧ HTTPHeaderMap.contains (redirectRequest p w).httpHeaderFields
          HTTPHeaderName.ContentType
        = HTTPHeaderMap.contains w.m_firstRequest.httpHeaderFields
            HTTPHeaderName.ContentType) := by
  refine ⟨continueHTTPRedirection_proposes p w hclient hcount, fun hfirst => ?_,
    fun hfirst => redirectRequest_kept p w m hmessage (Or.inl hfirst)⟩
  have hrule : (m.method = "GET" ∨ (redirectTarget p w).protocolIsInHTTPFamily = false
      ∨ shouldRedirectAsGET m (isCrossOriginRedirect p w) = true)
      ↔ (m.method = "GET" ∨ (redirectTarget p w).protocolIsInHTTPFamily = false
          ∨ (m.method ≠ "GET" ∧ m.method ≠ "HEAD"
            ∧ (m.status_code = 303
              ∨ ((m.status_code = 301 ∨ m.status_code = 302) ∧ m.method = "POST")
              ∨ (isCrossOriginRedirect p w = true ∧ m.method = "DELETE")))) := by
    rw [shouldRedirectAsGET_iff]
  have hkept : ¬ (m.method = "GET" ∨ (redirectTarget p w).protocolIsInHTTPFamily = false
          ∨ (m.method ≠ "GET" ∧ m.method ≠ "HEAD"
            ∧ (m.status_code = 303
              ∨ ((m.status_code = 301 ∨ m.status_code = 302) ∧ m.method = "POST")
              ∨ (isCrossOriginRedirect p w = true ∧ m.method = "DELETE")))) →
        (redirectRequest p w).httpMethod = w.m_firstRequest.httpMethod
        ∧ (redirectRequest p w).httpBody = w.m_firstRequest.httpBody
        ∧ HTTPHeaderMap.get (redirectRequest p w).httpHeaderFields HTTPHeaderName.ContentType
          = HTTPHeaderMap.get w.m_firstRequest.httpHeaderFields HTTPHeaderName.ContentType
        ∧ HTTPHeaderMap.contains (redirectRequest p w).httpHeaderFields
            HTTPHeaderName.ContentType
          = HTTPHeaderMap.contains w.m_firstRequest.httpHeaderFields
              HTTPHeaderName.ContentType :=
    fun h => redirectRequest_kept p w m hmessage (Or.inr (fun h' => h (hrule.mp h')))
  refine ⟨⟨fun hget => ?_, fun h => redirectRequest_rewritten p w m hmessage hfirst (hrule.mpr h)⟩,
    hkept⟩
  by_contra hnot
  have hmethod := (hkept hnot).1
  rw [hget.1] at hmethod
  rw [← hmethod, get_equalLetters] at hfirst
  cases hfirst

theorem exact_method_rewrite_rule_witness :
    postTemporaryWorld.m_client = true
    ∧ postTemporaryWorld.m_soupMessage = some (examplePostMessage 307 "/next")
    ∧ equalLettersIgnoringASCIICase postTemporaryWorld.m_firstRequest.httpMethod "get" = false
    ∧ (redirectRequest examplePlatform postTemporaryWorld).httpMethod = "POST"
    ∧ (redirectRequest examplePlatform postTemporaryWorld).httpBody = some [1, 2, 3]
    ∧ HTTPHeaderMap.get (redirectRequest examplePlatform postTemporaryWorld).httpHeaderFields
        HTTPHeaderName.ContentType = "text/plain" :=
  ⟨by decide, by decide, by decide,
    (((exact_method_rewrite_rule examplePlatform postTemporaryWorld
      (examplePostMessage 307 "/next") (by decide) (by decide) (by decide)).2.1
      (by decide)).2 (by decide)).1.trans (by decide),
    (((exact_method_rewrite_rule examplePlatform postTemporaryWorld
      (examplePostMessage 307 "/next") (by decide) (by decide) (by decide)).2.1
      (by decide)).2 (by decide)).2.1.trans (by decide),
    (((exact_method_rewrite_rule examplePlatform postTemporaryWorld
      (examplePostMessage 307 "/next") (by decide) (by decide) (by decide)).2.1
      (by decide)).2 (by decide)).2.2.1.trans (by decide)⟩

/-! ## The first request is never changed -/

theorem emit_firstRequest (w : World σ) (e : Effect) :
    (w.emit e).m_firstRequest = w.m_firstRequest := by
  rfl

theorem callClient_firstRequest (w : World σ) (e : Effect) :
    (w.callClient e).m_firstRequest = w.m_firstRequest := by
  unfold World.callClient
  split <;> rfl

theorem start_firstRequest (w : World σ) (op : AsyncOp) (e : Effect) :
    (w.start op e).m_firstRequest = w.m_firstRequest := by
  rfl

theorem scheduleFailure_firstRequest (w : World σ) (type : FailureType) :
    (scheduleFailure w type).m_firstRequest = w.m_firstRequest := by
  rfl

theorem startTimeout_firstRequest (w : World σ) :
    (startTimeout w).m_firstRequest = w.m_firstRequest := by
  unfold startTimeout
  split <;> rfl

theorem stopTimeout_firstRequest (w : World σ) :
    (stopTimeout w).m_firstRequest = w.m_firstRequest := by
  rfl

theorem applyAuthenticationToRequest_firstRequest (w : World σ) (request : ResourceRequest) :
    ((applyAuthenticationToRequest w request).1).m_firstRequest = w.m_firstRequest := by
  unfold applyAuthenticationToRequest
  split <;> rfl

theorem createRequest_firstRequest (p : Platform σ) (w : World σ)
    (request : ResourceRequest) :
    (createRequest p w request).m_firstRequest = w.m_firstRequest := by
  unfold createRequest
  split
  · rfl
  · split
    · rfl
    · split
      · rfl
      · split <;> rfl

theorem invalidateAndCancel_firstRequest (w : World σ) :
    (invalidateAndCancel w).m_firstRequest = w.m_firstRequest := by
  unfold invalidateAndCancel
  simp only [clearRequest_firstRequest, cancel_firstRequest]

theorem timeoutFired_firstRequest (w : World σ) :
    (timeoutFired w).m_firstRequest = w.m_firstRequest := by
  unfold timeoutFired
  split
  all_goals
    simp only [callClient_firstRequest, clearRequest_firstRequest,
      invalidateAndCancel_firstRequest]

theorem didFailDownload_firstRequest (w : World σ) (error : ResourceError) :
    (didFailDownload w error).m_firstRequest = w.m_firstRequest := by
  unfold didFailDownload
  dsimp only
  split
  all_goals
    simp only [emit_firstRequest, clearRequest_firstRequest, cleanDownloadFiles_firstRequest]

theorem didFail_firstRequest (w : World σ) (error : ResourceError) :
    (didFail w error).m_firstRequest = w.m_firstRequest := by
  unfold didFail
  split
  all_goals
    simp only [callClient_firstRequest, clearRequest_firstRequest, didFailDownload_firstRequest]

theorem didReceiveResponse_firstRequest (w : World σ) :
    (didReceiveResponse w).m_firstRequest = w.m_firstRequest := by
  unfold didReceiveResponse
  simp only [callClient_firstRequest]

theorem read_firstRequest (w : World σ) :
    (read w).m_firstRequest = w.m_firstRequest := by
  rfl

theorem requestNextPart_firstRequest (w : World σ) :
    (requestNextPart w).m_firstRequest = w.m_firstRequest := by
  rfl

theorem skipInputStreamForRedirection_firstRequest (w : World σ) :
    (skipInputStreamForRedirection w).m_firstRequest = w.m_firstRequest := by
  rfl

theorem writeDownload_firstRequest (w : World σ) :
    (writeDownload w).m_firstRequest = w.m_firstRequest := by
  rfl

theorem download_firstRequest (w : World σ) :
    (download w).m_firstRequest = w.m_firstRequest := by
  unfold download
  dsimp only
  repeat' split
  all_goals
    simp only [emit_firstRequest, didFailDownload_firstRequest, read_firstRequest]

theorem didWriteDownload_firstRequest (w : World σ) (bytesWritten : Nat) :
    (didWriteDownload w bytesWritten).m_firstRequest = w.m_firstRequest := by
  rfl

theorem writeDownloadCallback_firstRequest (w : World σ) (result : GAsyncResult) :
    (writeDownloadCallback w result).m_firstRequest = w.m_firstRequest := by
  unfold writeDownloadCallback
  repeat' split
  all_goals
    simp only [clearRequest_firstRequest, didFailDownload_firstRequest,
      didWriteDownload_firstRequest]

theorem didFinishDownload_firstRequest (w : World σ) :
    (didFinishDownload w).m_firstRequest = w.m_firstRequest := by
  unfold didFinishDownload
  dsimp only
  repeat' split
  all_goals
    simp only [emit_firstRequest, clearRequest_firstRequest, didFailDownload_firstRequest]

theorem didReceiveResponseCompletion_firstRequest (w : World σ) (policyAction : PolicyAction) :
    (didReceiveResponseCompletion w policyAction).m_firstRequest = w.m_firstRequest := by
  unfold didReceiveResponseCompletion
  repeat' split
  all_goals
    simp only [clearRequest_firstRequest, read_firstRequest, requestNextPart_firstRequest,
      download_firstRequest]

theorem didSendRequest_firstRequest (p : Platform σ) (w : World σ)
    (inputStream : Option GInputStream) :
    (didSendRequest p w inputStream).m_firstRequest = w.m_firstRequest := by
  unfold didSendRequest
  dsimp only
  repeat' split
  all_goals
    simp only [didReceiveResponse_firstRequest, skipInputStreamForRedirection_firstRequest]

theorem sendRequestCallback_firstRequest (p : Platform σ) (w : World σ) (result : GAsyncResult) :
    (sendRequestCallback p w result).m_firstRequest = w.m_firstRequest := by
  unfold sendRequestCallback
  repeat' split
  all_goals
    simp only [clearRequest_firstRequest, didFail_firstRequest, didSendRequest_firstRequest]

theorem didRead_firstRequest (w : World σ) (bytesRead : Nat) :
    (didRead w bytesRead).m_firstRequest = w.m_firstRequest := by
  unfold didRead
  dsimp only
  split
  all_goals
    simp only [callClient_firstRequest, read_firstRequest, writeDownload_firstRequest]

theorem didFinishRead_firstRequest (w : World σ) :
    (didFinishRead w).m_firstRequest = w.m_firstRequest := by
  unfold didFinishRead
  dsimp only
  repeat' split
  all_goals
    simp only [emit_firstRequest, callClient_firstRequest, clearRequest_firstRequest,
      requestNextPart_firstRequest, didFinishDownload_firstRequest]

theorem readCallback_firstRequest (w : World σ) (result : GAsyncResult) :
    (readCallback w result).m_firstRequest = w.m_firstRequest := by
  unfold readCallback
  repeat' split
  all_goals
    simp only [clearRequest_firstRequest, didFail_firstRequest, didRead_firstRequest,
      didFinishRead_firstRequest]

theorem didRequestNextPart_firstRequest (p : Platform σ) (w : World σ)
    (inputStream : GInputStream) :
    (didRequestNextPart p w inputStream).m_firstRequest = w.m_firstRequest := by
  unfold didRequestNextPart
  simp only [didReceiveResponse_firstRequest]

theorem didFinishRequestNextPart_firstRequest (w : World σ) :
    (didFinishRequestNextPart w).m_firstRequest = w.m_firstRequest := by
  unfold didFinishRequestNextPart
  simp only [emit_firstRequest, callClient_firstRequest, clearRequest_firstRequest]

theorem requestNextPartCallback_firstRequest (p : Platform σ) (w : World σ)
    (result : GAsyncResult) :
    (requestNextPartCallback p w result).m_firstRequest = w.m_firstRequest := by
  unfold requestNextPartCallback
  repeat' split
  all_goals
    simp only [clearRequest_firstRequest, didFail_firstRequest, didRequestNextPart_firstRequest,
      didFinishRequestNextPart_firstRequest]

theorem resume_firstRequest (p : Platform σ) (w : World σ) :
    (resume p w).m_firstRequest = w.m_firstRequest := by
  unfold resume
  dsimp only
  repeat' split
  all_goals
    simp only [start_firstRequest, startTimeout_firstRequest, sendRequestCallback_firstRequest,
      readCallback_firstRequest, requestNextPartCallback_firstRequest]

theorem suspend_firstRequest (w : World σ) :
    (suspend w).m_firstRequest = w.m_firstRequest := by
  unfold suspend
  split <;> rfl

theorem continueHTTPRedirection_firstRequest (p : Platform σ) (w : World σ) :
    (continueHTTPRedirection p w).m_firstRequest = w.m_firstRequest := by
  unfold continueHTTPRedirection
  dsimp only
  repeat' split
  all_goals
    simp only [callClient_firstRequest, clearRequest_firstRequest, didFail_firstRequest]

theorem willPerformHTTPRedirectionCompletion_firstRequest (p : Platform σ) (w : World σ)
    (newRequest : ResourceRequest) :
    (willPerformHTTPRedirectionCompletion p w newRequest).m_firstRequest = w.m_firstRequest := by
  unfold willPerformHTTPRedirectionCompletion
  dsimp only
  repeat' split
  all_goals
    simp only [applyAuthenticationToRequest_firstRequest, createRequest_firstRequest,
      resume_firstRequest]

theorem didFinishSkipInputStreamForRedirection_firstRequest (p : Platform σ) (w : World σ) :
    (didFinishSkipInputStreamForRedirection p w).m_firstRequest = w.m_firstRequest := by
  unfold didFinishSkipInputStreamForRedirection
  simp only [emit_firstRequest, continueHTTPRedirection_firstRequest]

theorem skipInputStreamForRedirectionCallback_firstRequest (p : Platform σ) (w : World σ)
    (result : GAsyncResult) :
    (skipInputStreamForRedirectionCallback p w result).m_firstRequest = w.m_firstRequest := by
  unfold skipInputStreamForRedirectionCallback
  repeat' split
  all_goals
    simp only [clearRequest_firstRequest, didFail_firstRequest,
      skipInputStreamForRedirection_firstRequest,
      didFinishSkipInputStreamForRedirection_firstRequest]

theorem continueAuthenticate_firstRequest (w : World σ) (challenge : AuthenticationChallenge) :
    (continueAuthenticate w challenge).m_firstRequest = w.m_firstRequest := by
  unfold continueAuthenticate
  simp only [callClient_firstRequest]

theorem didReceiveChallengeCompletion_firstRequest (p : Platform σ) (w : World σ)
    (challenge : AuthenticationChallenge) (disposition : AuthenticationChallengeDisposition)
    (credential : Credential) :
    (didReceiveChallengeCompletion p w challenge disposition credential).m_firstRequest
      = w.m_firstRequest := by
  unfold didReceiveChallengeCompletion
  repeat' split
  all_goals
    simp only [emit_firstRequest, clearRequest_firstRequest, cancel_firstRequest,
      didFail_firstRequest]

theorem getCredentialFromPersistentStorageCompletion_firstRequest (w : World σ)
    (challenge : AuthenticationChallenge) (credential : Credential) :
    (getCredentialFromPersistentStorageCompletion w challenge credential).m_firstRequest
      = w.m_firstRequest := by
  unfold getCredentialFromPersistentStorageCompletion
  split
  all_goals
    simp only [clearRequest_firstRequest, continueAuthenticate_firstRequest]

theorem authenticateThroughClient_firstRequest (w : World σ) (challenge : AuthenticationChallenge) :
    (authenticateThroughClient w challenge).m_firstRequest = w.m_firstRequest := by
  unfold authenticateThroughClient
  dsimp only
  split
  all_goals
    simp only [emit_firstRequest, continueAuthenticate_firstRequest]

theorem authenticate_firstRequest (p : Platform σ) (w : World σ)
    (challenge : AuthenticationChallenge) :
    (authenticate p w challenge).m_firstRequest = w.m_firstRequest := by
  unfold authenticate
  dsimp only
  repeat' split
  all_goals
    simp only [emit_firstRequest, authenticateThroughClient_firstRequest]

theorem authenticateCallback_firstRequest (p : Platform σ) (w : World σ) (forThisMessage : Bool)
    (soupAuth : SoupAuth) (retrying : Bool) :
    (authenticateCallback p w forThisMessage soupAuth retrying).m_firstRequest
      = w.m_firstRequest := by
  unfold authenticateCallback
  repeat' split
  all_goals
    simp only [clearRequest_firstRequest, authenticate_firstRequest]

theorem tlsErrorsChanged_firstRequest (w : World σ) (error : ResourceError) :
    (tlsErrorsChanged w error).m_firstRequest = w.m_firstRequest := by
  unfold tlsErrorsChanged
  split
  all_goals
    simp only [callClient_firstRequest, invalidateAndCancel_firstRequest]

theorem tlsErrorsChangedCallback_firstRequest (w : World σ) (error : ResourceError) :
    (tlsErrorsChangedCallback w error).m_firstRequest = w.m_firstRequest := by
  unfold tlsErrorsChangedCallback
  split
  all_goals
    simp only [clearRequest_firstRequest, tlsErrorsChanged_firstRequest]

theorem didGetHeaders_firstRequest (w : World σ) :
    (didGetHeaders w).m_firstRequest = w.m_firstRequest := by
  unfold didGetHeaders
  repeat' split
  all_goals
    simp only [emit_firstRequest]

theorem gotHeadersCallback_firstRequest (w : World σ) :
    (gotHeadersCallback w).m_firstRequest = w.m_firstRequest := by
  unfold gotHeadersCallback
  split
  all_goals
    simp only [clearRequest_firstRequest, didGetHeaders_firstRequest]

theorem didWriteBodyData_firstRequest (w : World σ) (bytesSent : Nat) :
    (didWriteBodyData w bytesSent).m_firstRequest = w.m_firstRequest := by
  unfold didWriteBodyData
  simp only [callClient_firstRequest]

theorem wroteBodyDataCallback_firstRequest (w : World σ) (bufferLength : Nat) :
    (wroteBodyDataCallback w bufferLength).m_firstRequest = w.m_firstRequest := by
  unfold wroteBodyDataCallback
  split
  all_goals
    simp only [clearRequest_firstRequest, didWriteBodyData_firstRequest]

/-! ## Every redirect restarts from the first request -/

theorem TaskEvent.apply_firstRequest (p : Platform σ) (w : World σ) (e : TaskEvent) :
    (e.apply p w).m_firstRequest = w.m_firstRequest := by
  cases e with
  | resume => exact resume_firstRequest p w
  | suspend => exact suspend_firstRequest w
  | cancel => exact cancel_firstRequest w
  | invalidateAndCancel => exact invalidateAndCancel_firstRequest w
  | timeoutFired => exact timeoutFired_firstRequest w
  | sendRequestCallback result => exact sendRequestCallback_firstRequest p w result
  | readCallback result => exact readCallback_firstRequest w result
  | skipInputStreamForRedirectionCallback result =>
    exact skipInputStreamForRedirectionCallback_firstRequest p w result
  | requestNextPartCallback result => exact requestNextPartCallback_firstRequest p w result
  | writeDownloadCallback result => exact writeDownloadCallback_firstRequest w result
  | didReceiveResponseCompletion policyAction =>
    exact didReceiveResponseCompletion_firstRequest w policyAction
  | willPerformHTTPRedirectionCompletion newRequest =>
    exact willPerformHTTPRedirectionCompletion_firstRequest p w newRequest
  | didReceiveChallengeCompletion challenge disposition credential =>
    exact didReceiveChallengeCompletion_firstRequest p w challenge disposition credential
  | getCredentialFromPersistentStorageCompletion challenge credential =>
    exact getCredentialFromPersistentStorageCompletion_firstRequest w challenge credential
  | authenticateCallback forThisMessage soupAuth retrying =>
    exact authenticateCallback_firstRequest p w forThisMessage soupAuth retrying
  | tlsErrorsChangedCallback error => exact tlsErrorsChangedCallback_firstRequest w error
  | gotHeadersCallback => exact gotHeadersCallback_firstRequest w
  | wroteBodyDataCallback bufferLength => exact wroteBodyDataCallback_firstRequest w bufferLength
  | messageReceived exchange => rfl
  | streamWrote data =>
    obtain ⟨files, hfiles⟩ := streamWritten_eq w data
    rw [TaskEvent.apply_streamWrote, hfiles]

theorem TaskEvent.applyAll_firstRequest (p : Platform σ) (events : List TaskEvent) :
    ∀ w : World σ, (TaskEvent.applyAll p w events).m_firstRequest = w.m_firstRequest := by
  induction events with
  | nil => intro w; rfl
  | cons e rest ih =>
    intro w
    exact (ih (e.apply p w)).trans (TaskEvent.apply_firstRequest p w e)

theorem create_firstRequest (p : Platform σ) (store : σ) (files : FileSystem)
    (request : ResourceRequest) (storedCredentials : StoredCredentials)
    (shouldContentSniff : ContentSniffingPolicy) (shouldClearReferrer : Bool) :
    (NetworkDataTaskSoup.create p store files request storedCredentials shouldContentSniff
      shouldClearReferrer).m_firstRequest = request := by
  have hbase : (NetworkDataTask.create p store files request storedCredentials
      shouldContentSniff shouldClearReferrer).m_firstRequest = request := by
    unfold NetworkDataTask.create
    dsimp only
    split
    · rfl
    · split <;> rfl
  unfold NetworkDataTaskSoup.create
  dsimp only
  repeat' split
  all_goals first
    | exact hbase
    | simp only [createRequest_firstRequest, applyAuthenticationToRequest_firstRequest, hbase]

theorem redirectRequestWithCredentials_cases (p : Platform σ) (w : World σ) :
    redirectRequestWithCredentials p w = redirectBase p w
    ∨ redirectRequestWithCredentials p w
      = (((redirectBase p w).setHTTPMethod "GET").setHTTPBody none).clearHTTPContentType := by
  have hunfold : redirectRequestWithCredentials p w
      = if !equalLettersIgnoringASCIICase (redirectBase p w).httpMethod "get" then
          if (match w.m_soupMessage with
                | some m => m.method == "GET"
                | none => false)
              || !(redirectBase p w).url.protocolIsInHTTPFamily
              || (match w.m_soupMessage with
                | some m =>
                  shouldRedirectAsGET m
                    (!protocolHostAndPortAreEqual w.m_firstRequest.url (redirectBase p w).url)
                | none => false)
          then (((redirectBase p w).setHTTPMethod "GET").setHTTPBody none).clearHTTPContentType
          else redirectBase p w
        else redirectBase p w := rfl
  rw [hunfold]
  split
  · split
    · exact Or.inr rfl
    · exact Or.inl rfl
  · exact Or.inl rfl

theorem redirectRequestWithCredentials_frame (p : Platform σ) (w : World σ) :
    (redirectRequestWithCredentials p w).timeoutInterval = w.m_firstRequest.timeoutInterval
    ∧ (redirectRequestWithCredentials p w).priority = w.m_firstRequest.priority
    ∧ ∀ name, name ≠ HTTPHeaderName.ContentType → name ≠ HTTPHeaderName.Referer →
        HTTPHeaderMap.get (redirectRequestWithCredentials p w).httpHeaderFields name
          = HTTPHeaderMap.get w.m_firstRequest.httpHeaderFields name
        ∧ HTTPHeaderMap.contains (redirectRequestWithCredentials p w).httpHeaderFields name
          = HTTPHeaderMap.contains w.m_firstRequest.httpHeaderFields name := by
  have hbase : ∀ name, name ≠ HTTPHeaderName.Referer →
      HTTPHeaderMap.get (redirectBase p w).httpHeaderFields name
        = HTTPHeaderMap.get w.m_firstRequest.httpHeaderFields name
      ∧ HTTPHeaderMap.contains (redirectBase p w).httpHeaderFields name
        = HTTPHeaderMap.contains w.m_firstRequest.httpHeaderFields name := by
    intro name hname
    rcases redirectBase_headers p w with h | h <;> rw [h]
    · exact ⟨rfl, rfl⟩
    · rw [headerMap_get_remove, headerMap_contains_remove, if_neg (Ne.symm hname),
        if_neg (Ne.symm hname)]
      exact ⟨rfl, rfl⟩
  rcases redirectRequestWithCredentials_cases p w with h | h <;> rw [h]
  · exact ⟨redirectBase_timeoutInterval p w, redirectBase_priority p w,
      fun name _ hreferer => hbase name hreferer⟩
  · refine ⟨redirectBase_timeoutInterval p w, redirectBase_priority p w, ?_⟩
    intro name htype hreferer
    simp only [ResourceRequest.clearHTTPContentType, ResourceRequest.setHTTPBody,
      ResourceRequest.setHTTPMethod, headerMap_get_remove, headerMap_contains_remove,
      if_neg (Ne.symm htype)]
    exact hbase name hreferer

theorem redirectRequest_frame (p : Platform σ) (w : World σ) :
    (redirectRequest p w).timeoutInterval = w.m_firstRequest.timeoutInterval
    ∧ (redirectRequest p w).priority = w.m_firstRequest.priority
    ∧ (∀ name, name ≠ HTTPHeaderName.ContentType → name ≠ HTTPHeaderName.Referer →
        name ≠ HTTPHeaderName.Authorization → name ≠ HTTPHeaderName.Origin →
        HTTPHeaderMap.get (redirectRequest p w).httpHeaderFields name
          = HTTPHeaderMap.get w.m_firstRequest.httpHeaderFields name
        ∧ HTTPHeaderMap.contains (redirectRequest p w).httpHeaderFields name
          = HTTPHeaderMap.contains w.m_firstRequest.httpHeaderFields name)
    ∧ (isCrossOriginRedirect p w = false →
        ∀ name, name ≠ HTTPHeaderName.ContentType → name ≠ HTTPHeaderName.Referer →
        HTTPHeaderMap.get (redirectRequest p w).httpHeaderFields name
          = HTTPHeaderMap.get w.m_firstRequest.httpHeaderFields name
        ∧ HTTPHeaderMap.contains (redirectRequest p w).httpHeaderFields name
          = HTTPHeaderMap.contains w.m_firstRequest.httpHeaderFields name) := by
  obtain ⟨h1, h2, h3⟩ := redirectRequestWithCredentials_frame p w
  have hcases : redirectRequest p w
      = (if isCrossOriginRedirect p w = true
          then ResourceRequest.clearHTTPOrigin
            (redirectRequestWithCredentials p w).removeCredentials.clearHTTPAuthorization
          else (redirectRequestWithCredentials p w).removeCredentials) := by
    unfold redirectRequest isCrossOriginRedirect
    dsimp only
    rw [redirectRequestWithCredentials_url]
  rw [hcases]
  by_cases hcross : isCrossOriginRedirect p w = true
  · rw [if_pos hcross]
    refine ⟨h1, h2, ?_, ?_⟩
    · intro name htype hreferer hauth horigin
      simp only [ResourceRequest.clearHTTPOrigin, ResourceRequest.clearHTTPAuthorization,
        ResourceRequest.removeCredentials, headerMap_get_remove, headerMap_contains_remove,
        if_neg (Ne.symm hauth), if_neg (Ne.symm horigin)]
      exact h3 name htype hreferer
    · intro hsame
      rw [hsame] at hcross
      cases hcross
  · rw [if_neg hcross]
    exact ⟨h1, h2, fun name htype hreferer _ _ => h3 name htype hreferer,
      fun _ name htype hreferer => h3 name htype hreferer⟩

/-- C30: every redirect restarts from the first request. A task is created for a request
and goes through any sequence of events, answers of the client with substituted requests
among them. The first request held by the task is still the request it was created for.
When a redirect is then continued (the task has its client and the redirect count is
within the limit), the continuation proposed to the client is derived from that request:
its timeout and priority are those of the first request, and so is every header other
than Content-Type, Referer, Authorization and Origin; and when the target is on the origin
of the first request, Authorization and Origin are those of the first request as well. -/
theorem redirect_restarts_from_first_request (p : Platform σ) (store : σ)
    (files : FileSystem) (request : ResourceRequest) (storedCredentials : StoredCredentials)
    (shouldContentSniff : ContentSniffingPolicy) (shouldClearReferrer : Bool)
    (events : List TaskEvent) (w : World σ)
    (hw : w = TaskEvent.applyAll p
      (NetworkDataTaskSoup.create p store files request storedCredentials shouldContentSniff
        shouldClearReferrer) events)
    (hclient : w.m_client = true) (hcount : w.m_redirectCount ≤ maxRedirects) :
    w.m_firstRequest = request
    ∧ (∃ l, (continueHTTPRedirection p w).effects
        = w.effects ++ l
          ++ [Effect.clientWillPerformHTTPRedirection w.m_response (redirectRequest p w)]
      ∧ ∀ r q, Effect.clientWillPerformHTTPRedirection r q ∉ l)
    ∧ (redirectRequest p w).timeoutInterval = request.timeoutInterval
    ∧ (redirectRequest p w).priority = request.priority
    ∧ (∀ name, name ≠ HTTPHeaderName.ContentType → name ≠ HTTPHeaderName.Referer →
        name ≠ HTTPHeaderName.Authorization → name ≠ HTTPHeaderName.Origin →
        HTTPHeaderMap.get (redirectRequest p w).httpHeaderFields name
          = HTTPHeaderMap.get request.httpHeaderFields name
        ∧ HTTPHeaderMap.contains (redirectRequest p w).httpHeaderFields name
          = HTTPHeaderMap.contains request.httpHeaderFields name)
    ∧ (isCrossOriginRedirect p w = false →
        HTTPHeaderMap.get (redirectRequest p w).httpHeaderFields HTTPHeaderName.Authorization
          = HTTPHeaderMap.get request.httpHeaderFields HTTPHeaderName.Authorization
        ∧ HTTPHeaderMap.get (redirectRequest p w).httpHeaderFields HTTPHeaderName.Origin
          = HTTPHeaderMap.get request.httpHeaderFields HTTPHeaderName.Origin) := by
  have hfirst : w.m_firstRequest = request := by
    rw [hw, TaskEvent.applyAll_firstRequest, create_firstRequest]
  obtain ⟨h1, h2, h3, h4⟩ := redirectRequest_frame p w
  rw [hfirst] at h1 h2 h3 h4
  refine ⟨hfirst, continueHTTPRedirection_proposes p w hclient hcount, h1, h2, h3, ?_⟩
  intro hsame
  exact ⟨(h4 hsame _ (by decide) (by decide)).1, (h4 hsame _ (by decide) (by decide)).1⟩

theorem redirect_restarts_from_first_request_witness :
    chainWorld.m_client = true ∧ chainWorld.m_redirectCount = 1
    ∧ chainWorld.m_soupMessage.map (fun m => (m.request_headers, m.priority))
      = some ([(HTTPHeaderName.other "X-Substituted", "1"), (HTTPHeaderName.Accept, "*/*")], 5)
    ∧ isCrossOriginRedirect chainPlatform chainWorld = false
    ∧ chainWorld.m_firstRequest = examplePost
    ∧ (redirectRequest chainPlatform chainWorld).priority = 0
    ∧ HTTPHeaderMap.get (redirectRequest chainPlatform chainWorld).httpHeaderFields
        HTTPHeaderName.Authorization = "Basic dXNlcjpwYXNz"
    ∧ HTTPHeaderMap.get (redirectRequest chainPlatform chainWorld).httpHeaderFields
        HTTPHeaderName.Origin = "https://example"
    ∧ HTTPHeaderMap.contains (redirectRequest chainPlatform chainWorld).httpHeaderFields
        (HTTPHeaderName.other "X-Substituted") = false :=
  ⟨by decide, by decide, by decide, by decide,
    (redirect_restarts_from_first_request chainPlatform { credentials := [] } emptyFiles
      examplePost StoredCredentials.DoNotAllowStoredCredentials
      ContentSniffingPolicy.DoNotSniffContent true chainEvents chainWorld rfl (by decide)
      (by decide)).1,
    (redirect_restarts_from_first_request chainPlatform { credentials := [] } emptyFiles
      examplePost StoredCredentials.DoNotAllowStoredCredentials
      ContentSniffingPolicy.DoNotSniffContent true chainEvents chainWorld rfl (by decide)
      (by decide)).2.2.2.1,
    ((redirect_restarts_from_first_request chainPlatform { credentials := [] } emptyFiles
      examplePost StoredCredentials.DoNotAllowStoredCredentials
      ContentSniffingPolicy.DoNotSniffContent true chainEvents chainWorld rfl (by decide)
      (by decide)).2.2.2.2.2 (by decide)).1,
    ((redirect_restarts_from_first_request chainPlatform { credentials := [] } emptyFiles
      examplePost StoredCredentials.DoNotAllowStoredCredentials
      ContentSniffingPolicy.DoNotSniffContent true chainEvents chainWorld rfl (by decide)
      (by decide)).2.2.2.2.2 (by decide)).2,
    (((redirect_restarts_from_first_request chainPlatform { credentials := [] } emptyFiles
      examplePost StoredCredentials.DoNotAllowStoredCredentials
      ContentSniffingPolicy.DoNotSniffContent true chainEvents chainWorld rfl (by decide)
      (by decide)).2.2.2.2.1 (HTTPHeaderName.other "X-Substituted") (by decide) (by decide)
      (by decide) (by decide)).2).trans (by decide)⟩

/-! ## Downloads and the files on disk -/

/-- C22, evaluated on the code: a task is turned into a download to a destination at which
a file with content already exists, and overwrite is not allowed. `download()` fails to
create the destination and reports the destination error, but the file that was there
before is not left in place: `download()` has taken a handle to the destination before it
tried to create it, and the cleanup of the failure deletes the file behind that handle. -/
theorem existing_destination_is_deleted :
    destinationTakenWorld.m_allowOverwriteDownload = false
    ∧ destinationTakenWorld.m_pendingDownloadLocation = exampleDestination
    ∧ destinationTakenWorld.m_downloadDestinationFile = none
    ∧ destinationTakenWorld.files.lookup exampleDestination = some [9, 9]
    ∧ destinationTakenWorld.files.g_file_create exampleDestination
      = Except.error (GError.mk 2 "File exists")
    ∧ (download destinationTakenWorld).effects.getLast?
      = some (Effect.downloadDidFail
          (platformDownloadDestinationError destinationTakenWorld.m_response "File exists"))
    ∧ (download destinationTakenWorld).files.lookup exampleDestination = none
    ∧ (download destinationTakenWorld).files.entries = [] :=
  ⟨by decide, by decide, by decide, by decide, by rfl, by decide, by decide, by decide⟩

theorem cancel_of_live (w : World σ)
    (hlive : ¬ (w.m_state = State.Canceling ∨ w.m_state = State.Completed)) :
    ∃ v : World σ, cancel w = (if v.isDownload then cleanDownloadFiles v else v)
      ∧ v.m_state = State.Canceling ∧ v.files = w.files
      ∧ v.m_downloadDestinationFile = w.m_downloadDestinationFile
      ∧ v.m_downloadIntermediateFile = w.m_downloadIntermediateFile
      ∧ v.isDownload = w.isDownload := by
  unfold cancel
  rw [if_neg hlive]
  refine ⟨_, rfl, ?_, ?_, ?_, ?_, ?_⟩
  all_goals
    dsimp only [World.emit]
    split <;> split <;> rfl

theorem cleanDownloadFiles_handles (w : World σ) :
    (cleanDownloadFiles w).m_downloadDestinationFile = none
    ∧ (cleanDownloadFiles w).m_downloadIntermediateFile = none := by
  unfold cleanDownloadFiles
  dsimp only
  cases hd : w.m_downloadDestinationFile <;> cases hi : w.m_downloadIntermediateFile <;>
    simp [hi, hd]

/-- C25: `cancel()` during a download removes both files. For every task that is a download,
in state Running or Suspended, that holds the handles of its destination and of its
intermediate file, `cancel()` sets the state to Canceling, deletes both files (there is no
file at either path afterwards) and clears both handles. -/
theorem cancel_during_download_removes_both_files (w : World σ)
    (destination intermediate : String)
    (hdownload : w.isDownload = true)
    (hstate : w.m_state = State.Running ∨ w.m_state = State.Suspended)
    (hdestination : w.m_downloadDestinationFile = some destination)
    (hintermediate : w.m_downloadIntermediateFile = some intermediate) :
    (cancel w).m_state = State.Canceling
    ∧ (cancel w).files.lookup destination = none
    ∧ (cancel w).files.lookup intermediate = none
    ∧ (cancel w).m_downloadDestinationFile = none
    ∧ (cancel w).m_downloadIntermediateFile = none := by
  have hlive : ¬ (w.m_state = State.Canceling ∨ w.m_state = State.Completed) := by
    rcases hstate with h | h <;> simp [h]
  obtain ⟨v, hcancel, hvstate, hvfiles, hvdestination, hvintermediate, hvdownload⟩ :=
    cancel_of_live w hlive
  rw [hcancel, hvdownload, hdownload, if_pos rfl]
  refine ⟨by rw [cleanDownloadFiles_state, hvstate], ?_, ?_, (cleanDownloadFiles_handles v).1,
    (cleanDownloadFiles_handles v).2⟩
  · rw [cleanDownloadFiles_lookup, hvdestination, hdestination]
    exact if_pos (Or.inl rfl)
  · rw [cleanDownloadFiles_lookup, hvintermediate, hintermediate]
    exact if_pos (Or.inr rfl)

theorem cancel_during_download_removes_both_files_witness :
    writingWorld.isDownload = true ∧ writingWorld.m_state = State.Running
    ∧ writingWorld.files.lookup exampleDestination = some []
    ∧ writingWorld.files.lookup (exampleDestination ++ wkdownloadSuffix) = some []
    ∧ (cancel writingWorld).m_state = State.Canceling
    ∧ (cancel writingWorld).files.lookup exampleDestination = none
    ∧ (cancel writingWorld).files.lookup (exampleDestination ++ wkdownloadSuffix) = none
    ∧ (cancel writingWorld).m_downloadDestinationFile = none :=
  ⟨by decide, by decide, by decide, by decide,
    (cancel_during_download_removes_both_files writingWorld exampleDestination
      (exampleDestination ++ wkdownloadSuffix) (by decide) (Or.inl (by decide)) (by decide)
      (by decide)).1,
    (cancel_during_download_removes_both_files writingWorld exampleDestination
      (exampleDestination ++ wkdownloadSuffix) (by decide) (Or.inl (by decide)) (by decide)
      (by decide)).2.1,
    (cancel_during_download_removes_both_files writingWorld exampleDestination
      (exampleDestination ++ wkdownloadSuffix) (by decide) (Or.inl (by decide)) (by decide)
      (by decide)).2.2.1,
    (cancel_during_download_removes_both_files writingWorld exampleDestination
      (exampleDestination ++ wkdownloadSuffix) (by decide) (Or.inl (by decide)) (by decide)
      (by decide)).2.2.2.1⟩

/-! ## A rejected initial credential -/

theorem authenticate_with_initial_credential (p : Platform σ) (w : World σ)
    (challenge : AuthenticationChallenge)
    (hallow : w.m_storedCredentials = StoredCredentials.AllowStoredCredentials)
    (hinitial : w.m_initialCredential.isEmpty = false)
    (hstore : (p.credentialGet
      (p.credentialRemove w.credentialStorage challenge.protectionSpace)
      challenge.protectionSpace).isEmpty = true) :
    authenticate p w challenge
      = { w with credentialStorage :=
                   p.credentialRemove w.credentialStorage challenge.protectionSpace
                 effects := w.effects ++ [Effect.soup_session_pause_message,
                   Effect.getCredentialFromPersistentStorage challenge.protectionSpace] } := by
  simp [authenticate, hallow, hinitial, hstore, authenticateThroughClient, World.emit]

/-- C27: a matched initial credential is never supplied again silently. When stored
credentials are allowed and the task holds an initial credential that is not empty,
`authenticate()` removes the credential stored for the protection space of the challenge
before it consults the store. Given a store in which the lookup after that removal returns
the empty credential, and a task that has its client and is neither Canceling nor
Completed, `authenticate()` supplies nothing to the transport: it pauses the message and
starts the persistent lookup, and makes no other call; and when the lookup completes, the
challenge is forwarded to the client with the credential found as proposed credential. -/
theorem initial_credential_is_not_resupplied (p : Platform σ) (w : World σ)
    (challenge : AuthenticationChallenge)
    (hallow : w.m_storedCredentials = StoredCredentials.AllowStoredCredentials)
    (hinitial : w.m_initialCredential.isEmpty = false)
    (hstore : (p.credentialGet
      (p.credentialRemove w.credentialStorage challenge.protectionSpace)
      challenge.protectionSpace).isEmpty = true)
    (hcanceling : w.m_state ≠ State.Canceling) (hcompleted : w.m_state ≠ State.Completed)
    (hclient : w.m_client = true) :
    (authenticate p w challenge).credentialStorage
      = p.credentialRemove w.credentialStorage challenge.protectionSpace
    ∧ (authenticate p w challenge).effects
      = w.effects ++ [Effect.soup_session_pause_message,
          Effect.getCredentialFromPersistentStorage challenge.protectionSpace]
    ∧ (∀ user password,
        Effect.soup_auth_authenticate user password
          ∉ (authenticate p w challenge).effects.drop w.effects.length)
    ∧ ∀ credential,
        (getCredentialFromPersistentStorageCompletion (authenticate p w challenge) challenge
          credential).effects
        = w.effects ++ [Effect.soup_session_pause_message,
            Effect.getCredentialFromPersistentStorage challenge.protectionSpace,
            Effect.clientDidReceiveChallenge
              { challenge with proposedCredential := credential }] := by
  rw [authenticate_with_initial_credential p w challenge hallow hinitial hstore]
  refine ⟨rfl, rfl, ?_, ?_⟩
  · intro user password hmem
    dsimp only at hmem
    rw [List.drop_left] at hmem
    simp at hmem
  · intro credential
    unfold getCredentialFromPersistentStorageCompletion
    rw [if_neg (by simp [hcanceling, hcompleted, hclient])]
    unfold continueAuthenticate World.callClient
    dsimp only
    rw [if_pos hclient]
    simp [World.emit]

theorem initial_credential_is_not_resupplied_witness :
    challengedWorld.m_storedCredentials = StoredCredentials.AllowStoredCredentials
    ∧ challengedWorld.m_initialCredential = exampleCredential
    ∧ examplePlatform.credentialGet challengedWorld.credentialStorage exampleSpace
      = exampleCredential
    ∧ examplePlatform.credentialGet
        (authenticate examplePlatform challengedWorld exampleChallenge).credentialStorage
        exampleSpace = Credential.null
    ∧ (authenticate examplePlatform challengedWorld exampleChallenge).effects
      = challengedWorld.effects ++ [Effect.soup_session_pause_message,
          Effect.getCredentialFromPersistentStorage exampleSpace]
    ∧ (getCredentialFromPersistentStorageCompletion
        (authenticate examplePlatform challengedWorld exampleChallenge) exampleChallenge
        examplePermanentCredential).effects
      = challengedWorld.effects ++ [Effect.soup_session_pause_message,
          Effect.getCredentialFromPersistentStorage exampleSpace,
          Effect.clientDidReceiveChallenge
            { exampleChallenge with proposedCredential := examplePermanentCredential }] :=
  ⟨by decide, by decide, by decide, by decide,
    (initial_credential_is_not_resupplied examplePlatform challengedWorld exampleChallenge
      (by decide) (by decide) (by decide) (by decide) (by decide) (by decide)).2.1,
    (initial_credential_is_not_resupplied examplePlatform challengedWorld exampleChallenge
      (by decide) (by decide) (by decide) (by decide) (by decide) (by decide)).2.2.2 _⟩

/-! ## Callbacks that arrive after cancellation -/

theorem TaskEvent.apply_callback_of_late (p : Platform σ) (w : World σ) (e : TaskEvent)
    (hlate : w.m_state = State.Canceling ∨ w.m_state = State.Completed)
    (hcallback : e.isCallback = true)
    (hown : ∀ soupAuth retrying, e ≠ TaskEvent.authenticateCallback false soupAuth retrying) :
    e.apply p w = clearRequest w := by
  have hor3 : ∀ q : Prop, w.m_state = State.Canceling ∨ w.m_state = State.Completed ∨ q := by
    intro q
    rcases hlate with h | h
    · exact Or.inl h
    · exact Or.inr (Or.inl h)
  cases e with
  | sendRequestCallback result =>
    simp only [TaskEvent.apply, WebKit.sendRequestCallback, if_pos (hor3 _)]
  | readCallback result => simp only [TaskEvent.apply, WebKit.readCallback, if_pos (hor3 _)]
  | skipInputStreamForRedirectionCallback result =>
    simp only [TaskEvent.apply, WebKit.skipInputStreamForRedirectionCallback, if_pos (hor3 _)]
  | requestNextPartCallback result =>
    simp only [TaskEvent.apply, WebKit.requestNextPartCallback, if_pos (hor3 _)]
  | writeDownloadCallback result =>
    simp only [TaskEvent.apply, WebKit.writeDownloadCallback, if_pos (hor3 _)]
  | authenticateCallback forThisMessage soupAuth retrying =>
    cases forThisMessage with
    | false => exact absurd rfl (hown soupAuth retrying)
    | true =>
      simp only [TaskEvent.apply, WebKit.authenticateCallback, if_pos (hor3 _)]
      rfl
  | tlsErrorsChangedCallback error =>
    simp only [TaskEvent.apply, WebKit.tlsErrorsChangedCallback, if_pos (hor3 _)]
  | gotHeadersCallback =>
    simp only [TaskEvent.apply, WebKit.gotHeadersCallback, if_pos (hor3 _)]
  | wroteBodyDataCallback bufferLength =>
    simp only [TaskEvent.apply, WebKit.wroteBodyDataCallback, if_pos (hor3 _)]
  | resume => simp [TaskEvent.isCallback] at hcallback
  | suspend => simp [TaskEvent.isCallback] at hcallback
  | cancel => simp [TaskEvent.isCallback] at hcallback
  | invalidateAndCancel => simp [TaskEvent.isCallback] at hcallback
  | timeoutFired => simp [TaskEvent.isCallback] at hcallback
  | didReceiveResponseCompletion policyAction => simp [TaskEvent.isCallback] at hcallback
  | willPerformHTTPRedirectionCompletion newRequest =>
    simp [TaskEvent.isCallback] at hcallback
  | didReceiveChallengeCompletion challenge disposition credential =>
    simp [TaskEvent.isCallback] at hcallback
  | getCredentialFromPersistentStorageCompletion challenge credential =>
    simp [TaskEvent.isCallback] at hcallback
  | messageReceived exchange => simp [TaskEvent.isCallback] at hcallback
  | streamWrote data => simp [TaskEvent.isCallback] at hcallback

theorem operationsIssued_append (a b : List Effect) :
    operationsIssued (a ++ b) = operationsIssued a ++ operationsIssued b := by
  induction a with
  | nil => rfl
  | cons e rest ih => cases e <;> simp [operationsIssued, ih]

/-- C24, the claim fails for the authenticate signal: the session sends the signal to every
task, and `authenticateCallback` returns at once when the signal is for the message of
another task, before it looks at the state. The task of `cancelingWorld` has been cancelled
while its send is in flight; an authenticate signal for another message arrives: the state
is still Canceling, not Completed, and the request and the message are still held. -/
theorem late_authenticate_for_another_message_leaves_canceling :
    cancelingWorld.m_state = State.Canceling
    ∧ (TaskEvent.authenticateCallback false { protectionSpace := exampleSpace } false).isCallback
      = true
    ∧ ((TaskEvent.authenticateCallback false { protectionSpace := exampleSpace } false).apply
        examplePlatform cancelingWorld).m_state = State.Canceling
    ∧ ((TaskEvent.authenticateCallback false { protectionSpace := exampleSpace } false).apply
        examplePlatform cancelingWorld).m_soupRequest.isSome = true
    ∧ ((TaskEvent.authenticateCallback false { protectionSpace := exampleSpace } false).apply
        examplePlatform cancelingWorld).m_soupMessage.isSome = true := by
  decide

/-- C24, as amended: late callbacks short-circuit. For each native completion or event
callback (send, read, skip, request-next-part, write, got-headers, wrote-body-data,
TLS-errors, and authenticate when the signal is for the task's own message) that arrives
while the task is Canceling or Completed, the callback is exactly `clearRequest`: the
resulting state is Completed, the only calls made are those that release the request
(cancelling the token and the message, disconnecting the signals), so no client or Download
notification is made and no native operation is issued or put in flight. -/
theorem late_callbacks_short_circuit (p : Platform σ) (w : World σ) (e : TaskEvent)
    (hlate : w.m_state = State.Canceling ∨ w.m_state = State.Completed)
    (hcallback : e.isCallback = true)
    (hown : ∀ soupAuth retrying, e ≠ TaskEvent.authenticateCallback false soupAuth retrying) :
    e.apply p w = clearRequest w
    ∧ (e.apply p w).m_state = State.Completed
    ∧ (e.apply p w).effects = w.effects ++ releaseEffects w
    ∧ (∀ x ∈ releaseEffects w,
        x = Effect.g_cancellable_cancel ∨ x = Effect.disconnectMessageSignals
          ∨ x = Effect.soup_session_cancel_message ∨ x = Effect.disconnectSessionSignals)
    ∧ clientTrace (e.apply p w).effects = clientTrace w.effects
    ∧ operationsIssued (e.apply p w).effects = operationsIssued w.effects
    ∧ (e.apply p w).outstanding = w.outstanding := by
  rw [TaskEvent.apply_callback_of_late p w e hlate hcallback hown]
  refine ⟨rfl, clearRequest_state w, clearRequest_effects_eq w, mem_releaseEffects w, ?_, ?_,
    clearRequest_outstanding w⟩
  · rw [clearRequest_effects_eq, clientTrace_append]
    have h : clientTrace (releaseEffects w) = [] := by
      unfold releaseEffects clearRequestEffects
      split
      · rfl
      · split <;> split <;> rfl
    rw [h, List.append_nil]
  · rw [clearRequest_effects_eq, operationsIssued_append]
    have h : operationsIssued (releaseEffects w) = [] := by
      unfold releaseEffects clearRequestEffects
      split
      · rfl
      · split <;> split <;> rfl
    rw [h, List.append_nil]

theorem late_callbacks_short_circuit_witness :
    cancelingWorld.m_state = State.Canceling
    ∧ (TaskEvent.sendRequestCallback GAsyncResult.cancelled).apply examplePlatform cancelingWorld
      = clearRequest cancelingWorld
    ∧ ((TaskEvent.sendRequestCallback GAsyncResult.cancelled).apply examplePlatform
        cancelingWorld).m_state = State.Completed :=
  ⟨by decide,
    (late_callbacks_short_circuit examplePlatform cancelingWorld
      (TaskEvent.sendRequestCallback GAsyncResult.cancelled) (Or.inl (by decide)) rfl
      (fun _ _ h => TaskEvent.noConfusion h)).1,
    (late_callbacks_short_circuit examplePlatform cancelingWorld
      (TaskEvent.sendRequestCallback GAsyncResult.cancelled) (Or.inl (by decide)) rfl
      (fun _ _ h => TaskEvent.noConfusion h)).2.1⟩

/-! ## A finished download -/

theorem TaskEvent.apply_eq_of_completed (p : Platform σ) (w : World σ) (e : TaskEvent)
    (hw : w.m_state = State.Completed) (he : e.isRedirectApproval = false)
    (hmessage : ∀ exchange, e ≠ TaskEvent.messageReceived exchange)
    (hstream : ∀ data, e ≠ TaskEvent.streamWrote data) :
    e.apply p w = w := by
  have hc : clearRequest w = w := clearRequest_of_completed w hw
  have hor : w.m_state = State.Canceling ∨ w.m_state = State.Completed := Or.inr hw
  have hor3 : ∀ q : Prop, w.m_state = State.Canceling ∨ w.m_state = State.Completed ∨ q :=
    fun _ => Or.inr (Or.inl hw)
  cases e with
  | resume => simp only [TaskEvent.apply, WebKit.resume, if_pos hor]
  | suspend => simp only [TaskEvent.apply, WebKit.suspend, if_pos hor]
  | cancel => simp only [TaskEvent.apply, WebKit.cancel, if_pos hor]
  | invalidateAndCancel =>
    simp only [TaskEvent.apply, WebKit.invalidateAndCancel, WebKit.cancel, if_pos hor, hc]
  | timeoutFired => simp only [TaskEvent.apply, WebKit.timeoutFired, if_pos (hor3 _), hc]
  | sendRequestCallback result =>
    simp only [TaskEvent.apply, WebKit.sendRequestCallback, if_pos (hor3 _), hc]
  | readCallback result => simp only [TaskEvent.apply, WebKit.readCallback, if_pos (hor3 _), hc]
  | skipInputStreamForRedirectionCallback result =>
    simp only [TaskEvent.apply, WebKit.skipInputStreamForRedirectionCallback, if_pos (hor3 _), hc]
  | requestNextPartCallback result =>
    simp only [TaskEvent.apply, WebKit.requestNextPartCallback, if_pos (hor3 _), hc]
  | writeDownloadCallback result =>
    simp only [TaskEvent.apply, WebKit.writeDownloadCallback, if_pos (hor3 _), hc]
  | didReceiveResponseCompletion policyAction =>
    simp only [TaskEvent.apply, WebKit.didReceiveResponseCompletion, if_pos hor, hc]
  | willPerformHTTPRedirectionCompletion newRequest =>
    have hnull : newRequest.isNull = true := by
      simpa [TaskEvent.isRedirectApproval] using he
    simp only [TaskEvent.apply, WebKit.willPerformHTTPRedirectionCompletion,
      if_pos (Or.inl hnull : newRequest.isNull = true ∨ w.m_state = State.Canceling)]
  | didReceiveChallengeCompletion challenge disposition credential =>
    simp only [TaskEvent.apply, WebKit.didReceiveChallengeCompletion, if_pos hor, hc]
  | getCredentialFromPersistentStorageCompletion challenge credential =>
    simp only [TaskEvent.apply, WebKit.getCredentialFromPersistentStorageCompletion,
      if_pos (hor3 _), hc]
  | authenticateCallback forThisMessage soupAuth retrying =>
    simp only [TaskEvent.apply, WebKit.authenticateCallback, if_pos (hor3 _), hc]
    split <;> rfl
  | tlsErrorsChangedCallback error =>
    simp only [TaskEvent.apply, WebKit.tlsErrorsChangedCallback, if_pos (hor3 _), hc]
  | gotHeadersCallback =>
    simp only [TaskEvent.apply, WebKit.gotHeadersCallback, if_pos (hor3 _), hc]
  | wroteBodyDataCallback bufferLength =>
    simp only [TaskEvent.apply, WebKit.wroteBodyDataCallback, if_pos (hor3 _), hc]
  | messageReceived exchange => exact absurd rfl (hmessage exchange)
  | streamWrote data => exact absurd rfl (hstream data)

theorem TaskEvent.apply_files_of_completed (p : Platform σ) (w : World σ) (e : TaskEvent)
    (hw : w.m_state = State.Completed) (he : e.isRedirectApproval = false)
    (hstream : w.m_downloadOutputStream = none) :
    (e.apply p w).m_downloadOutputStream = none ∧ (e.apply p w).files = w.files := by
  by_cases hmessage : ∃ exchange, e = TaskEvent.messageReceived exchange
  · obtain ⟨exchange, rfl⟩ := hmessage
    exact ⟨hstream, rfl⟩
  · by_cases hwrote : ∃ data, e = TaskEvent.streamWrote data
    · obtain ⟨data, rfl⟩ := hwrote
      rw [TaskEvent.apply_streamWrote, streamWritten_of_none w data hstream]
      exact ⟨hstream, rfl⟩
    · rw [TaskEvent.apply_eq_of_completed p w e hw he
        (fun exchange h => hmessage ⟨exchange, h⟩) (fun data h => hwrote ⟨data, h⟩)]
      exact ⟨hstream, rfl⟩

theorem TaskEvent.applyAll_files_of_completed (p : Platform σ) (events : List TaskEvent) :
    ∀ w : World σ, w.m_state = State.Completed →
      (∀ e ∈ events, TaskEvent.isRedirectApproval e = false) →
      w.m_downloadOutputStream = none →
      (TaskEvent.applyAll p w events).files = w.files := by
  induction events with
  | nil => intro w _ _ _; rfl
  | cons e rest ih =>
    intro w hw h hstream
    have he := h e (List.mem_cons_self _ _)
    obtain ⟨h1, h2⟩ := TaskEvent.apply_files_of_completed p w e hw he hstream
    exact (ih (e.apply p w) (TaskEvent.apply_of_completed p w e hw he).1
      (fun e' he' => h e' (List.mem_cons_of_mem _ he')) h1).trans h2

theorem clearRequest_stream (w : World σ) (h : w.m_downloadOutputStream = none) :
    (clearRequest w).m_downloadOutputStream = none := by
  by_cases hs : w.m_state = State.Completed
  · rw [clearRequest_of_completed w hs]
    exact h
  · rw [clearRequest_eq w hs]

theorem clearRequest_pendingDownloadLocation (w : World σ) :
    (clearRequest w).m_pendingDownloadLocation = w.m_pendingDownloadLocation := by
  unfold clearRequest
  dsimp only [World.emit, stopTimeout]
  repeat' split
  all_goals rfl

theorem didFinishDownload_moved (w : World σ) (intermediate destination : String)
    (files : FileSystem)
    (hintermediate : w.m_downloadIntermediateFile = some intermediate)
    (hdestination : w.m_downloadDestinationFile = some destination)
    (hmove : w.files.g_file_move intermediate destination = Except.ok files) :
    (didFinishDownload w).m_state = State.Completed
    ∧ (didFinishDownload w).files = files
    ∧ (didFinishDownload w).m_pendingDownloadLocation = w.m_pendingDownloadLocation
    ∧ (didFinishDownload w).effects.getLast? = some Effect.downloadDidFinish
    ∧ (didFinishDownload w).m_downloadOutputStream = none := by
  unfold didFinishDownload
  dsimp only [World.emit]
  rw [hintermediate, hdestination]
  dsimp only
  rw [hmove]
  dsimp only
  refine ⟨clearRequest_state _, ?_, ?_, ?_, ?_⟩
  · rw [clearRequest_files]
  · rw [clearRequest_pendingDownloadLocation]
  · simp
  · exact clearRequest_stream _ rfl

/-- C29: a finished download is never deleted. When `didFinishDownload` runs on a task that
holds the handles `download()` sets (the destination at the pending download location and
the intermediate file beside it) and the move of the intermediate file onto the destination
succeeds, the destination holds the downloaded content, the task is Completed and the last
call made is the `didFinish` report. After that, under every sequence of operations and
callbacks on the task (cancel, invalidateAndCancel, timeout, resume, suspend, late native
completions and transport signals, and client answers other than the approval of a
redirect), the destination file is still there with the same content and no call at all has
been made: nothing is deleted and no failure is reported for the download. -/
theorem finished_download_is_never_deleted (p : Platform σ) (w : World σ) (files : FileSystem)
    (events : List TaskEvent)
    (hintermediate : w.m_downloadIntermediateFile
      = some (w.m_pendingDownloadLocation ++ wkdownloadSuffix))
    (hdestination : w.m_downloadDestinationFile = some w.m_pendingDownloadLocation)
    (hmove : w.files.g_file_move (w.m_pendingDownloadLocation ++ wkdownloadSuffix)
      w.m_pendingDownloadLocation = Except.ok files)
    (hevents : ∀ e ∈ events, TaskEvent.isRedirectApproval e = false) :
    (didFinishDownload w).effects.getLast? = some Effect.downloadDidFinish
    ∧ (didFinishDownload w).files.lookup w.m_pendingDownloadLocation
      = w.files.lookup (w.m_pendingDownloadLocation ++ wkdownloadSuffix)
    ∧ (didFinishDownload w).files.lookup w.m_pendingDownloadLocation ≠ none
    ∧ (TaskEvent.applyAll p (didFinishDownload w) events).files.lookup w.m_pendingDownloadLocation
      = (didFinishDownload w).files.lookup w.m_pendingDownloadLocation
    ∧ (TaskEvent.applyAll p (didFinishDownload w) events).effects = (didFinishDownload w).effects
    ∧ (TaskEvent.applyAll p (didFinishDownload w) events).m_state = State.Completed := by
  obtain ⟨hstate, hfiles, _, hlast, hstream⟩ :=
    didFinishDownload_moved w _ _ files hintermediate hdestination hmove
  obtain ⟨h1, h2, _⟩ := TaskEvent.applyAll_of_completed p events (didFinishDownload w) hstate hevents
  have hkept := congrArg (fun fs : FileSystem => fs.lookup w.m_pendingDownloadLocation)
    (TaskEvent.applyAll_files_of_completed p events (didFinishDownload w) hstate hevents
      hstream)
  dsimp only at hkept
  have hcontent : files.lookup w.m_pendingDownloadLocation
      = w.files.lookup (w.m_pendingDownloadLocation ++ wkdownloadSuffix)
      ∧ files.lookup w.m_pendingDownloadLocation ≠ none := by
    unfold FileSystem.g_file_move at hmove
    split at hmove
    · cases hmove
    · rename_i content hcontent
      split at hmove
      · cases hmove
      · cases hmove
        rw [lookup_store, if_pos rfl, hcontent]
        exact ⟨rfl, by simp⟩
  rw [hfiles] at hkept ⊢
  exact ⟨hlast, hcontent.1, hcontent.2, hkept, h2, h1⟩

theorem finished_download_is_never_deleted_witness :
    (didFinishDownload writtenWorld).files.lookup exampleDestination = some [1, 2, 3]
    ∧ (TaskEvent.applyAll examplePlatform (didFinishDownload writtenWorld)
        [TaskEvent.cancel, TaskEvent.invalidateAndCancel, TaskEvent.timeoutFired,
          TaskEvent.writeDownloadCallback failedResult,
          TaskEvent.readCallback GAsyncResult.cancelled]).files.lookup exampleDestination
      = some [1, 2, 3] :=
  ⟨by decide,
    ((finished_download_is_never_deleted examplePlatform writtenWorld _
      [TaskEvent.cancel, TaskEvent.invalidateAndCancel, TaskEvent.timeoutFired,
        TaskEvent.writeDownloadCallback failedResult,
        TaskEvent.readCallback GAsyncResult.cancelled]
      (by decide) (by decide) (by rfl) (by decide)).2.2.2.1).trans (by decide)⟩

/-! ## Completed tasks are released -/

theorem settled_of_live (w : World σ) (hlive : w.m_state ≠ State.Completed) : Settled w :=
  fun h => absurd h hlive

theorem settled_emit (w : World σ) (e : Effect) : Settled (w.emit e) ↔ Settled w := Iff.rfl

theorem settled_callClient (w : World σ) (e : Effect) :
    Settled (w.callClient e) ↔ Settled w := by
  unfold World.callClient
  split <;> exact Iff.rfl

theorem settled_start (w : World σ) (op : AsyncOp) (e : Effect) :
    Settled (w.start op e) ↔ Settled w := Iff.rfl

theorem settled_scheduleFailure (w : World σ) (type : FailureType) :
    Settled (scheduleFailure w type) ↔ Settled w := Iff.rfl

theorem settled_cleanDownloadFiles (w : World σ) :
    Settled (cleanDownloadFiles w) ↔ Settled w := by
  unfold cleanDownloadFiles
  dsimp only
  split <;> split <;> exact Iff.rfl

theorem clearRequest_released (w : World σ) (hlive : w.m_state ≠ State.Completed) :
    Released (clearRequest w) := by
  rw [clearRequest_eq w hlive]
  exact ⟨rfl, rfl, rfl, rfl, rfl, rfl, rfl, rfl⟩

theorem clearRequest_settled (w : World σ) (hlive : w.m_state ≠ State.Completed) :
    Settled (clearRequest w) :=
  fun _ => clearRequest_released w hlive

theorem emit_state (w : World σ) (e : Effect) : (w.emit e).m_state = w.m_state := rfl

theorem start_state (w : World σ) (op : AsyncOp) (e : Effect) :
    (w.start op e).m_state = w.m_state := rfl

theorem stopTimeout_settled (w : World σ) (hlive : w.m_state ≠ State.Completed) :
    Settled (stopTimeout w) :=
  settled_of_live _ hlive

theorem createRequest_state (p : Platform σ) (w : World σ) (request : ResourceRequest) :
    (createRequest p w request).m_state = w.m_state := by
  unfold createRequest
  split
  · rfl
  · split
    · rfl
    · split
      · rfl
      · split <;> rfl

theorem createRequest_settled (p : Platform σ) (w : World σ) (request : ResourceRequest)
    (hlive : w.m_state ≠ State.Completed) :
    Settled (createRequest p w request) :=
  settled_of_live _ (by rw [createRequest_state]; exact hlive)

/-! ## Every function leaves a live task settled -/

theorem startTimeout_settled (w : World σ)
    (hlive : w.m_state ≠ State.Completed) :
    Settled (startTimeout w) := by
  unfold startTimeout
  repeat' split
  all_goals first
    | (solve | (with_reducible apply settled_of_live; simp_all [emit_state, start_state,
        callClient_state, cleanDownloadFiles_state, cancel_state_completed_iff,
        createRequest_state]))

theorem applyAuthenticationToRequest_settled (w : World σ) (request : ResourceRequest)
    (hlive : w.m_state ≠ State.Completed) :
    Settled ((applyAuthenticationToRequest w request).1) := by
  unfold applyAuthenticationToRequest
  repeat' split
  all_goals (try simp only [settled_emit, settled_callClient, settled_start,
    settled_cleanDownloadFiles, settled_scheduleFailure])
  all_goals first
    | (solve | (with_reducible apply settled_of_live; simp_all [emit_state, start_state,
        callClient_state, cleanDownloadFiles_state, cancel_state_completed_iff,
        createRequest_state]))

theorem cancel_settled (w : World σ)
    (hlive : w.m_state ≠ State.Completed) :
    Settled (cancel w) := by
  unfold cancel
  dsimp only
  repeat' split
  all_goals (try simp only [settled_emit, settled_callClient, settled_start,
    settled_cleanDownloadFiles, settled_scheduleFailure])
  all_goals first
    | (solve | (with_reducible apply settled_of_live; simp_all [emit_state, start_state,
        callClient_state, cleanDownloadFiles_state, cancel_state_completed_iff,
        createRequest_state]))

theorem invalidateAndCancel_settled (w : World σ)
    (hlive : w.m_state ≠ State.Completed) :
    Settled (invalidateAndCancel w) := by
  unfold invalidateAndCancel
  all_goals first
    | (solve | (with_reducible apply settled_of_live; simp_all [emit_state, start_state,
        callClient_state, cleanDownloadFiles_state, cancel_state_completed_iff,
        createRequest_state]))
    | (solve | (with_reducible apply clearRequest_settled; simp_all [emit_state, start_state,
        callClient_state, cleanDownloadFiles_state, cancel_state_completed_iff,
        createRequest_state]))

theorem timeoutFired_settled (w : World σ)
    (hlive : w.m_state ≠ State.Completed) :
    Settled (timeoutFired w) := by
  unfold timeoutFired
  repeat' split
  all_goals (try simp only [settled_emit, settled_callClient, settled_start,
    settled_cleanDownloadFiles, settled_scheduleFailure])
  all_goals first
    | (solve | (with_reducible apply settled_of_live; simp_all [emit_state, start_state,
        callClient_state, cleanDownloadFiles_state, cancel_state_completed_iff,
        createRequest_state]))
    | (solve | (with_reducible apply clearRequest_settled; simp_all [emit_state, start_state,
        callClient_state, cleanDownloadFiles_state, cancel_state_completed_iff,
        createRequest_state]))
    | (solve | (with_reducible apply invalidateAndCancel_settled; simp_all [emit_state,
        start_state, callClient_state, cleanDownloadFiles_state, cancel_state_completed_iff,
        createRequest_state]))

theorem didFailDownload_settled (w : World σ) (error : ResourceError)
    (hlive : w.m_state ≠ State.Completed) :
    Settled (didFailDownload w error) := by
  unfold didFailDownload
  dsimp only
  repeat' split
  all_goals (try simp only [settled_emit, settled_callClient, settled_start,
    settled_cleanDownloadFiles, settled_scheduleFailure])
  all_goals first
    | (solve | (with_reducible apply settled_of_live; simp_all [emit_state, start_state,
        callClient_state, cleanDownloadFiles_state, cancel_state_completed_iff,
        createRequest_state]))
    | (solve | (with_reducible apply clearRequest_settled; simp_all [emit_state, start_state,
        callClient_state, cleanDownloadFiles_state, cancel_state_completed_iff,
        createRequest_state]))

theorem didFail_settled (w : World σ) (error : ResourceError)
    (hlive : w.m_state ≠ State.Completed) :
    Settled (didFail w error) := by
  unfold didFail
  repeat' split
  all_goals (try simp only [settled_emit, settled_callClient, settled_start,
    settled_cleanDownloadFiles, settled_scheduleFailure])
  all_goals first
    | (solve | (with_reducible apply settled_of_live; simp_all [emit_state, start_state,
        callClient_state, cleanDownloadFiles_state, cancel_state_completed_iff,
        createRequest_state]))
    | (solve | (with_reducible apply clearRequest_settled; simp_all [emit_state, start_state,
        callClient_state, cleanDownloadFiles_state, cancel_state_completed_iff,
        createRequest_state]))
    | (solve | (with_reducible apply didFailDownload_settled; simp_all [emit_state, start_state,
        callClient_state, cleanDownloadFiles_state, cancel_state_completed_iff,
        createRequest_state]))

theorem didReceiveResponse_settled (w : World σ)
    (hlive : w.m_state ≠ State.Completed) :
    Settled (didReceiveResponse w) := by
  unfold didReceiveResponse
  all_goals (try simp only [settled_emit, settled_callClient, settled_start,
    settled_cleanDownloadFiles, settled_scheduleFailure])
  all_goals first
    | (solve | (with_reducible apply settled_of_live; simp_all [emit_state, start_state,
        callClient_state, cleanDownloadFiles_state, cancel_state_completed_iff,
        createRequest_state]))

theorem read_settled (w : World σ)
    (hlive : w.m_state ≠ State.Completed) :
    Settled (read w) := by
  unfold read
  all_goals (try simp only [settled_emit, settled_callClient, settled_start,
    settled_cleanDownloadFiles, settled_scheduleFailure])
  all_goals first
    | (solve | (with_reducible apply settled_of_live; simp_all [emit_state, start_state,
        callClient_state, cleanDownloadFiles_state, cancel_state_completed_iff,
        createRequest_state]))

theorem requestNextPart_settled (w : World σ)
    (hlive : w.m_state ≠ State.Completed) :
    Settled (requestNextPart w) := by
  unfold requestNextPart
  all_goals (try simp only [settled_emit, settled_callClient, settled_start,
    settled_cleanDownloadFiles, settled_scheduleFailure])
  all_goals first
    | (solve | (with_reducible apply settled_of_live; simp_all [emit_state, start_state,
        callClient_state, cleanDownloadFiles_state, cancel_state_completed_iff,
        createRequest_state]))

theorem skipInputStreamForRedirection_settled (w : World σ)
    (hlive : w.m_state ≠ State.Completed) :
    Settled (skipInputStreamForRedirection w) := by
  unfold skipInputStreamForRedirection
  all_goals (try simp only [settled_emit, settled_callClient, settled_start,
    settled_cleanDownloadFiles, settled_scheduleFailure])
  all_goals first
    | (solve | (with_reducible apply settled_of_live; simp_all [emit_state, start_state,
        callClient_state, cleanDownloadFiles_state, cancel_state_completed_iff,
        createRequest_state]))

theorem writeDownload_settled (w : World σ)
    (hlive : w.m_state ≠ State.Completed) :
    Settled (writeDownload w) := by
  unfold writeDownload
  all_goals (try simp only [settled_emit, settled_callClient, settled_start,
    settled_cleanDownloadFiles, settled_scheduleFailure])
  all_goals first
    | (solve | (with_reducible apply settled_of_live; simp_all [emit_state, start_state,
        callClient_state, cleanDownloadFiles_state, cancel_state_completed_iff,
        createRequest_state]))

theorem download_settled (w : World σ)
    (hlive : w.m_state ≠ State.Completed) :
    Settled (download w) := by
  unfold download
  dsimp only
  repeat' split
  all_goals first
    | (solve | (with_reducible apply settled_of_live; simp_all [emit_state, start_state,
        callClient_state, cleanDownloadFiles_state, cancel_state_completed_iff,
        createRequest_state]))
    | (solve | (with_reducible apply didFailDownload_settled; simp_all [emit_state, start_state,
        callClient_state, cleanDownloadFiles_state, cancel_state_completed_iff,
        createRequest_state]))
    | (solve | (with_reducible apply read_settled; simp_all [emit_state, start_state,
        callClient_state, cleanDownloadFiles_state, cancel_state_completed_iff,
        createRequest_state]))

theorem didWriteDownload_settled (w : World σ) (bytesWritten : Nat)
    (hlive : w.m_state ≠ State.Completed) :
    Settled (didWriteDownload w bytesWritten) := by
  unfold didWriteDownload
  all_goals (try simp only [settled_emit, settled_callClient, settled_start,
    settled_cleanDownloadFiles, settled_scheduleFailure])
  all_goals first
    | (solve | (with_reducible apply settled_of_live; simp_all [emit_state, start_state,
        callClient_state, cleanDownloadFiles_state, cancel_state_completed_iff,
        createRequest_state]))
    | (solve | (with_reducible apply read_settled; simp_all [emit_state, start_state,
        callClient_state, cleanDownloadFiles_state, cancel_state_completed_iff,
        createRequest_state]))

theorem writeDownloadCallback_settled (w : World σ) (result : GAsyncResult)
    (hlive : w.m_state ≠ State.Completed) :
    Settled (writeDownloadCallback w result) := by
  unfold writeDownloadCallback
  repeat' split
  all_goals first
    | (solve | (with_reducible apply settled_of_live; simp_all [emit_state, start_state,
        callClient_state, cleanDownloadFiles_state, cancel_state_completed_iff,
        createRequest_state]))
    | (solve | (with_reducible apply clearRequest_settled; simp_all [emit_state, start_state,
        callClient_state, cleanDownloadFiles_state, cancel_state_completed_iff,
        createRequest_state]))
    | (solve | (with_reducible apply didFailDownload_settled; simp_all [emit_state, start_state,
        callClient_state, cleanDownloadFiles_state, cancel_state_completed_iff,
        createRequest_state]))
    | (solve | (with_reducible apply didWriteDownload_settled; simp_all [emit_state, start_state,
        callClient_state, cleanDownloadFiles_state, cancel_state_completed_iff,
        createRequest_state]))

theorem didFinishDownload_settled (w : World σ)
    (hlive : w.m_state ≠ State.Completed) :
    Settled (didFinishDownload w) := by
  unfold didFinishDownload
  dsimp only
  repeat' split
  all_goals (try simp only [settled_emit, settled_callClient, settled_start,
    settled_cleanDownloadFiles, settled_scheduleFailure])
  all_goals first
    | (solve | (with_reducible apply settled_of_live; simp_all [emit_state, start_state,
        callClient_state, cleanDownloadFiles_state, cancel_state_completed_iff,
        createRequest_state]))
    | (solve | (with_reducible apply clearRequest_settled; simp_all [emit_state, start_state,
        callClient_state, cleanDownloadFiles_state, cancel_state_completed_iff,
        createRequest_state]))
    | (solve | (with_reducible apply didFailDownload_settled; simp_all [emit_state, start_state,
        callClient_state, cleanDownloadFiles_state, cancel_state_completed_iff,
        createRequest_state]))

theorem didReceiveResponseCompletion_settled (w : World σ) (policyAction : PolicyAction)
    (hlive : w.m_state ≠ State.Completed) :
    Settled (didReceiveResponseCompletion w policyAction) := by
  unfold didReceiveResponseCompletion
  repeat' split
  all_goals first
    | (solve | (with_reducible apply settled_of_live; simp_all [emit_state, start_state,
        callClient_state, cleanDownloadFiles_state, cancel_state_completed_iff,
        createRequest_state]))
    | (solve | (with_reducible apply clearRequest_settled; simp_all [emit_state, start_state,
        callClient_state, cleanDownloadFiles_state, cancel_state_completed_iff,
        createRequest_state]))
    | (solve | (with_reducible apply read_settled; simp_all [emit_state, start_state,
        callClient_state, cleanDownloadFiles_state, cancel_state_completed_iff,
        createRequest_state]))
    | (solve | (with_reducible apply requestNextPart_settled; simp_all [emit_state, start_state,
        callClient_state, cleanDownloadFiles_state, cancel_state_completed_iff,
        createRequest_state]))
    | (solve | (with_reducible apply download_settled; simp_all [emit_state, start_state,
        callClient_state, cleanDownloadFiles_state, cancel_state_completed_iff,
        createRequest_state]))

theorem didSendRequest_settled (p : Platform σ) (w : World σ) (inputStream : Option GInputStream)
    (hlive : w.m_state ≠ State.Completed) :
    Settled (didSendRequest p w inputStream) := by
  unfold didSendRequest
  dsimp only
  repeat' split
  all_goals first
    | (solve | (with_reducible apply settled_of_live; simp_all [emit_state, start_state,
        callClient_state, cleanDownloadFiles_state, cancel_state_completed_iff,
        createRequest_state]))
    | (solve | (with_reducible apply didReceiveResponse_settled; simp_all [emit_state,
        start_state, callClient_state, cleanDownloadFiles_state, cancel_state_completed_iff,
        createRequest_state]))
    | (solve | (with_reducible apply skipInputStreamForRedirection_settled; simp_all [emit_state,
        start_state, callClient_state, cleanDownloadFiles_state, cancel_state_completed_iff,
        createRequest_state]))

theorem sendRequestCallback_settled (p : Platform σ) (w : World σ) (result : GAsyncResult)
    (hlive : w.m_state ≠ State.Completed) :
    Settled (sendRequestCallback p w result) := by
  unfold sendRequestCallback
  repeat' split
  all_goals first
    | (solve | (with_reducible apply settled_of_live; simp_all [emit_state, start_state,
        callClient_state, cleanDownloadFiles_state, cancel_state_completed_iff,
        createRequest_state]))
    | (solve | (with_reducible apply clearRequest_settled; simp_all [emit_state, start_state,
        callClient_state, cleanDownloadFiles_state, cancel_state_completed_iff,
        createRequest_state]))
    | (solve | (with_reducible apply didFail_settled; simp_all [emit_state, start_state,
        callClient_state, cleanDownloadFiles_state, cancel_state_completed_iff,
        createRequest_state]))
    | (solve | (with_reducible apply didSendRequest_settled; simp_all [emit_state, start_state,
        callClient_state, cleanDownloadFiles_state, cancel_state_completed_iff,
        createRequest_state]))

theorem didRead_settled (w : World σ) (bytesRead : Nat)
    (hlive : w.m_state ≠ State.Completed) :
    Settled (didRead w bytesRead) := by
  unfold didRead
  dsimp only
  repeat' split
  all_goals first
    | (solve | (with_reducible apply settled_of_live; simp_all [emit_state, start_state,
        callClient_state, cleanDownloadFiles_state, cancel_state_completed_iff,
        createRequest_state]))
    | (solve | (with_reducible apply read_settled; simp_all [emit_state, start_state,
        callClient_state, cleanDownloadFiles_state, cancel_state_completed_iff,
        createRequest_state]))
    | (solve | (with_reducible apply writeDownload_settled; simp_all [emit_state, start_state,
        callClient_state, cleanDownloadFiles_state, cancel_state_completed_iff,
        createRequest_state]))

theorem didFinishRead_settled (w : World σ)
    (hlive : w.m_state ≠ State.Completed) :
    Settled (didFinishRead w) := by
  unfold didFinishRead
  dsimp only
  repeat' split
  all_goals (try simp only [settled_emit, settled_callClient, settled_start,
    settled_cleanDownloadFiles, settled_scheduleFailure])
  all_goals first
    | (solve | (with_reducible apply settled_of_live; simp_all [emit_state, start_state,
        callClient_state, cleanDownloadFiles_state, cancel_state_completed_iff,
        createRequest_state]))
    | (solve | (with_reducible apply clearRequest_settled; simp_all [emit_state, start_state,
        callClient_state, cleanDownloadFiles_state, cancel_state_completed_iff,
        createRequest_state]))
    | (solve | (with_reducible apply requestNextPart_settled; simp_all [emit_state, start_state,
        callClient_state, cleanDownloadFiles_state, cancel_state_completed_iff,
        createRequest_state]))
    | (solve | (with_reducible apply didFinishDownload_settled; simp_all [emit_state, start_state,
        callClient_state, cleanDownloadFiles_state, cancel_state_completed_iff,
        createRequest_state]))

theorem readCallback_settled (w : World σ) (result : GAsyncResult)
    (hlive : w.m_state ≠ State.Completed) :
    Settled (readCallback w result) := by
  unfold readCallback
  repeat' split
  all_goals (try simp only [settled_emit, settled_callClient, settled_start,
    settled_cleanDownloadFiles, settled_scheduleFailure])
  all_goals first
    | (solve | (with_reducible apply settled_of_live; simp_all [emit_state, start_state,
        callClient_state, cleanDownloadFiles_state, cancel_state_completed_iff,
        createRequest_state]))
    | (solve | (with_reducible apply clearRequest_settled; simp_all [emit_state, start_state,
        callClient_state, cleanDownloadFiles_state, cancel_state_completed_iff,
        createRequest_state]))
    | (solve | (with_reducible apply didFail_settled; simp_all [emit_state, start_state,
        callClient_state, cleanDownloadFiles_state, cancel_state_completed_iff,
        createRequest_state]))
    | (solve | (with_reducible apply didRead_settled; simp_all [emit_state, start_state,
        callClient_state, cleanDownloadFiles_state, cancel_state_completed_iff,
        createRequest_state]))
    | (solve | (with_reducible apply didFinishRead_settled; simp_all [emit_state, start_state,
        callClient_state, cleanDownloadFiles_state, cancel_state_completed_iff,
        createRequest_state]))

theorem didRequestNextPart_settled (p : Platform σ) (w : World σ) (inputStream : GInputStream)
    (hlive : w.m_state ≠ State.Completed) :
    Settled (didRequestNextPart p w inputStream) := by
  unfold didRequestNextPart
  all_goals (try simp only [settled_emit, settled_callClient, settled_start,
    settled_cleanDownloadFiles, settled_scheduleFailure])
  all_goals first
    | (solve | (with_reducible apply settled_of_live; simp_all [emit_state, start_state,
        callClient_state, cleanDownloadFiles_state, cancel_state_completed_iff,
        createRequest_state]))
    | (solve | (with_reducible apply didReceiveResponse_settled; simp_all [emit_state,
        start_state, callClient_state, cleanDownloadFiles_state, cancel_state_completed_iff,
        createRequest_state]))

theorem didFinishRequestNextPart_settled (w : World σ)
    (hlive : w.m_state ≠ State.Completed) :
    Settled (didFinishRequestNextPart w) := by
  unfold didFinishRequestNextPart
  all_goals (try simp only [settled_emit, settled_callClient, settled_start,
    settled_cleanDownloadFiles, settled_scheduleFailure])
  all_goals first
    | (solve | (with_reducible apply settled_of_live; simp_all [emit_state, start_state,
        callClient_state, cleanDownloadFiles_state, cancel_state_completed_iff,
        createRequest_state]))
    | (solve | (with_reducible apply clearRequest_settled; simp_all [emit_state, start_state,
        callClient_state, cleanDownloadFiles_state, cancel_state_completed_iff,
        createRequest_state]))

theorem requestNextPartCallback_settled (p : Platform σ) (w : World σ) (result : GAsyncResult)
    (hlive : w.m_state ≠ State.Completed) :
    Settled (requestNextPartCallback p w result) := by
  unfold requestNextPartCallback
  repeat' split
  all_goals first
    | (solve | (with_reducible apply settled_of_live; simp_all [emit_state, start_state,
        callClient_state, cleanDownloadFiles_state, cancel_state_completed_iff,
        createRequest_state]))
    | (solve | (with_reducible apply clearRequest_settled; simp_all [emit_state, start_state,
        callClient_state, cleanDownloadFiles_state, cancel_state_completed_iff,
        createRequest_state]))
    | (solve | (with_reducible apply didFail_settled; simp_all [emit_state, start_state,
        callClient_state, cleanDownloadFiles_state, cancel_state_completed_iff,
        createRequest_state]))
    | (solve | (with_reducible apply didRequestNextPart_settled; simp_all [emit_state,
        start_state, callClient_state, cleanDownloadFiles_state, cancel_state_completed_iff,
        createRequest_state]))
    | (solve | (with_reducible apply didFinishRequestNextPart_settled; simp_all [emit_state,
        start_state, callClient_state, cleanDownloadFiles_state, cancel_state_completed_iff,
        createRequest_state]))

theorem resume_settled (p : Platform σ) (w : World σ)
    (hlive : w.m_state ≠ State.Completed) :
    Settled (resume p w) := by
  unfold resume
  dsimp only [startTimeout, stopTimeout]
  repeat' split
  all_goals (try simp only [settled_emit, settled_callClient, settled_start,
    settled_cleanDownloadFiles, settled_scheduleFailure])
  all_goals first
    | (solve | (with_reducible apply settled_of_live; simp_all [emit_state, start_state,
        callClient_state, cleanDownloadFiles_state, cancel_state_completed_iff,
        createRequest_state]))
    | (solve | (with_reducible apply sendRequestCallback_settled; simp_all [emit_state,
        start_state, callClient_state, cleanDownloadFiles_state, cancel_state_completed_iff,
        createRequest_state]))
    | (solve | (with_reducible apply readCallback_settled; simp_all [emit_state, start_state,
        callClient_state, cleanDownloadFiles_state, cancel_state_completed_iff,
        createRequest_state]))
    | (solve | (with_reducible apply requestNextPartCallback_settled; simp_all [emit_state,
        start_state, callClient_state, cleanDownloadFiles_state, cancel_state_completed_iff,
        createRequest_state]))

theorem suspend_settled (w : World σ)
    (hlive : w.m_state ≠ State.Completed) :
    Settled (suspend w) := by
  unfold suspend
  dsimp only [startTimeout, stopTimeout]
  repeat' split
  all_goals first
    | (solve | (with_reducible apply settled_of_live; simp_all [emit_state, start_state,
        callClient_state, cleanDownloadFiles_state, cancel_state_completed_iff,
        createRequest_state]))

theorem continueHTTPRedirection_settled (p : Platform σ) (w : World σ)
    (hlive : w.m_state ≠ State.Completed) :
    Settled (continueHTTPRedirection p w) := by
  unfold continueHTTPRedirection
  dsimp only
  split
  · exact didFail_settled _ _ hlive
  · rw [settled_callClient]
    apply clearRequest_settled
    repeat' split
    all_goals exact hlive

theorem willPerformHTTPRedirectionCompletion_settled (p : Platform σ) (w : World σ)
    (newRequest : ResourceRequest)
    (hlive : w.m_state ≠ State.Completed) :
    Settled (willPerformHTTPRedirectionCompletion p w newRequest) := by
  have hauth : (applyAuthenticationToRequest w newRequest).1.m_state ≠ State.Completed := by
    unfold applyAuthenticationToRequest
    split <;> exact hlive
  unfold willPerformHTTPRedirectionCompletion
  split
  · exact settled_of_live _ hlive
  · dsimp only
    split <;> split
    · exact resume_settled _ _ (by simp)
    · exact createRequest_settled _ _ _ hauth
    · exact resume_settled _ _ (by simp)
    · exact createRequest_settled _ _ _ hlive

theorem didFinishSkipInputStreamForRedirection_settled (p : Platform σ) (w : World σ)
    (hlive : w.m_state ≠ State.Completed) :
    Settled (didFinishSkipInputStreamForRedirection p w) :=
  continueHTTPRedirection_settled p _ hlive

theorem skipInputStreamForRedirectionCallback_settled (p : Platform σ) (w : World σ)
    (result : GAsyncResult)
    (hlive : w.m_state ≠ State.Completed) :
    Settled (skipInputStreamForRedirectionCallback p w result) := by
  unfold skipInputStreamForRedirectionCallback
  split
  · exact clearRequest_settled w hlive
  · split
    · exact didFail_settled _ _ hlive
    · split
      · exact skipInputStreamForRedirection_settled _ hlive
      · exact didFinishSkipInputStreamForRedirection_settled p _ hlive

theorem continueAuthenticate_settled (w : World σ) (challenge : AuthenticationChallenge)
    (hlive : w.m_state ≠ State.Completed) :
    Settled (continueAuthenticate w challenge) := by
  unfold continueAuthenticate
  all_goals (try simp only [settled_emit, settled_callClient, settled_start,
    settled_cleanDownloadFiles, settled_scheduleFailure])
  all_goals first
    | (solve | (with_reducible apply settled_of_live; simp_all [emit_state, start_state,
        callClient_state, cleanDownloadFiles_state, cancel_state_completed_iff,
        createRequest_state]))

theorem didReceiveChallengeCompletion_settled (p : Platform σ) (w : World σ)
    (challenge : AuthenticationChallenge) (disposition : AuthenticationChallengeDisposition)
    (credential : Credential)
    (hlive : w.m_state ≠ State.Completed) :
    Settled (didReceiveChallengeCompletion p w challenge disposition credential) := by
  unfold didReceiveChallengeCompletion
  repeat' split
  all_goals (try simp only [settled_emit, settled_callClient, settled_start,
    settled_cleanDownloadFiles, settled_scheduleFailure])
  all_goals first
    | (solve | (with_reducible apply settled_of_live; simp_all [emit_state, start_state,
        callClient_state, cleanDownloadFiles_state, cancel_state_completed_iff,
        createRequest_state]))
    | (solve | (with_reducible apply clearRequest_settled; simp_all [emit_state, start_state,
        callClient_state, cleanDownloadFiles_state, cancel_state_completed_iff,
        createRequest_state]))
    | (solve | (with_reducible apply didFail_settled; simp_all [emit_state, start_state,
        callClient_state, cleanDownloadFiles_state, cancel_state_completed_iff,
        createRequest_state]))

theorem getCredentialFromPersistentStorageCompletion_settled (w : World σ)
    (challenge : AuthenticationChallenge) (credential : Credential)
    (hlive : w.m_state ≠ State.Completed) :
    Settled (getCredentialFromPersistentStorageCompletion w challenge credential) := by
  unfold getCredentialFromPersistentStorageCompletion
  repeat' split
  all_goals first
    | (solve | (with_reducible apply settled_of_live; simp_all [emit_state, start_state,
        callClient_state, cleanDownloadFiles_state, cancel_state_completed_iff,
        createRequest_state]))
    | (solve | (with_reducible apply clearRequest_settled; simp_all [emit_state, start_state,
        callClient_state, cleanDownloadFiles_state, cancel_state_completed_iff,
        createRequest_state]))
    | (solve | (with_reducible apply continueAuthenticate_settled; simp_all [emit_state,
        start_state, callClient_state, cleanDownloadFiles_state, cancel_state_completed_iff,
        createRequest_state]))

theorem authenticateThroughClient_settled (w : World σ) (challenge : AuthenticationChallenge)
    (hlive : w.m_state ≠ State.Completed) :
    Settled (authenticateThroughClient w challenge) := by
  unfold authenticateThroughClient
  dsimp only
  repeat' split
  all_goals (try simp only [settled_emit, settled_callClient, settled_start,
    settled_cleanDownloadFiles, settled_scheduleFailure])
  all_goals first
    | (solve | (with_reducible apply settled_of_live; simp_all [emit_state, start_state,
        callClient_state, cleanDownloadFiles_state, cancel_state_completed_iff,
        createRequest_state]))
    | (solve | (with_reducible apply continueAuthenticate_settled; simp_all [emit_state,
        start_state, callClient_state, cleanDownloadFiles_state, cancel_state_completed_iff,
        createRequest_state]))

theorem authenticate_settled (p : Platform σ) (w : World σ) (challenge : AuthenticationChallenge)
    (hlive : w.m_state ≠ State.Completed) :
    Settled (authenticate p w challenge) := by
  unfold authenticate
  dsimp only
  repeat' split
  all_goals (try simp only [settled_emit, settled_callClient, settled_start,
    settled_cleanDownloadFiles, settled_scheduleFailure])
  all_goals first
    | (solve | (with_reducible apply settled_of_live; simp_all [emit_state, start_state,
        callClient_state, cleanDownloadFiles_state, cancel_state_completed_iff,
        createRequest_state]))
    | (solve | (with_reducible apply authenticateThroughClient_settled; simp_all [emit_state,
        start_state, callClient_state, cleanDownloadFiles_state, cancel_state_completed_iff,
        createRequest_state]))

theorem authenticateCallback_settled (p : Platform σ) (w : World σ) (forThisMessage : Bool)
    (soupAuth : SoupAuth) (retrying : Bool)
    (hlive : w.m_state ≠ State.Completed) :
    Settled (authenticateCallback p w forThisMessage soupAuth retrying) := by
  unfold authenticateCallback
  repeat' split
  all_goals first
    | (solve | (with_reducible apply settled_of_live; simp_all [emit_state, start_state,
        callClient_state, cleanDownloadFiles_state, cancel_state_completed_iff,
        createRequest_state]))
    | (solve | (with_reducible apply clearRequest_settled; simp_all [emit_state, start_state,
        callClient_state, cleanDownloadFiles_state, cancel_state_completed_iff,
        createRequest_state]))
    | (solve | (with_reducible apply authenticate_settled; simp_all [emit_state, start_state,
        callClient_state, cleanDownloadFiles_state, cancel_state_completed_iff,
        createRequest_state]))

theorem tlsErrorsChanged_settled (w : World σ) (error : ResourceError)
    (hlive : w.m_state ≠ State.Completed) :
    Settled (tlsErrorsChanged w error) := by
  unfold tlsErrorsChanged
  repeat' split
  all_goals (try simp only [settled_emit, settled_callClient, settled_start,
    settled_cleanDownloadFiles, settled_scheduleFailure])
  all_goals first
    | (solve | (with_reducible apply settled_of_live; simp_all [emit_state, start_state,
        callClient_state, cleanDownloadFiles_state, cancel_state_completed_iff,
        createRequest_state]))
    | (solve | (with_reducible apply invalidateAndCancel_settled; simp_all [emit_state,
        start_state, callClient_state, cleanDownloadFiles_state, cancel_state_completed_iff,
        createRequest_state]))

theorem tlsErrorsChangedCallback_settled (w : World σ) (error : ResourceError)
    (hlive : w.m_state ≠ State.Completed) :
    Settled (tlsErrorsChangedCallback w error) := by
  unfold tlsErrorsChangedCallback
  repeat' split
  all_goals first
    | (solve | (with_reducible apply settled_of_live; simp_all [emit_state, start_state,
        callClient_state, cleanDownloadFiles_state, cancel_state_completed_iff,
        createRequest_state]))
    | (solve | (with_reducible apply clearRequest_settled; simp_all [emit_state, start_state,
        callClient_state, cleanDownloadFiles_state, cancel_state_completed_iff,
        createRequest_state]))
    | (solve | (with_reducible apply tlsErrorsChanged_settled; simp_all [emit_state, start_state,
        callClient_state, cleanDownloadFiles_state, cancel_state_completed_iff,
        createRequest_state]))

theorem didGetHeaders_settled (w : World σ)
    (hlive : w.m_state ≠ State.Completed) :
    Settled (didGetHeaders w) := by
  unfold didGetHeaders
  repeat' split
  all_goals (try simp only [settled_emit, settled_callClient, settled_start,
    settled_cleanDownloadFiles, settled_scheduleFailure])
  all_goals first
    | (solve | (with_reducible apply settled_of_live; simp_all [emit_state, start_state,
        callClient_state, cleanDownloadFiles_state, cancel_state_completed_iff,
        createRequest_state]))

theorem gotHeadersCallback_settled (w : World σ)
    (hlive : w.m_state ≠ State.Completed) :
    Settled (gotHeadersCallback w) := by
  unfold gotHeadersCallback
  repeat' split
  all_goals first
    | (solve | (with_reducible apply settled_of_live; simp_all [emit_state, start_state,
        callClient_state, cleanDownloadFiles_state, cancel_state_completed_iff,
        createRequest_state]))
    | (solve | (with_reducible apply clearRequest_settled; simp_all [emit_state, start_state,
        callClient_state, cleanDownloadFiles_state, cancel_state_completed_iff,
        createRequest_state]))
    | (solve | (with_reducible apply didGetHeaders_settled; simp_all [emit_state, start_state,
        callClient_state, cleanDownloadFiles_state, cancel_state_completed_iff,
        createRequest_state]))

theorem didWriteBodyData_settled (w : World σ) (bytesSent : Nat)
    (hlive : w.m_state ≠ State.Completed) :
    Settled (didWriteBodyData w bytesSent) := by
  unfold didWriteBodyData
  all_goals (try simp only [settled_emit, settled_callClient, settled_start,
    settled_cleanDownloadFiles, settled_scheduleFailure])
  all_goals first
    | (solve | (with_reducible apply settled_of_live; simp_all [emit_state, start_state,
        callClient_state, cleanDownloadFiles_state, cancel_state_completed_iff,
        createRequest_state]))

theorem wroteBodyDataCallback_settled (w : World σ) (bufferLength : Nat)
    (hlive : w.m_state ≠ State.Completed) :
    Settled (wroteBodyDataCallback w bufferLength) := by
  unfold wroteBodyDataCallback
  repeat' split
  all_goals first
    | (solve | (with_reducible apply settled_of_live; simp_all [emit_state, start_state,
        callClient_state, cleanDownloadFiles_state, cancel_state_completed_iff,
        createRequest_state]))
    | (solve | (with_reducible apply clearRequest_settled; simp_all [emit_state, start_state,
        callClient_state, cleanDownloadFiles_state, cancel_state_completed_iff,
        createRequest_state]))
    | (solve | (with_reducible apply didWriteBodyData_settled; simp_all [emit_state, start_state,
        callClient_state, cleanDownloadFiles_state, cancel_state_completed_iff,
        createRequest_state]))

/-! ## Completed means released -/

theorem applyAuthenticationToRequest_state (w : World σ) (request : ResourceRequest) :
    (applyAuthenticationToRequest w request).1.m_state = w.m_state := by
  unfold applyAuthenticationToRequest
  split <;> rfl

theorem create_state (p : Platform σ) (store : σ) (files : FileSystem)
    (request : ResourceRequest) (storedCredentials : StoredCredentials)
    (shouldContentSniff : ContentSniffingPolicy) (shouldClearReferrer : Bool) :
    (NetworkDataTaskSoup.create p store files request storedCredentials shouldContentSniff
      shouldClearReferrer).m_state = State.Suspended := by
  have hbase : (NetworkDataTask.create p store files request storedCredentials
      shouldContentSniff shouldClearReferrer).m_state = State.Suspended := by
    unfold NetworkDataTask.create
    dsimp only
    split
    · rfl
    · split <;> rfl
  unfold NetworkDataTaskSoup.create
  dsimp only
  repeat' split
  all_goals first
    | exact hbase
    | simp only [createRequest_state, applyAuthenticationToRequest_state, hbase]

theorem createRequest_failed_or_created (p : Platform σ) (w : World σ)
    (request : ResourceRequest) :
    createRequest p w request = scheduleFailure w FailureType.InvalidURLFailure
    ∨ (createRequest p w request).m_soupRequest.isSome = true := by
  unfold createRequest
  split
  · exact Or.inl rfl
  · split
    · exact Or.inl rfl
    · split
      · exact Or.inr rfl
      · split
        · exact Or.inl rfl
        · exact Or.inr rfl

theorem createRequest_settled_of_released (p : Platform σ) (w : World σ)
    (request : ResourceRequest) (hstate : w.m_state = State.Completed) (hreleased : Released w)
    (hkept : ¬((createRequest p w request).m_soupRequest.isSome = true
      ∧ (createRequest p w request).m_state ≠ State.Suspended)) :
    Settled (createRequest p w request) := by
  rcases createRequest_failed_or_created p w request with h | h
  · rw [h]
    exact fun _ => hreleased
  · exact absurd ⟨h, by rw [createRequest_state, hstate]; decide⟩ hkept

theorem willPerformHTTPRedirectionCompletion_settled_of_released (p : Platform σ)
    (w : World σ) (newRequest : ResourceRequest) (hstate : w.m_state = State.Completed)
    (hreleased : Released w) :
    Settled (willPerformHTTPRedirectionCompletion p w newRequest) := by
  have hauth : (applyAuthenticationToRequest w newRequest).1.m_state = State.Completed := by
    rw [applyAuthenticationToRequest_state, hstate]
  have hauthReleased : Released (applyAuthenticationToRequest w newRequest).1 := by
    unfold applyAuthenticationToRequest
    split <;> exact hreleased
  unfold willPerformHTTPRedirectionCompletion
  split
  · exact fun _ => hreleased
  · dsimp only
    split <;> split
    · exact resume_settled _ _ (by simp)
    · rename_i hkept
      exact createRequest_settled_of_released p _ _ hauth hauthReleased hkept
    · exact resume_settled _ _ (by simp)
    · rename_i hkept
      exact createRequest_settled_of_released p _ _ hstate hreleased hkept

theorem TaskEvent.apply_settled (p : Platform σ) (w : World σ) (e : TaskEvent)
    (h : Settled w) : Settled (e.apply p w) := by
  by_cases hw : w.m_state = State.Completed
  · have hkeep : ∀ e : TaskEvent, e.isRedirectApproval = false →
        (∀ exchange, e ≠ TaskEvent.messageReceived exchange) →
        (∀ data, e ≠ TaskEvent.streamWrote data) → Settled (e.apply p w) := by
      intro e h1 h2 h3
      rw [TaskEvent.apply_eq_of_completed p w e hw h1 h2 h3]
      exact h
    cases e with
    | willPerformHTTPRedirectionCompletion newRequest =>
      exact willPerformHTTPRedirectionCompletion_settled_of_released p w newRequest hw (h hw)
    | messageReceived exchange =>
      intro _
      obtain ⟨h1, h2, h3, h4, h5, h6, h7, h8⟩ := h hw
      exact ⟨h1, h2, by simp [TaskEvent.apply, h3], h4, h5, h6, h7, h8⟩
    | streamWrote data =>
      obtain ⟨files, hfiles⟩ := streamWritten_eq w data
      rw [TaskEvent.apply_streamWrote, hfiles]
      exact fun _ => h hw
    | resume => exact hkeep _ rfl (fun _ h => TaskEvent.noConfusion h) (fun _ h => TaskEvent.noConfusion h)
    | suspend => exact hkeep _ rfl (fun _ h => TaskEvent.noConfusion h) (fun _ h => TaskEvent.noConfusion h)
    | cancel => exact hkeep _ rfl (fun _ h => TaskEvent.noConfusion h) (fun _ h => TaskEvent.noConfusion h)
    | invalidateAndCancel =>
      exact hkeep _ rfl (fun _ h => TaskEvent.noConfusion h) (fun _ h => TaskEvent.noConfusion h)
    | timeoutFired =>
      exact hkeep _ rfl (fun _ h => TaskEvent.noConfusion h) (fun _ h => TaskEvent.noConfusion h)
    | sendRequestCallback result =>
      exact hkeep _ rfl (fun _ h => TaskEvent.noConfusion h) (fun _ h => TaskEvent.noConfusion h)
    | readCallback result =>
      exact hkeep _ rfl (fun _ h => TaskEvent.noConfusion h) (fun _ h => TaskEvent.noConfusion h)
    | skipInputStreamForRedirectionCallback result =>
      exact hkeep _ rfl (fun _ h => TaskEvent.noConfusion h) (fun _ h => TaskEvent.noConfusion h)
    | requestNextPartCallback result =>
      exact hkeep _ rfl (fun _ h => TaskEvent.noConfusion h) (fun _ h => TaskEvent.noConfusion h)
    | writeDownloadCallback result =>
      exact hkeep _ rfl (fun _ h => TaskEvent.noConfusion h) (fun _ h => TaskEvent.noConfusion h)
    | didReceiveResponseCompletion policyAction =>
      exact hkeep _ rfl (fun _ h => TaskEvent.noConfusion h) (fun _ h => TaskEvent.noConfusion h)
    | didReceiveChallengeCompletion challenge disposition credential =>
      exact hkeep _ rfl (fun _ h => TaskEvent.noConfusion h) (fun _ h => TaskEvent.noConfusion h)
    | getCredentialFromPersistentStorageCompletion challenge credential =>
      exact hkeep _ rfl (fun _ h => TaskEvent.noConfusion h) (fun _ h => TaskEvent.noConfusion h)
    | authenticateCallback forThisMessage soupAuth retrying =>
      exact hkeep _ rfl (fun _ h => TaskEvent.noConfusion h) (fun _ h => TaskEvent.noConfusion h)
    | tlsErrorsChangedCallback error =>
      exact hkeep _ rfl (fun _ h => TaskEvent.noConfusion h) (fun _ h => TaskEvent.noConfusion h)
    | gotHeadersCallback =>
      exact hkeep _ rfl (fun _ h => TaskEvent.noConfusion h) (fun _ h => TaskEvent.noConfusion h)
    | wroteBodyDataCallback bufferLength =>
      exact hkeep _ rfl (fun _ h => TaskEvent.noConfusion h) (fun _ h => TaskEvent.noConfusion h)
  · cases e with
    | resume => exact resume_settled p w hw
    | suspend => exact suspend_settled w hw
    | cancel => exact cancel_settled w hw
    | invalidateAndCancel => exact invalidateAndCancel_settled w hw
    | timeoutFired => exact timeoutFired_settled w hw
    | sendRequestCallback result => exact sendRequestCallback_settled p w result hw
    | readCallback result => exact readCallback_settled w result hw
    | skipInputStreamForRedirectionCallback result =>
      exact skipInputStreamForRedirectionCallback_settled p w result hw
    | requestNextPartCallback result => exact requestNextPartCallback_settled p w result hw
    | writeDownloadCallback result => exact writeDownloadCallback_settled w result hw
    | didReceiveResponseCompletion policyAction =>
      exact didReceiveResponseCompletion_settled w policyAction hw
    | willPerformHTTPRedirectionCompletion newRequest =>
      exact willPerformHTTPRedirectionCompletion_settled p w newRequest hw
    | didReceiveChallengeCompletion challenge disposition credential =>
      exact didReceiveChallengeCompletion_settled p w challenge disposition credential hw
    | getCredentialFromPersistentStorageCompletion challenge credential =>
      exact getCredentialFromPersistentStorageCompletion_settled w challenge credential hw
    | authenticateCallback forThisMessage soupAuth retrying =>
      exact authenticateCallback_settled p w forThisMessage soupAuth retrying hw
    | tlsErrorsChangedCallback error => exact tlsErrorsChangedCallback_settled w error hw
    | gotHeadersCallback => exact gotHeadersCallback_settled w hw
    | wroteBodyDataCallback bufferLength => exact wroteBodyDataCallback_settled w bufferLength hw
    | messageReceived exchange => exact settled_of_live _ hw
    | streamWrote data =>
      obtain ⟨files, hfiles⟩ := streamWritten_eq w data
      rw [TaskEvent.apply_streamWrote, hfiles]
      exact settled_of_live _ hw

theorem TaskEvent.applyAll_settled (p : Platform σ) (events : List TaskEvent) :
    ∀ w : World σ, Settled w → Settled (TaskEvent.applyAll p w events) := by
  induction events with
  | nil => exact fun _ h => h
  | cons e rest ih => exact fun w h => ih (e.apply p w) (TaskEvent.apply_settled p w e h)

theorem TaskStep.step_settled (p : Platform σ) (w : World σ) (step : TaskStep)
    (h : Settled w) : Settled (step.apply p w) := by
  cases step with
  | event e => exact TaskEvent.apply_settled p w e h
  | configure downloadID location allowOverwrite client => exact h

theorem TaskStep.steps_settled (p : Platform σ) (steps : List TaskStep) :
    ∀ w : World σ, Settled w → Settled (TaskStep.applyAll p w steps) := by
  induction steps with
  | nil => exact fun _ h => h
  | cons step rest ih => exact fun w h => ih (step.apply p w) (TaskStep.step_settled p w step h)

/-- C28: Completed means released. In every state a task reaches from its creation through
any sequence of steps, where a step is an operation or callback (resume, suspend, cancel,
invalidateAndCancel, timeout, native completions, transport signals, writes of the download
stream, and client answers, the approval of a redirect included) or a step of the owner
that turns the task into a download (download identifier, location, overwrite flag) or
detaches its client: if the state of the task is Completed then the pending-result slot,
the transport request and message, the input stream, the multipart input stream, the
download output stream and the cancellation token are all empty, and the timeout watchdog
is stopped. -/
theorem completed_means_released (p : Platform σ) (store : σ) (files : FileSystem)
    (request : ResourceRequest) (storedCredentials : StoredCredentials)
    (shouldContentSniff : ContentSniffingPolicy) (shouldClearReferrer : Bool)
    (steps : List TaskStep)
    (hcompleted : (TaskStep.applyAll p
      (NetworkDataTaskSoup.create p store files request storedCredentials shouldContentSniff
        shouldClearReferrer) steps).m_state = State.Completed) :
    Released (TaskStep.applyAll p
      (NetworkDataTaskSoup.create p store files request storedCredentials shouldContentSniff
        shouldClearReferrer) steps) :=
  TaskStep.steps_settled p steps _
    (settled_of_live _ (by rw [create_state]; decide)) hcompleted

theorem completed_means_released_witness :
    (TaskStep.applyAll examplePlatform createdWorld downloadSteps).isDownload = true
    ∧ (TaskStep.applyAll examplePlatform createdWorld downloadSteps).m_client = false
    ∧ (TaskStep.applyAll examplePlatform createdWorld downloadSteps).m_state = State.Running
    ∧ (TaskStep.applyAll examplePlatform createdWorld downloadSteps).m_downloadOutputStream
      = some (GOutputStream.mk (exampleDestination ++ wkdownloadSuffix))
    ∧ (TaskStep.applyAll examplePlatform createdWorld downloadSteps).m_cancellable.isSome
      = true
    ∧ (TaskStep.applyAll examplePlatform createdWorld cancelledDownloadSteps).m_state
      = State.Completed
    ∧ Released (TaskStep.applyAll examplePlatform createdWorld cancelledDownloadSteps) :=
  ⟨by decide, by decide, by decide, by decide, by decide, by decide,
    completed_means_released examplePlatform { credentials := [] } emptyFiles exampleRequest
      StoredCredentials.DoNotAllowStoredCredentials ContentSniffingPolicy.DoNotSniffContent true
      cancelledDownloadSteps (by decide)⟩

/-! ## Calls and operations only accumulate -/

theorem emit_effects_grow (w : World σ) (e : Effect) (l : List Effect)
    (h : l <+: w.effects) : l <+: (w.emit e).effects :=
  h.trans (List.prefix_append _ _)

theorem callClient_effects_grow (w : World σ) (e : Effect) (l : List Effect)
    (h : l <+: w.effects) : l <+: (w.callClient e).effects := by
  unfold World.callClient
  split <;> exact emit_effects_grow w _ l h

theorem start_effects_grow (w : World σ) (op : AsyncOp) (e : Effect) (l : List Effect)
    (h : l <+: w.effects) : l <+: (w.start op e).effects :=
  h.trans (List.prefix_append _ _)

theorem emit_outstanding_grow (w : World σ) (e : Effect) (l : List AsyncOp)
    (h : l <+: w.outstanding) : l <+: (w.emit e).outstanding := h

theorem callClient_outstanding_grow (w : World σ) (e : Effect) (l : List AsyncOp)
    (h : l <+: w.outstanding) : l <+: (w.callClient e).outstanding := by
  unfold World.callClient
  split <;> exact h

theorem start_outstanding_grow (w : World σ) (op : AsyncOp) (e : Effect) (l : List AsyncOp)
    (h : l <+: w.outstanding) : l <+: (w.start op e).outstanding :=
  h.trans (List.prefix_append _ _)

theorem emit_load (w : World σ) (e : Effect) (n m : Nat)
    (h : load w + (n + (questions [e]).length) ≤ m) : load (w.emit e) + n ≤ m := by
  unfold load World.emit pendingCount unsentCount at *
  simp only [questions_append, List.length_append] at *
  omega

theorem callClient_load (w : World σ) (e : Effect) (n m : Nat)
    (h : load w + (n + (questions [e]).length) ≤ m) : load (w.callClient e) + n ≤ m := by
  unfold World.callClient
  split
  · exact emit_load w e n m h
  · exact emit_load w _ n m (by simp only [questions, List.length_nil]; omega)

theorem start_load (w : World σ) (op : AsyncOp) (e : Effect) (n m : Nat)
    (h : load w + (n + 1 + (questions [e]).length) ≤ m) : load (w.start op e) + n ≤ m := by
  unfold load World.start pendingCount unsentCount at *
  simp only [questions_append, List.length_append, List.length_singleton] at *
  omega

/-! ## The calls made are never withdrawn -/

theorem scheduleFailure_effects_grow (w : World σ) (type : FailureType)
    (l : List Effect) (h : l <+: w.effects) :
    l <+: (scheduleFailure w type).effects := by
  unfold scheduleFailure
  all_goals exact h

theorem startTimeout_effects_grow (w : World σ)
    (l : List Effect) (h : l <+: w.effects) :
    l <+: (startTimeout w).effects := by
  unfold startTimeout
  repeat' split
  all_goals exact h

theorem stopTimeout_effects_grow (w : World σ)
    (l : List Effect) (h : l <+: w.effects) :
    l <+: (stopTimeout w).effects := by
  unfold stopTimeout
  all_goals exact h

theorem applyAuthenticationToRequest_effects_grow (w : World σ) (request : ResourceRequest)
    (l : List Effect) (h : l <+: w.effects) :
    l <+: ((applyAuthenticationToRequest w request).1).effects := by
  unfold applyAuthenticationToRequest
  repeat' split
  all_goals exact h

theorem createRequest_effects_grow (p : Platform σ) (w : World σ) (request : ResourceRequest)
    (l : List Effect) (h : l <+: w.effects) :
    l <+: (createRequest p w request).effects := by
  unfold createRequest
  repeat' split
  all_goals
    repeat
      first
      | with_reducible apply emit_effects_grow
      | with_reducible apply scheduleFailure_effects_grow
      | with_reducible apply authenticate_effects_grow
  all_goals exact h

theorem clearRequest_effects_grow (w : World σ)
    (l : List Effect) (h : l <+: w.effects) :
    l <+: (clearRequest w).effects := by
  unfold clearRequest
  dsimp only
  repeat' split
  all_goals
    repeat
      first
      | with_reducible apply emit_effects_grow
      | with_reducible apply stopTimeout_effects_grow
  all_goals exact h

theorem cleanDownloadFiles_effects_grow (w : World σ)
    (l : List Effect) (h : l <+: w.effects) :
    l <+: (cleanDownloadFiles w).effects := by
  unfold cleanDownloadFiles
  dsimp only
  repeat' split
  all_goals exact h

theorem cancel_effects_grow (w : World σ)
    (l : List Effect) (h : l <+: w.effects) :
    l <+: (cancel w).effects := by
  unfold cancel
  dsimp only
  repeat' split
  all_goals
    repeat
      first
      | with_reducible apply emit_effects_grow
      | with_reducible apply cleanDownloadFiles_effects_grow
  all_goals exact h

theorem invalidateAndCancel_effects_grow (w : World σ)
    (l : List Effect) (h : l <+: w.effects) :
    l <+: (invalidateAndCancel w).effects := by
  unfold invalidateAndCancel
  all_goals
    repeat
      first
      | with_reducible apply clearRequest_effects_grow
      | with_reducible apply cancel_effects_grow
  all_goals exact h

theorem timeoutFired_effects_grow (w : World σ)
    (l : List Effect) (h : l <+: w.effects) :
    l <+: (timeoutFired w).effects := by
  unfold timeoutFired
  repeat' split
  all_goals
    repeat
      first
      | with_reducible apply callClient_effects_grow
      | with_reducible apply clearRequest_effects_grow
      | with_reducible apply invalidateAndCancel_effects_grow
  all_goals exact h

theorem didFailDownload_effects_grow (w : World σ) (error : ResourceError)
    (l : List Effect) (h : l <+: w.effects) :
    l <+: (didFailDownload w error).effects := by
  unfold didFailDownload
  dsimp only
  repeat' split
  all_goals
    repeat
      first
      | with_reducible apply emit_effects_grow
      | with_reducible apply clearRequest_effects_grow
      | with_reducible apply cleanDownloadFiles_effects_grow
  all_goals exact h

theorem didFail_effects_grow (w : World σ) (error : ResourceError)
    (l : List Effect) (h : l <+: w.effects) :
    l <+: (didFail w error).effects := by
  unfold didFail
  repeat' split
  all_goals
    repeat
      first
      | with_reducible apply callClient_effects_grow
      | with_reducible apply clearRequest_effects_grow
      | with_reducible apply didFailDownload_effects_grow
  all_goals exact h

theorem didReceiveResponse_effects_grow (w : World σ)
    (l : List Effect) (h : l <+: w.effects) :
    l <+: (didReceiveResponse w).effects := by
  unfold didReceiveResponse
  all_goals
    repeat
      first
      | with_reducible apply callClient_effects_grow
  all_goals exact h

theorem read_effects_grow (w : World σ)
    (l : List Effect) (h : l <+: w.effects) :
    l <+: (read w).effects := by
  unfold read
  all_goals
    repeat
      first
      | with_reducible apply start_effects_grow
  all_goals exact h

theorem requestNextPart_effects_grow (w : World σ)
    (l : List Effect) (h : l <+: w.effects) :
    l <+: (requestNextPart w).effects := by
  unfold requestNextPart
  all_goals
    repeat
      first
      | with_reducible apply start_effects_grow
  all_goals exact h

theorem skipInputStreamForRedirection_effects_grow (w : World σ)
    (l : List Effect) (h : l <+: w.effects) :
    l <+: (skipInputStreamForRedirection w).effects := by
  unfold skipInputStreamForRedirection
  all_goals
    repeat
      first
      | with_reducible apply start_effects_grow
  all_goals exact h

theorem writeDownload_effects_grow (w : World σ)
    (l : List Effect) (h : l <+: w.effects) :
    l <+: (writeDownload w).effects := by
  unfold writeDownload
  all_goals
    repeat
      first
      | with_reducible apply start_effects_grow
  all_goals exact h

theorem download_effects_grow (w : World σ)
    (l : List Effect) (h : l <+: w.effects) :
    l <+: (download w).effects := by
  unfold download
  dsimp only
  repeat' split
  all_goals
    repeat
      first
      | with_reducible apply emit_effects_grow
      | with_reducible apply didFailDownload_effects_grow
      | with_reducible apply read_effects_grow
  all_goals exact h

theorem didWriteDownload_effects_grow (w : World σ) (bytesWritten : Nat)
    (l : List Effect) (h : l <+: w.effects) :
    l <+: (didWriteDownload w bytesWritten).effects := by
  unfold didWriteDownload
  all_goals
    repeat
      first
      | with_reducible apply emit_effects_grow
      | with_reducible apply read_effects_grow
  all_goals exact h

theorem writeDownloadCallback_effects_grow (w : World σ) (result : GAsyncResult)
    (l : List Effect) (h : l <+: w.effects) :
    l <+: (writeDownloadCallback w result).effects := by
  unfold writeDownloadCallback
  repeat' split
  all_goals
    repeat
      first
      | with_reducible apply clearRequest_effects_grow
      | with_reducible apply didFailDownload_effects_grow
      | with_reducible apply didWriteDownload_effects_grow
  all_goals exact h

theorem didFinishDownload_effects_grow (w : World σ)
    (l : List Effect) (h : l <+: w.effects) :
    l <+: (didFinishDownload w).effects := by
  unfold didFinishDownload
  dsimp only
  repeat' split
  all_goals
    repeat
      first
      | with_reducible apply emit_effects_grow
      | with_reducible apply clearRequest_effects_grow
      | with_reducible apply didFailDownload_effects_grow
  all_goals exact h

theorem didReceiveResponseCompletion_effects_grow (w : World σ) (policyAction : PolicyAction)
    (l : List Effect) (h : l <+: w.effects) :
    l <+: (didReceiveResponseCompletion w policyAction).effects := by
  unfold didReceiveResponseCompletion
  repeat' split
  all_goals
    repeat
      first
      | with_reducible apply clearRequest_effects_grow
      | with_reducible apply read_effects_grow
      | with_reducible apply requestNextPart_effects_grow
      | with_reducible apply download_effects_grow
  all_goals exact h

theorem didSendRequest_effects_grow (p : Platform σ) (w : World σ)
    (inputStream : Option GInputStream)
    (l : List Effect) (h : l <+: w.effects) :
    l <+: (didSendRequest p w inputStream).effects := by
  unfold didSendRequest
  dsimp only
  repeat' split
  all_goals
    repeat
      first
      | with_reducible apply didReceiveResponse_effects_grow
      | with_reducible apply skipInputStreamForRedirection_effects_grow
  all_goals exact h

theorem sendRequestCallback_effects_grow (p : Platform σ) (w : World σ) (result : GAsyncResult)
    (l : List Effect) (h : l <+: w.effects) :
    l <+: (sendRequestCallback p w result).effects := by
  unfold sendRequestCallback
  repeat' split
  all_goals
    repeat
      first
      | with_reducible apply clearRequest_effects_grow
      | with_reducible apply didFail_effects_grow
      | with_reducible apply didSendRequest_effects_grow
  all_goals exact h

theorem didRead_effects_grow (w : World σ) (bytesRead : Nat)
    (l : List Effect) (h : l <+: w.effects) :
    l <+: (didRead w bytesRead).effects := by
  unfold didRead
  dsimp only
  repeat' split
  all_goals
    repeat
      first
      | with_reducible apply callClient_effects_grow
      | with_reducible apply read_effects_grow
      | with_reducible apply writeDownload_effects_grow
  all_goals exact h

theorem didFinishRead_effects_grow (w : World σ)
    (l : List Effect) (h : l <+: w.effects) :
    l <+: (didFinishRead w).effects := by
  unfold didFinishRead
  dsimp only
  repeat' split
  all_goals
    repeat
      first
      | with_reducible apply emit_effects_grow
      | with_reducible apply callClient_effects_grow
      | with_reducible apply clearRequest_effects_grow
      | with_reducible apply requestNextPart_effects_grow
      | with_reducible apply didFinishDownload_effects_grow
  all_goals exact h

theorem readCallback_effects_grow (w : World σ) (result : GAsyncResult)
    (l : List Effect) (h : l <+: w.effects) :
    l <+: (readCallback w result).effects := by
  unfold readCallback
  repeat' split
  all_goals
    repeat
      first
      | with_reducible apply clearRequest_effects_grow
      | with_reducible apply didFail_effects_grow
      | with_reducible apply didRead_effects_grow
      | with_reducible apply didFinishRead_effects_grow
  all_goals exact h

theorem didRequestNextPart_effects_grow (p : Platform σ) (w : World σ)
    (inputStream : GInputStream)
    (l : List Effect) (h : l <+: w.effects) :
    l <+: (didRequestNextPart p w inputStream).effects := by
  unfold didRequestNextPart
  all_goals
    repeat
      first
      | with_reducible apply didReceiveResponse_effects_grow
  all_goals exact h

theorem didFinishRequestNextPart_effects_grow (w : World σ)
    (l : List Effect) (h : l <+: w.effects) :
    l <+: (didFinishRequestNextPart w).effects := by
  unfold didFinishRequestNextPart
  all_goals
    repeat
      first
      | with_reducible apply emit_effects_grow
      | with_reducible apply callClient_effects_grow
      | with_reducible apply clearRequest_effects_grow
  all_goals exact h

theorem requestNextPartCallback_effects_grow (p : Platform σ) (w : World σ)
    (result : GAsyncResult)
    (l : List Effect) (h : l <+: w.effects) :
    l <+: (requestNextPartCallback p w result).effects := by
  unfold requestNextPartCallback
  repeat' split
  all_goals
    repeat
      first
      | with_reducible apply clearRequest_effects_grow
      | with_reducible apply didFail_effects_grow
      | with_reducible apply didRequestNextPart_effects_grow
      | with_reducible apply didFinishRequestNextPart_effects_grow
  all_goals exact h

theorem resume_effects_grow (p : Platform σ) (w : World σ)
    (l : List Effect) (h : l <+: w.effects) :
    l <+: (resume p w).effects := by
  unfold resume
  dsimp only
  repeat' split
  all_goals
    repeat
      first
      | with_reducible apply start_effects_grow
      | with_reducible apply startTimeout_effects_grow
      | with_reducible apply sendRequestCallback_effects_grow
      | with_reducible apply readCallback_effects_grow
      | with_reducible apply requestNextPartCallback_effects_grow
  all_goals exact h

theorem suspend_effects_grow (w : World σ)
    (l : List Effect) (h : l <+: w.effects) :
    l <+: (suspend w).effects := by
  unfold suspend
  repeat' split
  all_goals
    repeat
      first
      | with_reducible apply stopTimeout_effects_grow
  all_goals exact h

theorem continueHTTPRedirection_effects_grow (p : Platform σ) (w : World σ)
    (l : List Effect) (h : l <+: w.effects) :
    l <+: (continueHTTPRedirection p w).effects := by
  unfold continueHTTPRedirection
  dsimp only
  repeat' split
  all_goals
    repeat
      first
      | with_reducible apply callClient_effects_grow
      | with_reducible apply clearRequest_effects_grow
      | with_reducible apply didFail_effects_grow
  all_goals exact h

theorem willPerformHTTPRedirectionCompletion_effects_grow (p : Platform σ) (w : World σ)
    (newRequest : ResourceRequest)
    (l : List Effect) (h : l <+: w.effects) :
    l <+: (willPerformHTTPRedirectionCompletion p w newRequest).effects := by
  unfold willPerformHTTPRedirectionCompletion
  dsimp only
  repeat' split
  all_goals
    repeat
      first
      | with_reducible apply applyAuthenticationToRequest_effects_grow
      | with_reducible apply createRequest_effects_grow
      | with_reducible apply resume_effects_grow
  all_goals exact h

theorem didFinishSkipInputStreamForRedirection_effects_grow (p : Platform σ) (w : World σ)
    (l : List Effect) (h : l <+: w.effects) :
    l <+: (didFinishSkipInputStreamForRedirection p w).effects := by
  unfold didFinishSkipInputStreamForRedirection
  all_goals
    repeat
      first
      | with_reducible apply emit_effects_grow
      | with_reducible apply continueHTTPRedirection_effects_grow
  all_goals exact h

theorem skipInputStreamForRedirectionCallback_effects_grow (p : Platform σ) (w : World σ)
    (result : GAsyncResult)
    (l : List Effect) (h : l <+: w.effects) :
    l <+: (skipInputStreamForRedirectionCallback p w result).effects := by
  unfold skipInputStreamForRedirectionCallback
  repeat' split
  all_goals
    repeat
      first
      | with_reducible apply clearRequest_effects_grow
      | with_reducible apply didFail_effects_grow
      | with_reducible apply skipInputStreamForRedirection_effects_grow
      | with_reducible apply didFinishSkipInputStreamForRedirection_effects_grow
  all_goals exact h

theorem continueAuthenticate_effects_grow (w : World σ) (challenge : AuthenticationChallenge)
    (l : List Effect) (h : l <+: w.effects) :
    l <+: (continueAuthenticate w challenge).effects := by
  unfold continueAuthenticate
  all_goals
    repeat
      first
      | with_reducible apply callClient_effects_grow
  all_goals exact h

theorem didReceiveChallengeCompletion_effects_grow (p : Platform σ) (w : World σ)
    (challenge : AuthenticationChallenge) (disposition : AuthenticationChallengeDisposition)
    (credential : Credential)
    (l : List Effect) (h : l <+: w.effects) :
    l <+: (didReceiveChallengeCompletion p w challenge disposition credential).effects := by
  unfold didReceiveChallengeCompletion
  repeat' split
  all_goals
    repeat
      first
      | with_reducible apply emit_effects_grow
      | with_reducible apply clearRequest_effects_grow
      | with_reducible apply cancel_effects_grow
      | with_reducible apply didFail_effects_grow
  all_goals exact h

theorem getCredentialFromPersistentStorageCompletion_effects_grow (w : World σ)
    (challenge : AuthenticationChallenge) (credential : Credential)
    (l : List Effect) (h : l <+: w.effects) :
    l <+: (getCredentialFromPersistentStorageCompletion w challenge credential).effects := by
  unfold getCredentialFromPersistentStorageCompletion
  repeat' split
  all_goals
    repeat
      first
      | with_reducible apply clearRequest_effects_grow
      | with_reducible apply continueAuthenticate_effects_grow
  all_goals exact h

theorem authenticateThroughClient_effects_grow (w : World σ) (challenge : AuthenticationChallenge)
    (l : List Effect) (h : l <+: w.effects) :
    l <+: (authenticateThroughClient w challenge).effects := by
  unfold authenticateThroughClient
  dsimp only
  repeat' split
  all_goals
    repeat
      first
      | with_reducible apply emit_effects_grow
      | with_reducible apply continueAuthenticate_effects_grow
  all_goals exact h

theorem authenticate_effects_grow (p : Platform σ) (w : World σ)
    (challenge : AuthenticationChallenge)
    (l : List Effect) (h : l <+: w.effects) :
    l <+: (authenticate p w challenge).effects := by
  unfold authenticate
  dsimp only
  repeat' split
  all_goals
    repeat
      first
      | with_reducible apply emit_effects_grow
      | with_reducible apply authenticateThroughClient_effects_grow
  all_goals exact h

theorem authenticateCallback_effects_grow (p : Platform σ) (w : World σ)
    (forThisMessage : Bool) (soupAuth : SoupAuth) (retrying : Bool)
    (l : List Effect) (h : l <+: w.effects) :
    l <+: (authenticateCallback p w forThisMessage soupAuth retrying).effects := by
  unfold authenticateCallback
  repeat' split
  all_goals
    repeat
      first
      | with_reducible apply clearRequest_effects_grow
      | with_reducible apply authenticate_effects_grow
  all_goals exact h

theorem tlsErrorsChanged_effects_grow (w : World σ) (error : ResourceError)
    (l : List Effect) (h : l <+: w.effects) :
    l <+: (tlsErrorsChanged w error).effects := by
  unfold tlsErrorsChanged
  repeat' split
  all_goals
    repeat
      first
      | with_reducible apply callClient_effects_grow
      | with_reducible apply invalidateAndCancel_effects_grow
  all_goals exact h

theorem tlsErrorsChangedCallback_effects_grow (w : World σ) (error : ResourceError)
    (l : List Effect) (h : l <+: w.effects) :
    l <+: (tlsErrorsChangedCallback w error).effects := by
  unfold tlsErrorsChangedCallback
  repeat' split
  all_goals
    repeat
      first
      | with_reducible apply clearRequest_effects_grow
      | with_reducible apply tlsErrorsChanged_effects_grow
  all_goals exact h

theorem didGetHeaders_effects_grow (w : World σ)
    (l : List Effect) (h : l <+: w.effects) :
    l <+: (didGetHeaders w).effects := by
  unfold didGetHeaders
  repeat' split
  all_goals
    repeat
      first
      | with_reducible apply emit_effects_grow
  all_goals exact h

theorem gotHeadersCallback_effects_grow (w : World σ)
    (l : List Effect) (h : l <+: w.effects) :
    l <+: (gotHeadersCallback w).effects := by
  unfold gotHeadersCallback
  repeat' split
  all_goals
    repeat
      first
      | with_reducible apply clearRequest_effects_grow
      | with_reducible apply didGetHeaders_effects_grow
  all_goals exact h

theorem didWriteBodyData_effects_grow (w : World σ) (bytesSent : Nat)
    (l : List Effect) (h : l <+: w.effects) :
    l <+: (didWriteBodyData w bytesSent).effects := by
  unfold didWriteBodyData
  all_goals
    repeat
      first
      | with_reducible apply callClient_effects_grow
  all_goals exact h

theorem wroteBodyDataCallback_effects_grow (w : World σ) (bufferLength : Nat)
    (l : List Effect) (h : l <+: w.effects) :
    l <+: (wroteBodyDataCallback w bufferLength).effects := by
  unfold wroteBodyDataCallback
  repeat' split
  all_goals
    repeat
      first
      | with_reducible apply clearRequest_effects_grow
      | with_reducible apply didWriteBodyData_effects_grow
  all_goals exact h

/-! ## An operation in flight stays in flight -/

theorem scheduleFailure_outstanding_grow (w : World σ) (type : FailureType)
    (l : List AsyncOp) (h : l <+: w.outstanding) :
    l <+: (scheduleFailure w type).outstanding := by
  unfold scheduleFailure
  all_goals exact h

theorem startTimeout_outstanding_grow (w : World σ)
    (l : List AsyncOp) (h : l <+: w.outstanding) :
    l <+: (startTimeout w).outstanding := by
  unfold startTimeout
  repeat' split
  all_goals exact h

theorem stopTimeout_outstanding_grow (w : World σ)
    (l : List AsyncOp) (h : l <+: w.outstanding) :
    l <+: (stopTimeout w).outstanding := by
  unfold stopTimeout
  all_goals exact h

theorem applyAuthenticationToRequest_outstanding_grow (w : World σ) (request : ResourceRequest)
    (l : List AsyncOp) (h : l <+: w.outstanding) :
    l <+: ((applyAuthenticationToRequest w request).1).outstanding := by
  unfold applyAuthenticationToRequest
  repeat' split
  all_goals exact h

theorem createRequest_outstanding_grow (p : Platform σ) (w : World σ) (request : ResourceRequest)
    (l : List AsyncOp) (h : l <+: w.outstanding) :
    l <+: (createRequest p w request).outstanding := by
  unfold createRequest
  repeat' split
  all_goals
    repeat
      first
      | with_reducible apply emit_outstanding_grow
      | with_reducible apply scheduleFailure_outstanding_grow
      | with_reducible apply authenticate_outstanding_grow
  all_goals exact h

theorem clearRequest_outstanding_grow (w : World σ)
    (l : List AsyncOp) (h : l <+: w.outstanding) :
    l <+: (clearRequest w).outstanding := by
  unfold clearRequest
  dsimp only
  repeat' split
  all_goals
    repeat
      first
      | with_reducible apply emit_outstanding_grow
      | with_reducible apply stopTimeout_outstanding_grow
  all_goals exact h

theorem cleanDownloadFiles_outstanding_grow (w : World σ)
    (l : List AsyncOp) (h : l <+: w.outstanding) :
    l <+: (cleanDownloadFiles w).outstanding := by
  unfold cleanDownloadFiles
  dsimp only
  repeat' split
  all_goals exact h

theorem cancel_outstanding_grow (w : World σ)
    (l : List AsyncOp) (h : l <+: w.outstanding) :
    l <+: (cancel w).outstanding := by
  unfold cancel
  dsimp only
  repeat' split
  all_goals
    repeat
      first
      | with_reducible apply emit_outstanding_grow
      | with_reducible apply cleanDownloadFiles_outstanding_grow
  all_goals exact h

theorem invalidateAndCancel_outstanding_grow (w : World σ)
    (l : List AsyncOp) (h : l <+: w.outstanding) :
    l <+: (invalidateAndCancel w).outstanding := by
  unfold invalidateAndCancel
  all_goals
    repeat
      first
      | with_reducible apply clearRequest_outstanding_grow
      | with_reducible apply cancel_outstanding_grow
  all_goals exact h

theorem timeoutFired_outstanding_grow (w : World σ)
    (l : List AsyncOp) (h : l <+: w.outstanding) :
    l <+: (timeoutFired w).outstanding := by
  unfold timeoutFired
  repeat' split
  all_goals
    repeat
      first
      | with_reducible apply callClient_outstanding_grow
      | with_reducible apply clearRequest_outstanding_grow
      | with_reducible apply invalidateAndCancel_outstanding_grow
  all_goals exact h

theorem didFailDownload_outstanding_grow (w : World σ) (error : ResourceError)
    (l : List AsyncOp) (h : l <+: w.outstanding) :
    l <+: (didFailDownload w error).outstanding := by
  unfold didFailDownload
  dsimp only
  repeat' split
  all_goals
    repeat
      first
      | with_reducible apply emit_outstanding_grow
      | with_reducible apply clearRequest_outstanding_grow
      | with_reducible apply cleanDownloadFiles_outstanding_grow
  all_goals exact h

theorem didFail_outstanding_grow (w : World σ) (error : ResourceError)
    (l : List AsyncOp) (h : l <+: w.outstanding) :
    l <+: (didFail w error).outstanding := by
  unfold didFail
  repeat' split
  all_goals
    repeat
      first
      | with_reducible apply callClient_outstanding_grow
      | with_reducible apply clearRequest_outstanding_grow
      | with_reducible apply didFailDownload_outstanding_grow
  all_goals exact h

theorem didReceiveResponse_outstanding_grow (w : World σ)
    (l : List AsyncOp) (h : l <+: w.outstanding) :
    l <+: (didReceiveResponse w).outstanding := by
  unfold didReceiveResponse
  all_goals
    repeat
      first
      | with_reducible apply callClient_outstanding_grow
  all_goals exact h

theorem read_outstanding_grow (w : World σ)
    (l : List AsyncOp) (h : l <+: w.outstanding) :
    l <+: (read w).outstanding := by
  unfold read
  all_goals
    repeat
      first
      | with_reducible apply start_outstanding_grow
  all_goals exact h

theorem requestNextPart_outstanding_grow (w : World σ)
    (l : List AsyncOp) (h : l <+: w.outstanding) :
    l <+: (requestNextPart w).outstanding := by
  unfold requestNextPart
  all_goals
    repeat
      first
      | with_reducible apply start_outstanding_grow
  all_goals exact h

theorem skipInputStreamForRedirection_outstanding_grow (w : World σ)
    (l : List AsyncOp) (h : l <+: w.outstanding) :
    l <+: (skipInputStreamForRedirection w).outstanding := by
  unfold skipInputStreamForRedirection
  all_goals
    repeat
      first
      | with_reducible apply start_outstanding_grow
  all_goals exact h

theorem writeDownload_outstanding_grow (w : World σ)
    (l : List AsyncOp) (h : l <+: w.outstanding) :
    l <+: (writeDownload w).outstanding := by
  unfold writeDownload
  all_goals
    repeat
      first
      | with_reducible apply start_outstanding_grow
  all_goals exact h

theorem download_outstanding_grow (w : World σ)
    (l : List AsyncOp) (h : l <+: w.outstanding) :
    l <+: (download w).outstanding := by
  unfold download
  dsimp only
  repeat' split
  all_goals
    repeat
      first
      | with_reducible apply emit_outstanding_grow
      | with_reducible apply didFailDownload_outstanding_grow
      | with_reducible apply read_outstanding_grow
  all_goals exact h

theorem didWriteDownload_outstanding_grow (w : World σ) (bytesWritten : Nat)
    (l : List AsyncOp) (h : l <+: w.outstanding) :
    l <+: (didWriteDownload w bytesWritten).outstanding := by
  unfold didWriteDownload
  all_goals
    repeat
      first
      | with_reducible apply emit_outstanding_grow
      | with_reducible apply read_outstanding_grow
  all_goals exact h

theorem writeDownloadCallback_outstanding_grow (w : World σ) (result : GAsyncResult)
    (l : List AsyncOp) (h : l <+: w.outstanding) :
    l <+: (writeDownloadCallback w result).outstanding := by
  unfold writeDownloadCallback
  repeat' split
  all_goals
    repeat
      first
      | with_reducible apply clearRequest_outstanding_grow
      | with_reducible apply didFailDownload_outstanding_grow
      | with_reducible apply didWriteDownload_outstanding_grow
  all_goals exact h

theorem didFinishDownload_outstanding_grow (w : World σ)
    (l : List AsyncOp) (h : l <+: w.outstanding) :
    l <+: (didFinishDownload w).outstanding := by
  unfold didFinishDownload
  dsimp only
  repeat' split
  all_goals
    repeat
      first
      | with_reducible apply emit_outstanding_grow
      | with_reducible apply clearRequest_outstanding_grow
      | with_reducible apply didFailDownload_outstanding_grow
  all_goals exact h

theorem didReceiveResponseCompletion_outstanding_grow (w : World σ) (policyAction : PolicyAction)
    (l : List AsyncOp) (h : l <+: w.outstanding) :
    l <+: (didReceiveResponseCompletion w policyAction).outstanding := by
  unfold didReceiveResponseCompletion
  repeat' split
  all_goals
    repeat
      first
      | with_reducible apply clearRequest_outstanding_grow
      | with_reducible apply read_outstanding_grow
      | with_reducible apply requestNextPart_outstanding_grow
      | with_reducible apply download_outstanding_grow
  all_goals exact h

theorem didSendRequest_outstanding_grow (p : Platform σ) (w : World σ)
    (inputStream : Option GInputStream)
    (l : List AsyncOp) (h : l <+: w.outstanding) :
    l <+: (didSendRequest p w inputStream).outstanding := by
  unfold didSendRequest
  dsimp only
  repeat' split
  all_goals
    repeat
      first
      | with_reducible apply didReceiveResponse_outstanding_grow
      | with_reducible apply skipInputStreamForRedirection_outstanding_grow
  all_goals exact h

theorem sendRequestCallback_outstanding_grow (p : Platform σ) (w : World σ)
    (result : GAsyncResult)
    (l : List AsyncOp) (h : l <+: w.outstanding) :
    l <+: (sendRequestCallback p w result).outstanding := by
  unfold sendRequestCallback
  repeat' split
  all_goals
    repeat
      first
      | with_reducible apply clearRequest_outstanding_grow
      | with_reducible apply didFail_outstanding_grow
      | with_reducible apply didSendRequest_outstanding_grow
  all_goals exact h

theorem didRead_outstanding_grow (w : World σ) (bytesRead : Nat)
    (l : List AsyncOp) (h : l <+: w.outstanding) :
    l <+: (didRead w bytesRead).outstanding := by
  unfold didRead
  dsimp only
  repeat' split
  all_goals
    repeat
      first
      | with_reducible apply callClient_outstanding_grow
      | with_reducible apply read_outstanding_grow
      | with_reducible apply writeDownload_outstanding_grow
  all_goals exact h

theorem didFinishRead_outstanding_grow (w : World σ)
    (l : List AsyncOp) (h : l <+: w.outstanding) :
    l <+: (didFinishRead w).outstanding := by
  unfold didFinishRead
  dsimp only
  repeat' split
  all_goals
    repeat
      first
      | with_reducible apply emit_outstanding_grow
      | with_reducible apply callClient_outstanding_grow
      | with_reducible apply clearRequest_outstanding_grow
      | with_reducible apply requestNextPart_outstanding_grow
      | with_reducible apply didFinishDownload_outstanding_grow
  all_goals exact h

theorem readCallback_outstanding_grow (w : World σ) (result : GAsyncResult)
    (l : List AsyncOp) (h : l <+: w.outstanding) :
    l <+: (readCallback w result).outstanding := by
  unfold readCallback
  repeat' split
  all_goals
    repeat
      first
      | with_reducible apply clearRequest_outstanding_grow
      | with_reducible apply didFail_outstanding_grow
      | with_reducible apply didRead_outstanding_grow
      | with_reducible apply didFinishRead_outstanding_grow
  all_goals exact h

theorem didRequestNextPart_outstanding_grow (p : Platform σ) (w : World σ)
    (inputStream : GInputStream)
    (l : List AsyncOp) (h : l <+: w.outstanding) :
    l <+: (didRequestNextPart p w inputStream).outstanding := by
  unfold didRequestNextPart
  all_goals
    repeat
      first
      | with_reducible apply didReceiveResponse_outstanding_grow
  all_goals exact h

theorem didFinishRequestNextPart_outstanding_grow (w : World σ)
    (l : List AsyncOp) (h : l <+: w.outstanding) :
    l <+: (didFinishRequestNextPart w).outstanding := by
  unfold didFinishRequestNextPart
  all_goals
    repeat
      first
      | with_reducible apply emit_outstanding_grow
      | with_reducible apply callClient_outstanding_grow
      | with_reducible apply clearRequest_outstanding_grow
  all_goals exact h

theorem requestNextPartCallback_outstanding_grow (p : Platform σ) (w : World σ)
    (result : GAsyncResult)
    (l : List AsyncOp) (h : l <+: w.outstanding) :
    l <+: (requestNextPartCallback p w result).outstanding := by
  unfold requestNextPartCallback
  repeat' split
  all_goals
    repeat
      first
      | with_reducible apply clearRequest_outstanding_grow
      | with_reducible apply didFail_outstanding_grow
      | with_reducible apply didRequestNextPart_outstanding_grow
      | with_reducible apply didFinishRequestNextPart_outstanding_grow
  all_goals exact h

theorem resume_outstanding_grow (p : Platform σ) (w : World σ)
    (l : List AsyncOp) (h : l <+: w.outstanding) :
    l <+: (resume p w).outstanding := by
  unfold resume
  dsimp only
  repeat' split
  all_goals
    repeat
      first
      | with_reducible apply start_outstanding_grow
      | with_reducible apply startTimeout_outstanding_grow
      | with_reducible apply sendRequestCallback_outstanding_grow
      | with_reducible apply readCallback_outstanding_grow
      | with_reducible apply requestNextPartCallback_outstanding_grow
  all_goals exact h

theorem suspend_outstanding_grow (w : World σ)
    (l : List AsyncOp) (h : l <+: w.outstanding) :
    l <+: (suspend w).outstanding := by
  unfold suspend
  repeat' split
  all_goals
    repeat
      first
      | with_reducible apply stopTimeout_outstanding_grow
  all_goals exact h

theorem continueHTTPRedirection_outstanding_grow (p : Platform σ) (w : World σ)
    (l : List AsyncOp) (h : l <+: w.outstanding) :
    l <+: (continueHTTPRedirection p w).outstanding := by
  unfold continueHTTPRedirection
  dsimp only
  repeat' split
  all_goals
    repeat
      first
      | with_reducible apply callClient_outstanding_grow
      | with_reducible apply clearRequest_outstanding_grow
      | with_reducible apply didFail_outstanding_grow
  all_goals exact h

theorem willPerformHTTPRedirectionCompletion_outstanding_grow (p : Platform σ) (w : World σ)
    (newRequest : ResourceRequest)
    (l : List AsyncOp) (h : l <+: w.outstanding) :
    l <+: (willPerformHTTPRedirectionCompletion p w newRequest).outstanding := by
  unfold willPerformHTTPRedirectionCompletion
  dsimp only
  repeat' split
  all_goals
    repeat
      first
      | with_reducible apply applyAuthenticationToRequest_outstanding_grow
      | with_reducible apply createRequest_outstanding_grow
      | with_reducible apply resume_outstanding_grow
  all_goals exact h

theorem didFinishSkipInputStreamForRedirection_outstanding_grow (p : Platform σ) (w : World σ)
    (l : List AsyncOp) (h : l <+: w.outstanding) :
    l <+: (didFinishSkipInputStreamForRedirection p w).outstanding := by
  unfold didFinishSkipInputStreamForRedirection
  all_goals
    repeat
      first
      | with_reducible apply emit_outstanding_grow
      | with_reducible apply continueHTTPRedirection_outstanding_grow
  all_goals exact h

theorem skipInputStreamForRedirectionCallback_outstanding_grow (p : Platform σ) (w : World σ)
    (result : GAsyncResult)
    (l : List AsyncOp) (h : l <+: w.outstanding) :
    l <+: (skipInputStreamForRedirectionCallback p w result).outstanding := by
  unfold skipInputStreamForRedirectionCallback
  repeat' split
  all_goals
    repeat
      first
      | with_reducible apply clearRequest_outstanding_grow
      | with_reducible apply didFail_outstanding_grow
      | with_reducible apply skipInputStreamForRedirection_outstanding_grow
      | with_reducible apply didFinishSkipInputStreamForRedirection_outstanding_grow
  all_goals exact h

theorem continueAuthenticate_outstanding_grow (w : World σ) (challenge : AuthenticationChallenge)
    (l : List AsyncOp) (h : l <+: w.outstanding) :
    l <+: (continueAuthenticate w challenge).outstanding := by
  unfold continueAuthenticate
  all_goals
    repeat
      first
      | with_reducible apply callClient_outstanding_grow
  all_goals exact h

theorem didReceiveChallengeCompletion_outstanding_grow (p : Platform σ) (w : World σ)
    (challenge : AuthenticationChallenge) (disposition : AuthenticationChallengeDisposition)
    (credential : Credential)
    (l : List AsyncOp) (h : l <+: w.outstanding) :
    l <+: (didReceiveChallengeCompletion p w challenge disposition credential).outstanding := by
  unfold didReceiveChallengeCompletion
  repeat' split
  all_goals
    repeat
      first
      | with_reducible apply emit_outstanding_grow
      | with_reducible apply clearRequest_outstanding_grow
      | with_reducible apply cancel_outstanding_grow
      | with_reducible apply didFail_outstanding_grow
  all_goals exact h

theorem getCredentialFromPersistentStorageCompletion_outstanding_grow (w : World σ)
    (challenge : AuthenticationChallenge) (credential : Credential)
    (l : List AsyncOp) (h : l <+: w.outstanding) :
    l <+: (getCredentialFromPersistentStorageCompletion w challenge credential).outstanding := by
  unfold getCredentialFromPersistentStorageCompletion
  repeat' split
  all_goals
    repeat
      first
      | with_reducible apply clearRequest_outstanding_grow
      | with_reducible apply continueAuthenticate_outstanding_grow
  all_goals exact h

theorem authenticateThroughClient_outstanding_grow (w : World σ)
    (challenge : AuthenticationChallenge)
    (l : List AsyncOp) (h : l <+: w.outstanding) :
    l <+: (authenticateThroughClient w challenge).outstanding := by
  unfold authenticateThroughClient
  dsimp only
  repeat' split
  all_goals
    repeat
      first
      | with_reducible apply emit_outstanding_grow
      | with_reducible apply continueAuthenticate_outstanding_grow
  all_goals exact h

theorem authenticate_outstanding_grow (p : Platform σ) (w : World σ)
    (challenge : AuthenticationChallenge)
    (l : List AsyncOp) (h : l <+: w.outstanding) :
    l <+: (authenticate p w challenge).outstanding := by
  unfold authenticate
  dsimp only
  repeat' split
  all_goals
    repeat
      first
      | with_reducible apply emit_outstanding_grow
      | with_reducible apply authenticateThroughClient_outstanding_grow
  all_goals exact h

theorem authenticateCallback_outstanding_grow (p : Platform σ) (w : World σ)
    (forThisMessage : Bool) (soupAuth : SoupAuth) (retrying : Bool)
    (l : List AsyncOp) (h : l <+: w.outstanding) :
    l <+: (authenticateCallback p w forThisMessage soupAuth retrying).outstanding := by
  unfold authenticateCallback
  repeat' split
  all_goals
    repeat
      first
      | with_reducible apply clearRequest_outstanding_grow
      | with_reducible apply authenticate_outstanding_grow
  all_goals exact h

theorem tlsErrorsChanged_outstanding_grow (w : World σ) (error : ResourceError)
    (l : List AsyncOp) (h : l <+: w.outstanding) :
    l <+: (tlsErrorsChanged w error).outstanding := by
  unfold tlsErrorsChanged
  repeat' split
  all_goals
    repeat
      first
      | with_reducible apply callClient_outstanding_grow
      | with_reducible apply invalidateAndCancel_outstanding_grow
  all_goals exact h

theorem tlsErrorsChangedCallback_outstanding_grow (w : World σ) (error : ResourceError)
    (l : List AsyncOp) (h : l <+: w.outstanding) :
    l <+: (tlsErrorsChangedCallback w error).outstanding := by
  unfold tlsErrorsChangedCallback
  repeat' split
  all_goals
    repeat
      first
      | with_reducible apply clearRequest_outstanding_grow
      | with_reducible apply tlsErrorsChanged_outstanding_grow
  all_goals exact h

theorem didGetHeaders_outstanding_grow (w : World σ)
    (l : List AsyncOp) (h : l <+: w.outstanding) :
    l <+: (didGetHeaders w).outstanding := by
  unfold didGetHeaders
  repeat' split
  all_goals
    repeat
      first
      | with_reducible apply emit_outstanding_grow
  all_goals exact h

theorem gotHeadersCallback_outstanding_grow (w : World σ)
    (l : List AsyncOp) (h : l <+: w.outstanding) :
    l <+: (gotHeadersCallback w).outstanding := by
  unfold gotHeadersCallback
  repeat' split
  all_goals
    repeat
      first
      | with_reducible apply clearRequest_outstanding_grow
      | with_reducible apply didGetHeaders_outstanding_grow
  all_goals exact h

theorem didWriteBodyData_outstanding_grow (w : World σ) (bytesSent : Nat)
    (l : List AsyncOp) (h : l <+: w.outstanding) :
    l <+: (didWriteBodyData w bytesSent).outstanding := by
  unfold didWriteBodyData
  all_goals
    repeat
      first
      | with_reducible apply callClient_outstanding_grow
  all_goals exact h

theorem wroteBodyDataCallback_outstanding_grow (w : World σ) (bufferLength : Nat)
    (l : List AsyncOp) (h : l <+: w.outstanding) :
    l <+: (wroteBodyDataCallback w bufferLength).outstanding := by
  unfold wroteBodyDataCallback
  repeat' split
  all_goals
    repeat
      first
      | with_reducible apply clearRequest_outstanding_grow
      | with_reducible apply didWriteBodyData_outstanding_grow
  all_goals exact h

/-! ## What each function sets in motion -/

theorem scheduleFailure_load (w : World σ) (type : FailureType)
    (n m : Nat) (h : load w + (n + 0) ≤ m) :
    load (scheduleFailure w type) + n ≤ m := by
  unfold scheduleFailure
  all_goals first
    | (solve | simp_all [load, pendingCount, unsentCount, questions])

theorem startTimeout_load (w : World σ)
    (n m : Nat) (h : load w + (n + 0) ≤ m) :
    load (startTimeout w) + n ≤ m := by
  unfold startTimeout
  repeat' split
  all_goals first
    | (solve | simp_all [load, pendingCount, unsentCount, questions])

theorem stopTimeout_load (w : World σ)
    (n m : Nat) (h : load w + (n + 0) ≤ m) :
    load (stopTimeout w) + n ≤ m := by
  unfold stopTimeout
  all_goals first
    | (solve | simp_all [load, pendingCount, unsentCount, questions])

theorem applyAuthenticationToRequest_load (w : World σ) (request : ResourceRequest)
    (n m : Nat) (h : load w + (n + 0) ≤ m) :
    load ((applyAuthenticationToRequest w request).1) + n ≤ m := by
  unfold applyAuthenticationToRequest
  repeat' split
  all_goals first
    | (solve | simp_all [load, pendingCount, unsentCount, questions])

theorem createRequest_load (p : Platform σ) (w : World σ) (request : ResourceRequest)
    (n m : Nat) (h : load w + (n + 1) ≤ m) :
    load (createRequest p w request) + n ≤ m := by
  unfold createRequest
  repeat' split
  all_goals
    repeat
      first
      | with_reducible apply emit_load
      | with_reducible apply scheduleFailure_load
      | with_reducible apply authenticate_load
  all_goals first
    | (solve | simp_all [load, pendingCount, unsentCount, questions])
    | (solve | (simp_all [load, pendingCount, unsentCount, questions]; omega))
    | (solve | (simp_all [load, pendingCount, unsentCount, questions]; split_ifs at * <;> omega))

theorem clearRequest_load (w : World σ)
    (n m : Nat) (h : load w + (n + 0) ≤ m) :
    load (clearRequest w) + n ≤ m := by
  by_cases hs : w.m_state = State.Completed
  · rw [clearRequest_of_completed w hs]
    omega
  · rw [clearRequest_eq w hs]
    unfold load pendingCount unsentCount at *
    simp only [questions_append, questions_clearRequestEffects, List.length_append,
      List.length_nil] at *
    split_ifs at h ⊢ <;> simp_all <;> omega

theorem cleanDownloadFiles_load (w : World σ)
    (n m : Nat) (h : load w + (n + 0) ≤ m) :
    load (cleanDownloadFiles w) + n ≤ m := by
  unfold cleanDownloadFiles
  dsimp only
  split <;> split
  all_goals
    simp only [load, pendingCount, unsentCount] at h ⊢
    omega

theorem cancel_load (w : World σ)
    (n m : Nat) (h : load w + (n + 0) ≤ m) :
    load (cancel w) + n ≤ m := by
  unfold cancel
  split
  · omega
  · dsimp only
    cases hm : w.m_soupMessage <;> cases hc : w.m_cancellable <;> dsimp only <;> split
    all_goals (try with_reducible apply cleanDownloadFiles_load)
    all_goals
      simp_all [load, pendingCount, unsentCount, questions, questions_append, World.emit]

theorem invalidateAndCancel_load (w : World σ)
    (n m : Nat) (h : load w + (n + 0) ≤ m) :
    load (invalidateAndCancel w) + n ≤ m := by
  unfold invalidateAndCancel
  all_goals
    repeat
      first
      | with_reducible apply clearRequest_load
      | with_reducible apply cancel_load
  all_goals first
    | (solve | simp_all [load, pendingCount, unsentCount, questions])

theorem timeoutFired_load (w : World σ)
    (n m : Nat) (h : load w + (n + 0) ≤ m) :
    load (timeoutFired w) + n ≤ m := by
  unfold timeoutFired
  repeat' split
  all_goals
    repeat
      first
      | with_reducible apply callClient_load
      | with_reducible apply clearRequest_load
      | with_reducible apply invalidateAndCancel_load
  all_goals first
    | (solve | simp_all [load, pendingCount, unsentCount, questions])

theorem didFailDownload_load (w : World σ) (error : ResourceError)
    (n m : Nat) (h : load w + (n + 0) ≤ m) :
    load (didFailDownload w error) + n ≤ m := by
  unfold didFailDownload
  dsimp only
  repeat' split
  all_goals
    repeat
      first
      | with_reducible apply emit_load
      | with_reducible apply clearRequest_load
      | with_reducible apply cleanDownloadFiles_load
  all_goals first
    | (solve | simp_all [load, pendingCount, unsentCount, questions])

theorem didFail_load (w : World σ) (error : ResourceError)
    (n m : Nat) (h : load w + (n + 0) ≤ m) :
    load (didFail w error) + n ≤ m := by
  unfold didFail
  repeat' split
  all_goals
    repeat
      first
      | with_reducible apply callClient_load
      | with_reducible apply clearRequest_load
      | with_reducible apply didFailDownload_load
  all_goals first
    | (solve | simp_all [load, pendingCount, unsentCount, questions])

theorem didReceiveResponse_load (w : World σ)
    (n m : Nat) (h : load w + (n + 1) ≤ m) :
    load (didReceiveResponse w) + n ≤ m := by
  unfold didReceiveResponse
  all_goals
    repeat
      first
      | with_reducible apply callClient_load
  all_goals first
    | (solve | simp_all [load, pendingCount, unsentCount, questions])

theorem read_load (w : World σ)
    (n m : Nat) (h : load w + (n + 1) ≤ m) :
    load (read w) + n ≤ m := by
  unfold read
  all_goals
    repeat
      first
      | with_reducible apply start_load
  all_goals first
    | (solve | simp_all [load, pendingCount, unsentCount, questions])

theorem requestNextPart_load (w : World σ)
    (n m : Nat) (h : load w + (n + 1) ≤ m) :
    load (requestNextPart w) + n ≤ m := by
  unfold requestNextPart
  all_goals
    repeat
      first
      | with_reducible apply start_load
  all_goals first
    | (solve | simp_all [load, pendingCount, unsentCount, questions])

theorem skipInputStreamForRedirection_load (w : World σ)
    (n m : Nat) (h : load w + (n + 1) ≤ m) :
    load (skipInputStreamForRedirection w) + n ≤ m := by
  unfold skipInputStreamForRedirection
  all_goals
    repeat
      first
      | with_reducible apply start_load
  all_goals first
    | (solve | simp_all [load, pendingCount, unsentCount, questions])

theorem writeDownload_load (w : World σ)
    (n m : Nat) (h : load w + (n + 1) ≤ m) :
    load (writeDownload w) + n ≤ m := by
  unfold writeDownload
  all_goals
    repeat
      first
      | with_reducible apply start_load
  all_goals first
    | (solve | simp_all [load, pendingCount, unsentCount, questions])

theorem download_load (w : World σ)
    (n m : Nat) (h : load w + (n + 1) ≤ m) :
    load (download w) + n ≤ m := by
  unfold download
  dsimp only
  repeat' split
  all_goals
    repeat
      first
      | with_reducible apply emit_load
      | with_reducible apply didFailDownload_load
      | with_reducible apply read_load
  all_goals first
    | (solve | simp_all [load, pendingCount, unsentCount, questions])
    | (solve | (simp_all [load, pendingCount, unsentCount, questions]; omega))

theorem didWriteDownload_load (w : World σ) (bytesWritten : Nat)
    (n m : Nat) (h : load w + (n + 1) ≤ m) :
    load (didWriteDownload w bytesWritten) + n ≤ m := by
  unfold didWriteDownload
  all_goals
    repeat
      first
      | with_reducible apply emit_load
      | with_reducible apply read_load
  all_goals first
    | (solve | simp_all [load, pendingCount, unsentCount, questions])

theorem writeDownloadCallback_load (w : World σ) (result : GAsyncResult)
    (n m : Nat) (h : load w + (n + 1) ≤ m) :
    load (writeDownloadCallback w result) + n ≤ m := by
  unfold writeDownloadCallback
  repeat' split
  all_goals
    repeat
      first
      | with_reducible apply clearRequest_load
      | with_reducible apply didFailDownload_load
      | with_reducible apply didWriteDownload_load
  all_goals first
    | (solve | simp_all [load, pendingCount, unsentCount, questions])
    | (solve | (simp_all [load, pendingCount, unsentCount, questions]; omega))

theorem didFinishDownload_load (w : World σ)
    (n m : Nat) (h : load w + (n + 0) ≤ m) :
    load (didFinishDownload w) + n ≤ m := by
  unfold didFinishDownload
  dsimp only
  repeat' split
  all_goals
    repeat
      first
      | with_reducible apply emit_load
      | with_reducible apply clearRequest_load
      | with_reducible apply didFailDownload_load
  all_goals simp_all [load, pendingCount, unsentCount, questions, questions_append, World.emit]

theorem didReceiveResponseCompletion_load (w : World σ) (policyAction : PolicyAction)
    (n m : Nat) (h : load w + (n + 1) ≤ m) :
    load (didReceiveResponseCompletion w policyAction) + n ≤ m := by
  unfold didReceiveResponseCompletion
  repeat' split
  all_goals
    repeat
      first
      | with_reducible apply clearRequest_load
      | with_reducible apply read_load
      | with_reducible apply requestNextPart_load
      | with_reducible apply download_load
  all_goals first
    | (solve | simp_all [load, pendingCount, unsentCount, questions])
    | (solve | (simp_all [load, pendingCount, unsentCount, questions]; omega))

theorem didSendRequest_load (p : Platform σ) (w : World σ) (inputStream : Option GInputStream)
    (n m : Nat) (h : load w + (n + 1) ≤ m) :
    load (didSendRequest p w inputStream) + n ≤ m := by
  unfold didSendRequest
  dsimp only
  repeat' split
  all_goals
    repeat
      first
      | with_reducible apply didReceiveResponse_load
      | with_reducible apply skipInputStreamForRedirection_load
  all_goals first
    | (solve | simp_all [load, pendingCount, unsentCount, questions])

theorem sendRequestCallback_load (p : Platform σ) (w : World σ) (result : GAsyncResult)
    (n m : Nat) (h : load w + (n + 1) ≤ m) :
    load (sendRequestCallback p w result) + n ≤ m := by
  unfold sendRequestCallback
  repeat' split
  all_goals
    repeat
      first
      | with_reducible apply clearRequest_load
      | with_reducible apply didFail_load
      | with_reducible apply didSendRequest_load
  all_goals first
    | (solve | simp_all [load, pendingCount, unsentCount, questions])
    | (solve | (simp_all [load, pendingCount, unsentCount, questions]; omega))

theorem didRead_load (w : World σ) (bytesRead : Nat)
    (n m : Nat) (h : load w + (n + 1) ≤ m) :
    load (didRead w bytesRead) + n ≤ m := by
  unfold didRead
  dsimp only
  repeat' split
  all_goals
    repeat
      first
      | with_reducible apply callClient_load
      | with_reducible apply read_load
      | with_reducible apply writeDownload_load
  all_goals first
    | (solve | simp_all [load, pendingCount, unsentCount, questions])

theorem didFinishRead_load (w : World σ)
    (n m : Nat) (h : load w + (n + 1) ≤ m) :
    load (didFinishRead w) + n ≤ m := by
  unfold didFinishRead
  dsimp only
  repeat' split
  all_goals
    repeat
      first
      | with_reducible apply callClient_load
      | with_reducible apply clearRequest_load
      | with_reducible apply requestNextPart_load
      | with_reducible apply didFinishDownload_load
  all_goals first
    | (solve | simp_all [load, pendingCount, unsentCount, questions, questions_append,
        World.emit])
    | (solve | (simp_all [load, pendingCount, unsentCount, questions, questions_append,
        World.emit]; omega))

theorem readCallback_load (w : World σ) (result : GAsyncResult)
    (n m : Nat) (h : load w + (n + 1) ≤ m) :
    load (readCallback w result) + n ≤ m := by
  unfold readCallback
  split
  · exact clearRequest_load w n m (by omega)
  · split
    · simp only [load, pendingCount, unsentCount, Option.isSome_some, if_true] at h ⊢
      split_ifs at h ⊢ <;> omega
    · split
      · exact didFail_load w _ n m (by omega)
      · dsimp only
        split
        · apply didRead_load
          simp only [load, pendingCount, unsentCount] at h ⊢
          exact h
        · apply didFinishRead_load
          simp only [load, pendingCount, unsentCount] at h ⊢
          exact h

theorem didRequestNextPart_load (p : Platform σ) (w : World σ) (inputStream : GInputStream)
    (n m : Nat) (h : load w + (n + 1) ≤ m) :
    load (didRequestNextPart p w inputStream) + n ≤ m := by
  unfold didRequestNextPart
  all_goals
    repeat
      first
      | with_reducible apply didReceiveResponse_load
  all_goals first
    | (solve | simp_all [load, pendingCount, unsentCount, questions])

theorem didFinishRequestNextPart_load (w : World σ)
    (n m : Nat) (h : load w + (n + 0) ≤ m) :
    load (didFinishRequestNextPart w) + n ≤ m := by
  unfold didFinishRequestNextPart
  all_goals
    repeat
      first
      | with_reducible apply emit_load
      | with_reducible apply callClient_load
      | with_reducible apply clearRequest_load
  all_goals first
    | (solve | simp_all [load, pendingCount, unsentCount, questions])

theorem requestNextPartCallback_load (p : Platform σ) (w : World σ) (result : GAsyncResult)
    (n m : Nat) (h : load w + (n + 1) ≤ m) :
    load (requestNextPartCallback p w result) + n ≤ m := by
  unfold requestNextPartCallback
  repeat' split
  all_goals
    repeat
      first
      | with_reducible apply clearRequest_load
      | with_reducible apply didFail_load
      | with_reducible apply didRequestNextPart_load
      | with_reducible apply didFinishRequestNextPart_load
  all_goals first
    | (solve | simp_all [load, pendingCount, unsentCount, questions])
    | (solve | (simp_all [load, pendingCount, unsentCount, questions]; omega))

theorem resume_load (p : Platform σ) (w : World σ)
    (n m : Nat) (h : load w + (n + 0) ≤ m) :
    load (resume p w) + n ≤ m := by
  unfold resume
  dsimp only [startTimeout]
  repeat' split
  all_goals
    repeat
      first
      | with_reducible apply start_load
      | with_reducible apply readCallback_load
      | with_reducible apply requestNextPartCallback_load
      | with_reducible apply sendRequestCallback_load
  all_goals first
    | (solve | simp_all [load, pendingCount, unsentCount, questions])
    | (solve | (simp_all [load, pendingCount, unsentCount, questions]; omega))

theorem suspend_load (w : World σ)
    (n m : Nat) (h : load w + (n + 0) ≤ m) :
    load (suspend w) + n ≤ m := by
  unfold suspend
  repeat' split
  all_goals
    repeat
      first
      | with_reducible apply stopTimeout_load
  all_goals first
    | (solve | simp_all [load, pendingCount, unsentCount, questions])

theorem continueHTTPRedirection_load (p : Platform σ) (w : World σ)
    (n m : Nat) (h : load w + (n + 1) ≤ m) :
    load (continueHTTPRedirection p w) + n ≤ m := by
  unfold continueHTTPRedirection
  dsimp only
  repeat' split
  all_goals
    repeat
      first
      | with_reducible apply callClient_load
      | with_reducible apply clearRequest_load
      | with_reducible apply didFail_load
  all_goals first
    | (solve | simp_all [load, pendingCount, unsentCount, questions])
    | (solve | (simp_all [load, pendingCount, unsentCount, questions]; omega))

theorem willPerformHTTPRedirectionCompletion_load (p : Platform σ) (w : World σ)
    (newRequest : ResourceRequest)
    (n m : Nat) (h : load w + (n + 1) ≤ m) :
    load (willPerformHTTPRedirectionCompletion p w newRequest) + n ≤ m := by
  have hauth : load (applyAuthenticationToRequest w newRequest).1 + (n + 1) ≤ m :=
    applyAuthenticationToRequest_load w newRequest (n + 1) m (by omega)
  unfold willPerformHTTPRedirectionCompletion
  split
  · omega
  · dsimp only
    split <;> split
    · apply resume_load
      have h1 := createRequest_load p (applyAuthenticationToRequest w newRequest).1
        (applyAuthenticationToRequest w newRequest).2 n m (by omega)
      simp only [load, pendingCount, unsentCount] at h1 ⊢
      omega
    · exact createRequest_load p _ _ n m (by omega)
    · apply resume_load
      have h1 := createRequest_load p w newRequest n m (by omega)
      simp only [load, pendingCount, unsentCount] at h1 ⊢
      omega
    · exact createRequest_load p w newRequest n m (by omega)

theorem didFinishSkipInputStreamForRedirection_load (p : Platform σ) (w : World σ)
    (n m : Nat) (h : load w + (n + 1) ≤ m) :
    load (didFinishSkipInputStreamForRedirection p w) + n ≤ m := by
  unfold didFinishSkipInputStreamForRedirection
  all_goals
    repeat
      first
      | with_reducible apply emit_load
      | with_reducible apply continueHTTPRedirection_load
  all_goals first
    | (solve | simp_all [load, pendingCount, unsentCount, questions])

theorem skipInputStreamForRedirectionCallback_load (p : Platform σ) (w : World σ)
    (result : GAsyncResult)
    (n m : Nat) (h : load w + (n + 1) ≤ m) :
    load (skipInputStreamForRedirectionCallback p w result) + n ≤ m := by
  unfold skipInputStreamForRedirectionCallback
  repeat' split
  all_goals
    repeat
      first
      | with_reducible apply clearRequest_load
      | with_reducible apply didFail_load
      | with_reducible apply skipInputStreamForRedirection_load
      | with_reducible apply didFinishSkipInputStreamForRedirection_load
  all_goals first
    | (solve | simp_all [load, pendingCount, unsentCount, questions])
    | (solve | (simp_all [load, pendingCount, unsentCount, questions]; omega))

theorem continueAuthenticate_load (w : World σ) (challenge : AuthenticationChallenge)
    (n m : Nat) (h : load w + (n + 0) ≤ m) :
    load (continueAuthenticate w challenge) + n ≤ m := by
  unfold continueAuthenticate
  all_goals
    repeat
      first
      | with_reducible apply callClient_load
  all_goals first
    | (solve | simp_all [load, pendingCount, unsentCount, questions])

theorem didReceiveChallengeCompletion_load (p : Platform σ) (w : World σ)
    (challenge : AuthenticationChallenge) (disposition : AuthenticationChallengeDisposition)
    (credential : Credential)
    (n m : Nat) (h : load w + (n + 0) ≤ m) :
    load (didReceiveChallengeCompletion p w challenge disposition credential) + n ≤ m := by
  unfold didReceiveChallengeCompletion
  repeat' split
  all_goals
    repeat
      first
      | with_reducible apply emit_load
      | with_reducible apply clearRequest_load
      | with_reducible apply cancel_load
      | with_reducible apply didFail_load
  all_goals first
    | (solve | simp_all [load, pendingCount, unsentCount, questions])

theorem getCredentialFromPersistentStorageCompletion_load (w : World σ)
    (challenge : AuthenticationChallenge) (credential : Credential)
    (n m : Nat) (h : load w + (n + 0) ≤ m) :
    load (getCredentialFromPersistentStorageCompletion w challenge credential) + n ≤ m := by
  unfold getCredentialFromPersistentStorageCompletion
  repeat' split
  all_goals
    repeat
      first
      | with_reducible apply clearRequest_load
      | with_reducible apply continueAuthenticate_load
  all_goals first
    | (solve | simp_all [load, pendingCount, unsentCount, questions])

theorem authenticateThroughClient_load (w : World σ) (challenge : AuthenticationChallenge)
    (n m : Nat) (h : load w + (n + 0) ≤ m) :
    load (authenticateThroughClient w challenge) + n ≤ m := by
  unfold authenticateThroughClient
  dsimp only
  repeat' split
  all_goals
    repeat
      first
      | with_reducible apply emit_load
      | with_reducible apply continueAuthenticate_load
  all_goals first
    | (solve | simp_all [load, pendingCount, unsentCount, questions])

theorem authenticate_load (p : Platform σ) (w : World σ) (challenge : AuthenticationChallenge)
    (n m : Nat) (h : load w + (n + 0) ≤ m) :
    load (authenticate p w challenge) + n ≤ m := by
  unfold authenticate
  dsimp only
  repeat' split
  all_goals
    repeat
      first
      | with_reducible apply emit_load
      | with_reducible apply authenticateThroughClient_load
  all_goals first
    | (solve | simp_all [load, pendingCount, unsentCount, questions])

theorem authenticateCallback_load (p : Platform σ) (w : World σ) (forThisMessage : Bool)
    (soupAuth : SoupAuth) (retrying : Bool)
    (n m : Nat) (h : load w + (n + 0) ≤ m) :
    load (authenticateCallback p w forThisMessage soupAuth retrying) + n ≤ m := by
  unfold authenticateCallback
  repeat' split
  all_goals
    repeat
      first
      | with_reducible apply clearRequest_load
      | with_reducible apply authenticate_load
  all_goals first
    | (solve | simp_all [load, pendingCount, unsentCount, questions])

theorem tlsErrorsChanged_load (w : World σ) (error : ResourceError)
    (n m : Nat) (h : load w + (n + 0) ≤ m) :
    load (tlsErrorsChanged w error) + n ≤ m := by
  unfold tlsErrorsChanged
  repeat' split
  all_goals
    repeat
      first
      | with_reducible apply callClient_load
      | with_reducible apply invalidateAndCancel_load
  all_goals first
    | (solve | simp_all [load, pendingCount, unsentCount, questions])

theorem tlsErrorsChangedCallback_load (w : World σ) (error : ResourceError)
    (n m : Nat) (h : load w + (n + 0) ≤ m) :
    load (tlsErrorsChangedCallback w error) + n ≤ m := by
  unfold tlsErrorsChangedCallback
  repeat' split
  all_goals
    repeat
      first
      | with_reducible apply clearRequest_load
      | with_reducible apply tlsErrorsChanged_load
  all_goals first
    | (solve | simp_all [load, pendingCount, unsentCount, questions])

theorem didGetHeaders_load (w : World σ)
    (n m : Nat) (h : load w + (n + 0) ≤ m) :
    load (didGetHeaders w) + n ≤ m := by
  unfold didGetHeaders
  dsimp only
  repeat' split
  all_goals simp_all [load, pendingCount, unsentCount, questions, questions_append, World.emit]

theorem gotHeadersCallback_load (w : World σ)
    (n m : Nat) (h : load w + (n + 0) ≤ m) :
    load (gotHeadersCallback w) + n ≤ m := by
  unfold gotHeadersCallback
  split
  · exact clearRequest_load w n m h
  · exact didGetHeaders_load w n m h

theorem didWriteBodyData_load (w : World σ) (bytesSent : Nat)
    (n m : Nat) (h : load w + (n + 0) ≤ m) :
    load (didWriteBodyData w bytesSent) + n ≤ m := by
  unfold didWriteBodyData
  all_goals
    repeat
      first
      | with_reducible apply callClient_load
  all_goals first
    | (solve | simp_all [load, pendingCount, unsentCount, questions])

theorem wroteBodyDataCallback_load (w : World σ) (bufferLength : Nat)
    (n m : Nat) (h : load w + (n + 0) ≤ m) :
    load (wroteBodyDataCallback w bufferLength) + n ≤ m := by
  unfold wroteBodyDataCallback
  repeat' split
  all_goals
    repeat
      first
      | with_reducible apply clearRequest_load
      | with_reducible apply didWriteBodyData_load
  all_goals first
    | (solve | simp_all [load, pendingCount, unsentCount, questions])

/-! ## A single outstanding operation -/

theorem TaskEvent.apply_effects_grow (p : Platform σ) (w : World σ) (e : TaskEvent) :
    w.effects <+: (e.apply p w).effects := by
  cases e with
  | resume => exact resume_effects_grow p w _ (List.prefix_refl _)
  | suspend => exact suspend_effects_grow w _ (List.prefix_refl _)
  | cancel => exact cancel_effects_grow w _ (List.prefix_refl _)
  | invalidateAndCancel => exact invalidateAndCancel_effects_grow w _ (List.prefix_refl _)
  | timeoutFired => exact timeoutFired_effects_grow w _ (List.prefix_refl _)
  | sendRequestCallback result =>
    exact sendRequestCallback_effects_grow p w result _ (List.prefix_refl _)
  | readCallback result => exact readCallback_effects_grow w result _ (List.prefix_refl _)
  | skipInputStreamForRedirectionCallback result =>
    exact skipInputStreamForRedirectionCallback_effects_grow p w result _ (List.prefix_refl _)
  | requestNextPartCallback result =>
    exact requestNextPartCallback_effects_grow p w result _ (List.prefix_refl _)
  | writeDownloadCallback result =>
    exact writeDownloadCallback_effects_grow w result _ (List.prefix_refl _)
  | didReceiveResponseCompletion policyAction =>
    exact didReceiveResponseCompletion_effects_grow w policyAction _ (List.prefix_refl _)
  | willPerformHTTPRedirectionCompletion newRequest =>
    exact willPerformHTTPRedirectionCompletion_effects_grow p w newRequest _
      (List.prefix_refl _)
  | didReceiveChallengeCompletion challenge disposition credential =>
    exact didReceiveChallengeCompletion_effects_grow p w challenge disposition credential _
      (List.prefix_refl _)
  | getCredentialFromPersistentStorageCompletion challenge credential =>
    exact getCredentialFromPersistentStorageCompletion_effects_grow w challenge credential _
      (List.prefix_refl _)
  | authenticateCallback forThisMessage soupAuth retrying =>
    exact authenticateCallback_effects_grow p w forThisMessage soupAuth retrying _
      (List.prefix_refl _)
  | tlsErrorsChangedCallback error =>
    exact tlsErrorsChangedCallback_effects_grow w error _ (List.prefix_refl _)
  | gotHeadersCallback => exact gotHeadersCallback_effects_grow w _ (List.prefix_refl _)
  | wroteBodyDataCallback bufferLength =>
    exact wroteBodyDataCallback_effects_grow w bufferLength _ (List.prefix_refl _)
  | messageReceived exchange => exact List.prefix_refl _
  | streamWrote data =>
    obtain ⟨files, hfiles⟩ := streamWritten_eq w data
    rw [TaskEvent.apply_streamWrote, hfiles]

theorem TaskEvent.apply_outstanding_grow (p : Platform σ) (w : World σ) (e : TaskEvent) :
    w.outstanding <+: (e.apply p w).outstanding := by
  cases e with
  | resume => exact resume_outstanding_grow p w _ (List.prefix_refl _)
  | suspend => exact suspend_outstanding_grow w _ (List.prefix_refl _)
  | cancel => exact cancel_outstanding_grow w _ (List.prefix_refl _)
  | invalidateAndCancel => exact invalidateAndCancel_outstanding_grow w _ (List.prefix_refl _)
  | timeoutFired => exact timeoutFired_outstanding_grow w _ (List.prefix_refl _)
  | sendRequestCallback result =>
    exact sendRequestCallback_outstanding_grow p w result _ (List.prefix_refl _)
  | readCallback result => exact readCallback_outstanding_grow w result _ (List.prefix_refl _)
  | skipInputStreamForRedirectionCallback result =>
    exact skipInputStreamForRedirectionCallback_outstanding_grow p w result _
      (List.prefix_refl _)
  | requestNextPartCallback result =>
    exact requestNextPartCallback_outstanding_grow p w result _ (List.prefix_refl _)
  | writeDownloadCallback result =>
    exact writeDownloadCallback_outstanding_grow w result _ (List.prefix_refl _)
  | didReceiveResponseCompletion policyAction =>
    exact didReceiveResponseCompletion_outstanding_grow w policyAction _ (List.prefix_refl _)
  | willPerformHTTPRedirectionCompletion newRequest =>
    exact willPerformHTTPRedirectionCompletion_outstanding_grow p w newRequest _
      (List.prefix_refl _)
  | didReceiveChallengeCompletion challenge disposition credential =>
    exact didReceiveChallengeCompletion_outstanding_grow p w challenge disposition
      credential _ (List.prefix_refl _)
  | getCredentialFromPersistentStorageCompletion challenge credential =>
    exact getCredentialFromPersistentStorageCompletion_outstanding_grow w challenge
      credential _ (List.prefix_refl _)
  | authenticateCallback forThisMessage soupAuth retrying =>
    exact authenticateCallback_outstanding_grow p w forThisMessage soupAuth retrying _
      (List.prefix_refl _)
  | tlsErrorsChangedCallback error =>
    exact tlsErrorsChangedCallback_outstanding_grow w error _ (List.prefix_refl _)
  | gotHeadersCallback => exact gotHeadersCallback_outstanding_grow w _ (List.prefix_refl _)
  | wroteBodyDataCallback bufferLength =>
    exact wroteBodyDataCallback_outstanding_grow w bufferLength _ (List.prefix_refl _)
  | messageReceived exchange => exact List.prefix_refl _
  | streamWrote data =>
    obtain ⟨files, hfiles⟩ := streamWritten_eq w data
    rw [TaskEvent.apply_streamWrote, hfiles]

theorem TaskEvent.apply_load_step (p : Platform σ) (w : World σ) (e : TaskEvent) :
    load (e.apply p w) ≤ load w + 1 := by
  cases e with
  | resume => exact resume_load p w 0 _ (by omega)
  | suspend => exact suspend_load w 0 _ (by omega)
  | cancel => exact cancel_load w 0 _ (by omega)
  | invalidateAndCancel => exact invalidateAndCancel_load w 0 _ (by omega)
  | timeoutFired => exact timeoutFired_load w 0 _ (by omega)
  | sendRequestCallback result => exact sendRequestCallback_load p w result 0 _ (by omega)
  | readCallback result => exact readCallback_load w result 0 _ (by omega)
  | skipInputStreamForRedirectionCallback result =>
    exact skipInputStreamForRedirectionCallback_load p w result 0 _ (by omega)
  | requestNextPartCallback result => exact requestNextPartCallback_load p w result 0 _ (by omega)
  | writeDownloadCallback result => exact writeDownloadCallback_load w result 0 _ (by omega)
  | didReceiveResponseCompletion policyAction =>
    exact didReceiveResponseCompletion_load w policyAction 0 _ (by omega)
  | willPerformHTTPRedirectionCompletion newRequest =>
    exact willPerformHTTPRedirectionCompletion_load p w newRequest 0 _ (by omega)
  | didReceiveChallengeCompletion challenge disposition credential =>
    exact didReceiveChallengeCompletion_load p w challenge disposition credential 0 _ (by omega)
  | getCredentialFromPersistentStorageCompletion challenge credential =>
    exact getCredentialFromPersistentStorageCompletion_load w challenge credential 0 _ (by omega)
  | authenticateCallback forThisMessage soupAuth retrying =>
    exact authenticateCallback_load p w forThisMessage soupAuth retrying 0 _ (by omega)
  | tlsErrorsChangedCallback error => exact tlsErrorsChangedCallback_load w error 0 _ (by omega)
  | gotHeadersCallback => exact gotHeadersCallback_load w 0 _ (by omega)
  | wroteBodyDataCallback bufferLength =>
    exact wroteBodyDataCallback_load w bufferLength 0 _ (by omega)
  | messageReceived exchange => exact Nat.le_succ _
  | streamWrote data =>
    obtain ⟨files, hfiles⟩ := streamWritten_eq w data
    rw [TaskEvent.apply_streamWrote, hfiles]
    exact Nat.le_succ _

theorem TaskEvent.apply_load_quiet (p : Platform σ) (w : World σ) (e : TaskEvent)
    (hcompletion : e.isCompletion = false) (hanswer : e.isAnswer = false) :
    load (e.apply p w) ≤ load w := by
  cases e with
  | resume => exact resume_load p w 0 _ (by omega)
  | suspend => exact suspend_load w 0 _ (by omega)
  | cancel => exact cancel_load w 0 _ (by omega)
  | invalidateAndCancel => exact invalidateAndCancel_load w 0 _ (by omega)
  | timeoutFired => exact timeoutFired_load w 0 _ (by omega)
  | sendRequestCallback result => simp [TaskEvent.isCompletion] at hcompletion
  | readCallback result => simp [TaskEvent.isCompletion] at hcompletion
  | skipInputStreamForRedirectionCallback result => simp [TaskEvent.isCompletion] at hcompletion
  | requestNextPartCallback result => simp [TaskEvent.isCompletion] at hcompletion
  | writeDownloadCallback result => simp [TaskEvent.isCompletion] at hcompletion
  | didReceiveResponseCompletion policyAction => simp [TaskEvent.isAnswer] at hanswer
  | willPerformHTTPRedirectionCompletion newRequest => simp [TaskEvent.isAnswer] at hanswer
  | didReceiveChallengeCompletion challenge disposition credential =>
    exact didReceiveChallengeCompletion_load p w challenge disposition credential 0 _ (by omega)
  | getCredentialFromPersistentStorageCompletion challenge credential =>
    exact getCredentialFromPersistentStorageCompletion_load w challenge credential 0 _ (by omega)
  | authenticateCallback forThisMessage soupAuth retrying =>
    exact authenticateCallback_load p w forThisMessage soupAuth retrying 0 _ (by omega)
  | tlsErrorsChangedCallback error => exact tlsErrorsChangedCallback_load w error 0 _ (by omega)
  | gotHeadersCallback => exact gotHeadersCallback_load w 0 _ (by omega)
  | wroteBodyDataCallback bufferLength =>
    exact wroteBodyDataCallback_load w bufferLength 0 _ (by omega)
  | messageReceived exchange => exact Nat.le_refl _
  | streamWrote data =>
    obtain ⟨files, hfiles⟩ := streamWritten_eq w data
    rw [TaskEvent.apply_streamWrote, hfiles]
    exact Nat.le_refl _

theorem advance_load (inbox : List Effect) (before w after : World σ) (k : Nat)
    (heffects : before.effects = w.effects) (hgrows : w.effects <+: after.effects)
    (hload : load after ≤ load w + k) :
    (Sim.advance inbox before after).load
      ≤ w.outstanding.length + inbox.length + pendingCount w + unsentCount w + k := by
  obtain ⟨new, hnew⟩ := hgrows
  unfold Sim.advance Sim.load
  unfold load at hload
  dsimp only
  rw [heffects, ← hnew, List.drop_left, List.length_append]
  rw [← hnew, questions_append, List.length_append] at hload
  omega

theorem create_load (p : Platform σ) (store : σ) (files : FileSystem)
    (request : ResourceRequest) (storedCredentials : StoredCredentials)
    (shouldContentSniff : ContentSniffingPolicy) (shouldClearReferrer : Bool) :
    load (NetworkDataTaskSoup.create p store files request storedCredentials shouldContentSniff
      shouldClearReferrer) + 0 ≤ 1 := by
  have hbase : load (NetworkDataTask.create p store files request storedCredentials
      shouldContentSniff shouldClearReferrer) = 0 := by
    unfold NetworkDataTask.create
    dsimp only
    split
    · simp [load, pendingCount, unsentCount, questions, scheduleFailure]
    · split <;> simp [load, pendingCount, unsentCount, questions, scheduleFailure]
  unfold NetworkDataTaskSoup.create
  dsimp only
  repeat' split
  all_goals (try with_reducible apply createRequest_load)
  all_goals (try with_reducible apply applyAuthenticationToRequest_load)
  all_goals
    simp only [load, pendingCount, unsentCount] at hbase ⊢
    omega

theorem Reachable.load_le (p : Platform σ) (s : Sim σ) (h : Reachable p s) : s.load ≤ 1 := by
  induction h with
  | created store files request storedCredentials shouldContentSniff shouldClearReferrer =>
    have h := create_load p store files request storedCredentials shouldContentSniff
      shouldClearReferrer
    unfold load at h
    unfold Sim.load
    dsimp only [List.length_nil]
    omega
  | configured s downloadID location allowOverwrite client _ ih => exact ih
  | transported s message input multipart files _ _ _ _ ih => exact ih
  | called s e _ hcompletion hanswer ih =>
    refine le_trans (advance_load s.inbox s.world s.world (e.apply p s.world) 0 rfl
      (TaskEvent.apply_effects_grow p s.world e)
      (TaskEvent.apply_load_quiet p s.world e hcompletion hanswer)) ?_
    unfold Sim.load at ih
    omega
  | completed s e op _ hop _ ih =>
    refine le_trans (advance_load s.inbox s.world
      { s.world with outstanding := s.world.outstanding.erase op }
      (e.apply p { s.world with outstanding := s.world.outstanding.erase op }) 1 rfl
      (TaskEvent.apply_effects_grow p _ e) (TaskEvent.apply_load_step p _ e)) ?_
    have hlength := List.length_erase_of_mem hop
    have hpos := List.length_pos_of_mem hop
    unfold Sim.load at ih
    unfold pendingCount unsentCount at ih ⊢
    dsimp only
    omega
  | answered s e q _ hq _ ih =>
    refine le_trans (advance_load (s.inbox.erase q) s.world s.world (e.apply p s.world) 1 rfl
      (TaskEvent.apply_effects_grow p s.world e) (TaskEvent.apply_load_step p s.world e)) ?_
    have hlength := List.length_erase_of_mem hq
    have hpos := List.length_pos_of_mem hq
    unfold Sim.load at ih
    omega

/-- C21: a single outstanding operation. In every state of a task in its environment that is
reachable from the creation of the task through calls of its owner (resume, suspend, cancel,
invalidateAndCancel), the timeout, transport signals, the completion callbacks of the
operations in flight and the answers of the client to the questions it was asked: at most
one of the operations send, read, write, skip and request-next-part is in flight; while one
is in flight no question awaits its answer, no completed result is stored for replay and no
request waits to be sent, so nothing is there that could start another; a call or signal
that arrives while an operation is in flight starts none (the operations in flight are the
same after it); and the callback that completes the operation in flight leaves at most one
operation in flight. An operation started while another has not completed would put two in
flight, since operations only join the list of those in flight when they start and leave it
when they complete. -/
theorem single_outstanding_operation (p : Platform σ) (s : Sim σ) (h : Reachable p s) :
    s.world.outstanding.length ≤ 1
    ∧ (s.world.outstanding ≠ [] →
        s.inbox = [] ∧ s.world.m_pendingResult = none
          ∧ ¬ (s.world.m_soupRequest.isSome ∧ s.world.m_cancellable.isNone))
    ∧ (∀ e : TaskEvent, e.isCompletion = false → e.isAnswer = false →
        s.world.outstanding ≠ [] → (e.apply p s.world).outstanding = s.world.outstanding)
    ∧ (∀ (e : TaskEvent) (op : AsyncOp), op ∈ s.world.outstanding → e.completes op = true →
        (e.apply p { s.world with outstanding := s.world.outstanding.erase op }).outstanding.length
          ≤ 1) := by
  have hload := Reachable.load_le p s h
  unfold Sim.load pendingCount unsentCount at hload
  refine ⟨by omega, ?_, ?_, ?_⟩
  · intro hne
    have hpos : 0 < s.world.outstanding.length := List.length_pos.mpr hne
    refine ⟨List.eq_nil_of_length_eq_zero (by omega), ?_, ?_⟩
    · by_contra hpending
      rw [if_pos (Option.isSome_iff_ne_none.mpr hpending)] at hload
      omega
    · intro hunsent
      rw [if_pos hunsent] at hload
      omega
  · intro e hcompletion hanswer hne
    have hpos : 0 < s.world.outstanding.length := List.length_pos.mpr hne
    have hnext := Reachable.load_le p _ (Reachable.called s e h hcompletion hanswer)
    unfold Sim.load Sim.advance at hnext
    dsimp only at hnext
    have hgrows := TaskEvent.apply_outstanding_grow p s.world e
    exact (hgrows.eq_of_length (by have := hgrows.length_le; omega)).symm
  · intro e op hop hcompletes
    have hnext := Reachable.load_le p _ (Reachable.completed s e op h hop hcompletes)
    unfold Sim.load Sim.advance at hnext
    dsimp only at hnext ⊢
    omega

theorem single_outstanding_operation_witness :
    sendingSim.world.outstanding = [AsyncOp.send]
    ∧ sendingSim.world.outstanding.length ≤ 1
    ∧ sendingSim.inbox = [] :=
  ⟨by decide,
    (single_outstanding_operation examplePlatform sendingSim
      (Reachable.called { world := createdWorld, inbox := [] } TaskEvent.resume
        (Reachable.created (ListStore.mk []) emptyFiles exampleRequest
          StoredCredentials.DoNotAllowStoredCredentials
          ContentSniffingPolicy.DoNotSniffContent true) rfl rfl)).1,
    ((single_outstanding_operation examplePlatform sendingSim
      (Reachable.called { world := createdWorld, inbox := [] } TaskEvent.resume
        (Reachable.created (ListStore.mk []) emptyFiles exampleRequest
          StoredCredentials.DoNotAllowStoredCredentials
          ContentSniffingPolicy.DoNotSniffContent true) rfl rfl)).2.1 (by decide)).1⟩

/-! ## The download stream stays aside of the destination -/

theorem emit_aside (w : World σ) (e : Effect) (d : String) (h : StreamAside d w) :
    StreamAside d (w.emit e) := h

theorem callClient_aside (w : World σ) (e : Effect) (d : String) (h : StreamAside d w) :
    StreamAside d (w.callClient e) := by
  unfold World.callClient
  split <;> exact h

theorem start_aside (w : World σ) (op : AsyncOp) (e : Effect) (d : String)
    (h : StreamAside d w) : StreamAside d (w.start op e) := h

theorem scheduleFailure_aside (w : World σ) (type : FailureType)
    (d : String) (h : StreamAside d w) :
    StreamAside d (scheduleFailure w type) := by
  unfold scheduleFailure
  all_goals exact h

theorem startTimeout_aside (w : World σ)
    (d : String) (h : StreamAside d w) :
    StreamAside d (startTimeout w) := by
  unfold startTimeout
  repeat' split
  all_goals exact h

theorem stopTimeout_aside (w : World σ)
    (d : String) (h : StreamAside d w) :
    StreamAside d (stopTimeout w) := by
  unfold stopTimeout
  all_goals exact h

theorem applyAuthenticationToRequest_aside (w : World σ) (request : ResourceRequest)
    (d : String) (h : StreamAside d w) :
    StreamAside d ((applyAuthenticationToRequest w request).1) := by
  unfold applyAuthenticationToRequest
  repeat' split
  all_goals exact h

theorem createRequest_aside (p : Platform σ) (w : World σ) (request : ResourceRequest)
    (d : String) (h : StreamAside d w) :
    StreamAside d (createRequest p w request) := by
  unfold createRequest
  repeat' split
  all_goals
    repeat
      first
      | with_reducible apply emit_aside
      | with_reducible apply scheduleFailure_aside
      | with_reducible apply authenticate_aside
  all_goals exact h

theorem clearRequest_aside (w : World σ)
    (d : String) (h : StreamAside d w) :
    StreamAside d (clearRequest w) := by
  by_cases hs : w.m_state = State.Completed
  · rw [clearRequest_of_completed w hs]
    exact h
  · rw [clearRequest_eq w hs]
    exact ⟨h.1, fun _ hstream => by cases hstream⟩

theorem cleanDownloadFiles_aside (w : World σ)
    (d : String) (h : StreamAside d w) :
    StreamAside d (cleanDownloadFiles w) := by
  unfold cleanDownloadFiles
  dsimp only
  repeat' split
  all_goals exact h

theorem cancel_aside (w : World σ)
    (d : String) (h : StreamAside d w) :
    StreamAside d (cancel w) := by
  unfold cancel
  dsimp only
  repeat' split
  all_goals
    repeat
      first
      | with_reducible apply emit_aside
      | with_reducible apply cleanDownloadFiles_aside
  all_goals exact h

theorem invalidateAndCancel_aside (w : World σ)
    (d : String) (h : StreamAside d w) :
    StreamAside d (invalidateAndCancel w) := by
  unfold invalidateAndCancel
  all_goals
    repeat
      first
      | with_reducible apply clearRequest_aside
      | with_reducible apply cancel_aside
  all_goals exact h

theorem timeoutFired_aside (w : World σ)
    (d : String) (h : StreamAside d w) :
    StreamAside d (timeoutFired w) := by
  unfold timeoutFired
  repeat' split
  all_goals
    repeat
      first
      | with_reducible apply callClient_aside
      | with_reducible apply clearRequest_aside
      | with_reducible apply invalidateAndCancel_aside
  all_goals exact h

theorem didFailDownload_aside (w : World σ) (error : ResourceError)
    (d : String) (h : StreamAside d w) :
    StreamAside d (didFailDownload w error) := by
  unfold didFailDownload
  dsimp only
  repeat' split
  all_goals
    repeat
      first
      | with_reducible apply emit_aside
      | with_reducible apply clearRequest_aside
      | with_reducible apply cleanDownloadFiles_aside
  all_goals exact h

theorem didFail_aside (w : World σ) (error : ResourceError)
    (d : String) (h : StreamAside d w) :
    StreamAside d (didFail w error) := by
  unfold didFail
  repeat' split
  all_goals
    repeat
      first
      | with_reducible apply callClient_aside
      | with_reducible apply clearRequest_aside
      | with_reducible apply didFailDownload_aside
  all_goals exact h

theorem didReceiveResponse_aside (w : World σ)
    (d : String) (h : StreamAside d w) :
    StreamAside d (didReceiveResponse w) := by
  unfold didReceiveResponse
  all_goals
    repeat
      first
      | with_reducible apply callClient_aside
  all_goals exact h

theorem read_aside (w : World σ)
    (d : String) (h : StreamAside d w) :
    StreamAside d (read w) := by
  unfold read
  all_goals
    repeat
      first
      | with_reducible apply start_aside
  all_goals exact h

theorem requestNextPart_aside (w : World σ)
    (d : String) (h : StreamAside d w) :
    StreamAside d (requestNextPart w) := by
  unfold requestNextPart
  all_goals
    repeat
      first
      | with_reducible apply start_aside
  all_goals exact h

theorem skipInputStreamForRedirection_aside (w : World σ)
    (d : String) (h : StreamAside d w) :
    StreamAside d (skipInputStreamForRedirection w) := by
  unfold skipInputStreamForRedirection
  all_goals
    repeat
      first
      | with_reducible apply start_aside
  all_goals exact h

theorem writeDownload_aside (w : World σ)
    (d : String) (h : StreamAside d w) :
    StreamAside d (writeDownload w) := by
  unfold writeDownload
  all_goals
    repeat
      first
      | with_reducible apply start_aside
  all_goals exact h

theorem download_aside (w : World σ)
    (d : String) (h : StreamAside d w) :
    StreamAside d (download w) := by
  unfold download
  dsimp only
  repeat' split
  all_goals first
    | exact didFailDownload_aside _ _ d h
    | (apply read_aside
       apply emit_aside
       apply emit_aside
       refine ⟨h.1, fun stream hstream => ?_⟩
       cases hstream
       have hd : w.m_pendingDownloadLocation = d := h.1
       rw [← hd]
       exact intermediate_ne_destination _)

theorem didWriteDownload_aside (w : World σ) (bytesWritten : Nat)
    (d : String) (h : StreamAside d w) :
    StreamAside d (didWriteDownload w bytesWritten) := by
  unfold didWriteDownload
  all_goals
    repeat
      first
      | with_reducible apply emit_aside
      | with_reducible apply read_aside
  all_goals exact h

theorem writeDownloadCallback_aside (w : World σ) (result : GAsyncResult)
    (d : String) (h : StreamAside d w) :
    StreamAside d (writeDownloadCallback w result) := by
  unfold writeDownloadCallback
  repeat' split
  all_goals
    repeat
      first
      | with_reducible apply clearRequest_aside
      | with_reducible apply didFailDownload_aside
      | with_reducible apply didWriteDownload_aside
  all_goals exact h

theorem didFinishDownload_aside (w : World σ)
    (d : String) (h : StreamAside d w) :
    StreamAside d (didFinishDownload w) := by
  have hclosed : ∀ files : FileSystem, StreamAside d
      { w.emit Effect.g_output_stream_close with
        m_downloadOutputStream := none, files := files } :=
    fun _ => ⟨h.1, fun _ hstream => by cases hstream⟩
  unfold didFinishDownload
  dsimp only
  split
  · split
    · exact didFailDownload_aside _ _ d (hclosed _)
    · exact emit_aside _ _ d (clearRequest_aside _ d (emit_aside _ _ d (hclosed _)))
  · exact didFailDownload_aside _ _ d (hclosed _)

theorem didReceiveResponseCompletion_aside (w : World σ) (policyAction : PolicyAction)
    (d : String) (h : StreamAside d w) :
    StreamAside d (didReceiveResponseCompletion w policyAction) := by
  unfold didReceiveResponseCompletion
  repeat' split
  all_goals
    repeat
      first
      | with_reducible apply clearRequest_aside
      | with_reducible apply read_aside
      | with_reducible apply requestNextPart_aside
      | with_reducible apply download_aside
  all_goals exact h

theorem didSendRequest_aside (p : Platform σ) (w : World σ) (inputStream : Option GInputStream)
    (d : String) (h : StreamAside d w) :
    StreamAside d (didSendRequest p w inputStream) := by
  unfold didSendRequest
  dsimp only
  repeat' split
  all_goals
    repeat
      first
      | with_reducible apply didReceiveResponse_aside
      | with_reducible apply skipInputStreamForRedirection_aside
  all_goals exact h

theorem sendRequestCallback_aside (p : Platform σ) (w : World σ) (result : GAsyncResult)
    (d : String) (h : StreamAside d w) :
    StreamAside d (sendRequestCallback p w result) := by
  unfold sendRequestCallback
  repeat' split
  all_goals
    repeat
      first
      | with_reducible apply clearRequest_aside
      | with_reducible apply didFail_aside
      | with_reducible apply didSendRequest_aside
  all_goals exact h

theorem didRead_aside (w : World σ) (bytesRead : Nat)
    (d : String) (h : StreamAside d w) :
    StreamAside d (didRead w bytesRead) := by
  unfold didRead
  dsimp only
  repeat' split
  all_goals
    repeat
      first
      | with_reducible apply callClient_aside
      | with_reducible apply read_aside
      | with_reducible apply writeDownload_aside
  all_goals exact h

theorem didFinishRead_aside (w : World σ)
    (d : String) (h : StreamAside d w) :
    StreamAside d (didFinishRead w) := by
  unfold didFinishRead
  dsimp only
  repeat' split
  all_goals
    repeat
      first
      | with_reducible apply emit_aside
      | with_reducible apply callClient_aside
      | with_reducible apply clearRequest_aside
      | with_reducible apply requestNextPart_aside
      | with_reducible apply didFinishDownload_aside
  all_goals exact h

theorem readCallback_aside (w : World σ) (result : GAsyncResult)
    (d : String) (h : StreamAside d w) :
    StreamAside d (readCallback w result) := by
  unfold readCallback
  repeat' split
  all_goals
    repeat
      first
      | with_reducible apply clearRequest_aside
      | with_reducible apply didFail_aside
      | with_reducible apply didRead_aside
      | with_reducible apply didFinishRead_aside
  all_goals exact h

theorem didRequestNextPart_aside (p : Platform σ) (w : World σ) (inputStream : GInputStream)
    (d : String) (h : StreamAside d w) :
    StreamAside d (didRequestNextPart p w inputStream) := by
  unfold didRequestNextPart
  all_goals
    repeat
      first
      | with_reducible apply didReceiveResponse_aside
  all_goals exact h

theorem didFinishRequestNextPart_aside (w : World σ)
    (d : String) (h : StreamAside d w) :
    StreamAside d (didFinishRequestNextPart w) := by
  unfold didFinishRequestNextPart
  all_goals
    repeat
      first
      | with_reducible apply emit_aside
      | with_reducible apply callClient_aside
      | with_reducible apply clearRequest_aside
  all_goals exact h

theorem requestNextPartCallback_aside (p : Platform σ) (w : World σ) (result : GAsyncResult)
    (d : String) (h : StreamAside d w) :
    StreamAside d (requestNextPartCallback p w result) := by
  unfold requestNextPartCallback
  repeat' split
  all_goals
    repeat
      first
      | with_reducible apply clearRequest_aside
      | with_reducible apply didFail_aside
      | with_reducible apply didRequestNextPart_aside
      | with_reducible apply didFinishRequestNextPart_aside
  all_goals exact h

theorem resume_aside (p : Platform σ) (w : World σ)
    (d : String) (h : StreamAside d w) :
    StreamAside d (resume p w) := by
  unfold resume
  dsimp only [startTimeout, stopTimeout]
  repeat' split
  all_goals
    repeat
      first
      | with_reducible apply start_aside
      | with_reducible apply startTimeout_aside
      | with_reducible apply sendRequestCallback_aside
      | with_reducible apply readCallback_aside
      | with_reducible apply requestNextPartCallback_aside
  all_goals exact h

theorem suspend_aside (w : World σ)
    (d : String) (h : StreamAside d w) :
    StreamAside d (suspend w) := by
  unfold suspend
  repeat' split
  all_goals
    repeat
      first
      | with_reducible apply stopTimeout_aside
  all_goals exact h

theorem continueHTTPRedirection_aside (p : Platform σ) (w : World σ)
    (d : String) (h : StreamAside d w) :
    StreamAside d (continueHTTPRedirection p w) := by
  unfold continueHTTPRedirection
  dsimp only
  repeat' split
  all_goals
    repeat
      first
      | with_reducible apply callClient_aside
      | with_reducible apply clearRequest_aside
      | with_reducible apply didFail_aside
  all_goals exact h

theorem willPerformHTTPRedirectionCompletion_aside (p : Platform σ) (w : World σ)
    (newRequest : ResourceRequest)
    (d : String) (h : StreamAside d w) :
    StreamAside d (willPerformHTTPRedirectionCompletion p w newRequest) := by
  have hauth : StreamAside d (applyAuthenticationToRequest w newRequest).1 :=
    applyAuthenticationToRequest_aside w newRequest d h
  unfold willPerformHTTPRedirectionCompletion
  split
  · exact h
  · dsimp only
    split <;> split
    · exact resume_aside p _ d (createRequest_aside p _ _ d hauth)
    · exact createRequest_aside p _ _ d hauth
    · exact resume_aside p _ d (createRequest_aside p w newRequest d h)
    · exact createRequest_aside p w newRequest d h

theorem didFinishSkipInputStreamForRedirection_aside (p : Platform σ) (w : World σ)
    (d : String) (h : StreamAside d w) :
    StreamAside d (didFinishSkipInputStreamForRedirection p w) := by
  unfold didFinishSkipInputStreamForRedirection
  all_goals
    repeat
      first
      | with_reducible apply emit_aside
      | with_reducible apply continueHTTPRedirection_aside
  all_goals exact h

theorem skipInputStreamForRedirectionCallback_aside (p : Platform σ) (w : World σ)
    (result : GAsyncResult)
    (d : String) (h : StreamAside d w) :
    StreamAside d (skipInputStreamForRedirectionCallback p w result) := by
  unfold skipInputStreamForRedirectionCallback
  repeat' split
  all_goals
    repeat
      first
      | with_reducible apply clearRequest_aside
      | with_reducible apply didFail_aside
      | with_reducible apply skipInputStreamForRedirection_aside
      | with_reducible apply didFinishSkipInputStreamForRedirection_aside
  all_goals exact h

theorem continueAuthenticate_aside (w : World σ) (challenge : AuthenticationChallenge)
    (d : String) (h : StreamAside d w) :
    StreamAside d (continueAuthenticate w challenge) := by
  unfold continueAuthenticate
  all_goals
    repeat
      first
      | with_reducible apply callClient_aside
  all_goals exact h

theorem didReceiveChallengeCompletion_aside (p : Platform σ) (w : World σ)
    (challenge : AuthenticationChallenge) (disposition : AuthenticationChallengeDisposition)
    (credential : Credential)
    (d : String) (h : StreamAside d w) :
    StreamAside d (didReceiveChallengeCompletion p w challenge disposition credential) := by
  unfold didReceiveChallengeCompletion
  repeat' split
  all_goals
    repeat
      first
      | with_reducible apply emit_aside
      | with_reducible apply clearRequest_aside
      | with_reducible apply cancel_aside
      | with_reducible apply didFail_aside
  all_goals exact h

theorem getCredentialFromPersistentStorageCompletion_aside (w : World σ)
    (challenge : AuthenticationChallenge) (credential : Credential)
    (d : String) (h : StreamAside d w) :
    StreamAside d (getCredentialFromPersistentStorageCompletion w challenge credential) := by
  unfold getCredentialFromPersistentStorageCompletion
  repeat' split
  all_goals
    repeat
      first
      | with_reducible apply clearRequest_aside
      | with_reducible apply continueAuthenticate_aside
  all_goals exact h

theorem authenticateThroughClient_aside (w : World σ) (challenge : AuthenticationChallenge)
    (d : String) (h : StreamAside d w) :
    StreamAside d (authenticateThroughClient w challenge) := by
  unfold authenticateThroughClient
  dsimp only
  repeat' split
  all_goals
    repeat
      first
      | with_reducible apply emit_aside
      | with_reducible apply continueAuthenticate_aside
  all_goals exact h

theorem authenticate_aside (p : Platform σ) (w : World σ) (challenge : AuthenticationChallenge)
    (d : String) (h : StreamAside d w) :
    StreamAside d (authenticate p w challenge) := by
  unfold authenticate
  dsimp only
  repeat' split
  all_goals
    repeat
      first
      | with_reducible apply emit_aside
      | with_reducible apply authenticateThroughClient_aside
  all_goals exact h

theorem authenticateCallback_aside (p : Platform σ) (w : World σ) (forThisMessage : Bool)
    (soupAuth : SoupAuth) (retrying : Bool)
    (d : String) (h : StreamAside d w) :
    StreamAside d (authenticateCallback p w forThisMessage soupAuth retrying) := by
  unfold authenticateCallback
  repeat' split
  all_goals
    repeat
      first
      | with_reducible apply clearRequest_aside
      | with_reducible apply authenticate_aside
  all_goals exact h

theorem tlsErrorsChanged_aside (w : World σ) (error : ResourceError)
    (d : String) (h : StreamAside d w) :
    StreamAside d (tlsErrorsChanged w error) := by
  unfold tlsErrorsChanged
  repeat' split
  all_goals
    repeat
      first
      | with_reducible apply callClient_aside
      | with_reducible apply invalidateAndCancel_aside
  all_goals exact h

theorem tlsErrorsChangedCallback_aside (w : World σ) (error : ResourceError)
    (d : String) (h : StreamAside d w) :
    StreamAside d (tlsErrorsChangedCallback w error) := by
  unfold tlsErrorsChangedCallback
  repeat' split
  all_goals
    repeat
      first
      | with_reducible apply clearRequest_aside
      | with_reducible apply tlsErrorsChanged_aside
  all_goals exact h

theorem didGetHeaders_aside (w : World σ)
    (d : String) (h : StreamAside d w) :
    StreamAside d (didGetHeaders w) := by
  unfold didGetHeaders
  repeat' split
  all_goals exact h

theorem gotHeadersCallback_aside (w : World σ)
    (d : String) (h : StreamAside d w) :
    StreamAside d (gotHeadersCallback w) := by
  unfold gotHeadersCallback
  repeat' split
  all_goals
    repeat
      first
      | with_reducible apply clearRequest_aside
      | with_reducible apply didGetHeaders_aside
  all_goals exact h

theorem didWriteBodyData_aside (w : World σ) (bytesSent : Nat)
    (d : String) (h : StreamAside d w) :
    StreamAside d (didWriteBodyData w bytesSent) := by
  unfold didWriteBodyData
  all_goals
    repeat
      first
      | with_reducible apply callClient_aside
  all_goals exact h

theorem wroteBodyDataCallback_aside (w : World σ) (bufferLength : Nat)
    (d : String) (h : StreamAside d w) :
    StreamAside d (wroteBodyDataCallback w bufferLength) := by
  unfold wroteBodyDataCallback
  repeat' split
  all_goals
    repeat
      first
      | with_reducible apply clearRequest_aside
      | with_reducible apply didWriteBodyData_aside
  all_goals exact h

/-! ## Download atomicity -/

theorem TaskEvent.apply_clean_or_moved (d : String) (p : Platform σ) (w : World σ)
    (e : TaskEvent) (h : DestinationClean d w) (haside : StreamAside d w) :
    DestinationClean d (e.apply p w)
      ∨ (e.apply p w).effects.getLast? = some Effect.downloadDidFinish := by
  cases e with
  | resume => exact resume_clean_or_moved d p w h
  | suspend => exact Or.inl (suspend_clean d w h)
  | cancel => exact Or.inl (cancel_clean d w h)
  | invalidateAndCancel => exact Or.inl (invalidateAndCancel_clean d w h)
  | timeoutFired => exact Or.inl (timeoutFired_clean d w h)
  | sendRequestCallback result => exact Or.inl (sendRequestCallback_clean d p w result h)
  | readCallback result => exact readCallback_clean_or_moved d w result h
  | skipInputStreamForRedirectionCallback result =>
    exact Or.inl (skipInputStreamForRedirectionCallback_clean d p w result h)
  | requestNextPartCallback result =>
    exact Or.inl (requestNextPartCallback_clean d p w result h)
  | writeDownloadCallback result => exact Or.inl (writeDownloadCallback_clean d w result h)
  | didReceiveResponseCompletion policyAction =>
    exact Or.inl (didReceiveResponseCompletion_clean d w policyAction h)
  | willPerformHTTPRedirectionCompletion newRequest =>
    exact willPerformHTTPRedirectionCompletion_clean_or_moved d p w newRequest h
  | didReceiveChallengeCompletion challenge disposition credential =>
    exact Or.inl (didReceiveChallengeCompletion_clean d p w challenge disposition credential h)
  | getCredentialFromPersistentStorageCompletion challenge credential =>
    exact Or.inl (getCredentialFromPersistentStorageCompletion_clean d w challenge credential h)
  | authenticateCallback forThisMessage soupAuth retrying =>
    exact Or.inl (authenticateCallback_clean d p w forThisMessage soupAuth retrying h)
  | tlsErrorsChangedCallback error => exact Or.inl (tlsErrorsChangedCallback_clean d w error h)
  | gotHeadersCallback => exact Or.inl (gotHeadersCallback_clean d w h)
  | wroteBodyDataCallback bufferLength =>
    exact Or.inl (wroteBodyDataCallback_clean d w bufferLength h)
  | messageReceived exchange => exact Or.inl h
  | streamWrote data =>
    left
    rw [TaskEvent.apply_streamWrote]
    unfold streamWritten
    split
    · rename_i stream hstream
      refine ⟨h.1, ?_⟩
      show (w.files.append stream.path data).lookup d = none
        ∨ (w.files.append stream.path data).lookup d = some []
      rw [lookup_append_ne _ _ _ _ (haside.2 stream hstream)]
      exact h.2
    · exact h

theorem TaskEvent.apply_aside (d : String) (p : Platform σ) (w : World σ) (e : TaskEvent)
    (h : StreamAside d w) : StreamAside d (e.apply p w) := by
  cases e with
  | resume => exact resume_aside p w d h
  | suspend => exact suspend_aside w d h
  | cancel => exact cancel_aside w d h
  | invalidateAndCancel => exact invalidateAndCancel_aside w d h
  | timeoutFired => exact timeoutFired_aside w d h
  | sendRequestCallback result => exact sendRequestCallback_aside p w result d h
  | readCallback result => exact readCallback_aside w result d h
  | skipInputStreamForRedirectionCallback result =>
    exact skipInputStreamForRedirectionCallback_aside p w result d h
  | requestNextPartCallback result => exact requestNextPartCallback_aside p w result d h
  | writeDownloadCallback result => exact writeDownloadCallback_aside w result d h
  | didReceiveResponseCompletion policyAction =>
    exact didReceiveResponseCompletion_aside w policyAction d h
  | willPerformHTTPRedirectionCompletion newRequest =>
    exact willPerformHTTPRedirectionCompletion_aside p w newRequest d h
  | didReceiveChallengeCompletion challenge disposition credential =>
    exact didReceiveChallengeCompletion_aside p w challenge disposition credential d h
  | getCredentialFromPersistentStorageCompletion challenge credential =>
    exact getCredentialFromPersistentStorageCompletion_aside w challenge credential d h
  | authenticateCallback forThisMessage soupAuth retrying =>
    exact authenticateCallback_aside p w forThisMessage soupAuth retrying d h
  | tlsErrorsChangedCallback error => exact tlsErrorsChangedCallback_aside w error d h
  | gotHeadersCallback => exact gotHeadersCallback_aside w d h
  | wroteBodyDataCallback bufferLength => exact wroteBodyDataCallback_aside w bufferLength d h
  | messageReceived exchange => exact h
  | streamWrote data =>
    obtain ⟨files, hfiles⟩ := streamWritten_eq w data
    rw [TaskEvent.apply_streamWrote, hfiles]
    exact h

theorem downloading_clean (p : Platform σ) (d : String) (w : World σ)
    (h : Downloading p d w) : DestinationClean d w ∧ StreamAside d w := by
  induction h with
  | started w hlocation hnone hstarted =>
    exact ⟨(download_started_clean d w hlocation hnone hstarted).1,
      download_aside w d ⟨hlocation, fun _ hstream => by rw [hnone] at hstream; cases hstream⟩⟩
  | step w e _ hlast ih =>
    refine ⟨?_, TaskEvent.apply_aside d p w e ih.2⟩
    rcases TaskEvent.apply_clean_or_moved d p w e ih.1 ih.2 with hclean | hmoved
    · exact hclean
    · exact absurd hmoved hlast

/-- C9, as amended: download atomicity. At every point of a download after `download()` has
created the intermediate file and before the final move succeeds, whatever events the task
has received since (calls of its owner, completions, signals, answers, and writes of the
download stream, which go to the file the stream the task holds was opened on, the
intermediate file), the final destination path holds none of the streamed bytes: it is
either absent or the empty file `download()` created or replaced it with. And every
further event leaves it so unless the event ends with `didFinishDownload` reporting the
finished download: streamed bytes reach the final path only through its move. -/
theorem download_keeps_destination_clean (p : Platform σ) (d : String) (w : World σ)
    (h : Downloading p d w) :
    (w.files.lookup d = none ∨ w.files.lookup d = some [])
    ∧ ∀ e : TaskEvent,
        ((e.apply p w).files.lookup d = none ∨ (e.apply p w).files.lookup d = some [])
        ∨ (e.apply p w).effects.getLast? = some Effect.downloadDidFinish := by
  obtain ⟨hclean, haside⟩ := downloading_clean p d w h
  refine ⟨hclean.2, ?_⟩
  intro e
  rcases TaskEvent.apply_clean_or_moved d p w e hclean haside with h1 | h1
  · exact Or.inl h1.2
  · exact Or.inr h1

theorem download_keeps_destination_clean_witness :
    Downloading examplePlatform exampleDestination
      ((TaskEvent.streamWrote [1, 2, 3]).apply examplePlatform (download downloadReadyWorld))
    ∧ ((TaskEvent.streamWrote [1, 2, 3]).apply examplePlatform
        (download downloadReadyWorld)).files.lookup (exampleDestination ++ wkdownloadSuffix)
        = some [1, 2, 3]
    ∧ (((TaskEvent.streamWrote [1, 2, 3]).apply examplePlatform
        (download downloadReadyWorld)).files.lookup exampleDestination = none
      ∨ ((TaskEvent.streamWrote [1, 2, 3]).apply examplePlatform
        (download downloadReadyWorld)).files.lookup exampleDestination = some []) :=
  ⟨Downloading.step _ _ (Downloading.started downloadReadyWorld rfl (by decide) (by decide))
      (by decide),
    by decide,
    (download_keeps_destination_clean examplePlatform exampleDestination _
      (Downloading.step _ (TaskEvent.streamWrote [1, 2, 3])
        (Downloading.started downloadReadyWorld rfl (by decide) (by decide)) (by decide))).1⟩

/-- C9, counterexample: right after `download()` has created the intermediate file, with no
move made yet, the final destination path exists as an empty file. When there was no file
before the download, the path now exists although it did not; when a file with content
was there and overwrite is allowed, its content has been replaced by the empty file. In
both cases the destination neither is absent nor holds its pre-download content. -/
theorem destination_is_created_empty_before_the_move :
    downloadReadyWorld.files.lookup exampleDestination = none
    ∧ (download downloadReadyWorld).files.lookup (exampleDestination ++ wkdownloadSuffix)
        = some []
    ∧ Effect.downloadDidFinish ∉ (download downloadReadyWorld).effects
    ∧ ¬ ((download downloadReadyWorld).files.lookup exampleDestination = none
        ∨ (download downloadReadyWorld).files.lookup exampleDestination
            = downloadReadyWorld.files.lookup exampleDestination)
    ∧ overwriteReadyWorld.files.lookup exampleDestination = some [9, 9]
    ∧ (download overwriteReadyWorld).files.lookup (exampleDestination ++ wkdownloadSuffix)
        = some []
    ∧ Effect.downloadDidFinish ∉ (download overwriteReadyWorld).effects
    ∧ ¬ ((download overwriteReadyWorld).files.lookup exampleDestination = none
        ∨ (download overwriteReadyWorld).files.lookup exampleDestination
            = overwriteReadyWorld.files.lookup exampleDestination) := by
  refine ⟨by decide, by decide, by decide, by decide, by decide, by decide, by decide,
    by decide⟩

end WebKit
